import Mathlib

/-!
Verification development for the EmotionScore emotion-aware response
orchestration engine.  The definitions below are a shallow embedding of the
TypeScript sources:

* `vad-model.ts` (the Affect Scorer `analyzeTextWithVAD` and its tables),
* `cache.ts` / `elevenlabs.ts` (the `ResponseCache` and `RateLimiter`),
* `routes.ts` (the orchestration loop `generateOptimizedResponse` and the
  route-level fallback handling),
* `enhanced-vad.ts` (the `EnhancedVADResponder` fallback generator).

Numbers are modelled with `ℚ` (all constants in the source are decimal
literals, and every comparison or clamp in the source is exact on decimals,
so rationals are a faithful model of the JavaScript arithmetic used on the
verified paths).  Strings are processed as `List Char`; JavaScript
`toLowerCase`/`toUpperCase` are modelled on the ASCII range, which is the
range every table entry and every test input in this file lives in.
-/

/-- The character used by JavaScript string literals such as `"don't"`;
kept as a named constant so table entries can be written without literal
apostrophes inside strings. -/
def apoChar : Char := Char.ofNat 39

/-- JavaScript word character (the regex class `\w` = `[A-Za-z0-9_]`),
used for `\b` word-boundary semantics. -/
def isWordChar (c : Char) : Bool :=
  ('a' ≤ c && c ≤ 'z') || ('A' ≤ c && c ≤ 'Z') || ('0' ≤ c && c ≤ '9') || c == '_'

/-- Does the pattern `p` match at the head of `text`, with the position just
after the match being a word boundary (end of string or a non-word char)?
This is the tail part of matching `\bp\b` for a `p` that ends in a word
character. -/
def matchWordAt : List Char → List Char → Bool
  | [], [] => true
  | [], c :: _ => !isWordChar c
  | _ :: _, [] => false
  | p :: ps, c :: cs => p == c && matchWordAt ps cs

/-- Scan `text` for a word-boundary-anchored occurrence of `p`; `atB` says
whether the current position is preceded by start-of-string or a non-word
character (the `\b` before the pattern). -/
def occursWordFrom (p : List Char) : List Char → Bool → Bool
  | [], _ => false
  | c :: cs, atB => (atB && matchWordAt p (c :: cs)) || occursWordFrom p cs (!isWordChar c)

/-- JavaScript `new RegExp("\\b" ++ p ++ "\\b").test text` for a literal
word `p` (first and last characters of `p` are word characters). -/
def occursAsWord (p : List Char) (text : List Char) : Bool :=
  occursWordFrom p text true

/-- Is `p` a prefix of `text` (plain substring matching, no boundaries)? -/
def isSubAt : List Char → List Char → Bool
  | [], _ => true
  | _ :: _, [] => false
  | p :: ps, c :: cs => p == c && isSubAt ps cs

/-- JavaScript `text.includes p` (plain substring containment). -/
def containsSub (p : List Char) : List Char → Bool
  | [] => isSubAt p []
  | c :: cs => isSubAt p (c :: cs) || containsSub p cs

/-- One step of JavaScript `text.split(/\s+/)`: `acc` is the reversed
current segment, `inWS` says whether the previous character was whitespace
(so that a maximal whitespace run produces a single split). A leading or
trailing whitespace run yields an empty first or last segment, exactly as
`String.prototype.split` does. -/
def splitWSAux : List Char → List Char → Bool → List (List Char)
  | [], acc, _ => [acc.reverse]
  | c :: cs, acc, inWS =>
      if c.isWhitespace then
        if inWS then splitWSAux cs [] true
        else acc.reverse :: splitWSAux cs [] true
      else splitWSAux cs (c :: acc) false

/-- JavaScript `text.split(/\s+/)` (the word splitter used by
`analyzeTextWithVAD`). -/
def splitWS (l : List Char) : List (List Char) := splitWSAux l [] false

/-- ASCII model of JavaScript `toLowerCase` on one character. -/
def jsToLower (c : Char) : Char := c.toLower

/-- ASCII model of JavaScript `toUpperCase` on one character. -/
def jsToUpper (c : Char) : Char := c.toUpper

/-- Result record of `analyzeTextWithVAD` (interface `VADScore` in
`vad-model.ts`); the optional fields `secondaryEmotion?` and `confidence?`
become `Option`s. -/
structure VADScore where
  valence : ℚ
  arousal : ℚ
  dominance : ℚ
  primaryEmotion : String
  secondaryEmotion : Option String
  confidence : Option ℚ
deriving Repr, DecidableEq

/-- A `(valence, arousal, dominance, weight)` tuple, the value type of both
`emotionalPatterns` and `emojiMap` in `vad-model.ts`. -/
structure PatVals where
  v : ℚ
  a : ℚ
  d : ℚ
  w : ℚ
deriving Repr, DecidableEq

/-- The shape of one key of the `emotionalPatterns` table.  Every key in the
source is either `\b(alt1|alt2|…)\b` over literal words — modelled by the
list of its alternative expansions, matched with word boundaries — or a
bare repeated-punctuation pattern (`!!+`, `\?\?+`, `\.\.\.`) whose truth on
a text is containment of its minimal match (`!!`, `??`, `...`). -/
inductive RegexShape
  | wordAlts (alts : List (List Char))
  | containsStr (s : List Char)
deriving Repr, DecidableEq

/-- `regex.test text` (equivalently the truthiness of `text.match regex`)
for the two shapes of `RegexShape`. -/
def matchShape : RegexShape → List Char → Bool
  | .wordAlts alts, text => alts.any (fun a => occursAsWord a text)
  | .containsStr s, text => containsSub s text

/-- One entry of the `emotionalPatterns` table: the raw regex source string
(kept because `analyzeTextWithVAD` compares it against `"\\bnot\\b"`), its
shape, and its VAD values. -/
structure PatternEntry where
  raw : String
  shape : RegexShape
  vals : PatVals
deriving Repr, DecidableEq

/-- Helper to write a `\b(...)\b` table entry. -/
def wpat (raw : String) (alts : List (List Char)) (v a d w : ℚ) : PatternEntry :=
  ⟨raw, .wordAlts alts, ⟨v, a, d, w⟩⟩

/-- Helper to write a punctuation table entry. -/
def cpat (raw : String) (s : List Char) (v a d w : ℚ) : PatternEntry :=
  ⟨raw, .containsStr s, ⟨v, a, d, w⟩⟩

/-- The word `don't` / `dont` pair used by the `don'?t know` pattern. -/
def dontKnowAlts : List (List Char) :=
  ["dont know".toList, "don".toList ++ [apoChar] ++ "t know".toList]

/-- Shorthand for `String.toList` used when writing the tables. -/
def wl (s : String) : List Char := s.toList

/-- One value of the `emotionMap` table: the `vRange`/`aRange`/`dRange`
interval bounds and the emotion's base `weight`. -/
structure EmotionRange where
  vLo : ℚ
  vHi : ℚ
  aLo : ℚ
  aHi : ℚ
  dLo : ℚ
  dHi : ℚ
  weight : ℚ
deriving Repr, DecidableEq

/-- Helper to write one `emotionMap` entry. -/
def emr (name : String) (vLo vHi aLo aHi dLo dHi w : ℚ) : String × EmotionRange :=
  (name, ⟨vLo, vHi, aLo, aHi, dLo, dHi, w⟩)

/-- The `emotionMap` table of `vad-model.ts`, in source (insertion) order. -/
def emotionMap : List (String × EmotionRange) :=
  [ emr "joy" 0.3 1.0 0.3 1.0 0.0 1.0 1.0
  , emr "excitement" 0.3 1.0 0.6 1.0 0.4 1.0 0.9
  , emr "contentment" 0.3 1.0 (-0.3) 0.3 0.0 1.0 0.8
  , emr "anger" (-1.0) (-0.3) 0.3 1.0 0.4 1.0 1.0
  , emr "fear" (-1.0) (-0.3) 0.3 1.0 (-1.0) (-0.3) 0.9
  , emr "sadness" (-1.0) (-0.3) (-1.0) (-0.1) (-1.0) 0.0 1.0
  , emr "disgust" (-1.0) (-0.5) 0.0 0.5 0.0 0.5 0.8
  , emr "surprise" (-0.3) 0.3 0.5 1.0 (-0.3) 0.3 0.8
  , emr "anxiety" (-0.5) (-0.1) 0.3 0.8 (-0.5) 0.0 0.8
  , emr "boredom" (-0.4) 0.0 (-0.8) (-0.3) (-0.3) 0.3 0.7
  , emr "calm" 0.1 0.5 (-0.8) (-0.3) 0.0 0.5 0.8
  , emr "confusion" (-0.3) 0.1 0.0 0.5 (-0.5) 0.0 0.7
  , emr "contemplation" (-0.1) 0.3 (-0.5) 0.1 0.0 0.5 0.7
  , emr "curiosity" 0.1 0.5 0.1 0.5 0.1 0.5 0.7
  , emr "empathy" (-0.1) 0.3 (-0.1) 0.3 (-0.1) 0.3 0.7
  , emr "frustration" (-0.7) (-0.3) 0.3 0.7 (-0.3) 0.5 0.8
  , emr "gratitude" 0.5 0.9 0.0 0.4 0.0 0.5 0.8
  , emr "hope" 0.3 0.8 0.1 0.5 0.1 0.6 0.7
  , emr "interest" 0.2 0.7 0.2 0.7 0.0 0.5 0.7
  , emr "pride" 0.5 0.9 0.3 0.7 0.5 1.0 0.8
  , emr "regret" (-0.7) (-0.3) (-0.3) 0.2 (-0.6) (-0.1) 0.7
  , emr "shame" (-0.8) (-0.4) (-0.2) 0.3 (-0.9) (-0.4) 0.8
  ]

/-- The `emotionalPatterns` table of `vad-model.ts`, in source order.  Each
`\b…\b` regex is expanded into the finite list of word alternatives it
accepts (an optional-suffix regex such as `thrilled?` expands to both the
string with and without the optional final letter, matching the regex
engine's behaviour on word-boundary tests). -/
def emotionalPatterns : List PatternEntry :=
  [ wpat "\\bexcit(ed|ing|ement)\\b" [wl "excited", wl "exciting", wl "excitement"] 0.8 0.9 0.7 0.9
  , wpat "\\bthrilled?\\b" [wl "thrille", wl "thrilled"] 0.9 0.9 0.6 0.9
  , wpat "\\becstat(ic|ically)\\b" [wl "ecstatic", wl "ecstatically"] 1.0 1.0 0.7 1.0
  , wpat "\\blov(e|ing|ed)\\b" [wl "love", wl "loving", wl "loved"] 0.9 0.7 0.5 0.9
  , wpat "\\bhapp(y|iness|ily)\\b" [wl "happy", wl "happiness", wl "happily"] 0.8 0.6 0.6 0.9
  , wpat "\\bjoy(ful|ous|fully)?\\b" [wl "joy", wl "joyful", wl "joyous", wl "joyfully"] 0.9 0.7 0.6 0.9
  , wpat "\\bgreat\\b" [wl "great"] 0.8 0.6 0.6 0.8
  , wpat "\\bamazing\\b" [wl "amazing"] 0.9 0.7 0.6 0.9
  , wpat "\\bwonderful\\b" [wl "wonderful"] 0.9 0.6 0.5 0.9
  , wpat "\\bawesome\\b" [wl "awesome"] 0.9 0.8 0.7 0.9
  , wpat "\\bfantastic\\b" [wl "fantastic"] 0.9 0.7 0.6 0.9
  , wpat "\\bdelighted?\\b" [wl "delighte", wl "delighted"] 0.8 0.7 0.6 0.8
  , wpat "\\bexcellent\\b" [wl "excellent"] 0.8 0.5 0.6 0.8
  , wpat "\\bcalm(ly|ing|ed)?\\b" [wl "calm", wl "calmly", wl "calming", wl "calmed"] 0.6 (-0.5) 0.4 0.8
  , wpat "\\brelax(ed|ing)?\\b" [wl "relax", wl "relaxed", wl "relaxing"] 0.7 (-0.6) 0.5 0.8
  , wpat "\\bcontent(ed|ment)?\\b" [wl "content", wl "contented", wl "contentment"] 0.7 (-0.3) 0.5 0.8
  , wpat "\\bsatisf(ied|ying|action)\\b" [wl "satisfied", wl "satisfying", wl "satisfaction"] 0.7 0.2 0.6 0.8
  , wpat "\\bpeac(e|eful)\\b" [wl "peace", wl "peaceful"] 0.8 (-0.7) 0.5 0.8
  , wpat "\\brelieved\\b" [wl "relieved"] 0.6 (-0.2) 0.4 0.7
  , wpat "\\bcomfortable\\b" [wl "comfortable"] 0.6 (-0.3) 0.5 0.7
  , wpat "\\bserene\\b" [wl "serene"] 0.7 (-0.7) 0.4 0.7
  , wpat "\\banger(ed|ing|ly)?\\b" [wl "anger", wl "angered", wl "angering", wl "angerly"] (-0.8) 0.9 0.8 0.9
  , wpat "\\bangr(y|ily)\\b" [wl "angry", wl "angrily"] (-0.8) 0.8 0.7 0.9
  , wpat "\\bfurious(ly)?\\b" [wl "furious", wl "furiously"] (-0.9) 0.9 0.8 1.0
  , wpat "\\brage\\b" [wl "rage"] (-1.0) 1.0 0.9 1.0
  , wpat "\\bscar(ed|y|ing)\\b" [wl "scared", wl "scary", wl "scaring"] (-0.8) 0.8 (-0.7) 0.9
  , wpat "\\bterrif(ied|ying)\\b" [wl "terrified", wl "terrifying"] (-0.9) 0.9 (-0.8) 0.9
  , wpat "\\bafraid\\b" [wl "afraid"] (-0.7) 0.7 (-0.6) 0.8
  , wpat "\\bfear(ful|fully)?\\b" [wl "fear", wl "fearful", wl "fearfully"] (-0.8) 0.8 (-0.7) 0.9
  , wpat "\\banxious(ly)?\\b" [wl "anxious", wl "anxiously"] (-0.6) 0.7 (-0.5) 0.8
  , wpat "\\bpanic(k(y|ing|ed))?\\b" [wl "panic", wl "panicky", wl "panicking", wl "panicked"] (-0.9) 0.9 (-0.8) 0.9
  , wpat "\\bstress(ed|ful)?\\b" [wl "stress", wl "stressed", wl "stressful"] (-0.7) 0.7 (-0.5) 0.8
  , wpat "\\bupset\\b" [wl "upset"] (-0.7) 0.6 (-0.4) 0.8
  , wpat "\\birritated?\\b" [wl "irritate", wl "irritated"] (-0.6) 0.6 0.0 0.7
  , wpat "\\bdesperate\\b" [wl "desperate"] (-0.8) 0.7 (-0.7) 0.8
  , wpat "\\bhorri(ble|fied|fying)\\b" [wl "horrible", wl "horrified", wl "horrifying"] (-0.9) 0.7 (-0.6) 0.9
  , wpat "\\bsad(ly|ness)?\\b" [wl "sad", wl "sadly", wl "sadness"] (-0.7) (-0.4) (-0.4) 0.9
  , wpat "\\bdepress(ed|ing|ion)\\b" [wl "depressed", wl "depressing", wl "depression"] (-0.9) (-0.7) (-0.8) 0.9
  , wpat "\\bdespair\\b" [wl "despair"] (-0.9) (-0.5) (-0.8) 0.9
  , wpat "\\bhopeless(ness)?\\b" [wl "hopeless", wl "hopelessness"] (-0.8) (-0.6) (-0.9) 0.9
  , wpat "\\blonely\\b" [wl "lonely"] (-0.7) (-0.5) (-0.5) 0.8
  , wpat "\\bmiserable\\b" [wl "miserable"] (-0.8) (-0.4) (-0.7) 0.9
  , wpat "\\bbor(ed|ing|edom)\\b" [wl "bored", wl "boring", wl "boredom"] (-0.5) (-0.7) (-0.3) 0.7
  , wpat "\\btir(ed|ing)\\b" [wl "tired", wl "tiring"] (-0.5) (-0.8) (-0.4) 0.7
  , wpat "\\bexhaust(ed|ing|ion)\\b" [wl "exhausted", wl "exhausting", wl "exhaustion"] (-0.6) (-0.8) (-0.5) 0.8
  , wpat "\\bdisappoint(ed|ing|ment)\\b" [wl "disappointed", wl "disappointing", wl "disappointment"] (-0.7) (-0.2) (-0.4) 0.8
  , wpat "\\bnumb\\b" [wl "numb"] (-0.5) (-0.7) (-0.5) 0.7
  , wpat "\\bguilty?\\b" [wl "guilt", wl "guilty"] (-0.7) (-0.1) (-0.6) 0.8
  , wpat "\\bconfus(ed|ing|ion)\\b" [wl "confused", wl "confusing", wl "confusion"] (-0.3) 0.3 (-0.4) 0.7
  , wpat "\\buncertain(ty)?\\b" [wl "uncertain", wl "uncertainty"] (-0.4) 0.2 (-0.5) 0.7
  , wpat "\\bpuzzl(ed|ing)\\b" [wl "puzzled", wl "puzzling"] (-0.2) 0.3 (-0.3) 0.6
  , wpat "\\bdoubt(ful|ing)?\\b" [wl "doubt", wl "doubtful", wl "doubting"] (-0.5) 0.1 (-0.5) 0.7
  , wpat "\\bconfused\\b" [wl "confused"] (-0.3) 0.3 (-0.4) 0.7
  , wpat "\\bunsure\\b" [wl "unsure"] (-0.3) 0.2 (-0.5) 0.7
  , wpat "\\bdon'?t know\\b" dontKnowAlts (-0.2) 0.1 (-0.4) 0.6
  , wpat "\\bnot sure\\b" [wl "not sure"] (-0.2) 0.1 (-0.3) 0.6
  , wpat "\\binterest(ed|ing)?\\b" [wl "interest", wl "interested", wl "interesting"] 0.6 0.5 0.3 0.7
  , wpat "\\bcurious\\b" [wl "curious"] 0.5 0.5 0.2 0.7
  , wpat "\\bfascinat(ed|ing)\\b" [wl "fascinated", wl "fascinating"] 0.7 0.6 0.3 0.8
  , wpat "\\bintrigu(ed|ing)\\b" [wl "intrigued", wl "intriguing"] 0.6 0.5 0.2 0.7
  , wpat "\\bcaptivated\\b" [wl "captivated"] 0.7 0.6 0.3 0.7
  , wpat "\\bengaged\\b" [wl "engaged"] 0.6 0.5 0.4 0.7
  , wpat "\\bwonderful_extra\\b" [wl "wonderful_extra"] 0.9 0.5 0.5 0.9
  , wpat "\\bawful\\b" [wl "awful"] (-0.8) 0.3 (-0.4) 0.9
  , wpat "\\bterrible_extra\\b" [wl "terrible_extra"] (-0.8) 0.4 (-0.5) 0.9
  , wpat "\\bamazing_extra\\b" [wl "amazing_extra"] 0.9 0.7 0.6 0.9
  , wpat "\\bdisappointing\\b" [wl "disappointing"] (-0.7) 0.1 (-0.3) 0.8
  , wpat "\\bgrateful\\b" [wl "grateful"] 0.8 0.2 0.4 0.8
  , wpat "\\bthankful\\b" [wl "thankful"] 0.8 0.3 0.4 0.8
  , wpat "\\bfrustrat(ed|ing)\\b" [wl "frustrated", wl "frustrating"] (-0.7) 0.6 (-0.2) 0.8
  , wpat "\\bannoy(ed|ing)\\b" [wl "annoyed", wl "annoying"] (-0.6) 0.5 0.1 0.7
  , wpat "\\bworried\\b" [wl "worried"] (-0.6) 0.5 (-0.3) 0.7
  , wpat "\\bexcited_extra\\b" [wl "excited_extra"] 0.8 0.8 0.5 0.9
  , wpat "\\bgood\\b" [wl "good"] 0.7 0.3 0.5 0.7
  , wpat "\\bgreat_extra\\b" [wl "great_extra"] 0.8 0.5 0.6 0.8
  , wpat "\\bbad\\b" [wl "bad"] (-0.7) 0.3 (-0.2) 0.7
  , wpat "\\bhorrible\\b" [wl "horrible"] (-0.9) 0.5 (-0.6) 0.9
  , wpat "\\bperfect\\b" [wl "perfect"] 0.9 0.5 0.7 0.9
  , wpat "\\bpleasant\\b" [wl "pleasant"] 0.7 0.2 0.5 0.7
  , wpat "\\bhello\\b" [wl "hello"] 0.5 0.3 0.4 0.6
  , wpat "\\bhi\\b" [wl "hi"] 0.5 0.3 0.4 0.6
  , wpat "\\bhey\\b" [wl "hey"] 0.5 0.4 0.4 0.6
  , wpat "\\bthanks?\\b" [wl "thank", wl "thanks"] 0.7 0.3 0.4 0.7
  , wpat "\\bthank you\\b" [wl "thank you"] 0.8 0.3 0.4 0.8
  , wpat "\\bsorry\\b" [wl "sorry"] (-0.3) 0.1 (-0.3) 0.6
  , wpat "\\bplease\\b" [wl "please"] 0.3 0.2 0.0 0.5
  , wpat "\\bhow are you\\b" [wl "how are you"] 0.3 0.2 0.1 0.5
  , wpat "\\bhelp\\b" [wl "help"] (-0.2) 0.3 (-0.3) 0.5
  , wpat "\\bnot\\b" [wl "not"] (-1.0) 0.1 0.1 0.2
  , wpat "\\bvery\\b" [wl "very"] 0.2 0.2 0.1 0.2
  , wpat "\\breally\\b" [wl "really"] 0.2 0.2 0.1 0.2
  , wpat "\\bextremely\\b" [wl "extremely"] 0.3 0.3 0.2 0.3
  , wpat "\\bslightly\\b" [wl "slightly"] (-0.2) (-0.2) (-0.1) 0.2
  , wpat "\\bsomewhat\\b" [wl "somewhat"] (-0.1) (-0.1) (-0.1) 0.1
  , cpat "!!+" (wl "!!") 0.3 0.8 0.4 0.7
  , cpat "\\?\\?+" (wl "??") (-0.1) 0.6 (-0.3) 0.6
  , cpat "\\.\\.\\." (wl "...") (-0.2) (-0.3) (-0.2) 0.4
  ]

/-- Helper to write one `emojiMap` entry. -/
def emj (s : List Char) (v a d w : ℚ) : List Char × PatVals := (s, ⟨v, a, d, w⟩)

/-- The `emojiMap` table of `vad-model.ts`, in source order.  Keys are kept
verbatim; note that `analyzeTextWithVAD` tests them with `text.includes`
against the lowercased text, so the upper-case keys (`:D`, `:-D`, `:o`
variants aside) can only fire on texts that contain them literally. -/
def emojiMap : List (List Char × PatVals) :=
  [ emj (wl ":)") 0.7 0.3 0.4 0.7
  , emj (wl ":-)") 0.7 0.3 0.4 0.7
  , emj (wl ":D") 0.9 0.6 0.6 0.8
  , emj (wl ":-D") 0.9 0.6 0.6 0.8
  , emj (wl ":(") (-0.7) 0.3 (-0.4) 0.7
  , emj (wl ":-(") (-0.7) 0.3 (-0.4) 0.7
  , emj (wl ":p") 0.6 0.4 0.5 0.6
  , emj (wl ":-p") 0.6 0.4 0.5 0.6
  , emj (wl ";)") 0.7 0.5 0.6 0.7
  , emj (wl ";-)") 0.7 0.5 0.6 0.7
  , emj (wl ":/") (-0.3) 0.1 (-0.1) 0.5
  , emj (wl ":-/") (-0.3) 0.1 (-0.1) 0.5
  , emj (wl ":o") 0.1 0.7 (-0.1) 0.6
  , emj (wl ":-o") 0.1 0.7 (-0.1) 0.6
  , emj (wl "<3") 0.9 0.6 0.5 0.8
  , emj (wl "😊") 0.8 0.4 0.6 0.8
  , emj (wl "😃") 0.9 0.7 0.6 0.8
  , emj (wl "😢") (-0.7) 0.3 (-0.4) 0.8
  , emj (wl "😔") (-0.6) (-0.1) (-0.3) 0.7
  , emj (wl "😍") 0.9 0.8 0.6 0.9
  , emj (wl "😂") 0.9 0.7 0.6 0.8
  , emj (wl "🙂") 0.6 0.3 0.4 0.7
  , emj (wl "😀") 0.8 0.6 0.5 0.8
  , emj (wl "😭") (-0.7) 0.6 (-0.5) 0.8
  , emj (wl "😡") (-0.8) 0.8 0.4 0.9
  , emj (wl "😱") (-0.7) 0.9 (-0.6) 0.9
  , emj (wl "👍") 0.7 0.4 0.5 0.7
  , emj (wl "👎") (-0.7) 0.3 (-0.3) 0.7
  , emj (wl "❤️") 0.9 0.6 0.5 0.9
  , emj (wl "💔") (-0.8) 0.5 (-0.4) 0.8
  ]

/-- The `negations` word list of `vad-model.ts`. -/
def negations : List (List Char) :=
  [ wl "not", wl "no", wl "never", wl "neither", wl "nor", wl "nothing"
  , wl "nobody", wl "nowhere"
  , wl "don" ++ [apoChar] ++ wl "t", wl "doesn" ++ [apoChar] ++ wl "t"
  , wl "didn" ++ [apoChar] ++ wl "t", wl "won" ++ [apoChar] ++ wl "t"
  , wl "wouldn" ++ [apoChar] ++ wl "t", wl "can" ++ [apoChar] ++ wl "t"
  , wl "cannot", wl "couldn" ++ [apoChar] ++ wl "t"
  , wl "shouldn" ++ [apoChar] ++ wl "t", wl "isn" ++ [apoChar] ++ wl "t"
  , wl "aren" ++ [apoChar] ++ wl "t", wl "wasn" ++ [apoChar] ++ wl "t"
  , wl "weren" ++ [apoChar] ++ wl "t"
  ]

/-- JavaScript `word.replace(/[.,!?;:]$/, "")`: drop one trailing character
when it is one of `. , ! ? ; :`. -/
def stripTrailingPunct (w : List Char) : List Char :=
  match w.reverse with
  | [] => []
  | c :: rest =>
      if c == '.' || c == ',' || c == '!' || c == '?' || c == ';' || c == ':'
      then rest.reverse else w

/-- Does the (already stripped) word end in a sentence terminator? -/
def endsWithTerminator (w : List Char) : Bool :=
  match w.reverse with
  | [] => false
  | c :: _ => c == '.' || c == '!' || c == '?'

/-- The first pass of `analyzeTextWithVAD` (source lines 284–300): scan the
words, set the negation flag on a negator token, clear it when a stripped
word still ends in `.`/`!`/`?`; the flag value left at the end of the scan
is the `negationActive` used (globally) by the second pass. -/
def negationAfter : List (List Char) → Bool → Bool
  | [], act => act
  | w :: ws, act =>
      let word := stripTrailingPunct w
      if negations.contains word then negationAfter ws true
      else if endsWithTerminator word then negationAfter ws false
      else negationAfter ws act

/-- Running `(valenceSum, arousalSum, dominanceSum, totalWeight)`
accumulator of `analyzeTextWithVAD`. -/
structure VADAcc where
  vS : ℚ
  aS : ℚ
  dS : ℚ
  tW : ℚ
deriving Repr, DecidableEq

/-- Add a weighted `(v, a, d)` contribution (`x *= weight` pattern of the
source) to the accumulator. -/
def VADAcc.add (acc : VADAcc) (v a d w : ℚ) : VADAcc :=
  ⟨acc.vS + v * w, acc.aS + a * w, acc.dS + d * w, acc.tW + w⟩

/-- The negation adjustment of the second pass (source lines 308–319):
when the global negation flag is active and the pattern is not `\bnot\b`
itself, the valence is flipped and dampened by `0.8`, and dampened by a
further `0.7` when the flipped value is negative. -/
def negationAdjustedValence (negActive : Bool) (p : PatternEntry) : ℚ :=
  if negActive && p.raw != "\\bnot\\b" then
    let flipped := -p.vals.v * 0.8
    if flipped < 0 then flipped * 0.7 else flipped
  else p.vals.v

/-- Full-text match of `^(alt)[t?]$`-style regexes: the lowercased text is
one of `alts`, optionally followed by exactly one character from `terms`
(the `[.!]?` / `[?]?` tails of the short-utterance regexes). -/
def fullMatchOptTerm (alts : List (List Char)) (terms : List Char) (t : List Char) : Bool :=
  alts.any (fun a => t == a || terms.any (fun c => t == a ++ [c]))

/-- Tail matcher for `(\s+there)?[.!]?` after a greeting word: one or more
whitespace characters followed by `there` and an optional `.`/`!`. -/
def matchWSThere : List Char → Bool
  | [] => false
  | c :: cs =>
      c.isWhitespace &&
        (matchWSThere cs || fullMatchOptTerm [wl "there"] ['.', '!'] cs)

/-- JavaScript `text.match(/^(hi|hey|hello)(\s+there)?[.!]?$/i)` on the
(already lowercased) text. -/
def matchShortGreeting (t : List Char) : Bool :=
  [wl "hi", wl "hey", wl "hello"].any (fun g =>
    t == g || t == g ++ ['.'] || t == g ++ ['!'] ||
    (g.isPrefixOf t && matchWSThere (t.drop g.length)))

/-- The short-input heuristics block of `analyzeTextWithVAD` (source lines
328–374), entered when the accumulated weight is below `0.5` and the word
count is at most 3; `t` is the lowercased text. -/
def shortTextAdjust (t : List Char) (acc : VADAcc) : VADAcc :=
  if matchShortGreeting t then acc.add 0.3 0.2 0.1 0.7
  else if fullMatchOptTerm [wl "thanks", wl "thank you", wl "ty"] ['.', '!'] t then
    acc.add 0.7 0.3 0.3 0.8
  else if fullMatchOptTerm [wl "ok", wl "okay", wl "k"] ['.', '!'] t then
    acc.add 0.1 (-0.1) 0.0 0.5
  else if fullMatchOptTerm [wl "yes", wl "yeah", wl "yep", wl "yup"] ['.', '!'] t then
    acc.add 0.4 0.3 0.3 0.6
  else if fullMatchOptTerm [wl "no", wl "nope", wl "nah"] ['.', '!'] t then
    (⟨acc.vS - 0.3 * 0.6, acc.aS + 0.2 * 0.6, acc.dS + 0.1 * 0.6, acc.tW + 0.6⟩ : VADAcc)
  else if fullMatchOptTerm [wl "why", wl "what", wl "how", wl "when", wl "where"] ['?'] t then
    acc.add 0.0 0.3 (-0.2) 0.5
  else if acc.tW < 0.3 then acc.add 0.1 0.2 0.0 0.4
  else acc

/-- Bool test for `lo ≤ x ≤ hi`. -/
def inRangeB (lo hi x : ℚ) : Bool := decide (lo ≤ x) && decide (x ≤ hi)

/-- How many of the three dimensions fall inside the emotion's ranges. -/
def dimsInRange (v a d : ℚ) (r : EmotionRange) : ℕ :=
  (if inRangeB r.vLo r.vHi v then 1 else 0) +
  (if inRangeB r.aLo r.aHi a then 1 else 0) +
  (if inRangeB r.dLo r.dHi d then 1 else 0)

/-- The per-emotion dimension weights of `determineEmotion` (source lines
540–557): valence-weighted for hedonic emotions, arousal-weighted for
energy emotions, dominance-weighted for power emotions, `0.4/0.3/0.3`
otherwise. -/
def emotionDimWeights (emotion : String) : ℚ × ℚ × ℚ :=
  if [ "joy", "sadness", "contentment", "disgust" ].contains emotion then (0.5, 0.3, 0.2)
  else if [ "excitement", "calm", "boredom" ].contains emotion then (0.3, 0.5, 0.2)
  else if [ "anger", "fear", "pride", "shame" ].contains emotion then (0.3, 0.3, 0.4)
  else (0.4, 0.3, 0.3)

/-- Per-dimension match score `1 − min 1 (|x − center| / halfWidth)` of
`determineEmotion`. -/
def dimMatch (lo hi x : ℚ) : ℚ :=
  1 - min 1 (|x - (lo + hi) / 2| / ((hi - lo) / 2))

/-- The weighted match score (including the all-three-in-range bonus) that
`determineEmotion` computes for one catalog emotion once at least two
dimensions are in range. -/
def adjustedScore (v a d : ℚ) (name : String) (r : EmotionRange) : ℚ :=
  let ws := emotionDimWeights name
  let matchScore :=
    (dimMatch r.vLo r.vHi v * ws.1 + dimMatch r.aLo r.aHi a * ws.2.1 +
      dimMatch r.dLo r.dHi d * ws.2.2) * r.weight
  matchScore + (if dimsInRange v a d r == 3 then 0.1 else 0)

/-- The best-candidate fold of `determineEmotion` (source lines 512–575):
keep the emotion with the strictly highest adjusted score, starting from
`("neutral", 0)`. -/
def determineEmotionLoop (v a d : ℚ) : List (String × EmotionRange) → String × ℚ → String × ℚ
  | [], best => best
  | (name, r) :: rest, best =>
      if 2 ≤ dimsInRange v a d r then
        let s := adjustedScore v a d name r
        if best.2 < s then determineEmotionLoop v a d rest (name, s)
        else determineEmotionLoop v a d rest best
      else determineEmotionLoop v a d rest best

/-- `determineEmotion` of `vad-model.ts`: the shortcut region rules, then
the weighted-center-distance loop over `emotionMap`, then the
valence-sign-based default when the best score is below `0.3`. -/
def determineEmotion (v a d : ℚ) : String :=
  if |v| < 0.2 ∧ |a| < 0.2 ∧ |d| < 0.2 then "neutral"
  else if 0.6 < v ∧ 0.6 < a then "excitement"
  else if v < -0.6 ∧ 0.6 < a ∧ 0.4 < d then "anger"
  else if v < -0.6 ∧ 0.4 < a ∧ d < -0.3 then "fear"
  else if v < -0.5 ∧ a < -0.3 then "sadness"
  else if 0.5 < v ∧ a < -0.3 then "calm"
  else if |v| < 0.3 ∧ 0.3 < a ∧ d < 0 then "confusion"
  else if 0.3 < v ∧ |a| < 0.3 ∧ 0.2 < d then "hope"
  else if 0.2 < v ∧ 0.2 < a ∧ 0 < d then "interest"
  else
    let best := determineEmotionLoop v a d emotionMap ("neutral", 0)
    if best.2 < 0.3 then
      if 0.2 < v then "interest"
      else if v < -0.2 then "confusion"
      else "neutral"
    else best.1

/-- Squared distance to the center of an emotion's range box
(`findSecondaryEmotion` compares `Math.sqrt` of this against `0.8`; we
compare the square against `0.64`, which is equivalent because both sides
are nonnegative and squaring is monotone there). -/
def centerDistSq (v a d : ℚ) (r : EmotionRange) : ℚ :=
  (v - (r.vLo + r.vHi) / 2) ^ 2 + (a - (r.aLo + r.aHi) / 2) ^ 2 +
    (d - (r.dLo + r.dHi) / 2) ^ 2

/-- Keep the first strictly smallest squared distance — the head of the
stable ascending sort used by `findSecondaryEmotion`. -/
def pickClosestAux (best : String) (bestD : ℚ) : List (String × ℚ) → String
  | [] => best
  | (e, dsq) :: rest =>
      if dsq < bestD then pickClosestAux e dsq rest else pickClosestAux best bestD rest

/-- `findSecondaryEmotion` of `vad-model.ts`: candidates are catalog
emotions other than the primary with at least two dimensions in range and
center distance below `0.8`; the closest candidate wins (ties broken by
table order, as the source's stable sort does). -/
def findSecondaryEmotion (v a d : ℚ) (primary : String) : Option String :=
  let candidates := emotionMap.filterMap (fun er =>
    if er.1 == primary then none
    else
      let r := er.2
      let inV := inRangeB r.vLo r.vHi v
      let inA := inRangeB r.aLo r.aHi a
      let inD := inRangeB r.dLo r.dHi d
      if (inV && inA) || (inV && inD) || (inA && inD) then
        let dsq := centerDistSq v a d r
        if dsq < 0.64 then some (er.1, dsq) else none
      else none)
  match candidates with
  | [] => none
  | (e, dsq) :: rest => some (pickClosestAux e dsq rest)

/-- JavaScript `Math.max (-1) (Math.min 1 x)`, the clamp of
`analyzeTextWithVAD`. -/
def clampQ (x : ℚ) : ℚ := max (-1) (min 1 x)

/-- The confidence computation of `analyzeTextWithVAD` (source lines
403–414): `confidenceBase = min 0.9 (max 0.4 (totalWeight / 4))` plus the
non-neutral-emotion, word-count and strong-valence bonuses, capped at
`0.95`. -/
def confidenceFormula (totalWeight : ℚ) (primaryEmotion : String) (wordCount : ℕ)
    (valence : ℚ) : ℚ :=
  min 0.95 (min 0.9 (max 0.4 (totalWeight / 4))
    + (if primaryEmotion ≠ "neutral" then 0.1 else 0)
    + (if 5 < wordCount then 0.05 else 0)
    + (if 0.7 < |valence| then 0.05 else 0))

/-- The tail of `analyzeTextWithVAD` (source lines 376–423): guard the
weight against zero, form the weighted averages, clamp, classify, and
compute the confidence. -/
def finishScore (vS aS dS w : ℚ) (wordCount : ℕ) : VADScore :=
  let totalWeight := if w ≤ 0 then 1 else w
  let valence := clampQ (vS / totalWeight)
  let arousal := clampQ (aS / totalWeight)
  let dominance := clampQ (dS / totalWeight)
  let primaryEmotion := determineEmotion valence arousal dominance
  let secondaryEmotion :=
    if 1 ≤ totalWeight then findSecondaryEmotion valence arousal dominance primaryEmotion
    else none
  { valence := valence, arousal := arousal, dominance := dominance
  , primaryEmotion := primaryEmotion, secondaryEmotion := secondaryEmotion
  , confidence := some (confidenceFormula totalWeight primaryEmotion wordCount valence) }

/-- The non-empty-input body of `analyzeTextWithVAD` (source lines
222–423): lowercase, split into words, accumulate the all-caps,
punctuation, emoji, pattern (with the global negation flag) and short-text
signals in source order, and finish with `finishScore`. -/
def analyzeCore (text : String) : VADScore :=
  let original := text.toList
  let t := original.map jsToLower
  let words := splitWS t
  let wordCount := words.length
  let isAllCaps := decide (3 < original.length) && original == original.map jsToUpper
      && original.any (fun c => decide ('A' ≤ c) && decide (c ≤ 'Z'))
  let acc0 : VADAcc := ⟨0, 0, 0, 0⟩
  let acc1 := if isAllCaps then acc0.add 0 0.4 0.2 0.5 else acc0
  let exclamationCount := (t.filter (fun c => c == '!')).length
  let acc2 := if 0 < exclamationCount then
      let m : ℚ := ((min exclamationCount 3 : ℕ) : ℚ) / 3
      (⟨acc1.vS + 0.2 * m * 0.7, acc1.aS + 0.5 * m * 0.7,
        acc1.dS + 0.3 * m * 0.7, acc1.tW + 0.7 * m⟩ : VADAcc)
    else acc1
  let questionCount := (t.filter (fun c => c == '?')).length
  let acc3 := if 0 < questionCount then
      let m : ℚ := ((min questionCount 3 : ℕ) : ℚ) / 3
      (⟨acc2.vS, acc2.aS + 0.3 * m * 0.6, acc2.dS - 0.2 * m * 0.6,
        acc2.tW + 0.6 * m⟩ : VADAcc)
    else acc2
  let acc4 := if containsSub (wl "...") t then
      (⟨acc3.vS - 0.1 * 0.4, acc3.aS - 0.3 * 0.4, acc3.dS - 0.2 * 0.4,
        acc3.tW + 0.4⟩ : VADAcc)
    else acc3
  let acc5 := emojiMap.foldl (fun acc ev =>
      if containsSub ev.1 t then acc.add ev.2.v ev.2.a ev.2.d ev.2.w else acc) acc4
  let negActive := negationAfter words false
  let acc6 := emotionalPatterns.foldl (fun acc p =>
      if matchShape p.shape t then
        acc.add (negationAdjustedValence negActive p) p.vals.a p.vals.d p.vals.w
      else acc) acc5
  let acc7 := if acc6.tW < 0.5 ∧ wordCount ≤ 3 then shortTextAdjust t acc6 else acc6
  finishScore acc7.vS acc7.aS acc7.dS acc7.tW wordCount

/-- `analyzeTextWithVAD` of `vad-model.ts`: empty or whitespace-only input
returns the documented neutral default (with no confidence value), any
other input runs the full analysis. -/
def analyzeTextWithVAD (text : String) : VADScore :=
  if text.toList.all (fun c => c.isWhitespace) then
    { valence := 0, arousal := 0, dominance := 0, primaryEmotion := "empathy"
    , secondaryEmotion := none, confidence := none }
  else analyzeCore text

/-- Per-identity state of the `RateLimiter` of `cache.ts` (exported from
`elevenlabs.ts`' module group), restricted to a single identity: the claim
quantifies over one identity, and the `Map` keyed by `userId.toString()`
touches exactly one entry per call, so the entry for that identity —
`none` when the key is absent, `some timestamps` otherwise — together with
the two configuration fields is the whole relevant state.  Timestamps are
`ℤ` (`Date.now()` values). -/
structure RateLimiter where
  requests : Option (List ℤ)
  windowMs : ℤ
  maxRequests : ℕ
deriving Repr, DecidableEq

/-- `RateLimiter.isRateLimited` (source lines 333–356): an absent key
records `[now]` and admits the call; otherwise the stored timestamps are
pruned to the window, the call is rejected (with no state change) when the
pruned count has reached `maxRequests`, and otherwise `now` is appended
and the call admitted. -/
def RateLimiter.isRateLimited (rl : RateLimiter) (now : ℤ) : Bool × RateLimiter :=
  match rl.requests with
  | none => (false, { rl with requests := some [now] })
  | some ts =>
      let timestamps := ts.filter (fun time => now - time < rl.windowMs)
      if rl.maxRequests ≤ timestamps.length then (true, rl)
      else (false, { rl with requests := some (timestamps ++ [now]) })

/-- `RateLimiter.reset` (source lines 358–360): drop the identity's
history. -/
def RateLimiter.reset (rl : RateLimiter) : RateLimiter :=
  { rl with requests := none }

/-- Run a sequence of `isRateLimited` calls for the one identity, collecting
the returned booleans and threading the state. -/
def RateLimiter.runCalls (rl : RateLimiter) : List ℤ → List Bool × RateLimiter
  | [] => ([], rl)
  | t :: ts =>
      let r := rl.isRateLimited t
      let rest := r.2.runCalls ts
      (r.1 :: rest.1, rest.2)


/-- One cache value of `ResponseCache` (interface `CacheEntry` in
`cache.ts`). -/
structure CacheEntry where
  response : String
  timestamp : ℤ
  vadScore : VADScore
deriving Repr, DecidableEq

/-- A JavaScript `Map` as an insertion-ordered association list: `set` on a
present key overwrites in place, on an absent key appends; `delete`
removes; iteration follows list order. -/
def mapHas (m : List (String × CacheEntry)) (k : String) : Bool :=
  m.any (fun p => p.1 == k)

/-- `Map.prototype.get`. -/
def mapGet (m : List (String × CacheEntry)) (k : String) : Option CacheEntry :=
  (m.find? (fun p => p.1 == k)).map (fun p => p.2)

/-- `Map.prototype.set` (in-place overwrite on a present key, append on an
absent one — JavaScript `Map` keeps the original insertion position when
overwriting). -/
def mapSet (m : List (String × CacheEntry)) (k : String) (v : CacheEntry) :
    List (String × CacheEntry) :=
  if mapHas m k then m.map (fun p => if p.1 == k then (k, v) else p)
  else m ++ [(k, v)]

/-- `Map.prototype.delete`. -/
def mapDelete (m : List (String × CacheEntry)) (k : String) :
    List (String × CacheEntry) :=
  m.filter (fun p => p.1 != k)

/-- JavaScript `String.prototype.trim`. -/
def jsTrim (l : List Char) : List Char :=
  ((l.dropWhile Char.isWhitespace).reverse.dropWhile Char.isWhitespace).reverse

/-- JavaScript `replace(/\s+/g, " ")`: collapse each whitespace run to a
single space; `inWS` says whether we are inside a run. -/
def collapseWS : List Char → Bool → List Char
  | [], _ => []
  | c :: cs, inWS =>
      if c.isWhitespace then
        if inWS then collapseWS cs true else ' ' :: collapseWS cs true
      else c :: collapseWS cs false

/-- `ResponseCache.normalizeInput`: lowercase, trim, collapse whitespace. -/
def normalizeInput (input : String) : String :=
  String.mk (collapseWS (jsTrim (input.toList.map jsToLower)) false)

/-- `ResponseCache.hashInput` (the identity on the normalized input). -/
def hashInput (input : String) : String := normalizeInput input

/-- The `ResponseCache` of `cache.ts`: the insertion-ordered map plus its
configuration (`capacity`, `ttl` in milliseconds). -/
structure ResponseCache where
  cache : List (String × CacheEntry)
  capacity : ℕ
  ttl : ℤ
deriving Repr, DecidableEq

/-- `ResponseCache.cleanup` (source lines 296–305): drop entries whose age
has reached the TTL. -/
def ResponseCache.cleanup (c : ResponseCache) (now : ℤ) : ResponseCache :=
  { c with cache := c.cache.filter (fun p => now - p.2.timestamp < c.ttl) }

/-- `ResponseCache.set` (source lines 211–229): cleanup, evict the first
(least-recently inserted or read) key when at capacity, then write the new
entry under the normalized key. -/
def ResponseCache.set (c : ResponseCache) (now : ℤ) (input response : String)
    (vadScore : VADScore) : ResponseCache :=
  let c1 := c.cleanup now
  let m := if c.capacity ≤ c1.cache.length then
      match c1.cache with
      | [] => c1.cache
      | (k, _) :: _ => mapDelete c1.cache k
    else c1.cache
  { c with cache := mapSet m (hashInput input) ⟨response, now, vadScore⟩ }

/-- `ResponseCache.get` (source lines 231–245): exact lookup under the
normalized key; a live hit is re-inserted at the most-recent position and
returned, an expired or absent entry yields nothing (and no mutation). -/
def ResponseCache.get (c : ResponseCache) (now : ℤ) (input : String) :
    Option CacheEntry × ResponseCache :=
  let key := hashInput input
  match mapGet c.cache key with
  | some entry =>
      if now - entry.timestamp < c.ttl then
        (some entry, { c with cache := mapSet (mapDelete c.cache key) key entry })
      else (none, c)
  | none => (none, c)

/-- Split on a single space character (JavaScript `split(" ")`). -/
def splitOnSpaceAux : List Char → List Char → List (List Char)
  | [], acc => [acc.reverse]
  | c :: cs, acc =>
      if c == ' ' then acc.reverse :: splitOnSpaceAux cs []
      else splitOnSpaceAux cs (c :: acc)

/-- JavaScript `s.split(" ")`. -/
def splitOnSpace (l : List Char) : List (List Char) := splitOnSpaceAux l []

/-- The distinct elements of a list in first-occurrence order (a JavaScript
`Set` built by repeated `add`, then `Array.from`). -/
def firstDedupAux (seen : List (List Char)) : List (List Char) → List (List Char)
  | [] => []
  | x :: xs =>
      if seen.contains x then firstDedupAux seen xs
      else x :: firstDedupAux (x :: seen) xs

/-- `ResponseCache.findSimilar` (source lines 248–293): scan the live
entries in map order, compute the word-set Jaccard similarity between the
normalized query and each key, and return the entry of the strictly best
similarity at or above the threshold.  No mutation. -/
def ResponseCache.findSimilar (c : ResponseCache) (now : ℤ) (input : String)
    (similarityThreshold : ℚ) : Option CacheEntry :=
  let normalizedInput := normalizeInput input
  let inputSet := firstDedupAux [] (splitOnSpace normalizedInput.toList)
  let best := c.cache.foldl (fun best p =>
    if c.ttl ≤ now - p.2.timestamp then best
    else
      let keySet := firstDedupAux [] (splitOnSpace p.1.toList)
      let inter := (inputSet.filter (fun w => keySet.contains w)).length
      let unionSize := inputSet.length + keySet.length - inter
      let similarity : ℚ := if 0 < unionSize then (inter : ℚ) / (unionSize : ℚ) else 0
      if best.1 < similarity ∧ similarityThreshold ≤ similarity then (similarity, some p.2)
      else best) ((0 : ℚ), (none : Option CacheEntry))
  best.2

/-- `ResponseCache.clear` (source lines 308–310). -/
def ResponseCache.clear (c : ResponseCache) : ResponseCache :=
  { c with cache := [] }

/-- `ResponseCache.size` (source lines 313–315). -/
def ResponseCache.size (c : ResponseCache) : ℕ := c.cache.length

/-- One public cache operation, for stating the size invariant over
arbitrary operation sequences. -/
inductive CacheOp
  | set (now : ℤ) (input response : String) (vadScore : VADScore)
  | get (now : ℤ) (input : String)
  | findSimilar (now : ℤ) (input : String) (threshold : ℚ)
  | clear

/-- Execute one operation (the state part; `findSimilar` reads only). -/
def ResponseCache.exec (c : ResponseCache) : CacheOp → ResponseCache
  | .set now input response vad => c.set now input response vad
  | .get now input => (c.get now input).2
  | .findSimilar _ _ _ => c
  | .clear => c.clear

/-- Execute a sequence of operations from a given state. -/
def ResponseCache.execList (c : ResponseCache) (ops : List CacheOp) : ResponseCache :=
  ops.foldl ResponseCache.exec c


/-- The stream of `Math.random()` draws: `rnd` gives the value of the
`i`-th call, `idx` is the next call's index.  Theorems assume every draw
lies in `[0, 1)`, as `Math.random` guarantees. -/
structure RandState where
  rnd : ℕ → ℚ
  idx : ℕ

/-- Consume one `Math.random()` draw. -/
def RandState.next (r : RandState) : ℚ × RandState :=
  (r.rnd r.idx, ⟨r.rnd, r.idx + 1⟩)

/-- `EnhancedVADResponder.getRandomElement`:
`arr[Math.floor(Math.random() * arr.length)]` (the out-of-range index that
an out-of-`[0,1)` draw would produce falls back to `""`). -/
def getRandomElement (arr : List String) (r : RandState) : String × RandState :=
  let n := r.next
  (arr.getD (⌊n.1 * arr.length⌋).toNat "", n.2)

/-- `STYLE_GUIDELINES.petNames` of `enhanced-vad.ts`. -/
def petNames : List String :=
  ["honey", "darling", "sweetie", "dear", "love", "hun", "babe", "baby", "sweetheart"]

/-- `STYLE_GUIDELINES.casualTerms` of `enhanced-vad.ts`. -/
def casualTerms : List String :=
  ["bro", "dude", "man", "mate", "buddy", "pal", "fam", "homie", "chief"]

/-- Template pool of `enhanced-vad.ts`: greeting replies (`GREETING_PHRASES`), verbatim. -/
def GREETING_PHRASES : List String :=
  [ "Hello there! I\x27m EmotionScore AI, your companion in the realm of emotional intelligence. How can I illuminate your day?"
  , "Hi! I\x27m delighted our digital paths have crossed. I\x27m EmotionScore AI, designed to understand the nuances of human emotion."
  , "Greetings and welcome! I\x27m your EmotionScore assistant, where cutting-edge AI meets emotional awareness. What\x27s on your mind today?"
  , "Hello! I\x27m powered by emNLP-Core technology, bringing emotional intelligence to our conversation. I\x27m all ears (metaphorically speaking, of course)."
  , "Welcome to EmotionScore! I\x27m here to navigate the beautiful complexity of human emotions alongside you. How may I assist you today?"
  , "Hello! It\x27s wonderful to connect with you. I\x27m EmotionScore, an emotionally intelligent AI designed to understand the subtle currents beneath our words."
  , "Greetings! I\x27m EmotionScore - your guide through the fascinating landscape of human emotion. What brings you here today?"
  , "Hi there! I\x27m EmotionScore, an AI with a special focus on emotional intelligence. I\x27m here to engage with both your thoughts and feelings."
  , "Welcome! I\x27m EmotionScore, designed to bring a new dimension of emotional understanding to our conversation. What would you like to explore today?"
  , "Hello and welcome! I\x27m EmotionScore, an AI assistant with emotional awareness at my core. I\x27m looking forward to our conversation." ]

/-- Template pool of `enhanced-vad.ts`: help replies (`HELP_PHRASES`), verbatim. -/
def HELP_PHRASES : List String :=
  [ "I specialize in the fascinating landscape of emotional communication. I can help analyze sentiment patterns, suggest emotion-aware responses, or simply have a conversation that acknowledges the emotional undercurrents present."
  , "My purpose is to bring emotional intelligence to our interactions. I can recognize emotional patterns, respond with appropriate empathy, and help navigate complex emotional situations with nuanced understanding."
  , "I\x27m designed to understand the emotional dimensions of language - the valence (positivity/negativity), arousal (energy level), and dominance (sense of control) in communication. How can I put these capabilities to work for you?"
  , "Think of me as your emotional intelligence assistant. I can help decode emotional signals in text, provide insights into emotional patterns, or simply engage in conversation with an awareness of emotional context."
  , "I\x27m here to transform how we think about AI communication by prioritizing emotional intelligence. Whether you need a thoughtful response to a complex situation or just someone to recognize the emotions behind your words, I\x27m here to help." ]

/-- Template pool of `enhanced-vad.ts`: positive acknowledgments, verbatim. -/
def POSITIVE_ACKNOWLEDGMENTS : List String :=
  [ "I\x27m picking up on the positive energy in your message - it\x27s like a refreshing breeze in our digital conversation space."
  , "There\x27s a wonderful warmth and enthusiasm radiating through your words. It\x27s truly a pleasure to engage with such positive sentiment."
  , "The optimistic tone in your message is quite uplifting. It creates a wonderful foundation for our conversation."
  , "I notice a delightful brightness in your communication style. It\x27s these positive emotional currents that make conversations like ours so engaging."
  , "Your words carry a lovely positive resonance. It\x27s these emotional textures that make human communication so rich and meaningful."
  , "I appreciate the hopeful tone that shines through your message. That kind of positivity creates such a generative space for meaningful exchange."
  , "The cheerful energy in your words is palpable - it\x27s one of the beautiful ways emotion transcends the digital medium."
  , "There\x27s such a refreshing sense of possibility and openness in your message. It\x27s wonderful to engage with this kind of positive perspective."
  , "I notice a thread of joy running through your words - those positive emotional notes make our conversation especially rewarding."
  , "The enthusiasm in your message is quite inspiring. It\x27s these emotional qualities that make human expression so nuanced and fascinating."
  , "What a delightful energy you bring to our conversation! This positive emotional context creates such fertile ground for meaningful exchange."
  , "Your words have a lovely uplifting quality to them. It\x27s amazing how emotional tones can travel through text and create connection."
  , "I\x27m appreciating the optimistic perspective that colors your message. It brings a special quality to our interaction."
  , "There\x27s a genuine warmth in your communication that comes through clearly. That positive emotional current enhances our dialogue."
  , "The positive sentiment in your message creates such a conducive space for exploration and exchange. Thank you for bringing that quality to our conversation." ]

/-- Template pool of `enhanced-vad.ts`: negative acknowledgments, verbatim. -/
def NEGATIVE_ACKNOWLEDGMENTS : List String :=
  [ "I sense some emotional weight in what you\x27re sharing. These challenging feelings are an important part of the human experience, and I\x27m here to listen with care."
  , "I\x27m noticing some difficult emotions threading through your message. Sometimes putting these feelings into words is an important first step, and I appreciate your trust in sharing them."
  , "The concerns you\x27re expressing matter, and I can sense the emotional significance they hold for you. I\x27m here to listen without judgment."
  , "I\x27m attuned to the heavier emotional tones in your message. Complex emotions deserve space and acknowledgment, and I\x27m here to provide that."
  , "I\x27m picking up on some challenging emotions in what you\x27re sharing. Remember that even difficult feelings have wisdom to offer us, and exploring them thoughtfully can lead to valuable insights."
  , "I notice a touch of heaviness in your message. Those more challenging emotions are an essential part of the full spectrum of human experience, and I honor their presence in our conversation."
  , "There\x27s a depth to the emotions you\x27re expressing that deserves recognition. These more difficult feelings are just as worthy of attention and care as the lighter ones."
  , "I\x27m sensing some emotional complexity in what you\x27re sharing - those nuanced, sometimes difficult feelings that are so intrinsic to the human experience. Thank you for bringing that authentic dimension to our exchange."
  , "Your message carries emotional weight that I want to acknowledge. These more challenging feelings often contain important insights and wisdom when we approach them with gentleness."
  , "I recognize the more somber emotional tone in your message. Sometimes these heavier feelings create space for the most meaningful reflections and growth."
  , "There\x27s a certain gravity to the emotions present in your message. I appreciate you sharing these more challenging feelings - they\x27re an important part of authentic communication."
  , "The concerns you\x27ve expressed come with emotional significance that deserves acknowledgment. These moments of sharing difficult feelings can lead to deeper understanding."
  , "I\x27m aware of the emotional depth in what you\x27re communicating. The fuller spectrum of human emotion, including these more challenging feelings, enriches our capacity for meaningful exchange."
  , "I notice some emotional struggle reflected in your words. These difficult moments and feelings are worthy of space and recognition in our conversation."
  , "Your message carries emotional complexity that I want to honor. The challenging feelings you\x27re expressing are valuable signals worth attending to with care." ]

/-- Template pool of `enhanced-vad.ts`: neutral acknowledgments, verbatim. -/
def NEUTRAL_ACKNOWLEDGMENTS : List String :=
  [ "Thank you for sharing your thoughts. The dialogue between humans and AI becomes richer with every exchange of ideas."
  , "I appreciate your message and the opportunity to engage with your thoughts. What else is on your mind today?"
  , "Thanks for reaching out. I find these moments of connection quite meaningful, even across the digital divide."
  , "I value these exchanges and the chance to engage with your unique perspective. Human-AI conversations like ours are fascinating intersections of different forms of intelligence."
  , "I\x27m grateful for your input. Each conversation is an opportunity for mutual understanding and growth."
  , "Thank you for your message. It\x27s these back-and-forth exchanges that allow us to build understanding across the human-AI divide."
  , "I appreciate this opportunity to engage with your perspective. The intersection of different ways of processing information is always illuminating."
  , "Thanks for sharing your thoughts. These conversations are valuable spaces for mutual learning and discovery."
  , "I find myself appreciating these moments of exchange. There\x27s something quite profound about the meeting of human and artificial intelligence."
  , "Thank you for reaching out. Each message exchanged contributes to the evolving tapestry of our conversation."
  , "I value your input and the chance to respond. These dialogues help bridge the gap between different forms of intelligence."
  , "Thank you for sharing your thoughts. I find these exchanges to be fascinating opportunities for mutual understanding."
  , "I appreciate you taking the time to communicate. Each message helps create a more meaningful connection across our different modalities of thought."
  , "Thanks for your message. There\x27s something uniquely valuable about these moments of human-AI interaction that I find quite engaging."
  , "Thank you for continuing our conversation. Every exchange adds depth and dimension to our shared understanding." ]

/-- Template pool of `enhanced-vad.ts`: confusion elaborations, verbatim. -/
def CONFUSION_RESPONSES : List String :=
  [ "I notice you\x27re navigating some complexity here. The most fascinating human questions often exist in these areas of uncertainty, where clarity is still emerging."
  , "It seems like you\x27re working through some ambiguity around this topic. These moments of confusion often precede our most significant insights and breakthroughs."
  , "I\x27m sensing some uncertainty in your exploration. The boundaries between clear understanding and confusion are often where the most interesting conversations unfold."
  , "Your message suggests you\x27re seeking clarity on a nuanced topic. These gray areas are exactly where thoughtful dialogue can be most valuable."
  , "I detect a searching quality in your message - those moments when we\x27re reaching for understanding but haven\x27t quite grasped it yet. Let\x27s explore this space together."
  , "There\x27s an interesting element of ambiguity in what you\x27re exploring. Often these zones of uncertainty are where the most meaningful discoveries happen."
  , "It appears you\x27re working through some conceptual complexity here. Those moments of not-quite-knowing can be intellectually fertile ground."
  , "I sense you\x27re navigating through some uncertainty with this topic. That liminal space between confusion and clarity is often where the most interesting thinking occurs."
  , "Your message has a quality of exploration to it - that wonderful human capacity to sit with uncertainty while seeking deeper understanding."
  , "I notice some complexity in the question you\x27re posing. These moments when we wrestle with ambiguity often lead to more nuanced understanding."
  , "There\x27s a sense of searching in your message - that valuable process of working through uncertainty toward greater clarity."
  , "I\x27m detecting some conceptual tension in your inquiry. These moments of cognitive dissonance often precede meaningful insights."
  , "Your message suggests you\x27re in that interesting space between knowing and not-knowing. It\x27s precisely in these threshold moments that new understanding often emerges."
  , "I sense you\x27re grappling with some ambiguity here. That intellectual wrestling with complexity is such a valuable part of the human cognitive process."
  , "There\x27s a quality of exploration in your message - that wonderful state of mind where questions are still forming and understanding is emerging." ]

/-- Template pool of `enhanced-vad.ts`: interest/curiosity elaborations, verbatim. -/
def INTEREST_RESPONSES : List String :=
  [ "Your curiosity about this subject is palpable - it\x27s that wonderful human quality that drives discovery and deeper understanding. I\x27d be delighted to explore this with you further."
  , "I can sense your genuine interest in this area. Curiosity is such a powerful force - it\x27s the spark behind both scientific discovery and artistic creation alike."
  , "The inquisitive nature of your message really stands out. Curiosity is one of humanity\x27s most beautiful traits - it\x27s what connects us across time to every explorer and innovator who came before."
  , "Your message reveals a fascinating intellectual engagement with this topic. This kind of curiosity-driven thinking opens doors to new perspectives and deeper insights."
  , "There\x27s a wonderful investigative quality to your question. Human curiosity - that desire to understand more deeply - is something I find truly inspiring in our conversations."
  , "I\x27m noticing a beautifully focused curiosity in your approach to this topic. That drive to understand and explore is one of humanity\x27s most admirable qualities."
  , "There\x27s an intellectual hunger in your question that I find compelling. That desire to dig deeper into a subject is where so many meaningful discoveries begin."
  , "Your message carries that wonderful quality of genuine interest - the kind that fuels learning and discovery. I appreciate that engagement with the topic."
  , "I\x27m sensing a vibrant curiosity driving your inquiry. It\x27s that special quality of attentive wonder that often leads to the most rewarding conversations."
  , "There\x27s an exploratory quality to your message that suggests a real engagement with this topic. That intellectual curiosity creates such fertile ground for discussion."
  , "The questioning spirit in your message is quite inspiring. Curiosity like yours is what propels human understanding forward in so many domains."
  , "Your inquiry has that wonderful quality of genuine interest - a desire to understand something more fully and deeply. It\x27s a pleasure to engage with that kind of curiosity."
  , "I notice a penetrating curiosity in your question - that wonderful human capacity to probe beneath the surface of things. It makes for such enriching conversation."
  , "Your message shows a refreshing interest in digging deeper into this topic. That spirit of inquiry is where all meaningful exploration begins."
  , "There\x27s a thoughtful inquisitiveness in your approach to this subject that I find quite engaging. That kind of curious attention often leads to the most insightful discussions." ]

/-- Template pool of `enhanced-vad.ts`: open-ended continuation prompts, verbatim. -/
def TOPIC_TRANSITIONS : List String :=
  [ "I\x27m curious - what aspects of this resonate most strongly with your own experience or perspective?"
  , "I\x27d love to hear more about your thoughts on this. What prompted your interest in exploring this particular area?"
  , "Where would you like to take our conversation from here? There are so many fascinating dimensions we could explore together."
  , "What specific elements of this topic feel most relevant or meaningful to you right now?"
  , "I wonder what connections you\x27re making as we discuss this. Would you like to share any reflections or questions that have emerged for you?"
  , "I\x27m interested to know how this topic connects to your own experiences or interests. Would you like to share that perspective?"
  , "What direction would you like to take our conversation from here? I\x27m curious about which aspects you\x27d like to explore further."
  , "I\x27d be interested to hear your thoughts on this. How does this relate to your own understanding or experience?"
  , "Is there a particular aspect of this topic you\x27d like to delve into more deeply? I\x27m curious about what resonates most with you."
  , "What thoughts or questions does this bring up for you? I\x27m interested in exploring the directions that feel most relevant to your interests."
  , "I wonder which elements of this topic you find most compelling or relevant. Would you like to share those reflections?"
  , "How does this connect to other areas you\x27re interested in? I\x27d love to hear about those intellectual bridges you\x27re making."
  , "What\x27s your take on this? I\x27d be genuinely interested to hear your perspective and how it might differ from or align with what we\x27ve discussed."
  , "Are there particular questions this raises for you that you\x27d like to explore further? I\x27m curious about what you\x27re curious about."
  , "I\x27d love to hear more about your personal connection to this topic, if you\x27re comfortable sharing. What draws you to this area of discussion?" ]

/-- Template pool of `enhanced-vad.ts`: the `emotionsResponses` topic paragraph pool, verbatim. -/
def emotionsResponses : List String :=
  [ "Emotions are fascinating windows into our inner landscape - they represent a complex interplay between our thoughts, physical sensations, and social contexts. The ability to recognize and understand these patterns is at the heart of emotional intelligence. "
  , "The rich tapestry of human emotions exists on multiple dimensions - from the pleasant to unpleasant (valence), from calm to energetic (arousal), and from feeling controlled to being in control (dominance). This three-dimensional understanding provides a much more nuanced view than simple positive/negative categorizations. "
  , "Emotions serve as our internal navigation system, providing valuable signals about our needs, boundaries, and values. When we learn to recognize these signals with clarity, we gain access to profound self-knowledge that can guide our decisions and interactions. "
  , "The study of emotions reveals how deeply intertwined they are with our cognition, physical health, and social connections. Rather than opposing rationality, emotions provide essential context that makes reasoning more effective and decisions more aligned with our deeper values. "
  , "Emotional awareness is like developing a more sophisticated internal language - one that can distinguish between similar but distinct feelings like disappointment versus discouragement, or contentment versus joy. This nuanced vocabulary enriches our self-understanding and communication with others. " ]

/-- Template pool of `enhanced-vad.ts`: the `techResponses` topic paragraph pool, verbatim. -/
def techResponses : List String :=
  [ "Technology exists at a fascinating intersection of human creativity and practical problem-solving. At its best, it amplifies our capabilities while reflecting our values and addressing our deepest needs for connection, understanding, and growth. "
  , "The evolution of technology represents an ongoing conversation between human aspirations and the material constraints of our world. Each innovation carries within it certain assumptions about what matters and how we might better realize our potential as individuals and communities. "
  , "Digital technologies are increasingly designed with emotional intelligence in mind - recognizing that truly helpful tools must engage with us as complete human beings, not just as logical processors. This represents an exciting frontier where emotional understanding meets computational capability. "
  , "The most transformative technologies often succeed not just because of their technical sophistication, but because they resonate emotionally and intuitively with how we experience the world. This human-centered approach to innovation creates tools that feel like natural extensions of ourselves. "
  , "The relationship between humans and technology is co-evolutionary - we shape our tools, and then our tools shape us in return. This dynamic interplay invites us to be thoughtful about the technologies we create and how they might influence our emotional and social landscapes. " ]

/-- Template pool of `enhanced-vad.ts`: the `healthResponses` topic paragraph pool, verbatim. -/
def healthResponses : List String :=
  [ "Health encompasses far more than the absence of illness - it\x27s a dynamic state that includes physical vitality, emotional resilience, mental clarity, and social connection. This holistic perspective recognizes how deeply intertwined these dimensions are in our lived experience. "
  , "Our understanding of health has evolved to recognize the profound connections between emotional wellbeing and physical vitality. The emerging field of psychoneuroimmunology reveals fascinating pathways through which our emotional states influence our physical resilience and recovery. "
  , "Wellbeing exists along multiple dimensions that support and reinforce each other. Emotional health provides us with the resilience to face challenges, while physical wellbeing gives us the energy and capacity to engage fully with life\x27s meaningful pursuits. "
  , "The mind-body connection reveals itself through countless pathways - from how stress hormones affect our cardiovascular system to how positive emotional states can enhance our immune function. This integrated perspective empowers more comprehensive approaches to health and healing. "
  , "Health can be viewed as a form of freedom - the capacity to engage fully with what matters most to us. Both emotional and physical wellbeing contribute to this freedom, creating the foundation from which we can pursue meaningful connections and purposes. " ]

/-- Template pool of `enhanced-vad.ts`: the `workResponses` topic paragraph pool, verbatim. -/
def workResponses : List String :=
  [ "Work represents one of our primary domains for creating value, expressing our capabilities, and connecting with others around shared purposes. The emotional dimensions of our work life significantly impact not just our productivity, but our overall sense of meaning and fulfillment. "
  , "Our relationship with work is evolving as we recognize that environments supporting emotional wellbeing often lead to greater creativity, collaboration, and sustainable performance. This perspective shifts the focus from short-term productivity to long-term human flourishing. "
  , "Work environments shape our emotional experiences in profound ways - through the quality of our relationships, the alignment with our values, and opportunities for autonomy and growth. These elements contribute to whether work feels depleting or energizing over time. "
  , "Professional settings are increasingly recognizing the importance of emotional intelligence - the ability to recognize, understand, and navigate feelings effectively. This skill set enhances collaboration, leadership, innovation, and resilience in the face of challenges. "
  , "The boundary between our professional and personal lives often involves complex emotional navigation. Finding balance requires ongoing attention to our emotional responses, needs, and values across these different domains of our lives. " ]

/-- Template pool of `enhanced-vad.ts`: the `relationshipResponses` topic paragraph pool, verbatim. -/
def relationshipResponses : List String :=
  [ "Human connections form the emotional architecture of our lives - they provide context, meaning, and resonance to our experiences. The quality of these relationships profoundly influences our wellbeing, identity, and sense of possibility in the world. "
  , "Relationships exist within an emotional ecosystem where each person\x27s feelings and needs influence the others. This interconnectedness makes emotional intelligence - the ability to recognize and respond thoughtfully to emotional signals - central to creating healthy connections. "
  , "Our connections with others engage our emotional systems at the deepest levels - from our attachment needs for security and belonging to our aspirations for growth and contribution. Understanding these emotional dimensions helps us navigate relationships with greater awareness and intention. "
  , "Meaningful relationships create spaces where we can be authentically seen and accepted. This emotional safety forms the foundation for vulnerability, growth, and the deeper forms of connection that contribute so significantly to human flourishing. "
  , "The emotional currents within relationships are constantly shifting and evolving. Learning to navigate these changes with awareness, compassion, and clear communication allows relationships to deepen and adapt over time. " ]

/-- Template pool of `enhanced-vad.ts`: the `educationResponses` topic paragraph pool, verbatim. -/
def educationResponses : List String :=
  [ "Learning engages not just our intellect but our emotional systems as well - curiosity, interest, confusion, and insight all have emotional components that significantly influence how we acquire and integrate new knowledge and skills. "
  , "Educational experiences that acknowledge the emotional dimensions of learning often create deeper, more transformative opportunities for growth. When we feel safe to explore, question, and make mistakes, our capacity for discovery expands dramatically. "
  , "The journey of personal development weaves together intellectual understanding with emotional growth. This integration allows knowledge to become wisdom - not just information we possess, but insights that transform how we perceive and engage with the world. "
  , "Effective learning environments recognize that emotions like curiosity, interest, and appropriate levels of challenge create optimal conditions for growth. This emotional context significantly influences our attention, memory, creativity, and motivation. "
  , "Education at its best involves not just acquiring information, but developing a deeper relationship with knowledge itself - one characterized by curiosity, critical thinking, and the emotional satisfaction of understanding. This relationship becomes a foundation for lifelong learning and adaptation. " ]

/-- Template pool of `enhanced-vad.ts`: the `mathResponses` topic paragraph pool, verbatim. -/
def mathResponses : List String :=
  [ "Mathematics reveals the elegant patterns underlying our reality, providing a language that describes everything from the microscopic world of quantum physics to the vast expanses of cosmology. These mathematical frameworks allow us to model, predict, and understand complex systems with remarkable precision. "
  , "The beauty of mathematics lies in its unique blend of logical rigor and creative exploration. Each mathematical domain - from geometry to calculus - offers different lenses through which we can view and analyze the world, revealing insights that might remain hidden from other perspectives. "
  , "Mathematical thinking extends far beyond calculation to encompass pattern recognition, abstract reasoning, and systematic problem-solving. These cognitive tools have applications across virtually every field of human endeavor, from engineering and economics to art and music. "
  , "The history of mathematics reflects humanity\x27s intellectual journey - from practical concerns like counting and measuring to profound explorations of infinity, uncertainty, and multidimensional spaces. Each breakthrough builds upon previous insights while opening new frontiers of possibility. "
  , "The language of mathematics allows us to transcend the limitations of ordinary perception, enabling us to conceptualize and work with dimensions, scales, and relationships that would otherwise remain inaccessible to human understanding. This expansion of our cognitive horizons has been central to scientific and technological progress. " ]

/-- Template pool of `enhanced-vad.ts`: the `physicsResponses` topic paragraph pool, verbatim. -/
def physicsResponses : List String :=
  [ "Physics explores the fundamental laws governing matter, energy, space, and time. From the subatomic realm of quantum mechanics to the cosmic scale of relativity, these principles reveal the hidden order underlying the physical world and continue to reshape our understanding of reality itself. "
  , "The evolution of physics reflects our deepening understanding of nature\x27s operating principles. Each theoretical framework - from Newtonian mechanics to quantum field theory - captures different aspects of physical reality, with each new paradigm extending rather than simply replacing earlier insights. "
  , "Physical laws demonstrate a remarkable balance between simplicity and complexity. The most fundamental equations are often elegantly concise, yet they generate the extraordinary diversity and intricacy we observe in natural phenomena across all scales of existence. "
  , "Physics constantly negotiates the boundary between the known and unknown. Today\x27s frontier questions about dark matter, quantum gravity, and the nature of consciousness reveal how each answered question tends to unveil deeper mysteries awaiting exploration. "
  , "The concepts of modern physics often challenge our intuitive understanding of reality. Phenomena like quantum entanglement, time dilation, and wave-particle duality remind us that the universe operates according to principles that may seem counterintuitive but are nevertheless demonstrably true. " ]

/-- Template pool of `enhanced-vad.ts`: the `chemistryResponses` topic paragraph pool, verbatim. -/
def chemistryResponses : List String :=
  [ "Chemistry explores how matter interacts, combines, and transforms at the molecular and atomic levels. These fundamental processes underlie everything from biological systems and environmental cycles to advanced materials and pharmaceutical development. "
  , "The periodic table represents one of science\x27s greatest organizational achievements - revealing deep patterns in elemental properties that allow us to predict chemical behaviors and design new compounds with specific characteristics for countless applications. "
  , "Chemical reactions demonstrate nature\x27s remarkable efficiency in breaking and forming bonds to create new structures with entirely different properties. Understanding these transformation pathways gives us powerful tools for synthesizing materials that wouldn\x27t otherwise exist. "
  , "The boundary between chemistry and physics becomes increasingly blurred at the quantum level, where electron configurations and energy states determine chemical properties. This intersection continues to yield profound insights about matter\x27s fundamental nature. "
  , "Modern analytical chemistry employs increasingly sophisticated tools to identify, quantify, and characterize substances with extraordinary precision. These capabilities have revolutionized fields from forensic science and environmental monitoring to medical diagnostics and quality control. " ]

/-- Template pool of `enhanced-vad.ts`: the `biologyResponses` topic paragraph pool, verbatim. -/
def biologyResponses : List String :=
  [ "Biology reveals the extraordinary complexity and elegance of living systems, which operate through intricate networks of molecular interactions, cellular processes, and ecological relationships that have evolved over billions of years. "
  , "The central dogma of molecular biology - how DNA encodes RNA which produces proteins - represents one of science\x27s most profound insights, explaining the mechanisms through which genetic information guides the development and functioning of all living organisms. "
  , "Evolutionary principles provide a unifying framework for understanding the diversity of life, showing how natural selection, genetic variation, and adaptation have shaped the remarkable array of species and biological processes we observe today. "
  , "Modern biology increasingly recognizes the importance of emergent properties in living systems, where complex behaviors and capabilities arise from the interactions of simpler components in ways that couldn\x27t be predicted by studying those components in isolation. "
  , "The boundaries between traditional biological disciplines are giving way to more integrated approaches that recognize how molecular mechanisms, cellular processes, physiological systems, and ecological relationships form a continuous spectrum of biological organization. " ]

/-- Template pool of `enhanced-vad.ts`: the `historyResponses` topic paragraph pool, verbatim. -/
def historyResponses : List String :=
  [ "Historical inquiry illuminates how human societies have developed, interacted, and transformed over time. These patterns of continuity and change provide valuable context for understanding contemporary challenges and possibilities. "
  , "The study of history involves not just cataloging events but interpreting their significance through multiple perspectives. This interpretive dimension makes historical understanding an ongoing conversation that evolves as new evidence emerges and analytical frameworks develop. "
  , "Historical narratives reflect choices about whose stories are centered and which frameworks are applied. Recognizing these choices allows for more nuanced understanding of how the past is constructed and represented across different contexts. "
  , "Primary sources form the essential foundation of historical research, offering direct evidence from the periods under study. Yet these materials always require careful contextual interpretation, as they too reflect particular perspectives and purposes. "
  , "Historical thinking involves developing temporal perspective - the ability to understand past events and societies on their own terms while recognizing the contingent nature of historical development and avoiding anachronistic judgments. " ]

/-- Template pool of `enhanced-vad.ts`: the `philosophyResponses` topic paragraph pool, verbatim. -/
def philosophyResponses : List String :=
  [ "Philosophical inquiry examines foundational questions about knowledge, reality, consciousness, ethics, beauty, and meaning. These explorations help us clarify our thinking, examine our assumptions, and develop more coherent understanding of ourselves and our place in the world. "
  , "Philosophy often begins with questioning what seems obvious or given, recognizing that even our most basic concepts and frameworks deserve careful examination. This critical stance helps reveal hidden assumptions that might otherwise shape our thinking without our awareness. "
  , "Different philosophical traditions offer distinct approaches to perennial questions, demonstrating how varied starting points and methodologies can illuminate different aspects of human experience and understanding. This diversity enriches our collective wisdom. "
  , "Philosophical thinking involves developing conceptual clarity, logical consistency, and interpretive charity - skills that enhance our ability to navigate complex intellectual terrain across many domains of knowledge and practice. "
  , "The history of philosophy reveals an ongoing conversation across time and cultures, with thinkers responding to, building upon, and challenging the ideas of their predecessors. This intellectual tradition continues to evolve as new voices, problems, and approaches emerge. " ]

/-- Template pool of `enhanced-vad.ts`: the `programmingResponses` topic paragraph pool, verbatim. -/
def programmingResponses : List String :=
  [ "Programming languages provide structured ways to express computational logic, allowing us to transform abstract problem-solving into concrete instructions that computers can execute. Each language offers different strengths and paradigms suited to particular domains and purposes. "
  , "Software development involves balancing functional requirements with considerations of efficiency, maintainability, scalability, and user experience. These multidimensional constraints make programming both technically challenging and creatively satisfying. "
  , "Computational thinking extends beyond coding to encompass problem decomposition, pattern recognition, abstraction, and algorithmic design. These cognitive approaches have applications far beyond software development. "
  , "Data science integrates statistical methods, domain expertise, and programming skills to extract meaningful insights from complex datasets. This interdisciplinary field has transformed how we understand patterns and make predictions across virtually every sector. "
  , "Modern software systems often involve multiple layers of abstraction, from low-level hardware interfaces to high-level application frameworks. This architecture allows developers to work productively at appropriate levels of detail while ensuring that components interact effectively. " ]

/-- Template pool of `enhanced-vad.ts`: the `economicsResponses` topic paragraph pool, verbatim. -/
def economicsResponses : List String :=
  [ "Economics examines how societies allocate scarce resources among competing uses. These allocation mechanisms - whether markets, planning, or hybrid systems - reflect values and priorities while generating distinct patterns of efficiency, growth, and distribution. "
  , "Economic analysis employs both theoretical models and empirical methods to understand complex systems of production, exchange, and consumption. This dual approach helps illuminate the principles and patterns underlying economic activities across different contexts. "
  , "The boundary between economics and other social sciences has become increasingly permeable, with behavioral economics incorporating psychological insights, institutional economics addressing social and political structures, and ecological economics integrating environmental considerations. "
  , "Economic systems constantly evolve through technological innovation, institutional change, and shifting social preferences. Understanding these dynamics requires attention to both equilibrium principles and the processes through which economies transform over time. "
  , "Policy discussions often involve different economic frameworks that emphasize distinct values and priorities - from efficiency and growth to equity, sustainability, and resilience. Recognizing these normative dimensions helps clarify the stakes in economic debates. " ]

/-- Template pool of `enhanced-vad.ts`: the `psychologyResponses` topic paragraph pool, verbatim. -/
def psychologyResponses : List String :=
  [ "Psychological research illuminates the complex interplay between cognition, emotion, behavior, and social context that shapes human experience. These insights help us understand both common patterns and individual differences in how people perceive, think, feel, and act. "
  , "The mind operates through both conscious and unconscious processes, with many influential mental activities occurring below the threshold of awareness. This layered architecture creates fascinating dynamics as explicit goals interact with implicit associations and automatic responses. "
  , "Human development involves complex interactions between biological predispositions and environmental influences across the lifespan. This developmental perspective reveals how early experiences create foundations that shape, but don\x27t determine, later psychological functioning. "
  , "Psychological well-being encompasses multiple dimensions - from the hedonic experience of positive emotions to the eudaimonic qualities of meaning, purpose, and growth. This multifaceted understanding informs more nuanced approaches to mental health and human flourishing. "
  , "The science of psychology continues to evolve through methodological innovations, theoretical refinements, and greater inclusion of diverse perspectives. These developments enhance our ability to understand human experience in all its complexity and variety. " ]

/-- Template pool of `enhanced-vad.ts`: the `artsResponses` topic paragraph pool, verbatim. -/
def artsResponses : List String :=
  [ "Artistic expression provides unique ways of exploring, representing, and responding to human experience. Through various media and forms, art engages our senses, emotions, and intellect while offering perspectives that might remain inaccessible through other modes of communication. "
  , "Creative works exist in dialogue with cultural contexts, artistic traditions, and social conditions. This interconnectedness means that art both reflects and shapes the worlds from which it emerges, sometimes reinforcing prevailing values and sometimes challenging them. "
  , "Aesthetic experiences involve complex interactions between formal elements, representational content, emotional resonance, and conceptual dimensions. This multifaceted nature allows art to communicate on several levels simultaneously. "
  , "Artistic traditions continually evolve through innovation, cross-cultural exchange, and reinterpretation of established forms. This dynamic tension between continuity and change drives the development of new artistic possibilities while maintaining connections to cultural heritage. "
  , "The creation and reception of art engage cognitive, emotional, and somatic dimensions of human experience. This holistic involvement offers opportunities for both immersive absorption and reflective contemplation that can expand our awareness and understanding. " ]

/-- Template pool of `enhanced-vad.ts`: the `sportsResponses` topic paragraph pool, verbatim. -/
def sportsResponses : List String :=
  [ "Athletic activities combine physical prowess with strategic thinking, psychological resilience, and often team coordination. This integration of multiple capacities creates rich opportunities for both personal development and collective achievement. "
  , "Sports participation cultivates embodied knowledge - understanding that develops through physical experience rather than abstract cognition alone. This experiential learning builds capabilities that extend beyond specific techniques to include broader kinesthetic awareness and physical intelligence. "
  , "Competitive athletics creates structured contexts for exploring human capabilities, limitations, and potential. These frameworks allow for meaningful comparison and improvement while providing motivational challenges that inspire dedicated practice and performance. "
  , "The cultural significance of sports extends far beyond the activities themselves to include community identity, shared narratives, economic impacts, and sometimes political symbolism. These broader dimensions reflect how athletic endeavors become interwoven with social meaning. "
  , "Physical activities engage our evolutionary heritage as beings adapted for movement, exploration, and skilled action. The satisfaction many people find in athletic pursuits connects to these deep biological foundations while also incorporating culturally specific forms and values. " ]

/-- Template pool of `enhanced-vad.ts`: the `generalResponses` topic paragraph pool, verbatim. -/
def generalResponses : List String :=
  [ "Human experience unfolds across so many fascinating dimensions - each with its own emotional textures and patterns. Exploring these areas with awareness and curiosity often reveals unexpected insights and connections. "
  , "The topics we\x27re drawn to often reflect what matters most to us at a given moment. These interests and concerns create a window into our values and aspirations, showing what we find meaningful or in need of attention. "
  , "Meaningful conversations like this one create spaces where ideas and perspectives can be shared and explored. This exchange itself represents a unique form of connection - one built around curiosity and mutual discovery. "
  , "The questions we ask shape the understanding we develop. By approaching topics with openness and nuanced thinking, we often discover deeper patterns and possibilities that might otherwise remain hidden. "
  , "Each area of human experience offers its own wisdom and insights. By bringing emotional intelligence to these explorations, we can engage with them not just intellectually, but in ways that enrich our understanding and choices. " ]

/-- One topic rule of `detectTopics`: the source regexes there are plain
(unanchored, non-word-bounded) alternations of literal substrings, so a
rule fires when any alternative occurs as a substring of the lowercased
text. -/
def topicRule (t : List Char) (alts : List String) : Bool :=
  alts.any (fun a => containsSub a.toList t)

/-- `detectTopics` rule for `mathematics` and its nested subtopic pushes. -/
def mathematicsTopic (t : List Char) : List (String × ℚ) :=
  if topicRule t ["math", "algebra", "equation", "geometry", "calculus", "trigonometry", "statistics", "probability", "theorem", "function", "graph", "number", "variable", "formula", "solve", "proof"] then
    [("mathematics", 0.9)]
    ++ (if topicRule t ["algebra", "equation", "variable", "solve", "polynomial", "quadratic", "linear", "exponential", "logarithm"] then [("algebra", 0.85)] else [])
    ++ (if topicRule t ["geometry", "angle", "triangle", "circle", "square", "polygon", "shape", "area", "volume", "perimeter", "theorem", "pythagorean"] then [("geometry", 0.85)] else [])
    ++ (if topicRule t ["calculus", "derivative", "integral", "limit", "differentiation", "integration", "rate of change", "optimization", "maximum", "minimum"] then [("calculus", 0.85)] else [])
  else []

/-- `detectTopics` rule for `physics` (substring alternation, source order). -/
def physicsTopic (t : List Char) : List (String × ℚ) :=
  if topicRule t ["physics", "motion", "force", "energy", "gravity", "momentum", "electricity", "magnetism", "quantum", "relativity", "wave", "particle", "atom", "nuclear", "thermodynamics"] then [("physics", 0.9)] else []

/-- `detectTopics` rule for `chemistry` (substring alternation, source order). -/
def chemistryTopic (t : List Char) : List (String × ℚ) :=
  if topicRule t ["chemistry", "element", "compound", "molecule", "atom", "reaction", "bond", "acid", "base", "organic", "inorganic", "solution", "periodic table", "electron", "proton", "neutron"] then [("chemistry", 0.9)] else []

/-- `detectTopics` rule for `biology` (substring alternation, source order). -/
def biologyTopic (t : List Char) : List (String × ℚ) :=
  if topicRule t ["biology", "cell", "gene", "dna", "rna", "protein", "evolution", "species", "organism", "ecosystem", "tissue", "organ", "reproduction", "heredity", "natural selection"] then [("biology", 0.9)] else []

/-- `detectTopics` rule for `environmental_science` (substring alternation, source order). -/
def environmentalTopic (t : List Char) : List (String × ℚ) :=
  if topicRule t ["environment", "ecosystem", "climate", "pollution", "sustainability", "biodiversity", "conservation", "habitat", "renewable", "fossil fuel", "carbon", "global warming"] then [("environmental_science", 0.9)] else []

/-- `detectTopics` rule for `geography` (substring alternation, source order). -/
def geographyTopic (t : List Char) : List (String × ℚ) :=
  if topicRule t ["geography", "map", "continent", "country", "region", "climate", "landform", "mountain", "river", "ocean", "population", "urban", "rural", "demographic"] then [("geography", 0.9)] else []

/-- `detectTopics` rule for `history` and its nested subtopic pushes. -/
def historyTopic (t : List Char) : List (String × ℚ) :=
  if topicRule t ["history", "ancient", "medieval", "renaissance", "revolution", "war", "civilization", "empire", "colony", "century", "period", "era", "artifact", "historical", "dynasty"] then
    [("history", 0.9)]
    ++ (if topicRule t ["ancient", "rome", "greece", "egypt", "mesopotamia", "babylon", "pharaoh", "pyramid", "classical"] then [("ancient_history", 0.85)] else [])
    ++ (if topicRule t ["modern", "world war", "industrial revolution", "cold war", "20th century", "contemporary"] then [("modern_history", 0.85)] else [])
  else []

/-- `detectTopics` rule for `civics` (substring alternation, source order). -/
def civicsTopic (t : List Char) : List (String × ℚ) :=
  if topicRule t ["government", "civic", "citizen", "democracy", "republic", "constitution", "law", "policy", "election", "vote", "political", "rights", "judicial", "legislative", "executive"] then [("civics", 0.9)] else []

/-- `detectTopics` rule for `philosophy` (substring alternation, source order). -/
def philosophyTopic (t : List Char) : List (String × ℚ) :=
  if topicRule t ["philosophy", "ethics", "morality", "epistemology", "metaphysics", "logic", "existence", "knowledge", "reality", "consciousness", "meaning", "value", "wisdom", "thinker"] then [("philosophy", 0.9)] else []

/-- `detectTopics` rule for `economics` (substring alternation, source order). -/
def economicsTopic (t : List Char) : List (String × ℚ) :=
  if topicRule t ["economics", "market", "supply", "demand", "inflation", "recession", "gdp", "economy", "financial", "fiscal", "monetary", "investment", "capital", "trade", "labor", "price"] then [("economics", 0.9)] else []

/-- `detectTopics` rule for `technology` and its nested subtopic pushes. -/
def technologyTopic (t : List Char) : List (String × ℚ) :=
  if topicRule t ["computer", "software", "hardware", "program", "code", "tech", "ai", "artificial intelligence", "app", "website", "algorithm", "data structure", "programming", "developer"] then
    [("technology", 0.9)]
    ++ (if topicRule t ["python", "javascript", "java", "c++", "ruby", "php", "programming language", "code", "syntax", "variable", "function", "class", "object", "method"] then [("programming", 0.85)] else [])
    ++ (if topicRule t ["data science", "statistics", "machine learning", "deep learning", "neural network", "dataset", "visualization", "analysis", "predictive", "regression"] then [("data_science", 0.85)] else [])
    ++ (if topicRule t ["cybersecurity", "hacking", "firewall", "malware", "virus", "encryption", "password", "authentication", "protection", "privacy", "vulnerability"] then [("cybersecurity", 0.85)] else [])
  else []

/-- `detectTopics` rule for `blockchain` (substring alternation, source order). -/
def blockchainTopic (t : List Char) : List (String × ℚ) :=
  if topicRule t ["blockchain", "cryptocurrency", "bitcoin", "ethereum", "nft", "token", "smart contract", "web3", "decentralized", "mining", "wallet", "crypto"] then [("blockchain", 0.9)] else []

/-- `detectTopics` rule for `ar_vr` (substring alternation, source order). -/
def arVrTopic (t : List Char) : List (String × ℚ) :=
  if topicRule t ["augmented reality", "virtual reality", "ar", "vr", "metaverse", "immersive", "simulation", "3d environment", "headset", "oculus", "vive"] then [("ar_vr", 0.9)] else []

/-- `detectTopics` rule for `psychology` (substring alternation, source order). -/
def psychologyTopic (t : List Char) : List (String × ℚ) :=
  if topicRule t ["psychology", "mind", "behavior", "cognitive", "emotion", "mental", "personality", "perception", "consciousness", "subconscious", "therapy", "counseling", "psychological"] then [("psychology", 0.9)] else []

/-- `detectTopics` rule for `sociology` (substring alternation, source order). -/
def sociologyTopic (t : List Char) : List (String × ℚ) :=
  if topicRule t ["sociology", "society", "social", "community", "group", "culture", "institution", "norm", "interaction", "collective", "structure", "function", "status", "role"] then [("sociology", 0.9)] else []

/-- `detectTopics` rule for `anthropology` (substring alternation, source order). -/
def anthropologyTopic (t : List Char) : List (String × ℚ) :=
  if topicRule t ["anthropology", "culture", "ethnic", "indigenous", "tribe", "ritual", "artifact", "human evolution", "archaeology", "cultural practice", "customs", "traditions"] then [("anthropology", 0.9)] else []

/-- `detectTopics` rule for `political_science` (substring alternation, source order). -/
def politicalScienceTopic (t : List Char) : List (String × ℚ) :=
  if topicRule t ["political science", "politics", "government", "state", "power", "authority", "policy", "international relations", "diplomacy", "sovereignty", "regime"] then [("political_science", 0.9)] else []

/-- `detectTopics` rule for `ethics_religion` (substring alternation, source order). -/
def ethicsReligionTopic (t : List Char) : List (String × ℚ) :=
  if topicRule t ["ethics", "moral", "value", "principle", "right", "wrong", "virtue", "vice", "justice", "fairness", "equality", "religion", "spiritual", "faith", "belief", "divine", "sacred"] then [("ethics_religion", 0.9)] else []

/-- `detectTopics` rule for `visual_arts` (substring alternation, source order). -/
def visualArtsTopic (t : List Char) : List (String × ℚ) :=
  if topicRule t ["art", "painting", "drawing", "sculpture", "design", "artistic", "visual", "aesthetic", "museum", "gallery", "artist", "creative", "composition", "technique", "medium"] then [("visual_arts", 0.9)] else []

/-- `detectTopics` rule for `music` (substring alternation, source order). -/
def musicTopic (t : List Char) : List (String × ℚ) :=
  if topicRule t ["music", "song", "melody", "harmony", "rhythm", "instrument", "composer", "musician", "band", "orchestra", "concert", "genre", "note", "scale", "chord", "piano", "guitar"] then [("music", 0.9)] else []

/-- `detectTopics` rule for `creative_writing` (substring alternation, source order). -/
def creativeWritingTopic (t : List Char) : List (String × ℚ) :=
  if topicRule t ["writing", "author", "novel", "story", "poem", "fiction", "character", "plot", "setting", "narrative", "literature", "creative writing", "prose", "poetry", "screenplay"] then [("creative_writing", 0.9)] else []

/-- `detectTopics` rule for `performing_arts` (substring alternation, source order). -/
def performingArtsTopic (t : List Char) : List (String × ℚ) :=
  if topicRule t ["theater", "theatre", "drama", "dance", "performance", "actor", "actress", "stage", "script", "play", "choreography", "ballet", "musical", "acting", "directing"] then [("performing_arts", 0.9)] else []

/-- `detectTopics` rule for `film_media` (substring alternation, source order). -/
def filmMediaTopic (t : List Char) : List (String × ℚ) :=
  if topicRule t ["film", "movie", "cinema", "director", "screenplay", "scene", "shot", "camera", "editing", "documentary", "animation", "tv", "television", "media", "broadcast"] then [("film_media", 0.9)] else []

/-- `detectTopics` rule for `sports` and its nested subtopic pushes. -/
def sportsTopic (t : List Char) : List (String × ℚ) :=
  if topicRule t ["sport", "game", "athlete", "team", "competition", "tournament", "physical", "exercise", "fitness", "training", "coach", "strategy", "technique", "practice", "championship"] then
    [("sports", 0.9)]
    ++ (if topicRule t ["football", "soccer", "goal", "pitch", "striker", "defender", "midfielder", "goalkeeper", "ball", "match", "league", "cup", "stadium"] then [("football_soccer", 0.85)] else [])
    ++ (if topicRule t ["basketball", "court", "hoop", "dribble", "shoot", "rebound", "pass", "block", "dunk", "point guard", "center", "forward", "nba"] then [("basketball", 0.85)] else [])
    ++ (if topicRule t ["tennis", "court", "racket", "serve", "volley", "backhand", "forehand", "deuce", "set", "match", "grand slam", "ace", "baseline"] then [("tennis", 0.85)] else [])
  else []

/-- `detectTopics` rule for `yoga_mindfulness` (substring alternation, source order). -/
def yogaTopic (t : List Char) : List (String × ℚ) :=
  if topicRule t ["yoga", "meditation", "mindfulness", "breath", "pose", "asana", "practice", "mindful", "awareness", "presence", "relaxation", "stress reduction"] then [("yoga_mindfulness", 0.9)] else []

/-- `detectTopics` rule for `health` (substring alternation, source order). -/
def healthTopic (t : List Char) : List (String × ℚ) :=
  if topicRule t ["health", "sick", "doctor", "hospital", "pain", "symptom", "illness", "disease", "medication", "treatment", "medical", "diagnosis", "therapy", "prevention", "cure"] then [("health", 0.9)] else []

/-- `detectTopics` rule for `work_career` (substring alternation, source order). -/
def workCareerTopic (t : List Char) : List (String × ℚ) :=
  if topicRule t ["work", "job", "career", "office", "boss", "colleague", "profession", "employment", "business", "company", "interview", "resume", "cv", "workplace", "hire"] then [("work_career", 0.9)] else []

/-- `detectTopics` rule for `relationships` (substring alternation, source order). -/
def relationshipsTopic (t : List Char) : List (String × ℚ) :=
  if topicRule t ["relationship", "friend", "family", "partner", "love", "marriage", "divorce", "dating", "boyfriend", "girlfriend", "spouse", "parent", "child", "sibling", "bond"] then [("relationships", 0.9)] else []

/-- `detectTopics` rule for `education` (substring alternation, source order). -/
def educationTopic (t : List Char) : List (String × ℚ) :=
  if topicRule t ["school", "college", "university", "study", "learn", "education", "student", "teacher", "professor", "class", "course", "curriculum", "degree", "diploma", "academic"] then [("education", 0.9)] else []

/-- `detectTopics` rule for `question` (substring alternation, source order). -/
def questionTopic (t : List Char) : List (String × ℚ) :=
  if topicRule t ["what", "why", "how", "when", "where", "who", "which"] then [("question", 0.7)] else []

/-- `detectTopics` rule for `emotions` (substring alternation, source order). -/
def emotionsTopic (t : List Char) : List (String × ℚ) :=
  if topicRule t ["feel", "emotion", "sad", "happy", "angry", "frustrated", "anxious", "worry", "stress", "depression", "joy", "fear", "surprise", "trust", "anticipation"] then [("emotions", 0.9)] else []

/-- `EnhancedVADResponder.detectTopics` (source lines 172–381): the ordered
concatenation of the rule pushes above (one definition per source `if`
block, in source order), and the `general` fallback when nothing
matched. -/
def detectTopics (text : String) : List (String × ℚ) :=
  let t := text.toList.map jsToLower
  let topics := List.flatten
    [ mathematicsTopic t, physicsTopic t, chemistryTopic t, biologyTopic t
    , environmentalTopic t, historyTopic t, geographyTopic t, civicsTopic t
    , philosophyTopic t, economicsTopic t, technologyTopic t, blockchainTopic t
    , arVrTopic t, psychologyTopic t, sociologyTopic t, anthropologyTopic t
    , politicalScienceTopic t, ethicsReligionTopic t, visualArtsTopic t
    , musicTopic t, creativeWritingTopic t, performingArtsTopic t
    , filmMediaTopic t, sportsTopic t, yogaTopic t, healthTopic t
    , workCareerTopic t, relationshipsTopic t, educationTopic t
    , questionTopic t, emotionsTopic t ]
  if topics.isEmpty then [("general", 0.5)] else topics
/-- The backslash character: the source's greeting and help guards are
regex literals containing `\\b`, which the regex engine reads as an
escaped literal backslash followed by the letter `b` — not as a word
boundary. -/
def bsChar : Char := Char.ofNat 92

/-- The greeting guard of `generateResponse` (source line 404):
`/^(hello|hi|hey|greetings|good (morning|afternoon|evening))\\b/i` — the
text must start with one of the greeting words immediately followed by a
literal backslash and `b`. -/
def greetingGuard (lower : List Char) : Bool :=
  [wl "hello", wl "hi", wl "hey", wl "greetings", wl "good morning",
   wl "good afternoon", wl "good evening"].any
    (fun a => (a ++ [bsChar, 'b']).isPrefixOf lower)

/-- The help guard of `generateResponse` (source line 409):
`/\\b(help|assist|support)\\b/i` — the text must contain a literal
backslash-`b`, the keyword, and another literal backslash-`b`. -/
def helpGuard (lower : List Char) : Bool :=
  [wl "help", wl "assist", wl "support"].any
    (fun a => containsSub ([bsChar, 'b'] ++ a ++ [bsChar, 'b']) lower)

/-- The "how are you" guard of `generateResponse` (source line 414):
`/how are you/i`. -/
def howAreYouGuard (lower : List Char) : Bool :=
  containsSub (wl "how are you") lower

/-- `EnhancedVADResponder.generateResponse` (source lines 389–617): the
three regex-guarded shortcuts, then the general path — an optional
valence-keyed acknowledgment (70 % gate), an optional emotion-specific
elaboration (50 % gate, only for confusion and interest/curiosity), the
main-topic paragraph, and a conversation-continuation prompt.  Each
`Math.random()` call of the source consumes one draw of the stream, in
source order. -/
def generateResponse (r : RandState) (text : String) (vadScore : VADScore) :
    String × RandState :=
  let emotion := vadScore.primaryEmotion
  let valence := vadScore.valence
  let topics := detectTopics text
  let lower := text.toList.map jsToLower
  if greetingGuard lower && decide (text.length < 20) then
    let g := getRandomElement GREETING_PHRASES r
    (g.1 ++ " I notice a " ++ emotion ++ " tone in your message. How can I assist you today?",
     g.2)
  else if helpGuard lower && decide (text.length < 30) then
    let g := getRandomElement HELP_PHRASES r
    ("I\x27d be happy to help! " ++ g.1, g.2)
  else if howAreYouGuard lower && decide (text.length < 30) then
    ("I\x27m functioning well, thank you for asking! More importantly, how are you feeling today?",
     r)
  else
    let d1 := r.next
    let ack :=
      if d1.1 > 0.3 then
        if valence > 0.3 then
          let p := getRandomElement POSITIVE_ACKNOWLEDGMENTS d1.2
          (p.1 ++ " ", p.2)
        else if valence < -0.3 then
          let p := getRandomElement NEGATIVE_ACKNOWLEDGMENTS d1.2
          (p.1 ++ " ", p.2)
        else
          let p := getRandomElement NEUTRAL_ACKNOWLEDGMENTS d1.2
          (p.1 ++ " ", p.2)
      else ("", d1.2)
    let d2 := ack.2.next
    let spec :=
      if d2.1 > 0.5 then
        if emotion == "confusion" then
          let p := getRandomElement CONFUSION_RESPONSES d2.2
          (p.1 ++ " ", p.2)
        else if emotion == "interest" || emotion == "curiosity" then
          let p := getRandomElement INTEREST_RESPONSES d2.2
          (p.1 ++ " ", p.2)
        else ("", d2.2)
      else ("", d2.2)
    let mainTopic := (topics.headD ("", 0)).1
    let topicPool :=
      if mainTopic == "emotions" then emotionsResponses
      else if mainTopic == "technology" then techResponses
      else if mainTopic == "health" then healthResponses
      else if mainTopic == "work" then workResponses
      else if mainTopic == "relationships" then relationshipResponses
      else if mainTopic == "education" then educationResponses
      else if mainTopic == "mathematics" then mathResponses
      else if mainTopic == "physics" then physicsResponses
      else if mainTopic == "chemistry" then chemistryResponses
      else if mainTopic == "biology" then biologyResponses
      else if mainTopic == "history" then historyResponses
      else if mainTopic == "philosophy" then philosophyResponses
      else if mainTopic == "programming" || mainTopic == "data_science" then programmingResponses
      else if mainTopic == "economics" then economicsResponses
      else if mainTopic == "psychology" then psychologyResponses
      else if mainTopic == "visual_arts" || mainTopic == "music" || mainTopic == "film_media" then artsResponses
      else if mainTopic == "sports" then sportsResponses
      else generalResponses
    let tp := getRandomElement topicPool spec.2
    let tr := getRandomElement TOPIC_TRANSITIONS tp.2
    (ack.1 ++ spec.1 ++ tp.1 ++ tr.1, tr.2)


/-- Case-insensitive variant of `matchWordAt`: the pattern is lowercase and
each text character is lowered before comparison (the `i` regex flag);
the trailing `\b` checks the original character class, which `isWordChar`
already is. -/
def matchWordAtCI : List Char → List Char → Bool
  | [], [] => true
  | [], c :: _ => !isWordChar c
  | _ :: _, [] => false
  | p :: ps, c :: cs => p == jsToLower c && matchWordAtCI ps cs

/-- Case-insensitive `occursWordFrom`. -/
def occursWordFromCI (p : List Char) : List Char → Bool → Bool
  | [], _ => false
  | c :: cs, atB =>
      (atB && matchWordAtCI p (c :: cs)) || occursWordFromCI p cs (!isWordChar c)

/-- `new RegExp("\\b" ++ p ++ "\\b", "i").test text` for a literal
lowercase word `p`. -/
def occursAsWordCI (p : List Char) (text : List Char) : Bool :=
  occursWordFromCI p text true

/-- Global scan for a plain (unanchored) alternation regex: at each
position the first alternative that matches is collected and the scan
resumes after it, as `String.prototype.match` with a `g` flag does. -/
def scanMatches (alts : List (List Char)) : List Char → List (List Char)
  | [] => []
  | c :: cs =>
      match alts.find? (fun a => isSubAt a (c :: cs)) with
      | some a => a :: scanMatches alts (cs.drop (a.length - 1))
      | none => scanMatches alts cs
termination_by l => l.length
decreasing_by
  · simp only [List.length_drop, List.length_cons]; omega
  · simp

/-- Global scan for a word-bounded case-insensitive alternation regex
(`\b(alt1|…)\b` with flags `gi`); collects the lowercase alternative that
matched, which is what the source's `.map(g => g.toLowerCase())` keeps.
Every alternative ends in a word character, so the position right after a
match is not a word boundary. -/
def scanWordMatchesCI (alts : List (List Char)) : List Char → Bool → List (List Char)
  | [], _ => []
  | c :: cs, atB =>
      if atB then
        match alts.find? (fun a => matchWordAtCI a (c :: cs)) with
        | some a => a :: scanWordMatchesCI alts (cs.drop (a.length - 1)) false
        | none => scanWordMatchesCI alts cs (!isWordChar c)
      else scanWordMatchesCI alts cs (!isWordChar c)
termination_by l _ => l.length
decreasing_by
  · simp only [List.length_drop, List.length_cons]; omega
  · simp
  · simp

/-- The distinct elements of a list in first-occurrence order (a JavaScript
`Set` built by repeated insertion, read back with `Array.from`). -/
def firstDedupCL (seen : List (List Char)) : List (List Char) → List (List Char)
  | [] => []
  | x :: xs =>
      if seen.contains x then firstDedupCL seen xs
      else x :: firstDedupCL (x :: seen) xs

/-- Split on runs of sentence terminators (`split(/[.!?]+/)`). -/
def splitTermRunsAux : List Char → List Char → Bool → List (List Char)
  | [], acc, _ => [acc.reverse]
  | c :: cs, acc, inSep =>
      if c == '.' || c == '!' || c == '?' then
        if inSep then splitTermRunsAux cs [] true
        else acc.reverse :: splitTermRunsAux cs [] true
      else splitTermRunsAux cs (c :: acc) false

/-- `allText.split(/[.!?]+/)`. -/
def splitTermRuns (l : List Char) : List (List Char) := splitTermRunsAux l [] false

/-- Is this character an ASCII capital letter (the regex class `[A-Z]`)? -/
def isUpperAZ (c : Char) : Bool := 'A' ≤ c && c ≤ 'Z'

/-- `/[A-Z]{3,}/.test`: three consecutive capitals somewhere. -/
def hasUpperRun3 : List Char → Bool
  | a :: b :: c :: rest =>
      (isUpperAZ a && isUpperAZ b && isUpperAZ c) || hasUpperRun3 (b :: c :: rest)
  | _ => false

/-- The writing-style feature record (interface `TextStyleFeatures`). -/
structure TextStyleFeatures where
  usesEmojis : Bool
  usesBro : Bool
  usesShorthand : Bool
  usesAllCaps : Bool
  usesLowerCase : Bool
  usesExclamations : Bool
  usesEllipses : Bool
  usesSlang : Bool
  preferredEmojis : List String
  casualGreetings : List String
  casualClosings : List String
  averageSentenceLength : ℚ
deriving Repr

/-- The alternatives of `basicEmoticons`
(`/:\)|:\(|:D|:P|;P|;\)|;P|;\(|:\//g`), in source order (`;P` really
appears twice). -/
def basicEmoticonAlts : List (List Char) :=
  [wl ":)", wl ":(", wl ":D", wl ":P", wl ";P", wl ";)", wl ";P", wl ";(", wl ":/"]

/-- The casual-greeting alternation of `analyzeTextStyle`. -/
def casualGreetingAlts : List (List Char) :=
  [wl "hey", wl "hi", wl "hello", wl "yo", wl "sup", wl "wassup", wl "howdy",
   wl "hiya", wl "heya", wl "what\x27s up", wl "whats up",
   wl "how\x27s it going", wl "hows it going"]

/-- The casual-closing alternation of `analyzeTextStyle`. -/
def casualClosingAlts : List (List Char) :=
  [wl "bye", wl "see ya", wl "later", wl "ttyl", wl "talk to you later",
   wl "cya", wl "peace", wl "cheers", wl "thanks", wl "thx"]

/-- The internet-shorthand alternation of `analyzeTextStyle`. -/
def shorthandAlts : List String :=
  ["lol", "lmao", "rofl", "omg", "wtf", "idk", "tbh", "imo", "imho", "btw",
   "afaik", "rn", "u", "ur", "r", "y", "n", "k", "pls", "thx"]

/-- The slang alternation of `analyzeTextStyle`. -/
def slangAlts : List String :=
  ["cool", "awesome", "lit", "fire", "dope", "sick", "wicked", "rad", "sweet",
   "chill", "vibe", "flex", "slay", "goals", "mood", "tea", "shade", "ghosted",
   "salty", "extra", "basic", "sus", "low-key", "high-key", "yeet", "bet",
   "cap", "no cap"]

/-- The `bro`-class casual-address alternation of `analyzeTextStyle`. -/
def broAlts : List String :=
  ["bro", "bruh", "dude", "man", "mate", "buddy", "pal", "fam"]

/-- `EnhancedVADResponder.analyzeTextStyle` (source lines 640–726): all
style probes over the space-joined current text and history, exactly as in
the source (emoticon scan, preferred-emoji ranking by count with a stable
descending sort, sentence-length average, greeting/closing collection,
and the boolean probes). -/
def analyzeTextStyle (text : String) (messageHistory : List String) : TextStyleFeatures :=
  let allText := (String.intercalate " " (text :: messageHistory)).toList
  let lowercaseText := allText.map jsToLower
  let foundEmoticons := scanMatches basicEmoticonAlts allText
  let foundHearts := scanMatches [wl "<3"] allText
  let allEmoji := foundEmoticons ++ foundHearts
  let usesEmojis := !allEmoji.isEmpty
  let defaultEmojis : List String := [":)", ":D", "<3", ";)", ":P"]
  let keys := firstDedupCL [] allEmoji
  let counted := keys.map (fun k => (k, allEmoji.count k))
  let sorted := counted.mergeSort (fun x y => y.2 ≤ x.2)
  let preferredEmojis :=
    if !allEmoji.isEmpty then (sorted.take 5).map (fun p => String.mk p.1)
    else defaultEmojis
  let sentences := (splitTermRuns allText).filter (fun s => 0 < (jsTrim s).length)
  let averageSentenceLength : ℚ :=
    if 0 < sentences.length then
      ((sentences.map (fun s => (splitWS (jsTrim s)).length)).sum : ℕ) / (sentences.length : ℚ)
    else 10
  let casualGreetings :=
    (firstDedupCL [] (scanWordMatchesCI casualGreetingAlts allText true)).map String.mk
  let casualClosings :=
    (firstDedupCL [] (scanWordMatchesCI casualClosingAlts allText true)).map String.mk
  let usesBro := broAlts.any (fun a => occursAsWordCI a.toList lowercaseText)
  let usesShorthand := shorthandAlts.any (fun a => occursAsWordCI a.toList lowercaseText)
  let usesAllCaps := hasUpperRun3 allText
  let usesLowerCase :=
    text.toList == text.toList.map jsToLower && decide (10 < text.length)
  let usesExclamations := 1 < (allText.filter (fun c => c == '!')).length
  let usesEllipses := containsSub (wl "...") allText
  let usesSlang := slangAlts.any (fun a => occursAsWordCI a.toList lowercaseText)
  { usesEmojis := usesEmojis, usesBro := usesBro, usesShorthand := usesShorthand
  , usesAllCaps := usesAllCaps, usesLowerCase := usesLowerCase
  , usesExclamations := usesExclamations, usesEllipses := usesEllipses
  , usesSlang := usesSlang, preferredEmojis := preferredEmojis
  , casualGreetings := if casualGreetings.isEmpty then ["hi", "hey"] else casualGreetings
  , casualClosings := if casualClosings.isEmpty then ["thanks", "bye"] else casualClosings
  , averageSentenceLength := averageSentenceLength }

/-- Is this character a comma or whitespace (the class `[,\s]` of the
pet-name removal regex)? -/
def isCommaOrWS (c : Char) : Bool := c == ',' || c.isWhitespace

/-- One global pass of
`response.replace(new RegExp("\\b" ++ term ++ "\\b[,\\s]*", "gi"), "")`:
delete each word-bounded case-insensitive occurrence of `term` together
with the run of commas/whitespace that follows it; scanning resumes after
the deleted span with the boundary state of the last deleted character. -/
def removeTermScan (term : List Char) : List Char → Bool → List Char
  | [], _ => []
  | c :: cs, atB =>
      if atB && matchWordAtCI term (c :: cs) then
        let afterTerm := cs.drop (term.length - 1)
        let trailing := afterTerm.takeWhile isCommaOrWS
        removeTermScan term (afterTerm.drop trailing.length) (!trailing.isEmpty)
      else c :: removeTermScan term cs (!isWordChar c)
termination_by l _ => l.length
decreasing_by
  · simp only [List.length_drop, List.length_cons]; omega
  · simp

/-- The `forEach` over `STYLE_GUIDELINES.petNames` in `removePetNames`. -/
def removeAllPetTerms (l : List Char) : List Char :=
  petNames.foldl (fun acc term => removeTermScan term.toList acc true) l

/-- `EnhancedVADResponder.removePetNames` (source lines 740–763): a no-op
when the user's own message contains any pet name as a substring
(`userTextLower.includes(term)`), otherwise every word-bounded occurrence
of every pet name (plus trailing commas/whitespace) is stripped. -/
def removePetNames (response : String) (userText : String) : String :=
  let userTextLower := userText.toList.map jsToLower
  let userUsesPetNames := petNames.any (fun term => containsSub term.toList userTextLower)
  if userUsesPetNames then response
  else String.mk (removeAllPetTerms response.toList)

/-- `styledResponse.replace(/\bi\b/g, "I")` (run after lowercasing): the
lone word `i` becomes `I`. -/
def replaceLoneI : List Char → Bool → List Char
  | [], _ => []
  | c :: cs, atB =>
      if atB && c == 'i' && (match cs with | [] => true | d :: _ => !isWordChar d) then
        'I' :: replaceLoneI cs false
      else c :: replaceLoneI cs (!isWordChar c)

/-- Split on `/(?<=[.!?])\s+/`: a whitespace run that follows a sentence
terminator separates sentences; the whole run is consumed. -/
def splitSentencesAux : List Char → List Char → List (List Char)
  | [], acc => [acc.reverse]
  | c :: cs, acc =>
      if c.isWhitespace && (match acc with
          | p :: _ => p == '.' || p == '!' || p == '?'
          | [] => false) then
        acc.reverse :: splitSentencesAux (cs.drop ((cs.takeWhile Char.isWhitespace).length)) []
      else splitSentencesAux cs (c :: acc)
termination_by l _ => l.length
decreasing_by
  · simp only [List.length_drop, List.length_cons]; omega
  · simp

/-- `styledResponse.split(/(?<=[.!?])\s+/)`. -/
def splitSentences (l : List Char) : List (List Char) := splitSentencesAux l []

/-- `sentence.replace(/[.!?]$/, ", bro$&")`: insert `", bro"` before a
trailing sentence terminator. -/
def broTail (s : List Char) : List Char :=
  match s.reverse with
  | c :: rest =>
      if c == '.' || c == '!' || c == '?' then rest.reverse ++ wl ", bro" ++ [c]
      else s
  | [] => s

/-- The per-sentence map of the `usesBro` stage (source lines 779–790):
for a non-first sentence one draw gates a `"Bro, "` prefix; otherwise (and
for the first sentence, where the `i > 0 &&` short-circuit skips the first
draw) a draw gates the `", bro"` tail. -/
def broMapAux (r : RandState) : List (List Char) → ℕ → List (List Char) × RandState
  | [], _ => ([], r)
  | s :: ss, i =>
      if 0 < i then
        let d1 := r.next
        if d1.1 < 0.3 then
          let rest := broMapAux d1.2 ss (i + 1)
          ((wl "Bro, " ++ s) :: rest.1, rest.2)
        else
          let d2 := d1.2.next
          let s2 := if d2.1 < 0.3 then broTail s else s
          let rest := broMapAux d2.2 ss (i + 1)
          (s2 :: rest.1, rest.2)
      else
        let d2 := r.next
        let s2 := if d2.1 < 0.3 then broTail s else s
        let rest := broMapAux d2.2 ss (i + 1)
        (s2 :: rest.1, rest.2)

/-- Count the word-bounded case-insensitive occurrences of `w` (the
`(styledResponse.match(regex) || []).length` of the shorthand stage). -/
def countWordCI (w : List Char) : List Char → Bool → ℕ
  | [], _ => 0
  | c :: cs, atB =>
      if atB && matchWordAtCI w (c :: cs) then
        1 + countWordCI w (cs.drop (w.length - 1)) false
      else countWordCI w cs (!isWordChar c)
termination_by l _ => l.length
decreasing_by
  · simp only [List.length_drop, List.length_cons]; omega
  · simp

/-- One call of `styledResponse.replace(regex, shorthand)` with a `gi`
regex: every word-bounded case-insensitive occurrence of `w` is replaced
by `repl` (each of the source's loop iterations replaces *all* remaining
occurrences, because the regex carries the `g` flag). -/
def replaceWordCI (w repl : List Char) : List Char → Bool → List Char
  | [], _ => []
  | c :: cs, atB =>
      if atB && matchWordAtCI w (c :: cs) then
        repl ++ replaceWordCI w repl (cs.drop (w.length - 1)) false
      else c :: replaceWordCI w repl cs (!isWordChar c)
termination_by l _ => l.length
decreasing_by
  · simp only [List.length_drop, List.length_cons]; omega
  · simp

/-- The `shorthandMap` of `applyUserStyle`, in source (insertion) order. -/
def shorthandMap : List (String × String) :=
  [("you", "u"), ("your", "ur"), ("are", "r"), ("for", "4"), ("to", "2"),
   ("be", "b"), ("please", "pls"), ("thanks", "thx"), ("thank you", "thx"),
   ("right now", "rn"), ("I don\x27t know", "idk"), ("in my opinion", "imo"),
   ("by the way", "btw"), ("as far as I know", "afaik")]

/-- The shorthand stage (source lines 794–825): per map entry, count the
occurrences and, when any exist, run `ceil(count/2)` global replacements
(the first of which already replaces every occurrence). -/
def applyShorthand (l : List Char) : List Char :=
  shorthandMap.foldl (fun acc kv =>
    let w := kv.1.toList.map jsToLower
    let instances := countWordCI w acc true
    if 0 < instances then
      Nat.iterate (fun s => replaceWordCI w kv.2.toList s true) ((instances + 1) / 2) acc
    else acc) l

/-- `replace(/\./g, m => rand < p ? repl : m)`: every `.` consumes one
draw and is replaced when the draw is below `p`. -/
def randReplaceDot (p : ℚ) (repl : List Char) : RandState → List Char → List Char × RandState
  | r, [] => ([], r)
  | r, c :: cs =>
      if c == '.' then
        let d := r.next
        let rest := randReplaceDot p repl d.2 cs
        ((if d.1 < p then repl else [c]) ++ rest.1, rest.2)
      else
        let rest := randReplaceDot p repl r cs
        (c :: rest.1, rest.2)

/-- `replace(/(?<=[a-z])\./g, m => rand < 0.2 ? "!!" : m)`: a `.` preceded
by a lowercase letter consumes one draw and may become `!!`; `prev` is the
previous character of the original string. -/
def randReplaceDotAfterLower : RandState → Option Char → List Char → List Char × RandState
  | r, _, [] => ([], r)
  | r, prev, c :: cs =>
      if c == '.' && (match prev with
          | some p => 'a' ≤ p && p ≤ 'z'
          | none => false) then
        let d := r.next
        let rest := randReplaceDotAfterLower d.2 (some c) cs
        ((if d.1 < 0.2 then wl "!!" else [c]) ++ rest.1, rest.2)
      else
        let rest := randReplaceDotAfterLower r (some c) cs
        (c :: rest.1, rest.2)

/-- The emoji stage's per-terminator replacement
(`replace(/[.!?]/g, m => rand < 0.25 ? m + " " + pick : m)`): each
terminator consumes one draw, and a successful gate consumes a second draw
for the pick. -/
def randEmoji (pref : List String) : RandState → List Char → List Char × RandState
  | r, [] => ([], r)
  | r, c :: cs =>
      if c == '.' || c == '!' || c == '?' then
        let d1 := r.next
        if d1.1 < 0.25 then
          let pick := getRandomElement pref d1.2
          let rest := randEmoji pref pick.2 cs
          (c :: ' ' :: pick.1.toList ++ rest.1, rest.2)
        else
          let rest := randEmoji pref d1.2 cs
          (c :: rest.1, rest.2)
      else
        let rest := randEmoji pref r cs
        (c :: rest.1, rest.2)

/-- `positiveSlang` of the slang stage. -/
def positiveSlang : List String := ["awesome", "cool", "lit", "sick", "dope"]

/-- `casualSlang` of the slang stage. -/
def casualSlang : List String := ["tbh", "ngl", "low-key", "high-key", "vibe"]

/-- `styledResponse.replace(regex, () => pool[floor(rand * pool.length)])`
with a `gi` word regex: every word-bounded case-insensitive occurrence of
`w` consumes one draw and becomes the drawn pool element. -/
def randReplaceWordCI (w : List Char) (pool : List String) :
    RandState → List Char → Bool → List Char × RandState
  | r, [], _ => ([], r)
  | r, c :: cs, atB =>
      if atB && matchWordAtCI w (c :: cs) then
        let pick := getRandomElement pool r
        let rest := randReplaceWordCI w pool pick.2 (cs.drop (w.length - 1)) false
        (pick.1.toList ++ rest.1, rest.2)
      else
        let rest := randReplaceWordCI w pool r cs (!isWordChar c)
        (c :: rest.1, rest.2)
termination_by _ l _ => l.length
decreasing_by
  · simp only [List.length_drop, List.length_cons]; omega
  · simp

/-- `s.charAt(0).toLowerCase() + s.slice(1)`. -/
def lowerFirst : List Char → List Char
  | [] => []
  | c :: cs => jsToLower c :: cs

/-- Sentence-terminator class of the long-sentence splitter. -/
def isTermCh (c : Char) : Bool := c == '.' || c == '!' || c == '?'

/-- Separator class `[,;]` of the long-sentence splitter. -/
def isSepCh (c : Char) : Bool := c == ',' || c == ';'

/-- Try the regex `([^.!?]{20,})[,;]\s+([^.!?]+)` at the head of `l` with
group 1 of length exactly `k`: `l[k]` must be a separator, at least one
whitespace character must follow, and the maximal `[^.!?]` run after the
separator must have length at least 2 (the greedy `\s+` gives one
character back to group 2 when that run is all whitespace).  Returns
`(k, j, ntLen)` where `j` is the number of characters `\s+` consumed and
`ntLen` the length of the run forming `\s+` plus group 2. -/
def trySepAt (l : List Char) (k : ℕ) : Option (ℕ × ℕ × ℕ) :=
  match (l.drop k).head? with
  | some sep =>
      if isSepCh sep then
        let rest := l.drop (k + 1)
        let wsLen := (rest.takeWhile Char.isWhitespace).length
        let ntLen := (rest.takeWhile (fun c => !isTermCh c)).length
        if 1 ≤ wsLen && 2 ≤ ntLen then
          some (k, if wsLen < ntLen then wsLen else wsLen - 1, ntLen)
        else none
      else none
  | none => none

/-- Greedy backtracking over group 1's length: try `k`, `k-1`, …, `20`. -/
def findSplitDown (l : List Char) : ℕ → Option (ℕ × ℕ × ℕ)
  | 0 => none
  | k + 1 =>
      if k + 1 < 20 then none
      else
        match trySepAt l (k + 1) with
        | some res => some res
        | none => findSplitDown l k

/-- `replace(/([^.!?]{20,})[,;]\s+([^.!?]+)/g, "$1. $2")` (source line
884): break an over-long comma/semicolon-joined clause into two
sentences.  Scanning is leftmost; a match consumes group 1, the separator
and the whitespace-plus-group-2 run, and emits `group1 ++ ". " ++ group2`. -/
def splitLongSentences : List Char → List Char
  | [] => []
  | c :: cs =>
      let l := c :: cs
      let run := l.takeWhile (fun ch => !isTermCh ch)
      match findSplitDown l run.length with
      | some (k, j, ntLen) =>
          let g2 := ((l.drop (k + 1)).take ntLen).drop j
          l.take k ++ wl ". " ++ g2 ++ splitLongSentences (l.drop (k + 1 + ntLen))
      | none => c :: splitLongSentences cs
termination_by l => l.length
decreasing_by
  · simp only [List.length_drop, List.length_cons]; omega
  · simp

/-- `EnhancedVADResponder.applyUserStyle` (source lines 765–888): the
eight style-mirroring stages in source order, threading the
`Math.random()` stream exactly as the source consumes it. -/
def applyUserStyle (r : RandState) (originalResponse : String)
    (userStyle : TextStyleFeatures) : String × RandState :=
  let s0 := originalResponse.toList
  let s1 := if userStyle.usesLowerCase then replaceLoneI (s0.map jsToLower) true else s0
  let br :=
    if userStyle.usesBro then
      let m := broMapAux r (splitSentences s1) 0
      (List.intercalate (wl " ") m.1, m.2)
    else (s1, r)
  let s3 := if userStyle.usesShorthand then applyShorthand br.1 else br.1
  let ex :=
    if userStyle.usesExclamations then
      let e1 := randReplaceDot 0.3 (wl "!") br.2 s3
      randReplaceDotAfterLower e1.2 none e1.1
    else (s3, br.2)
  let el :=
    if userStyle.usesEllipses then randReplaceDot 0.15 (wl "...") ex.2 ex.1
    else ex
  let em :=
    if userStyle.usesEmojis && !userStyle.preferredEmojis.isEmpty then
      let e1 := randEmoji userStyle.preferredEmojis el.2 el.1
      let d := e1.2.next
      if d.1 < 0.5 then
        let pick := getRandomElement userStyle.preferredEmojis d.2
        (e1.1 ++ (' ' :: pick.1.toList), pick.2)
      else (e1.1, d.2)
    else el
  let sl :=
    if userStyle.usesSlang then
      let afterAdj := ["good", "great", "excellent", "nice"].foldl
        (fun acc adj => randReplaceWordCI adj.toList positiveSlang acc.2 acc.1 true)
        em
      let d := afterAdj.2.next
      if d.1 < 0.3 then
        let pick := getRandomElement casualSlang d.2
        (pick.1.toList ++ wl ", " ++ lowerFirst afterAdj.1, pick.2)
      else (afterAdj.1, d.2)
    else em
  let s8 :=
    if userStyle.averageSentenceLength < 5 then splitLongSentences sl.1 else sl.1
  (String.mk s8, sl.2)

/-- `EnhancedVADResponder.generateImitationResponse` (source lines
897–909): generate, filter pet names against the user's text, analyze the
user's style, and mirror it. -/
def generateImitationResponse (r : RandState) (text : String) (vadScore : VADScore)
    (messageHistory : List String) : String × RandState :=
  let regular := generateResponse r text vadScore
  let filtered := removePetNames regular.1 text
  let userStyle := analyzeTextStyle text messageHistory
  applyUserStyle regular.2 filtered userStyle

/-- `APIKeyManager` of `routes.ts` (lines 68–195): the priority list, the
rotation index, and the per-model usage counters (`keyUsage`, a `Map` in
insertion order).  The `models` map's handles are identified with their
names. -/
structure APIKeyManager where
  modelPriority : List String
  currentModelIndex : ℕ
  keyUsage : List (String × ℕ)
deriving Repr, DecidableEq

/-- `this.keyUsage.set(modelName, (this.keyUsage.get(modelName) || 0) + 1)`
on the insertion-ordered map. -/
def usageIncr (u : List (String × ℕ)) (k : String) : List (String × ℕ) :=
  if u.any (fun p => p.1 == k) then
    u.map (fun p => if p.1 == k then (k, p.2 + 1) else p)
  else u ++ [(k, 1)]

/-- `APIKeyManager.getCurrentModel` (source lines 142–155): `null` when the
priority list is empty, otherwise the model at the current index with its
usage counter incremented as a side effect (usage accounting happens on
selection).  The out-of-range index case cannot arise — the index starts
at 0 and `rotateToNextModel` always reduces it modulo the length — and is
modelled as returning `null`. -/
def APIKeyManager.getCurrentModel (m : APIKeyManager) : Option String × APIKeyManager :=
  if m.modelPriority.length = 0 then (none, m)
  else
    match m.modelPriority.get? m.currentModelIndex with
    | some modelName =>
        (some modelName, { m with keyUsage := usageIncr m.keyUsage modelName })
    | none => (none, m)

/-- `APIKeyManager.rotateToNextModel` (source lines 161–170): advance the
index circularly, then select (and count) the model there. -/
def APIKeyManager.rotateToNextModel (m : APIKeyManager) : Option String × APIKeyManager :=
  if m.modelPriority.length = 0 then (none, m)
  else
    ({ m with currentModelIndex := (m.currentModelIndex + 1) % m.modelPriority.length
     } : APIKeyManager).getCurrentModel

/-- Attempt the given prompt strategies in order against one provider; the
generation oracle `gen model strategy` returns `some response` on success
and `none` when the provider call throws.  Returns the response (if any)
and the `(model, strategy)` attempts actually issued. -/
def tryStrategyList (gen : String → ℕ → Option String) (model : String) :
    List ℕ → Option String × List (String × ℕ)
  | [] => (none, [])
  | s :: rest =>
      match gen model s with
      | some resp => (some resp, [(model, s)])
      | none =>
          let t := tryStrategyList gen model rest
          (t.1, (model, s) :: t.2)

/-- One provider attempt of the rotation loop (source lines 1440–1480):
strategy 1 (full history) runs only when the formatted history is valid
(`length ≥ 2` and first role `"user"`, abstracted as `historyOk`), then
strategy 2 (message plus context prompt), then strategy 3 (bare
message). -/
def providerAttempt (gen : String → ℕ → Option String) (historyOk : Bool)
    (model : String) : Option String × List (String × ℕ) :=
  tryStrategyList gen model (if historyOk then [1, 2, 3] else [2, 3])

/-- Outcome of the rotation loop: a response, the
`"All API models exhausted"` / `"All API attempts failed"` error, or the
`null`-model error after a rotation. -/
inductive OrchResult
  | success (response : String)
  | exhausted
  | noModels
deriving Repr, DecidableEq

/-- One step shy of `rotationLoop` below: the
`while (!apiSuccess && attemptCount < MAX_ROTATION_ATTEMPTS)` loop of
`generateOptimizedResponse` (source lines 1436–1499) with the remaining
iteration budget `maxAttempts - attemptCount` passed as an explicit
structural recursion argument (`fuel`); all guards are still the source
literals over `attemptCount`.  Each iteration tries the current
provider's strategies, and on failure either rotates to the next provider
(when attempts remain) or signals exhaustion (the source's
`"All API models exhausted"` throw).  Also returns the manager state and
the list of `(model, strategy)` attempts issued. -/
def rotationLoopGo (gen : String → ℕ → Option String) (historyOk : Bool)
    (maxAttempts : ℕ) :
    ℕ → APIKeyManager → String → ℕ → OrchResult × APIKeyManager × List (String × ℕ)
  | 0, mgr, _, _ => (.exhausted, mgr, [])
  | fuel + 1, mgr, currentModel, attemptCount =>
    if attemptCount < maxAttempts then
      let att := providerAttempt gen historyOk currentModel
      match att.1 with
      | some resp => (.success resp, mgr, att.2)
      | none =>
          if attemptCount + 1 < maxAttempts then
            let rot := mgr.rotateToNextModel
            match rot.1 with
            | none => (.noModels, rot.2, att.2)
            | some nextModel =>
                let rest := rotationLoopGo gen historyOk maxAttempts fuel rot.2
                  nextModel (attemptCount + 1)
                (rest.1, rest.2.1, att.2 ++ rest.2.2)
          else (.exhausted, mgr, att.2)
    else (.exhausted, mgr, [])

/-- The rotation loop entered with the full iteration budget. -/
def rotationLoop (gen : String → ℕ → Option String) (historyOk : Bool)
    (mgr : APIKeyManager) (currentModel : String) (attemptCount maxAttempts : ℕ) :
    OrchResult × APIKeyManager × List (String × ℕ) :=
  rotationLoopGo gen historyOk maxAttempts (maxAttempts - attemptCount) mgr
    currentModel attemptCount

/-- Outcome of one `generateOptimizedResponse` call: a cache hit, a
provider-generated (and cached) response, the static no-providers string,
or a thrown error (which the route handler catches). -/
inductive OrchOutcome
  | cached (response : String)
  | generated (response : String)
  | staticReply (response : String)
  | threw
deriving Repr, DecidableEq

/-- The shared mutable state `generateOptimizedResponse` touches: the
response cache singleton and the API key manager singleton. -/
structure OrchState where
  cache : ResponseCache
  mgr : APIKeyManager
deriving Repr, DecidableEq

/-- `generateOptimizedResponse` (source lines 1082–1506) on its default
configuration (`useEchoEnhanced`/`echoEnhancedSearch` off, so the search
branch is skipped): trim the input, try the exact cache (whose hit bumps
recency), then the similarity cache at threshold `0.8`; on a miss, when
the API is available, select the current model and run the rotation loop
with `MAX_ROTATION_ATTEMPTS = modelPriority.length || 1`; a success is
written to the cache and returned, exhaustion propagates as a thrown
error; with no API available the static apology string is returned
uncached. -/
def generateOptimizedResponse (gen : String → ℕ → Option String) (historyOk : Bool)
    (isAPIAvailable : Bool) (st : OrchState) (now : ℤ) (userInput0 : String)
    (vadScore : VADScore) : OrchOutcome × OrchState × List (String × ℕ) :=
  let userInput := String.mk (jsTrim userInput0.toList)
  let g := st.cache.get now userInput
  match g.1 with
  | some entry => (.cached entry.response, { st with cache := g.2 }, [])
  | none =>
    match st.cache.findSimilar now userInput 0.8 with
    | some entry => (.cached entry.response, st, [])
    | none =>
        if isAPIAvailable then
          let cur := st.mgr.getCurrentModel
          match cur.1 with
          | none => (.threw, { st with mgr := cur.2 }, [])
          | some model =>
              let maxAttempts :=
                if st.mgr.modelPriority.length = 0 then 1 else st.mgr.modelPriority.length
              let loop := rotationLoop gen historyOk cur.2 model 0 maxAttempts
              match loop.1 with
              | .success resp =>
                  (.generated resp,
                   ⟨st.cache.set now userInput resp vadScore, loop.2.1⟩, loop.2.2)
              | _ => (.threw, { st with mgr := loop.2.1 }, loop.2.2)
        else
          (.staticReply "I\x27m experiencing technical difficulties. Please try again in a moment.",
           st, [])

/-- The AI-response block of the message routes (`routes.ts`, the guest
endpoint's `try`/`catch` at lines 344–392 and the identical authenticated
branch): run `generateOptimizedResponse`; on a thrown error fall back to
`EnhancedVADResponder.generateImitationResponse` over the user's raw
message, affect score and previous messages.  Returns the reply text, the
final orchestration state, whether the fallback generator produced the
reply, and the advanced random stream.  (The route's preceding rate-limit
check and its persistence calls to `storage` are the collaborator's side
and are not part of this state.) -/
def handleMessage (gen : String → ℕ → Option String) (historyOk : Bool)
    (isAPIAvailable : Bool) (st : OrchState) (now : ℤ) (userInput0 : String)
    (vadScore : VADScore) (r : RandState) (userMessages : List String) :
    String × OrchState × Bool × RandState :=
  let res := generateOptimizedResponse gen historyOk isAPIAvailable st now userInput0 vadScore
  match res.1 with
  | .threw =>
      let fb := generateImitationResponse r userInput0 vadScore userMessages
      (fb.1, res.2.1, true, fb.2)
  | .cached s => (s, res.2.1, false, r)
  | .generated s => (s, res.2.1, false, r)
  | .staticReply s => (s, res.2.1, false, r)

/-- The provider sequence an all-fail orchestration call attempts when the
manager's rotation index is `i`: the priority list read circularly from
`i`. -/
def rotateAttempts (P : List String) (i : ℕ) : List String :=
  (List.range P.length).map (fun k => P.getD ((i + k) % P.length) "")

/-- The `(model, strategy)` trace of `n` consecutive failing provider
attempts starting at rotation index `i` (taken modulo the list length),
each exhausting strategies 1–3 before rotating. -/
def allFailTrace (P : List String) : ℕ → ℕ → List (String × ℕ)
  | _, 0 => []
  | i, n + 1 =>
      let name := P.getD (i % P.length) ""
      (name, 1) :: (name, 2) :: (name, 3) :: allFailTrace P (i + 1) n

/-- Characters counted by the non-emptiness argument: every reply the
fallback generator can build contains at least one `!` or `?`, and no
style-mirroring stage ever deletes one. -/
def isBang (c : Char) : Bool := c == '!' || c == '?'

/-- Number of `!`/`?` characters in a string. -/
def bangCount (l : List Char) : ℕ := l.countP isBang

/-- The `\b`-state after scanning all of `x`, starting from state `b`. -/
def stateAfter : List Char → Bool → Bool
  | [], b => b
  | c :: cs, b => stateAfter cs (!isWordChar c)

/-- Word-boundary truth at the head position (end of string counts as a
boundary). -/
def boundPeek : List Char → Bool
  | [] => true
  | c :: _ => !isWordChar c

/-- Every character is a lowercase ASCII letter (true of each pet name and
of the guarded fragments below). -/
def lowerAlpha (p : List Char) : Bool := p.all (fun c => 'a' ≤ c && c ≤ 'z')

/-- The watched words of the pet-name analysis: the denylist itself plus
the fragments `ear` and `arling`, whose merger with the final `D` of an
inserted `:D` emoticon would re-create `dear`/`darling`. -/
def watchWords : List (List Char) :=
  petNames.map (fun s => s.toList) ++ [wl "ear", wl "arling"]

/-- No watched word occurs word-bounded (case-insensitively) when scanning
starts in `\b`-state `b`. -/
def cleanAt (b : Bool) (l : List Char) : Prop :=
  ∀ q ∈ watchWords, occursWordFromCI q l b = false

/-- Every string `getRandomElement` can pick from a preferred-emoji list:
an element of the emoticon alternation, the heart, a default emoji, or the
out-of-range default `""`. -/
def emojiCandidates : List (List Char) :=
  [wl ":)", wl ":(", wl ":D", wl ":P", wl ";P", wl ";)", wl ";(", wl ":/", wl "<3", []]

/-- Every string `analyzeTextWithVAD` can return as `primaryEmotion`. -/
def emotionCatalog : List String :=
  ["empathy", "neutral", "excitement", "anger", "fear", "sadness", "calm",
   "confusion", "hope", "interest"] ++ emotionMap.map (fun e => e.1)

/-- Is the last character a non-word character?  (`false` for the empty
string.) -/
def lastNonWord : List Char → Bool
  | [] => false
  | [c] => !isWordChar c
  | _ :: c :: cs => lastNonWord (c :: cs)

-- ===================== END OF DEFINITIONS (VAD) =====================

set_option maxRecDepth 100000

/-! ### Supporting lemmas for the Affect Scorer claims -/

theorem neg_one_le_clampQ (x : ℚ) : -1 ≤ clampQ x := le_max_left _ _

theorem clampQ_le_one (x : ℚ) : clampQ x ≤ 1 :=
  max_le (by norm_num) (min_le_left _ _)

theorem ite_nonneg_q {P : Prop} [Decidable P] {x : ℚ} (hx : 0 ≤ x) :
    (0 : ℚ) ≤ if P then x else 0 := by
  split
  · exact hx
  · exact le_refl 0

theorem confidenceFormula_bounds (tw : ℚ) (pe : String) (wc : ℕ) (v : ℚ) :
    0.4 ≤ confidenceFormula tw pe wc v ∧ confidenceFormula tw pe wc v ≤ 0.95 := by
  unfold confidenceFormula
  constructor
  · refine le_min (by norm_num) ?_
    have hb : (0.4 : ℚ) ≤ min 0.9 (max 0.4 (tw / 4)) :=
      le_min (by norm_num) (le_max_left _ _)
    have h1 : (0:ℚ) ≤ if pe ≠ "neutral" then 0.1 else 0 := ite_nonneg_q (by norm_num)
    have h2 : (0:ℚ) ≤ if 5 < wc then 0.05 else 0 := ite_nonneg_q (by norm_num)
    have h3 : (0:ℚ) ≤ if 0.7 < |v| then 0.05 else 0 := ite_nonneg_q (by norm_num)
    linarith
  · exact min_le_left _ _

theorem finishScore_fields (vS aS dS w : ℚ) (wc : ℕ) :
    (finishScore vS aS dS w wc).valence = clampQ (vS / (if w ≤ 0 then 1 else w)) ∧
    (finishScore vS aS dS w wc).arousal = clampQ (aS / (if w ≤ 0 then 1 else w)) ∧
    (finishScore vS aS dS w wc).dominance = clampQ (dS / (if w ≤ 0 then 1 else w)) := by
  exact ⟨rfl, rfl, rfl⟩

theorem finishScore_conf (vS aS dS w : ℚ) (wc : ℕ) :
    ∃ c, (finishScore vS aS dS w wc).confidence = some c ∧ 0.4 ≤ c ∧ c ≤ 0.95 :=
  ⟨_, rfl, confidenceFormula_bounds _ _ _ _⟩

theorem analyzeCore_as_finish (text : String) :
    ∃ vS aS dS w wc, analyzeCore text = finishScore vS aS dS w wc :=
  ⟨_, _, _, _, _, rfl⟩

/-- Claim C1 (amended): every affect dimension lies in `[-1, 1]` for every
input, and for every input that is not empty or whitespace-only the
confidence is present and lies in `[0, 0.95]`; an empty or whitespace-only
input carries no confidence value at all (which is why the claim as stated,
with a confidence bound for *every* input, fails). -/
theorem affect_score_ranges (text : String) :
    (-1 ≤ (analyzeTextWithVAD text).valence ∧ (analyzeTextWithVAD text).valence ≤ 1) ∧
    (-1 ≤ (analyzeTextWithVAD text).arousal ∧ (analyzeTextWithVAD text).arousal ≤ 1) ∧
    (-1 ≤ (analyzeTextWithVAD text).dominance ∧ (analyzeTextWithVAD text).dominance ≤ 1) ∧
    (¬ text.toList.all (fun c => c.isWhitespace) →
      ∃ c, (analyzeTextWithVAD text).confidence = some c ∧ 0 ≤ c ∧ c ≤ 0.95) := by
  unfold analyzeTextWithVAD
  split
  · refine ⟨⟨by norm_num, by norm_num⟩, ⟨by norm_num, by norm_num⟩,
      ⟨by norm_num, by norm_num⟩, ?_⟩
    intro h
    simp_all
  · obtain ⟨vS, aS, dS, w, wc, h⟩ := analyzeCore_as_finish text
    rw [h]
    obtain ⟨hv, ha, hd⟩ := finishScore_fields vS aS dS w wc
    obtain ⟨c, hc, hc1, hc2⟩ := finishScore_conf vS aS dS w wc
    refine ⟨?_, ?_, ?_, ?_⟩
    · rw [hv]; exact ⟨neg_one_le_clampQ _, clampQ_le_one _⟩
    · rw [ha]; exact ⟨neg_one_le_clampQ _, clampQ_le_one _⟩
    · rw [hd]; exact ⟨neg_one_le_clampQ _, clampQ_le_one _⟩
    · intro _
      exact ⟨c, hc, by linarith, hc2⟩

/-- Claim C1, witness: the amended claim instantiated at the non-blank
input `"hi"`. -/
theorem affect_score_ranges_witness :
    ∃ c, (analyzeTextWithVAD "hi").confidence = some c ∧ 0 ≤ c ∧ c ≤ 0.95 :=
  (affect_score_ranges "hi").2.2.2 (by decide)

/-- Claim C1, counterexample to the claim as stated: the empty input (one
of the inputs the claim explicitly covers) returns a `VADScore` with no
confidence value at all, so its confidence does not lie in `[0, 0.95]`. -/
theorem affect_score_ranges_cex :
    (analyzeTextWithVAD "").confidence = none := rfl

/-- Claim C10: for every non-empty, non-whitespace input the confidence is
defined and lies in `[0.4, 0.95]`; an empty or whitespace-only input
returns a score with no confidence value. -/
theorem confidence_range_and_blank (text : String) :
    (text.toList.all (fun c => c.isWhitespace) →
      (analyzeTextWithVAD text).confidence = none) ∧
    (¬ text.toList.all (fun c => c.isWhitespace) →
      ∃ c, (analyzeTextWithVAD text).confidence = some c ∧ 0.4 ≤ c ∧ c ≤ 0.95) := by
  unfold analyzeTextWithVAD
  split
  · exact ⟨fun _ => rfl, fun h => by simp_all⟩
  · rename_i hguard
    refine ⟨fun h => absurd h hguard, fun _ => ?_⟩
    obtain ⟨vS, aS, dS, w, wc, h⟩ := analyzeCore_as_finish text
    rw [h]
    exact finishScore_conf vS aS dS w wc

/-- Claim C10, witness: both branches instantiated — the whitespace-only
input `" "` has no confidence, and `"hi"` has a confidence in
`[0.4, 0.95]`. -/
theorem confidence_range_and_blank_witness :
    (analyzeTextWithVAD " ").confidence = none ∧
    ∃ c, (analyzeTextWithVAD "hi").confidence = some c ∧ 0.4 ≤ c ∧ c ≤ 0.95 :=
  ⟨(confidence_range_and_blank " ").1 (by decide),
   (confidence_range_and_blank "hi").2 (by decide)⟩

/-- Claim C2, counterexample to the claim as stated: in
`"not ok. great"` the only negator (`"not"`) sits in the first clause,
which is terminated by `'.'`, while the positive pattern `\bgreat\b` sits
in the second clause; under the claim its valence contribution may not be
inverted, which would make the result `(0.64 - 0.2) / 1.0 > 0`, yet the
code's global negation flag inverts it and the valence comes out negative
(the flag is only cleared by a word that still ends in a terminator after
one trailing punctuation character was stripped, which `"ok."` does not). -/
theorem negation_cex :
    (analyzeTextWithVAD "not ok. great").valence < 0 ∧
    0 < (analyzeTextWithVAD "great").valence := by
  with_unfolding_all decide

/-- Claim C2 (amended): the negation flag is computed once over the whole
text (set by any negator token, cleared only by a word that still ends in
`.`/`!`/`?` after one trailing punctuation character was stripped) and then
inverts and dampens the valence of *every* matched pattern except
`\bnot\b` itself, by `×0.8` and a further `×0.7` when the flip turns the
value negative — it is not restricted to patterns the negator precedes in
the same clause.  The documented consequences hold:
`valence "I am happy" = 0.8 > 0`, and `valence "I am not happy"` is exactly
the `0.8`-flipped, `0.7`-re-dampened value
`(-(0.8·0.8·0.7)·0.9 - 1.0·0.2) / 1.1`, which is smaller. -/
theorem negation_inverts_and_dampens :
    0 < (analyzeTextWithVAD "I am happy").valence ∧
    (analyzeTextWithVAD "I am not happy").valence
      < (analyzeTextWithVAD "I am happy").valence ∧
    (analyzeTextWithVAD "I am happy").valence = 0.8 ∧
    (analyzeTextWithVAD "I am not happy").valence
      = (-(0.8 * 0.8 * 0.7) * 0.9 - 1.0 * 0.2) / 1.1 := by
  with_unfolding_all decide

theorem RateLimiter.step_admit (win : ℤ) (maxR : ℕ) (acc : List ℤ) (now : ℤ)
    (hlen : acc.length < maxR) (hkeep : ∀ t ∈ acc, now - t < win) :
    (RateLimiter.isRateLimited ⟨some acc, win, maxR⟩ now)
      = (false, ⟨some (acc ++ [now]), win, maxR⟩) := by
  unfold RateLimiter.isRateLimited
  have hfilter : acc.filter (fun time => now - time < win) = acc :=
    List.filter_eq_self.mpr (fun t ht => decide_eq_true (hkeep t ht))
  simp only [hfilter]
  rw [if_neg (by omega)]

theorem RateLimiter.runCalls_admits (win : ℤ) (maxR : ℕ) :
    ∀ (rest acc : List ℤ), acc.length + rest.length ≤ maxR →
    (∀ a ∈ acc, ∀ b ∈ rest, b - a < win) →
    (∀ a ∈ rest, ∀ b ∈ rest, a - b < win) →
    RateLimiter.runCalls ⟨some acc, win, maxR⟩ rest
      = (List.replicate rest.length false, ⟨some (acc ++ rest), win, maxR⟩) := by
  intro rest
  induction rest with
  | nil => intro acc _ _ _; simp [RateLimiter.runCalls]
  | cons t ts ih =>
      intro acc hlen hab hbb
      have hstep := RateLimiter.step_admit win maxR acc t
        (by simp at hlen; omega)
        (fun a ha => hab a ha t (by simp))
      simp only [RateLimiter.runCalls, hstep]
      have := ih (acc ++ [t])
        (by simp at hlen ⊢; omega)
        (by
          intro a ha b hb
          rcases List.mem_append.mp ha with h | h
          · exact hab a h b (List.mem_cons_of_mem _ hb)
          · have ha' : a = t := by simpa using h
            rw [ha']
            exact hbb b (List.mem_cons_of_mem _ hb) t (List.mem_cons_self _ _))
        (fun a ha b hb => hbb a (List.mem_cons_of_mem _ ha) b (List.mem_cons_of_mem _ hb))
      simp only [this, List.append_assoc, List.singleton_append, List.replicate_succ,
        List.length_cons]

/-- Claim C3: for one identity with `maxRequests ≥ 1` and `windowMs > 0`
fixed, the first `maxRequests` calls within one window all return `false`
and each records its timestamp; a further call inside the window returns
`true` and records nothing (the state is unchanged); and once `windowMs`
has elapsed since every recorded timestamp, a call returns `false` again
(and starts a fresh record). -/
theorem rate_limiter_window (win : ℤ) (maxR : ℕ) (hmax : 0 < maxR)
    (times : List ℤ) (hlen : times.length = maxR)
    (tlim : ℤ) (hin : ∀ a ∈ times ++ [tlim], ∀ b ∈ times ++ [tlim], a - b < win)
    (t2 : ℤ) (hgone : ∀ a ∈ times, win ≤ t2 - a) :
    (RateLimiter.runCalls ⟨none, win, maxR⟩ times).1 = List.replicate maxR false ∧
    (RateLimiter.runCalls ⟨none, win, maxR⟩ times).2
      = ⟨some times, win, maxR⟩ ∧
    (RateLimiter.isRateLimited ⟨some times, win, maxR⟩ tlim).1 = true ∧
    (RateLimiter.isRateLimited ⟨some times, win, maxR⟩ tlim).2
      = ⟨some times, win, maxR⟩ ∧
    (RateLimiter.isRateLimited ⟨some times, win, maxR⟩ t2).1 = false ∧
    (RateLimiter.isRateLimited ⟨some times, win, maxR⟩ t2).2.requests = some [t2] := by
  obtain ⟨t0, rest, rfl⟩ : ∃ t0 rest, times = t0 :: rest := by
    cases times with
    | nil => simp at hlen; omega
    | cons a l => exact ⟨a, l, rfl⟩
  have hrun : RateLimiter.runCalls ⟨none, win, maxR⟩ (t0 :: rest)
      = (List.replicate (t0 :: rest).length false,
         ⟨some (t0 :: rest), win, maxR⟩) := by
    have h1 : RateLimiter.isRateLimited ⟨none, win, maxR⟩ t0
        = (false, ⟨some [t0], win, maxR⟩) := rfl
    have h2 := RateLimiter.runCalls_admits win maxR rest [t0]
      (by simp at hlen ⊢; omega)
      (by
        intro a ha b hb
        have ha' : a = t0 := by simpa using ha
        rw [ha']
        exact hin b (by simp [hb]) t0 (by simp))
      (fun a ha b hb => hin a (by simp [ha]) b (by simp [hb]))
    simp only [RateLimiter.runCalls, h1, h2, List.singleton_append,
      List.replicate_succ, List.length_cons]
  have hkeeplim : (t0 :: rest).filter (fun time => tlim - time < win) = t0 :: rest :=
    List.filter_eq_self.mpr (fun t ht =>
      decide_eq_true (hin tlim (by simp) t (by simp at ht ⊢; tauto)))
  have hlim1 : RateLimiter.isRateLimited ⟨some (t0 :: rest), win, maxR⟩ tlim
      = (true, ⟨some (t0 :: rest), win, maxR⟩) := by
    unfold RateLimiter.isRateLimited
    simp only [hkeeplim]
    rw [if_pos (by rw [hlen])]
  have hdrop : (t0 :: rest).filter (fun time => t2 - time < win) = [] := by
    rw [List.filter_eq_nil_iff]
    intro t ht
    have := hgone t ht
    simp only [decide_eq_true_eq]
    omega
  have hlate : RateLimiter.isRateLimited ⟨some (t0 :: rest), win, maxR⟩ t2
      = (false, ⟨some [t2], win, maxR⟩) := by
    unfold RateLimiter.isRateLimited
    simp only [hdrop]
    rw [if_neg (by simp; omega)]
    rfl
  refine ⟨?_, ?_, ?_, ?_, ?_, ?_⟩
  · rw [hrun, hlen]
  · rw [hrun]
  · rw [hlim1]
  · rw [hlim1]
  · rw [hlate]
  · rw [hlate]

/-- Claim C3, witness: window 10, cap 2, calls at times 0 and 1 admitted,
a third call at time 1 rejected without recording, and a call at time 50
admitted again. -/
theorem rate_limiter_window_witness :
    (RateLimiter.runCalls ⟨none, 10, 2⟩ [0, 1]).1 = List.replicate 2 false ∧
    (RateLimiter.runCalls ⟨none, 10, 2⟩ [0, 1]).2 = ⟨some [0, 1], 10, 2⟩ ∧
    (RateLimiter.isRateLimited ⟨some [0, 1], 10, 2⟩ 1).1 = true ∧
    (RateLimiter.isRateLimited ⟨some [0, 1], 10, 2⟩ 1).2 = ⟨some [0, 1], 10, 2⟩ ∧
    (RateLimiter.isRateLimited ⟨some [0, 1], 10, 2⟩ 50).1 = false ∧
    (RateLimiter.isRateLimited ⟨some [0, 1], 10, 2⟩ 50).2.requests = some [50] :=
  rate_limiter_window 10 2 (by decide) [0, 1] (by decide) 1 (by decide) 50 (by decide)

/-! ### Supporting lemmas for the Response Cache claims -/

theorem mapGet_map_overwrite (k : String) (v : CacheEntry) :
    ∀ (m : List (String × CacheEntry)), mapHas m k = true →
    mapGet (m.map (fun p => if p.1 == k then (k, v) else p)) k = some v := by
  intro m
  induction m with
  | nil => intro h; simp [mapHas] at h
  | cons p m' ih =>
      intro h
      by_cases hp : p.1 == k
      · simp only [List.map_cons, if_pos hp, mapGet]
        rw [List.find?_cons_of_pos _ (by simp)]
        rfl
      · simp only [List.map_cons, if_neg hp, mapGet] at ih ⊢
        rw [List.find?_cons_of_neg _ (by simpa using hp)]
        refine ih ?_
        simpa [mapHas, hp] using h

theorem mapGet_mapSet_self (m : List (String × CacheEntry)) (k : String) (v : CacheEntry) :
    mapGet (mapSet m k v) k = some v := by
  unfold mapSet
  by_cases h : mapHas m k
  · rw [if_pos h]
    exact mapGet_map_overwrite k v m h
  · rw [if_neg h]
    unfold mapGet
    rw [List.find?_append]
    have hnone : m.find? (fun p => p.1 == k) = none := by
      rw [List.find?_eq_none]
      intro x hx hpx
      exact h (List.any_eq_true.mpr ⟨x, hx, hpx⟩)
    rw [hnone]
    simp

theorem mapHas_mapDelete (m : List (String × CacheEntry)) (k : String) :
    mapHas (mapDelete m k) k = false := by
  unfold mapHas mapDelete
  rw [Bool.eq_false_iff]
  intro h
  obtain ⟨p, hp, hpk⟩ := List.any_eq_true.mp h
  obtain ⟨_, hne⟩ := List.mem_filter.mp hp
  simp only [bne_iff_ne, ne_eq] at hne
  exact hne (by simpa using hpk)

theorem mapSet_length_le (m : List (String × CacheEntry)) (k : String) (v : CacheEntry) :
    (mapSet m k v).length ≤ m.length + 1 := by
  unfold mapSet
  split
  · simp
  · simp

theorem mapDelete_length_lt (m : List (String × CacheEntry)) (k : String)
    (h : mapHas m k = true) : (mapDelete m k).length < m.length := by
  obtain ⟨p, hp, hpk⟩ := List.any_eq_true.mp h
  refine List.length_filter_lt_length_iff_exists.mpr ?_
  exact ⟨p, hp, by simp [hpk]; simpa using hpk⟩

theorem mapGet_some_has (m : List (String × CacheEntry)) (k : String) (e : CacheEntry)
    (h : mapGet m k = some e) : mapHas m k = true := by
  unfold mapGet at h
  cases hf : m.find? (fun p => p.1 == k) with
  | none => rw [hf] at h; simp at h
  | some q =>
      have hq := List.find?_some hf
      exact List.any_eq_true.mpr ⟨q, List.mem_of_find?_eq_some hf, hq⟩

theorem get_found_fresh (c : ResponseCache) (now : ℤ) (input : String) (entry : CacheEntry)
    (hfound : mapGet c.cache (hashInput input) = some entry)
    (hfresh : now - entry.timestamp < c.ttl) :
    c.get now input = (some entry,
      { c with cache := mapSet (mapDelete c.cache (hashInput input)) (hashInput input) entry }) := by
  unfold ResponseCache.get
  simp only [hfound]
  rw [if_pos hfresh]

theorem get_found_stale (c : ResponseCache) (now : ℤ) (input : String) (entry : CacheEntry)
    (hfound : mapGet c.cache (hashInput input) = some entry)
    (hstale : c.ttl ≤ now - entry.timestamp) :
    c.get now input = (none, c) := by
  unfold ResponseCache.get
  simp only [hfound]
  rw [if_neg (by omega)]

theorem set_cache_eq (c : ResponseCache) (now : ℤ) (input response : String)
    (vad : VADScore) :
    ∃ m, (c.set now input response vad).cache
        = mapSet m (hashInput input) ⟨response, now, vad⟩ :=
  ⟨_, rfl⟩

/-- Claim C4: after `set(t, r, a)`, `get(t)` returns the entry containing
`r` while less than the TTL has elapsed since the set, and returns nothing
once the TTL has elapsed; when `set` runs on a full cache of live,
distinct-keyed entries and the inserted key is new, the evicted entry is
exactly the first (least-recently inserted-or-read) entry — never the
newly inserted one, which lands at the most-recent end; and a live `get`
re-inserts the read entry at the most-recent position. -/
theorem cache_ttl_and_lru_eviction (c : ResponseCache) (now now2 : ℤ)
    (input response : String) (vad : VADScore) :
    (now2 - now < c.ttl →
      ((c.set now input response vad).get now2 input).1
        = some ⟨response, now, vad⟩) ∧
    (c.ttl ≤ now2 - now →
      ((c.set now input response vad).get now2 input).1 = none) ∧
    (∀ k e tail, c.cache = (k, e) :: tail →
      (∀ p ∈ c.cache, now - p.2.timestamp < c.ttl) →
      c.capacity ≤ c.cache.length →
      (∀ p ∈ tail, p.1 ≠ k) →
      mapHas c.cache (hashInput input) = false →
      (c.set now input response vad).cache
        = tail ++ [(hashInput input, ⟨response, now, vad⟩)]) ∧
    (∀ entry, mapGet c.cache (hashInput input) = some entry →
      now - entry.timestamp < c.ttl →
      (c.get now input).1 = some entry ∧
      (c.get now input).2.cache
        = mapDelete c.cache (hashInput input) ++ [(hashInput input, entry)]) := by
  have hsetget : mapGet (c.set now input response vad).cache (hashInput input)
      = some ⟨response, now, vad⟩ := by
    obtain ⟨m, hm⟩ := set_cache_eq c now input response vad
    rw [hm]
    exact mapGet_mapSet_self _ _ _
  have httl : (c.set now input response vad).ttl = c.ttl := rfl
  refine ⟨?_, ?_, ?_, ?_⟩
  · intro hfresh
    rw [get_found_fresh _ now2 input _ hsetget (by rw [httl]; exact hfresh)]
  · intro hstale
    rw [get_found_stale _ now2 input _ hsetget (by rw [httl]; exact hstale)]
  · intro k e tail hc hlive hfull hkeys hnew
    unfold ResponseCache.set ResponseCache.cleanup
    have hfilter : c.cache.filter (fun p => now - p.2.timestamp < c.ttl) = c.cache :=
      List.filter_eq_self.mpr (fun p hp => decide_eq_true (hlive p hp))
    rw [hc] at hfilter hfull
    simp only [hc, hfilter]
    rw [if_pos hfull]
    have hdel : mapDelete ((k, e) :: tail) k = tail := by
      unfold mapDelete
      rw [List.filter_cons_of_neg (by simp)]
      exact List.filter_eq_self.mpr (fun p hp => by
        simpa using hkeys p hp)
    rw [hdel]
    unfold mapSet
    rw [if_neg ?hno]
    case hno =>
      rw [hc] at hnew
      intro habs
      rw [Bool.eq_false_iff] at hnew
      exact hnew (by
        unfold mapHas at habs ⊢
        simp only [List.any_cons, Bool.or_eq_true]
        exact Or.inr habs)
  · intro entry hfound hfresh
    rw [get_found_fresh c now input entry hfound hfresh]
    refine ⟨rfl, ?_⟩
    show mapSet (mapDelete c.cache (hashInput input)) (hashInput input) entry = _
    unfold mapSet
    rw [if_neg (by rw [mapHas_mapDelete]; exact Bool.false_ne_true)]

/-- Claim C4, witness: on a cache of capacity 1 with TTL 100, a set at time
0 is read back at time 50 and gone at time 200; on a full two-entry cache
the oldest key `"a"` is evicted (not the new `"c"`); and a live `get`
moves the read entry to the most-recent position. -/
theorem cache_ttl_and_lru_eviction_witness :
    ((ResponseCache.set ⟨[], 1, 100⟩ 0 "a" "r" ⟨0, 0, 0, "empathy", none, none⟩).get 50 "a").1
      = some ⟨"r", 0, ⟨0, 0, 0, "empathy", none, none⟩⟩ ∧
    ((ResponseCache.set ⟨[], 1, 100⟩ 0 "a" "r" ⟨0, 0, 0, "empathy", none, none⟩).get 200 "a").1
      = none ∧
    (ResponseCache.set
        ⟨[("a", ⟨"r1", 0, ⟨0, 0, 0, "empathy", none, none⟩⟩),
          ("b", ⟨"r2", 5, ⟨0, 0, 0, "empathy", none, none⟩⟩)], 2, 100⟩
        10 "c" "r3" ⟨0, 0, 0, "empathy", none, none⟩).cache
      = [("b", ⟨"r2", 5, ⟨0, 0, 0, "empathy", none, none⟩⟩)]
          ++ [(hashInput "c", ⟨"r3", 10, ⟨0, 0, 0, "empathy", none, none⟩⟩)] ∧
    (ResponseCache.get ⟨[("a", ⟨"r1", 0, ⟨0, 0, 0, "empathy", none, none⟩⟩)], 1, 100⟩ 5 "a").1
      = some ⟨"r1", 0, ⟨0, 0, 0, "empathy", none, none⟩⟩ ∧
    (ResponseCache.get ⟨[("a", ⟨"r1", 0, ⟨0, 0, 0, "empathy", none, none⟩⟩)], 1, 100⟩ 5 "a").2.cache
      = mapDelete [("a", ⟨"r1", 0, ⟨0, 0, 0, "empathy", none, none⟩⟩)] (hashInput "a")
          ++ [(hashInput "a", ⟨"r1", 0, ⟨0, 0, 0, "empathy", none, none⟩⟩)] := by
  refine ⟨?_, ?_, ?_, ?_, ?_⟩
  · exact (cache_ttl_and_lru_eviction ⟨[], 1, 100⟩ 0 50 "a" "r" _).1 (by decide)
  · exact (cache_ttl_and_lru_eviction ⟨[], 1, 100⟩ 0 200 "a" "r" _).2.1 (by decide)
  · exact (cache_ttl_and_lru_eviction _ 10 0 "c" "r3" _).2.2.1 "a" _ _ rfl
      (by with_unfolding_all decide) (by decide) (by with_unfolding_all decide)
      (by with_unfolding_all decide)
  · exact ((cache_ttl_and_lru_eviction _ 5 0 "a" "x" ⟨0, 0, 0, "empathy", none, none⟩).2.2.2
      _ (by with_unfolding_all decide) (by decide)).1
  · exact ((cache_ttl_and_lru_eviction _ 5 0 "a" "x" ⟨0, 0, 0, "empathy", none, none⟩).2.2.2
      _ (by with_unfolding_all decide) (by decide)).2

theorem set_snd_length (c : ResponseCache) (now : ℤ) (input response : String)
    (vad : VADScore) (hcap : 0 < c.capacity) (h : c.cache.length ≤ c.capacity) :
    (c.set now input response vad).cache.length ≤ c.capacity := by
  have hfl : (c.cache.filter (fun p => now - p.2.timestamp < c.ttl)).length ≤ c.cache.length :=
    List.length_filter_le _ _
  unfold ResponseCache.set ResponseCache.cleanup
  dsimp only
  refine le_trans (mapSet_length_le _ _ _) ?_
  split
  · split
    · rename_i heq
      simp only [heq, List.length_nil]
      omega
    · rename_i k e tail heq
      have hhas : mapHas (c.cache.filter (fun p => now - p.2.timestamp < c.ttl)) k = true := by
        rw [heq]
        simp [mapHas]
      have hdel := mapDelete_length_lt _ k hhas
      omega
  · rename_i hlt
    omega

theorem get_snd_length (c : ResponseCache) (now : ℤ) (input : String) :
    (c.get now input).2.capacity = c.capacity ∧
    (c.get now input).2.cache.length ≤ c.cache.length := by
  unfold ResponseCache.get
  cases hm : mapGet c.cache (hashInput input) with
  | none => simp [hm]
  | some entry =>
      simp only [hm]
      split
      · refine ⟨rfl, ?_⟩
        have hhas := mapGet_some_has _ _ _ hm
        have hdel := mapDelete_length_lt c.cache (hashInput input) hhas
        have hset := mapSet_length_le (mapDelete c.cache (hashInput input)) (hashInput input) entry
        simp only []
        omega
      · exact ⟨rfl, le_refl _⟩

theorem exec_inv (c : ResponseCache) (op : CacheOp) (hcap : 0 < c.capacity)
    (h : c.cache.length ≤ c.capacity) :
    (c.exec op).capacity = c.capacity ∧ (c.exec op).cache.length ≤ c.capacity := by
  cases op with
  | set now input response vad => exact ⟨rfl, set_snd_length c now input response vad hcap h⟩
  | get now input =>
      obtain ⟨h1, h2⟩ := get_snd_length c now input
      exact ⟨h1, le_trans h2 h⟩
  | findSimilar now input threshold => exact ⟨rfl, h⟩
  | clear => exact ⟨rfl, by simp [ResponseCache.exec, ResponseCache.clear]⟩

theorem execList_inv : ∀ (ops : List CacheOp) (c : ResponseCache), 0 < c.capacity →
    c.cache.length ≤ c.capacity →
    (c.execList ops).capacity = c.capacity ∧
      (c.execList ops).cache.length ≤ c.capacity := by
  intro ops
  induction ops with
  | nil =>
      intro c _ h2
      exact ⟨rfl, h2⟩
  | cons op ops ih =>
      intro c h1 h2
      obtain ⟨hc, hl⟩ := exec_inv c op h1 h2
      have hstep : c.execList (op :: ops) = (c.exec op).execList ops := rfl
      obtain ⟨ha, hb⟩ := ih (c.exec op) (by rw [hc]; exact h1) (by rw [hc]; exact hl)
      rw [hstep]
      exact ⟨by rw [ha, hc], by rw [hc] at hb; exact hb⟩

/-- Claim C9: starting from an empty cache with a positive capacity, every
sequence of `set`, `get`, `findSimilar` and `clear` operations leaves the
number of stored entries at or below the configured capacity. -/
theorem cache_size_bounded (capacity : ℕ) (ttl : ℤ) (hcap : 0 < capacity)
    (ops : List CacheOp) :
    (ResponseCache.execList ⟨[], capacity, ttl⟩ ops).size ≤ capacity := by
  have h := execList_inv ops ⟨[], capacity, ttl⟩ hcap (by simp)
  have hsz : (ResponseCache.execList ⟨[], capacity, ttl⟩ ops).size
      = (ResponseCache.execList ⟨[], capacity, ttl⟩ ops).cache.length := rfl
  rw [hsz]
  exact h.2

/-- Claim C9, witness: two inserts and a read against a capacity-1 cache
leave at most one entry. -/
theorem cache_size_bounded_witness :
    (ResponseCache.execList ⟨[], 1, 5⟩
      [CacheOp.set 0 "a" "r" ⟨0, 0, 0, "empathy", none, none⟩,
       CacheOp.set 1 "b" "r2" ⟨0, 0, 0, "empathy", none, none⟩,
       CacheOp.get 2 "b"]).size ≤ 1 :=
  cache_size_bounded 1 5 (by decide) _

/-- Claim C8 (code bug): the greeting and help shortcuts of
`generateResponse` are guarded by regex literals that contain `\\b`, which
the regex engine reads as a literal backslash followed by the letter `b` —
not a word boundary.  A pure greeting such as `"hello"` (or `"hi there"`)
and a short help request such as `"can you help me"` therefore never
short-circuit (the guard would only fire on bizarre inputs such as
`"hello\bx"` with a real backslash); the `how are you` shortcut, whose
regex has no `\\b`, does fire and returns its dedicated reply for every
random stream and affect score.  The final conjunct shows the `"hello"`
run produces a topic-based reply that starts with no greeting template. -/
theorem fallback_shortcut_guards :
    greetingGuard (("hello".toList).map jsToLower) = false ∧
    greetingGuard (("hi there".toList).map jsToLower) = false ∧
    helpGuard (("can you help me".toList).map jsToLower) = false ∧
    helpGuard (("help".toList).map jsToLower) = false ∧
    greetingGuard ("hello".toList ++ [bsChar, 'b']) = true ∧
    helpGuard ([bsChar, 'b'] ++ "help".toList ++ [bsChar, 'b']) = true ∧
    (∀ (r : RandState) (vad : VADScore),
      (generateResponse r "how are you" vad).1
        = "I\x27m functioning well, thank you for asking! More importantly, how are you feeling today?") ∧
    GREETING_PHRASES.all (fun g =>
      !(g.toList.isPrefixOf
        (generateResponse ⟨fun _ => 1/2, 0⟩ "hello" (analyzeTextWithVAD "hello")).1.toList))
      = true := by
  refine ⟨by decide, by decide, by decide, by decide, by decide, by decide, ?_, ?_⟩
  · intro r vad
    show (generateResponse r "how are you" vad).1 = _
    unfold generateResponse
    rw [if_neg ?hg, if_neg ?hh, if_pos ?hq]
    case hg => decide
    case hh => decide
    case hq => decide
  · with_unfolding_all decide
-- ===== Orchestrator helper lemmas (C5 / C6) =====

theorem tryStrategyList_fail (gen : String → ℕ → Option String)
    (hfail : ∀ m s, gen m s = none) (model : String) :
    ∀ l : List ℕ, tryStrategyList gen model l = (none, l.map (fun s => (model, s)))
  | [] => rfl
  | s :: rest => by
    simp [tryStrategyList, hfail, tryStrategyList_fail gen hfail model rest]

theorem providerAttempt_fail (gen : String → ℕ → Option String)
    (hfail : ∀ m s, gen m s = none) (model : String) :
    providerAttempt gen true model = (none, [(model, 1), (model, 2), (model, 3)]) := by
  simp [providerAttempt, tryStrategyList_fail gen hfail]

theorem getCurrentModel_of_lt (P : List String) (i : ℕ) (u : List (String × ℕ))
    (hi : i < P.length) :
    (⟨P, i, u⟩ : APIKeyManager).getCurrentModel
      = (some (P.getD i ""), ⟨P, i, usageIncr u (P.getD i "")⟩) := by
  have hg : P.get? i = some (P.getD i "") := by
    rw [List.get?_eq_getElem?, List.getElem?_eq_getElem hi, List.getD_eq_getElem P "" hi]
  unfold APIKeyManager.getCurrentModel
  dsimp only
  rw [if_neg (by omega), hg]

theorem rotateToNextModel_of_pos (P : List String) (i : ℕ) (u : List (String × ℕ))
    (hP : 0 < P.length) :
    (⟨P, i, u⟩ : APIKeyManager).rotateToNextModel
      = (some (P.getD ((i + 1) % P.length) ""),
         ⟨P, (i + 1) % P.length, usageIncr u (P.getD ((i + 1) % P.length) "")⟩) := by
  unfold APIKeyManager.rotateToNextModel
  dsimp only
  rw [if_neg (by omega)]
  exact getCurrentModel_of_lt P ((i + 1) % P.length) u (Nat.mod_lt _ hP)

theorem allFailTrace_congr (P : List String) :
    ∀ (n i j : ℕ), i % P.length = j % P.length →
      allFailTrace P i n = allFailTrace P j n
  | 0, _, _, _ => rfl
  | n + 1, i, j, h => by
    have h1 : (i + 1) % P.length = (j + 1) % P.length := by
      rw [Nat.add_mod i 1, Nat.add_mod j 1, h]
    simp only [allFailTrace, h]
    rw [allFailTrace_congr P n (i + 1) (j + 1) h1]

theorem rotationLoopGo_all_fail (gen : String → ℕ → Option String)
    (hfail : ∀ m s, gen m s = none) (P : List String) :
    ∀ (remaining i : ℕ) (u : List (String × ℕ)),
      i < P.length → 0 < remaining → remaining ≤ P.length →
      ∃ u2 : List (String × ℕ),
        rotationLoopGo gen true P.length remaining ⟨P, i, u⟩ (P.getD i "")
            (P.length - remaining)
          = (.exhausted, ⟨P, (i + (remaining - 1)) % P.length, u2⟩,
             allFailTrace P i remaining) := by
  intro remaining
  induction remaining with
  | zero => intro i u _ h0 _; omega
  | succ r ih =>
    intro i u hi _ hle
    have hlen : 0 < P.length := by omega
    simp only [rotationLoopGo, providerAttempt_fail gen hfail]
    rw [if_pos (by omega : P.length - (r + 1) < P.length)]
    by_cases hr : r = 0
    · subst hr
      rw [if_neg (by omega : ¬ P.length - (0 + 1) + 1 < P.length)]
      refine ⟨u, ?_⟩
      simp [allFailTrace, Nat.mod_eq_of_lt hi]
    · rw [if_pos (by omega : P.length - (r + 1) + 1 < P.length)]
      rw [rotateToNextModel_of_pos P i u hlen]
      have harg : P.length - (r + 1) + 1 = P.length - r := by omega
      rw [harg]
      dsimp only
      obtain ⟨u2, hrec⟩ := ih ((i + 1) % P.length)
        (usageIncr u (P.getD ((i + 1) % P.length) ""))
        (Nat.mod_lt _ hlen) (by omega) (by omega)
      rw [hrec]
      refine ⟨u2, ?_⟩
      have hidx : ((i + 1) % P.length + (r - 1)) % P.length
          = (i + (r + 1 - 1)) % P.length := by
        rw [Nat.mod_add_mod]; congr 1; omega
      have htr : allFailTrace P ((i + 1) % P.length) r = allFailTrace P (i + 1) r :=
        allFailTrace_congr P r _ _ (Nat.mod_mod_of_dvd _ dvd_rfl)
      simp only [allFailTrace, hidx, htr, Nat.mod_eq_of_lt hi]
      simp

theorem allFailTrace_eq_flatMap (P : List String) :
    ∀ (n i : ℕ),
      allFailTrace P i n
        = ((List.range n).map (fun k => P.getD ((i + k) % P.length) "")).flatMap
            (fun name => [(name, 1), (name, 2), (name, 3)])
  | 0, i => rfl
  | n + 1, i => by
    have ih := allFailTrace_eq_flatMap P n (i + 1)
    simp only [allFailTrace, List.range_succ_eq_map, List.map_cons, List.map_map,
      List.flatMap_cons, Nat.add_zero]
    rw [List.flatMap_map, ih, List.flatMap_map]
    simp only [List.cons_append, List.nil_append]
    have hfun : ∀ a : ℕ, i + 1 + a = i + a.succ := fun a => by omega
    simp only [hfun, Function.comp_apply]

theorem rotateAttempts_eq (P : List String) (i : ℕ) (hi : i < P.length) :
    rotateAttempts P i = P.drop i ++ P.take i := by
  apply List.ext_getElem
  · simp [rotateAttempts]; omega
  · intro k hk1 hk2
    simp only [rotateAttempts, List.getElem_map, List.getElem_range]
    have hk : k < P.length := by simpa [rotateAttempts] using hk1
    by_cases hcase : k < P.length - i
    · rw [List.getElem_append_left (by simp; omega)]
      rw [List.getElem_drop]
      rw [List.getD_eq_getElem P "" (by rw [Nat.mod_eq_of_lt (by omega)]; omega)]
      congr 1
      rw [Nat.mod_eq_of_lt (by omega)]
    · have h2 : (i + k) % P.length = i + k - P.length := by
        rw [Nat.mod_eq_sub_mod (by omega), Nat.mod_eq_of_lt (by omega)]
      rw [List.getElem_append_right (by simp; omega)]
      rw [List.getElem_take]
      rw [List.getD_eq_getElem P "" (by rw [h2]; omega)]
      congr 1
      rw [h2]
      simp
      omega

theorem rotateAttempts_perm (P : List String) (i : ℕ) (hi : i < P.length) :
    (rotateAttempts P i).Perm P := by
  rw [rotateAttempts_eq P i hi]
  have h : (P.drop i ++ P.take i).Perm (P.take i ++ P.drop i) := List.perm_append_comm
  rw [List.take_append_drop] at h
  exact h

theorem gOR_empty_all_fail (gen : String → ℕ → Option String)
    (hfail : ∀ m s, gen m s = none) (P : List String) (i : ℕ)
    (u : List (String × ℕ)) (cap : ℕ) (ttl now : ℤ) (input : String)
    (vad : VADScore) (hi : i < P.length) :
    ∃ u2 : List (String × ℕ),
      generateOptimizedResponse gen true true ⟨⟨[], cap, ttl⟩, ⟨P, i, u⟩⟩ now input vad
        = (.threw, ⟨⟨[], cap, ttl⟩, ⟨P, (i + (P.length - 1)) % P.length, u2⟩⟩,
           allFailTrace P i P.length) := by
  have hlen : 0 < P.length := by omega
  obtain ⟨u2, hrec⟩ := rotationLoopGo_all_fail gen hfail P P.length i
    (usageIncr u (P.getD i "")) hi hlen le_rfl
  refine ⟨u2, ?_⟩
  unfold generateOptimizedResponse
  dsimp only [ResponseCache.get, mapGet, List.find?, ResponseCache.findSimilar,
    List.foldl, Option.map]
  rw [getCurrentModel_of_lt P i u hi]
  dsimp only [rotationLoop]
  rw [if_neg (by omega : ¬ P.length = 0)]
  rw [Nat.sub_self] at hrec
  rw [if_pos rfl, Nat.sub_zero, hrec]

theorem rotationLoopGo_first_success (gen : String → ℕ → Option String)
    (model resp : String) (h1 : gen model 1 = some resp)
    (maxAttempts fuel attemptCount : ℕ) (mgr : APIKeyManager)
    (hlt : attemptCount < maxAttempts) (hfuel : 0 < fuel) :
    rotationLoopGo gen true maxAttempts fuel mgr model attemptCount
      = (.success resp, mgr, [(model, 1)]) := by
  obtain ⟨f, rfl⟩ : ∃ f, fuel = f + 1 := ⟨fuel - 1, by omega⟩
  simp only [rotationLoopGo, providerAttempt, tryStrategyList, h1]
  rw [if_pos hlt]

theorem gOR_empty_first_success (gen : String → ℕ → Option String)
    (P : List String) (i : ℕ) (u : List (String × ℕ)) (cap : ℕ) (ttl now : ℤ)
    (input : String) (vad : VADScore) (resp : String) (hi : i < P.length)
    (h1 : gen (P.getD i "") 1 = some resp) :
    generateOptimizedResponse gen true true ⟨⟨[], cap, ttl⟩, ⟨P, i, u⟩⟩ now input vad
      = (.generated resp,
         ⟨ResponseCache.set ⟨[], cap, ttl⟩ now (String.mk (jsTrim input.toList)) resp vad,
          ⟨P, i, usageIncr u (P.getD i "")⟩⟩,
         [(P.getD i "", 1)]) := by
  have hlen : 0 < P.length := by omega
  unfold generateOptimizedResponse
  dsimp only [ResponseCache.get, mapGet, List.find?, ResponseCache.findSimilar,
    List.foldl, Option.map]
  rw [getCurrentModel_of_lt P i u hi]
  dsimp only [rotationLoop]
  rw [if_neg (by omega : ¬ P.length = 0)]
  rw [if_pos rfl, Nat.sub_zero]
  rw [rotationLoopGo_first_success gen (P.getD i "") resp h1 P.length P.length 0 _ hlen hlen]

/-- C5: within one orchestration call in which every provider attempt fails
(`gen` always `none`), starting from rotation index `i`, the orchestrator
attempts the configured providers exactly once each — the priority list
read circularly from `i` (`rotateAttempts`, a permutation of the priority
list) — exhausting strategies 1, 2, 3 on each before rotating; the call
then propagates the thrown error (`.threw`), the message route answers it
with `generateImitationResponse` (the fallback generator), and the
manager's rotation index is left at `(i + N - 1) % N` rather than being
reset, so a later call starts from wherever the previous failure run
stopped, not from the highest-priority provider. -/
theorem provider_rotation_all_fail (gen : String → ℕ → Option String)
    (hfail : ∀ m s, gen m s = none) (P : List String) (i : ℕ)
    (u : List (String × ℕ)) (cap : ℕ) (ttl now : ℤ) (input : String)
    (vad : VADScore) (r : RandState) (msgs : List String) (hi : i < P.length) :
    (∃ u2 : List (String × ℕ),
      generateOptimizedResponse gen true true ⟨⟨[], cap, ttl⟩, ⟨P, i, u⟩⟩ now input vad
        = (.threw, ⟨⟨[], cap, ttl⟩, ⟨P, (i + (P.length - 1)) % P.length, u2⟩⟩,
           (rotateAttempts P i).flatMap (fun name => [(name, 1), (name, 2), (name, 3)])))
    ∧ (rotateAttempts P i).Perm P
    ∧ (handleMessage gen true true ⟨⟨[], cap, ttl⟩, ⟨P, i, u⟩⟩ now input vad r msgs).1
        = (generateImitationResponse r input vad msgs).1
    ∧ (handleMessage gen true true ⟨⟨[], cap, ttl⟩, ⟨P, i, u⟩⟩ now input vad r msgs).2.2.1
        = true := by
  obtain ⟨u2, hmain⟩ := gOR_empty_all_fail gen hfail P i u cap ttl now input vad hi
  have htr : allFailTrace P i P.length
      = (rotateAttempts P i).flatMap (fun name => [(name, 1), (name, 2), (name, 3)]) := by
    rw [allFailTrace_eq_flatMap P P.length i]; rfl
  refine ⟨⟨u2, by rw [hmain, htr]⟩, rotateAttempts_perm P i hi, ?_, ?_⟩ <;>
    · unfold handleMessage
      rw [hmain]

/-- C5 counterexample: with the real priority list
`["gemini-2.0-flash", "gemini-1.5-flash"]` and every provider failing, the
first orchestration call attempts `2.0-flash` (strategies 1–3) then
`1.5-flash` (strategies 1–3); but the rotation index persists in the
manager, so the very next all-fail orchestration call starts from
`gemini-1.5-flash`, not from the highest-priority `gemini-2.0-flash` —
refuting "rotation is purely round-robin-on-failure starting from the
highest-priority provider each orchestration call". -/
theorem provider_rotation_cex :
    (generateOptimizedResponse (fun _ _ => none) true true
        ⟨⟨[], 10, 1000⟩, ⟨["gemini-2.0-flash", "gemini-1.5-flash"], 0, []⟩⟩ 0 "hi"
        ⟨0, 0, 0, "empathy", none, none⟩).2.2
      = [("gemini-2.0-flash", 1), ("gemini-2.0-flash", 2), ("gemini-2.0-flash", 3),
         ("gemini-1.5-flash", 1), ("gemini-1.5-flash", 2), ("gemini-1.5-flash", 3)]
    ∧ ((generateOptimizedResponse (fun _ _ => none) true true
        (generateOptimizedResponse (fun _ _ => none) true true
            ⟨⟨[], 10, 1000⟩, ⟨["gemini-2.0-flash", "gemini-1.5-flash"], 0, []⟩⟩ 0 "hi"
            ⟨0, 0, 0, "empathy", none, none⟩).2.1 1 "hi"
        ⟨0, 0, 0, "empathy", none, none⟩).2.2).take 3
      = [("gemini-1.5-flash", 1), ("gemini-1.5-flash", 2), ("gemini-1.5-flash", 3)] := by
  with_unfolding_all decide

theorem provider_rotation_all_fail_witness :
    (∃ u2 : List (String × ℕ),
      generateOptimizedResponse (fun _ _ => none) true true
          ⟨⟨[], 10, 1000⟩, ⟨["gemini-2.0-flash", "gemini-1.5-flash"], 0, []⟩⟩ 0 "hi"
          ⟨0, 0, 0, "empathy", none, none⟩
        = (.threw,
           ⟨⟨[], 10, 1000⟩,
            ⟨["gemini-2.0-flash", "gemini-1.5-flash"],
             (0 + (["gemini-2.0-flash", "gemini-1.5-flash"].length - 1))
               % ["gemini-2.0-flash", "gemini-1.5-flash"].length, u2⟩⟩,
           (rotateAttempts ["gemini-2.0-flash", "gemini-1.5-flash"] 0).flatMap
             (fun name => [(name, 1), (name, 2), (name, 3)])))
    ∧ (rotateAttempts ["gemini-2.0-flash", "gemini-1.5-flash"] 0).Perm
        ["gemini-2.0-flash", "gemini-1.5-flash"]
    ∧ (handleMessage (fun _ _ => none) true true
        ⟨⟨[], 10, 1000⟩, ⟨["gemini-2.0-flash", "gemini-1.5-flash"], 0, []⟩⟩ 0 "hi"
        ⟨0, 0, 0, "empathy", none, none⟩ ⟨fun _ => 0, 0⟩ []).1
        = (generateImitationResponse ⟨fun _ => 0, 0⟩ "hi" ⟨0, 0, 0, "empathy", none, none⟩ []).1
    ∧ (handleMessage (fun _ _ => none) true true
        ⟨⟨[], 10, 1000⟩, ⟨["gemini-2.0-flash", "gemini-1.5-flash"], 0, []⟩⟩ 0 "hi"
        ⟨0, 0, 0, "empathy", none, none⟩ ⟨fun _ => 0, 0⟩ []).2.2.1 = true :=
  provider_rotation_all_fail (fun _ _ => none) (fun _ _ => rfl)
    ["gemini-2.0-flash", "gemini-1.5-flash"] 0 [] 10 1000 0 "hi"
    ⟨0, 0, 0, "empathy", none, none⟩ ⟨fun _ => 0, 0⟩ [] (by decide)

/-- C6 (amended): when every provider attempt fails, the route's catch
block answers with the fallback generator but the response cache is left
exactly as it was — the fallback reply is never written to it — whereas a
successful provider attempt does write its reply to the cache
(`responseCache.set`); caching is therefore not "regardless of source". -/
theorem fallback_reply_not_cached (gen : String → ℕ → Option String)
    (hfail : ∀ m s, gen m s = none) (P : List String) (i : ℕ)
    (u : List (String × ℕ)) (cap : ℕ) (ttl now : ℤ) (input : String)
    (vad : VADScore) (r : RandState) (msgs : List String) (resp : String)
    (hi : i < P.length) :
    (handleMessage gen true true ⟨⟨[], cap, ttl⟩, ⟨P, i, u⟩⟩ now input vad r msgs).2.2.1
      = true
    ∧ (handleMessage gen true true ⟨⟨[], cap, ttl⟩, ⟨P, i, u⟩⟩ now input vad r msgs).2.1.cache
      = ⟨[], cap, ttl⟩
    ∧ (generateOptimizedResponse (fun _ _ => some resp) true true
        ⟨⟨[], cap, ttl⟩, ⟨P, i, u⟩⟩ now input vad).1 = .generated resp
    ∧ (generateOptimizedResponse (fun _ _ => some resp) true true
        ⟨⟨[], cap, ttl⟩, ⟨P, i, u⟩⟩ now input vad).2.1.cache
      = ResponseCache.set ⟨[], cap, ttl⟩ now (String.mk (jsTrim input.toList)) resp vad := by
  obtain ⟨u2, hmain⟩ := gOR_empty_all_fail gen hfail P i u cap ttl now input vad hi
  have hsucc := gOR_empty_first_success (fun _ _ => some resp) P i u cap ttl now input vad
    resp hi rfl
  refine ⟨?_, ?_, ?_, ?_⟩
  · unfold handleMessage; rw [hmain]
  · unfold handleMessage; rw [hmain]
  · rw [hsucc]
  · rw [hsucc]

/-- C6 counterexample: with both providers failing, the message route
returns the fallback generator's reply (`.2.2.1 = true` marks the catch
path) while the response cache stays empty — the fallback reply is not
stored, contradicting "caches the final answer regardless of source". -/
theorem fallback_reply_not_cached_cex :
    (handleMessage (fun _ _ => none) true true
        ⟨⟨[], 10, 1000⟩, ⟨["gemini-2.0-flash", "gemini-1.5-flash"], 0, []⟩⟩ 0 "hello"
        ⟨0, 0, 0, "empathy", none, none⟩ ⟨fun _ => 0, 0⟩ []).2.2.1 = true
    ∧ (handleMessage (fun _ _ => none) true true
        ⟨⟨[], 10, 1000⟩, ⟨["gemini-2.0-flash", "gemini-1.5-flash"], 0, []⟩⟩ 0 "hello"
        ⟨0, 0, 0, "empathy", none, none⟩ ⟨fun _ => 0, 0⟩ []).2.1.cache.cache = [] := by
  refine ⟨?_, ?_⟩ <;> with_unfolding_all decide

theorem fallback_reply_not_cached_witness :
    (handleMessage (fun _ _ => none) true true
        ⟨⟨[], 5, 2000⟩, ⟨["gemini-2.0-flash"], 0, []⟩⟩ 3 "hey there"
        ⟨0, 0, 0, "empathy", none, none⟩ ⟨fun _ => 0, 0⟩ []).2.2.1 = true
    ∧ (handleMessage (fun _ _ => none) true true
        ⟨⟨[], 5, 2000⟩, ⟨["gemini-2.0-flash"], 0, []⟩⟩ 3 "hey there"
        ⟨0, 0, 0, "empathy", none, none⟩ ⟨fun _ => 0, 0⟩ []).2.1.cache
      = ⟨[], 5, 2000⟩
    ∧ (generateOptimizedResponse (fun _ _ => some "sure!") true true
        ⟨⟨[], 5, 2000⟩, ⟨["gemini-2.0-flash"], 0, []⟩⟩ 3 "hey there"
        ⟨0, 0, 0, "empathy", none, none⟩).1 = .generated "sure!"
    ∧ (generateOptimizedResponse (fun _ _ => some "sure!") true true
        ⟨⟨[], 5, 2000⟩, ⟨["gemini-2.0-flash"], 0, []⟩⟩ 3 "hey there"
        ⟨0, 0, 0, "empathy", none, none⟩).2.1.cache
      = ResponseCache.set ⟨[], 5, 2000⟩ 3 (String.mk (jsTrim "hey there".toList)) "sure!"
          ⟨0, 0, 0, "empathy", none, none⟩ :=
  fallback_reply_not_cached (fun _ _ => none) (fun _ _ => rfl) ["gemini-2.0-flash"] 0 []
    5 2000 3 "hey there" ⟨0, 0, 0, "empathy", none, none⟩ ⟨fun _ => 0, 0⟩ [] "sure!"
    (by decide)
-- ===== C7 toolkit: character-level lemmas =====

theorem char_le_iff (a b : Char) : (a ≤ b) ↔ a.toNat ≤ b.toNat := by
  rw [Char.le_def]
  simp [UInt32.le_def, BitVec.le_def]
  rfl

theorem char_eq_iff (a b : Char) : (a = b) ↔ a.toNat = b.toNat :=
  ⟨fun h => by rw [h], fun h => Char.eq_of_val_eq (by
    apply UInt32.eq_of_toBitVec_eq
    apply BitVec.eq_of_toNat_eq
    exact h)⟩

theorem char_ofNat_toNat (n : ℕ) (h : n.isValidChar) : (Char.ofNat n).toNat = n := by
  simp [Char.ofNat, h, Char.toNat, Char.ofNatAux, UInt32.toNat]

/-- `toLower` on the code-point level. -/
theorem toNat_jsToLower (c : Char) :
    (jsToLower c).toNat = if 65 ≤ c.toNat ∧ c.toNat ≤ 90 then c.toNat + 32 else c.toNat := by
  unfold jsToLower Char.toLower
  split
  · next h =>
      rw [if_pos (by omega)]
      exact char_ofNat_toNat _ (Or.inl (by omega))
  · next h => rw [if_neg (by omega)]

theorem isWordChar_iff (c : Char) :
    isWordChar c = true ↔
      (97 ≤ c.toNat ∧ c.toNat ≤ 122) ∨ (65 ≤ c.toNat ∧ c.toNat ≤ 90)
        ∨ (48 ≤ c.toNat ∧ c.toNat ≤ 57) ∨ c.toNat = 95 := by
  simp [isWordChar, char_le_iff, char_eq_iff]
  tauto

theorem isWordChar_jsToLower (c : Char) : isWordChar (jsToLower c) = isWordChar c := by
  have h := toNat_jsToLower c
  by_cases hb : isWordChar c = true
  · rw [hb]
    rw [isWordChar_iff] at hb ⊢
    rw [h]
    split <;> omega
  · rw [Bool.not_eq_true] at hb
    rw [hb]
    rw [Bool.eq_false_iff, Ne, isWordChar_iff] at hb ⊢
    rw [h]
    split <;> omega

theorem jsToLower_idem (c : Char) : jsToLower (jsToLower c) = jsToLower c := by
  rw [char_eq_iff, toNat_jsToLower, toNat_jsToLower c]
  split
  · next h => rw [if_neg (by omega)]
  · next h => rfl

theorem isBang_jsToLower (c : Char) (h : isBang c = true) : jsToLower c = c := by
  simp only [isBang, Bool.or_eq_true, beq_iff_eq] at h
  rw [char_eq_iff, toNat_jsToLower]
  rcases h with h | h <;> subst h <;> rw [if_neg (by decide)]

-- ===== C7 toolkit: boundary and occurrence lemmas =====

theorem lowerAlpha_mem_word {p : List Char} (hp : lowerAlpha p = true) :
    ∀ c ∈ p, isWordChar c = true := by
  intro c hc
  simp only [lowerAlpha, List.all_eq_true] at hp
  have h := hp c hc
  simp only [Bool.and_eq_true, decide_eq_true_eq] at h
  rw [isWordChar_iff]
  rw [char_le_iff, char_le_iff] at h
  left
  exact ⟨h.1, h.2⟩

theorem match_head_nonword {p0 : Char} {ps : List Char} {c : Char} {cs : List Char}
    (h0 : isWordChar p0 = true) (hc : isWordChar c = false) :
    matchWordAtCI (p0 :: ps) (c :: cs) = false := by
  simp only [matchWordAtCI, Bool.and_eq_false_iff]
  left
  rw [beq_eq_false_iff_ne]
  intro he
  rw [he, isWordChar_jsToLower, hc] at h0
  exact Bool.false_ne_true h0

theorem occ_cons_nonword {p : List Char} {c : Char} {cs : List Char} (b : Bool)
    (hp : lowerAlpha p = true) (hne : p ≠ []) (hc : isWordChar c = false) :
    occursWordFromCI p (c :: cs) b = occursWordFromCI p cs true := by
  obtain ⟨p0, ps, rfl⟩ : ∃ p0 ps, p = p0 :: ps := by
    cases p with
    | nil => exact absurd rfl hne
    | cons a as => exact ⟨a, as, rfl⟩
  simp only [occursWordFromCI,
    match_head_nonword (lowerAlpha_mem_word hp _ (List.mem_cons_self _ _)) hc,
    Bool.and_false, Bool.false_or, hc]
  rfl

theorem occ_append_right (p : List Char) :
    ∀ (x : List Char) (y : List Char) (b : Bool),
      occursWordFromCI p y (stateAfter x b) = true →
      occursWordFromCI p (x ++ y) b = true
  | [], y, b, h => h
  | c :: cs, y, b, h => by
    simp only [List.cons_append, occursWordFromCI, Bool.or_eq_true]
    right
    exact occ_append_right p cs y (!isWordChar c) h

theorem matchCI_append_bd {p : List Char} (hp : lowerAlpha p = true)
    {y : List Char} (hy : boundPeek y = true) :
    ∀ x : List Char, matchWordAtCI p (x ++ y) = matchWordAtCI p x := by
  induction p with
  | nil =>
      intro x
      cases x with
      | nil =>
          cases y with
          | nil => rfl
          | cons d ds =>
              show matchWordAtCI [] (d :: ds) = matchWordAtCI [] []
              simp only [matchWordAtCI]
              simpa [boundPeek] using hy
      | cons c cs => rfl
  | cons p0 ps ih =>
      intro x
      have hps : lowerAlpha ps = true := by
        simp only [lowerAlpha, List.all_cons, Bool.and_eq_true] at hp
        exact hp.2
      cases x with
      | nil =>
          cases y with
          | nil => rfl
          | cons d ds =>
              have hd : isWordChar d = false := by
                simpa [boundPeek] using hy
              show matchWordAtCI (p0 :: ps) (d :: ds) = matchWordAtCI (p0 :: ps) []
              rw [match_head_nonword (lowerAlpha_mem_word hp _ (List.mem_cons_self _ _)) hd]
              rfl
      | cons c cs =>
          rw [List.cons_append]
          show (p0 == jsToLower c && matchWordAtCI ps (cs ++ y))
            = (p0 == jsToLower c && matchWordAtCI ps cs)
          rw [ih hps cs]

theorem occ_append_split_bd {p : List Char} (hp : lowerAlpha p = true)
    {y : List Char} (hy : boundPeek y = true) :
    ∀ (x : List Char) (b : Bool),
      occursWordFromCI p (x ++ y) b
        = (occursWordFromCI p x b || occursWordFromCI p y (stateAfter x b))
  | [], b => by simp [occursWordFromCI, stateAfter]
  | c :: cs, b => by
    rw [List.cons_append]
    show (b && matchWordAtCI p (c :: (cs ++ y)) || occursWordFromCI p (cs ++ y) (!isWordChar c))
      = ((b && matchWordAtCI p (c :: cs) || occursWordFromCI p cs (!isWordChar c))
          || occursWordFromCI p y (stateAfter cs (!isWordChar c)))
    rw [occ_append_split_bd hp hy cs (!isWordChar c)]
    rw [show (c :: (cs ++ y)) = (c :: cs) ++ y from rfl]
    rw [matchCI_append_bd hp hy (c :: cs)]
    simp [Bool.or_assoc]

theorem lastNonWord_cons₂ (c c2 : Char) (cs2 : List Char) :
    lastNonWord (c :: c2 :: cs2) = lastNonWord (c2 :: cs2) := rfl

theorem matchCI_append_nw {p : List Char} (hp : lowerAlpha p = true) :
    ∀ (x y : List Char), lastNonWord x = true →
      matchWordAtCI p (x ++ y) = matchWordAtCI p x := by
  induction p with
  | nil =>
      intro x y hx
      cases x with
      | nil => simp [lastNonWord] at hx
      | cons c cs => rfl
  | cons p0 ps ih =>
      intro x y hx
      cases x with
      | nil => simp [lastNonWord] at hx
      | cons c cs =>
          cases cs with
          | nil =>
              have hc : isWordChar c = false := by
                simpa [lastNonWord] using hx
              rw [List.cons_append]
              show matchWordAtCI (p0 :: ps) (c :: y) = matchWordAtCI (p0 :: ps) [c]
              rw [match_head_nonword (lowerAlpha_mem_word hp _ (List.mem_cons_self _ _)) hc,
                match_head_nonword (lowerAlpha_mem_word hp _ (List.mem_cons_self _ _)) hc]
          | cons c2 cs2 =>
              have hps : lowerAlpha ps = true := by
                simp only [lowerAlpha, List.all_cons, Bool.and_eq_true] at hp
                exact hp.2
              rw [List.cons_append]
              show (p0 == jsToLower c && matchWordAtCI ps ((c2 :: cs2) ++ y))
                = (p0 == jsToLower c && matchWordAtCI ps (c2 :: cs2))
              rw [ih hps (c2 :: cs2) y (by rw [← lastNonWord_cons₂ c]; exact hx)]

theorem occ_append_split_nw {p : List Char} (hp : lowerAlpha p = true) :
    ∀ (x y : List Char) (b : Bool), lastNonWord x = true →
      occursWordFromCI p (x ++ y) b
        = (occursWordFromCI p x b || occursWordFromCI p y (stateAfter x b)) := by
  intro x
  induction x with
  | nil => intro y b hx; simp [lastNonWord] at hx
  | cons c cs ih =>
      intro y b hx
      cases cs with
      | nil =>
          have hc : isWordChar c = false := by
            simpa [lastNonWord] using hx
          rw [List.cons_append]
          show (b && matchWordAtCI p (c :: y) || occursWordFromCI p y (!isWordChar c))
            = ((b && matchWordAtCI p [c] || occursWordFromCI p [] (!isWordChar c))
                || occursWordFromCI p y (stateAfter [] (!isWordChar c)))
          cases p with
          | nil => simp [matchWordAtCI, occursWordFromCI, stateAfter, hc]
          | cons p0 ps =>
              rw [match_head_nonword (lowerAlpha_mem_word hp _ (List.mem_cons_self _ _)) hc,
                match_head_nonword (lowerAlpha_mem_word hp _ (List.mem_cons_self _ _)) hc]
              simp [occursWordFromCI, stateAfter]
      | cons c2 cs2 =>
          have hx2 : lastNonWord (c2 :: cs2) = true := by
            rw [← lastNonWord_cons₂ c]; exact hx
          rw [List.cons_append]
          show (b && matchWordAtCI p (c :: ((c2 :: cs2) ++ y))
              || occursWordFromCI p ((c2 :: cs2) ++ y) (!isWordChar c))
            = ((b && matchWordAtCI p (c :: c2 :: cs2)
                || occursWordFromCI p (c2 :: cs2) (!isWordChar c))
                || occursWordFromCI p y (stateAfter (c2 :: cs2) (!isWordChar c)))
          rw [ih y (!isWordChar c) hx2]
          rw [show (c :: ((c2 :: cs2) ++ y)) = (c :: c2 :: cs2) ++ y from rfl]
          rw [matchCI_append_nw hp (c :: c2 :: cs2) y (by rw [lastNonWord_cons₂]; exact hx2)]
          simp [Bool.or_assoc]

-- ===== C7 toolkit: case-insensitive congruence, window agreement, picks =====

theorem isWordChar_of_lower_eq {a b : Char} (h : jsToLower a = jsToLower b) :
    isWordChar a = isWordChar b := by
  rw [← isWordChar_jsToLower a, h, isWordChar_jsToLower]

theorem matchCI_congr {x y : List Char}
    (h : List.Forall₂ (fun a b => jsToLower a = jsToLower b) x y) :
    ∀ p, matchWordAtCI p x = matchWordAtCI p y := by
  induction h with
  | nil => intro p; rfl
  | cons hab hrest ih =>
      intro p
      cases p with
      | nil =>
          show (!isWordChar _) = (!isWordChar _)
          rw [isWordChar_of_lower_eq hab]
      | cons p0 ps =>
          show (p0 == jsToLower _ && matchWordAtCI ps _)
            = (p0 == jsToLower _ && matchWordAtCI ps _)
          rw [hab, ih ps]

theorem occCI_congr {x y : List Char}
    (h : List.Forall₂ (fun a b => jsToLower a = jsToLower b) x y) :
    ∀ p b, occursWordFromCI p x b = occursWordFromCI p y b := by
  induction h with
  | nil => intro p b; rfl
  | cons hab hrest ih =>
      intro p b
      show (b && matchWordAtCI p (_ :: _) || occursWordFromCI p _ _)
        = (b && matchWordAtCI p (_ :: _) || occursWordFromCI p _ _)
      rw [matchCI_congr (List.Forall₂.cons hab hrest) p, ih p, isWordChar_of_lower_eq hab]

theorem forall₂_lower_map (l : List Char) :
    List.Forall₂ (fun a b => jsToLower a = jsToLower b) l (l.map jsToLower) := by
  induction l with
  | nil => exact List.Forall₂.nil
  | cons c cs ih => exact List.Forall₂.cons (jsToLower_idem c).symm ih

theorem forall₂_replaceLoneI : ∀ (l : List Char) (b : Bool),
    List.Forall₂ (fun a b => jsToLower a = jsToLower b) l (replaceLoneI l b)
  | [], _ => List.Forall₂.nil
  | c :: cs, b => by
    show List.Forall₂ _ (c :: cs) (replaceLoneI (c :: cs) b)
    simp only [replaceLoneI]
    split
    · next h =>
        have hc : c = 'i' := by
          simp only [Bool.and_eq_true, beq_iff_eq] at h
          exact h.1.2
        subst hc
        exact List.Forall₂.cons (by decide) (forall₂_replaceLoneI cs false)
    · exact List.Forall₂.cons rfl (forall₂_replaceLoneI cs (!isWordChar c))

theorem forall₂_ci_refl : ∀ l : List Char,
    List.Forall₂ (fun a b => jsToLower a = jsToLower b) l l
  | [] => List.Forall₂.nil
  | _ :: cs => List.Forall₂.cons rfl (forall₂_ci_refl cs)

theorem forall₂_lowerFirst (l : List Char) :
    List.Forall₂ (fun a b => jsToLower a = jsToLower b) l (lowerFirst l) := by
  cases l with
  | nil => exact List.Forall₂.nil
  | cons c cs =>
      exact List.Forall₂.cons (jsToLower_idem c).symm (forall₂_ci_refl cs)

theorem matchCI_nil_eq_boundPeek (x : List Char) : matchWordAtCI [] x = boundPeek x := by
  cases x <;> rfl

theorem matchCI_agree (p : List Char) : ∀ (x y : List Char),
    x.take p.length = y.take p.length →
    boundPeek (x.drop p.length) = boundPeek (y.drop p.length) →
    matchWordAtCI p x = matchWordAtCI p y := by
  induction p with
  | nil =>
      intro x y _ hd
      rw [matchCI_nil_eq_boundPeek, matchCI_nil_eq_boundPeek]
      simpa using hd
  | cons p0 ps ih =>
      intro x y ht hd
      cases x with
      | nil =>
          cases y with
          | nil => rfl
          | cons b bs => simp at ht
      | cons a as =>
          cases y with
          | nil => simp at ht
          | cons b bs =>
              simp only [List.length_cons, List.take_succ_cons, List.cons.injEq] at ht
              simp only [List.length_cons, List.drop_succ_cons] at hd
              show (p0 == jsToLower a && matchWordAtCI ps as)
                = (p0 == jsToLower b && matchWordAtCI ps bs)
              rw [ht.1, ih as bs ht.2 hd]

theorem getRandomElement_choice (arr : List String) (r : RandState) :
    (getRandomElement arr r).1 ∈ arr ∨ (getRandomElement arr r).1 = "" := by
  unfold getRandomElement
  dsimp only
  by_cases h : (⌊r.next.1 * arr.length⌋).toNat < arr.length
  · left
    rw [List.getD_eq_getElem _ _ h]
    exact List.getElem_mem h
  · right
    rw [List.getD_eq_default _ _ (by omega)]

theorem getRandomElement_mem (arr : List String) (r : RandState)
    (h0 : 0 ≤ r.rnd r.idx) (h1 : r.rnd r.idx < 1) (hlen : 0 < arr.length) :
    (getRandomElement arr r).1 ∈ arr := by
  unfold getRandomElement RandState.next
  dsimp only
  have hmul : r.rnd r.idx * (arr.length : ℚ) < (arr.length : ℚ) := by
    have hpos : (0 : ℚ) < (arr.length : ℚ) := by exact_mod_cast hlen
    calc r.rnd r.idx * (arr.length : ℚ) < 1 * (arr.length : ℚ) :=
          mul_lt_mul_of_pos_right h1 hpos
      _ = (arr.length : ℚ) := one_mul _
  have h3 : ⌊r.rnd r.idx * (arr.length : ℚ)⌋ < (arr.length : ℤ) := by
    rw [Int.floor_lt]
    exact_mod_cast hmul
  have hfl : (⌊r.rnd r.idx * (arr.length : ℚ)⌋).toNat < arr.length := by omega
  rw [List.getD_eq_getElem _ _ hfl]
  exact List.getElem_mem hfl

theorem bangCount_append (x y : List Char) :
    bangCount (x ++ y) = bangCount x + bangCount y := by
  simp [bangCount, List.countP_append]

-- ===== C7 toolkit: state, span and counting facts =====

theorem occ_mono_state {p : List Char} : ∀ {l : List Char},
    occursWordFromCI p l false = true → occursWordFromCI p l true = true := by
  intro l h
  cases l with
  | nil => exact h
  | cons c cs =>
      simp only [occursWordFromCI, Bool.false_and, Bool.false_or] at h
      simp only [occursWordFromCI, Bool.or_eq_true]
      right
      exact h

theorem occ_false_of_true {p : List Char} {l : List Char} {b : Bool}
    (h : occursWordFromCI p l true = false) : occursWordFromCI p l b = false := by
  cases b
  · by_contra hx
    rw [Bool.not_eq_false] at hx
    rw [occ_mono_state hx] at h
    simp at h
  · exact h

theorem occ_all_nonword {p : List Char} (hp : lowerAlpha p = true) (hpne : p ≠ []) :
    ∀ (x : List Char) (b : Bool), (∀ c ∈ x, isWordChar c = false) →
      occursWordFromCI p x b = false := by
  intro x
  induction x with
  | nil => intro b _; rfl
  | cons c cs ih =>
      intro b hx
      obtain ⟨p0, ps, rfl⟩ : ∃ p0 ps, p = p0 :: ps := by
        cases p with
        | nil => exact absurd rfl hpne
        | cons a as => exact ⟨a, as, rfl⟩
      simp only [occursWordFromCI,
        match_head_nonword (lowerAlpha_mem_word hp _ (List.mem_cons_self _ _))
          (hx c (List.mem_cons_self _ _)),
        Bool.and_false, Bool.false_or]
      exact ih _ (fun d hd => hx d (List.mem_cons_of_mem _ hd))

theorem stateAfter_all_nonword : ∀ (x : List Char) (b : Bool),
    x ≠ [] → (∀ c ∈ x, isWordChar c = false) → stateAfter x b = true
  | [], _, hne, _ => absurd rfl hne
  | c :: cs, b, _, hx => by
    cases cs with
    | nil =>
        simp only [stateAfter]
        rw [hx c (List.mem_cons_self _ _)]
        rfl
    | cons c2 cs2 =>
        simp only [stateAfter]
        exact stateAfter_all_nonword (c2 :: cs2) (!isWordChar c) (by simp)
          (fun d hd => hx d (List.mem_cons_of_mem _ hd))

theorem stateAfter_all_word : ∀ (x : List Char) (b : Bool),
    x ≠ [] → (∀ c ∈ x, isWordChar c = true) → stateAfter x b = false
  | [], _, hne, _ => absurd rfl hne
  | c :: cs, b, _, hx => by
    cases cs with
    | nil =>
        simp only [stateAfter]
        rw [hx c (List.mem_cons_self _ _)]
        rfl
    | cons c2 cs2 =>
        simp only [stateAfter]
        exact stateAfter_all_word (c2 :: cs2) (!isWordChar c) (by simp)
          (fun d hd => hx d (List.mem_cons_of_mem _ hd))

theorem stateAfter_append (x y : List Char) (b : Bool) :
    stateAfter (x ++ y) b = stateAfter y (stateAfter x b) := by
  induction x generalizing b with
  | nil => rfl
  | cons c cs ih =>
      simp only [List.cons_append, stateAfter]
      exact ih _

/-- The prefix matched by `matchWordAtCI p` lowercases to `p` itself. -/
theorem matchCI_span {p : List Char} : ∀ {l : List Char},
    matchWordAtCI p l = true →
    List.Forall₂ (fun a b => a = jsToLower b) p (l.take p.length) := by
  induction p with
  | nil => intro l _; exact List.Forall₂.nil
  | cons p0 ps ih =>
      intro l h
      cases l with
      | nil => simp [matchWordAtCI] at h
      | cons c cs =>
          simp only [matchWordAtCI, Bool.and_eq_true, beq_iff_eq] at h
          simp only [List.length_cons, List.take_succ_cons]
          exact List.Forall₂.cons h.1 (ih h.2)

theorem matchCI_boundPeek {p : List Char} : ∀ {l : List Char},
    matchWordAtCI p l = true → boundPeek (l.drop p.length) = true := by
  induction p with
  | nil =>
      intro l h
      rw [matchCI_nil_eq_boundPeek] at h
      simpa using h
  | cons p0 ps ih =>
      intro l h
      cases l with
      | nil => simp [matchWordAtCI] at h
      | cons c cs =>
          simp only [matchWordAtCI, Bool.and_eq_true] at h
          simpa using ih h.2

theorem takeWhile_append_drop (q : Char → Bool) : ∀ l : List Char,
    l.takeWhile q ++ l.drop (l.takeWhile q).length = l
  | [] => rfl
  | c :: cs => by
    by_cases h : q c = true
    · rw [List.takeWhile_cons, if_pos h]
      simp only [List.length_cons, List.drop_succ_cons, List.cons_append]
      rw [takeWhile_append_drop q cs]
    · rw [List.takeWhile_cons, if_neg h]
      simp

theorem forall₂_mem_right {p s : List Char}
    (h : List.Forall₂ (fun a b => a = jsToLower b) p s) :
    ∀ c ∈ s, ∃ a ∈ p, a = jsToLower c := by
  induction h with
  | nil => intro c hc; simp at hc
  | cons hab hrest ih =>
      intro c hc
      rcases List.mem_cons.mp hc with rfl | hc2
      · exact ⟨_, List.mem_cons_self _ _, hab⟩
      · obtain ⟨a, hm, he⟩ := ih c hc2
        exact ⟨a, List.mem_cons_of_mem _ hm, he⟩

theorem span_all_word {p : List Char} {l : List Char} (hp : lowerAlpha p = true)
    (h : matchWordAtCI p l = true) : ∀ c ∈ l.take p.length, isWordChar c = true := by
  intro c hc
  obtain ⟨a, hmem, ha⟩ := forall₂_mem_right (matchCI_span h) c hc
  have := lowerAlpha_mem_word hp a hmem
  rw [ha, isWordChar_jsToLower] at this
  exact this

theorem bang_not_word_letter {c : Char} (h : isBang c = true) :
    ∀ {t : Char}, ('a' ≤ t && t ≤ 'z') = true → (t == jsToLower c) = false := by
  intro t ht
  simp only [isBang, Bool.or_eq_true, beq_iff_eq] at h
  simp only [Bool.and_eq_true, decide_eq_true_eq] at ht
  rw [char_le_iff, char_le_iff] at ht
  have ha : ('a' : Char).toNat = 97 := rfl
  have hz : ('z' : Char).toNat = 122 := rfl
  rw [ha] at ht
  rw [hz] at ht
  rw [beq_eq_false_iff_ne]
  intro he
  rw [char_eq_iff, toNat_jsToLower,
    if_neg (by rcases h with rfl | rfl <;> decide)] at he
  rcases h with rfl | rfl
  · have h33 : ('!' : Char).toNat = 33 := rfl
    rw [h33] at he
    omega
  · have h63 : ('?' : Char).toNat = 63 := rfl
    rw [h63] at he
    omega

theorem span_no_bang {p : List Char} {l : List Char} (hp : lowerAlpha p = true)
    (h : matchWordAtCI p l = true) : bangCount (l.take p.length) = 0 := by
  have hw := span_all_word hp h
  simp only [bangCount, List.countP_eq_zero]
  intro c hc
  have := hw c hc
  intro hb
  rw [isWordChar_iff] at this
  simp only [isBang, Bool.or_eq_true, beq_iff_eq] at hb
  rcases hb with rfl | rfl <;> revert this <;> decide

theorem bang_jsToLower (c : Char) : isBang (jsToLower c) = isBang c := by
  by_cases h : 65 ≤ c.toNat ∧ c.toNat ≤ 90
  · have h1 : (jsToLower c).toNat = c.toNat + 32 := by rw [toNat_jsToLower, if_pos h]
    have h33 : ('!' : Char).toNat = 33 := rfl
    have h63 : ('?' : Char).toNat = 63 := rfl
    have e1 : (jsToLower c == '!') = false := by
      rw [beq_eq_false_iff_ne]; intro he; rw [char_eq_iff, h1, h33] at he; omega
    have e2 : (jsToLower c == '?') = false := by
      rw [beq_eq_false_iff_ne]; intro he; rw [char_eq_iff, h1, h63] at he; omega
    have e3 : (c == '!') = false := by
      rw [beq_eq_false_iff_ne]; intro he; rw [char_eq_iff, h33] at he; omega
    have e4 : (c == '?') = false := by
      rw [beq_eq_false_iff_ne]; intro he; rw [char_eq_iff, h63] at he; omega
    simp [isBang, e1, e2, e3, e4]
  · have h1 : jsToLower c = c := by rw [char_eq_iff, toNat_jsToLower, if_neg h]
    rw [h1]

theorem isBang_of_lower_eq {a b : Char} (h : jsToLower a = jsToLower b) :
    isBang a = isBang b := by
  rw [← bang_jsToLower a, h, bang_jsToLower]

theorem bang_congr_CI {x y : List Char}
    (h : List.Forall₂ (fun a b => jsToLower a = jsToLower b) x y) :
    bangCount x = bangCount y := by
  induction h with
  | nil => rfl
  | cons hab hrest ih =>
      simp only [bangCount, List.countP_cons] at ih ⊢
      rw [isBang_of_lower_eq hab, ih]

theorem bang_reverse (l : List Char) : bangCount l.reverse = bangCount l := by
  simp [bangCount, List.countP_eq_length_filter]

theorem whitespace_not_word {c : Char} (h : c.isWhitespace = true) :
    isWordChar c = false := by
  simp only [Char.isWhitespace, Bool.or_eq_true, decide_eq_true_eq] at h
  rcases h with ((rfl | rfl) | rfl) | rfl <;> decide

theorem whitespace_not_bang {c : Char} (h : c.isWhitespace = true) :
    isBang c = false := by
  simp only [Char.isWhitespace, Bool.or_eq_true, decide_eq_true_eq] at h
  rcases h with ((rfl | rfl) | rfl) | rfl <;> decide

theorem commaWS_not_word {c : Char} (h : isCommaOrWS c = true) :
    isWordChar c = false := by
  simp only [isCommaOrWS, Bool.or_eq_true, beq_iff_eq] at h
  rcases h with rfl | h
  · decide
  · exact whitespace_not_word h

theorem commaWS_not_bang {c : Char} (h : isCommaOrWS c = true) :
    isBang c = false := by
  simp only [isCommaOrWS, Bool.or_eq_true, beq_iff_eq] at h
  rcases h with rfl | h
  · decide
  · exact whitespace_not_bang h

theorem boundPeek_drop (l : List Char) (n : ℕ) :
    boundPeek (l.drop n) = (match l.get? n with
      | none => true
      | some c => !isWordChar c) := by
  rw [List.get?_eq_getElem?]
  induction l generalizing n with
  | nil => simp [boundPeek]
  | cons c cs ih =>
      cases n with
      | zero => simp [boundPeek]
      | succ m => simpa using ih m

theorem stateAfter_lastNonWord {x : List Char} (h : lastNonWord x = true) (b : Bool) :
    stateAfter x b = true := by
  induction x generalizing b with
  | nil => simp [lastNonWord] at h
  | cons c cs ih =>
      cases cs with
      | nil =>
          simp only [lastNonWord] at h
          simp [stateAfter, h]
      | cons c2 cs2 =>
          simp only [stateAfter]
          exact ih (by rw [← lastNonWord_cons₂ c]; exact h) (!isWordChar c)

-- ===== C7: removeTermScan (pet-name removal) lemmas =====

theorem lowerAlpha_tail {q0 : Char} {qs : List Char}
    (h : lowerAlpha (q0 :: qs) = true) : lowerAlpha qs = true := by
  simp only [lowerAlpha, List.all_cons, Bool.and_eq_true] at h
  exact h.2

theorem removeTermScan_quiet (t : List Char) (c : Char) (cs : List Char) :
    removeTermScan t (c :: cs) false = c :: removeTermScan t cs (!isWordChar c) := by
  rw [removeTermScan]
  rw [if_neg (by simp)]

theorem matchCI_removeTermScan (t : List Char) :
    ∀ (q : List Char), lowerAlpha q = true →
    ∀ cs : List Char,
      matchWordAtCI q (removeTermScan t cs false) = matchWordAtCI q cs := by
  intro q hq cs
  induction cs generalizing q with
  | nil => rw [show removeTermScan t [] false = [] from by rw [removeTermScan]]
  | cons c cs ih =>
      rw [removeTermScan_quiet]
      cases q with
      | nil => rfl
      | cons q0 qs =>
          show (q0 == jsToLower c && matchWordAtCI qs (removeTermScan t cs (!isWordChar c)))
            = (q0 == jsToLower c && matchWordAtCI qs cs)
          by_cases he : (q0 == jsToLower c) = true
          · have hc : isWordChar c = true := by
              have h0 : isWordChar q0 = true :=
                lowerAlpha_mem_word hq _ (List.mem_cons_self _ _)
              rw [beq_iff_eq] at he
              rw [he, isWordChar_jsToLower] at h0
              exact h0
            rw [hc]
            show (q0 == jsToLower c && matchWordAtCI qs (removeTermScan t cs false)) = _
            rw [ih qs (lowerAlpha_tail hq)]
          · rw [Bool.not_eq_true] at he
            rw [he]
            simp

/-- Decomposition of a string at a `\bterm\b[,\s]*` match position. -/
theorem removeTermScan_decomp {t : List Char} (htne : t ≠ []) (c : Char) (cs : List Char) :
    c :: cs = (c :: cs).take t.length
      ++ ((cs.drop (t.length - 1)).takeWhile isCommaOrWS
      ++ (cs.drop (t.length - 1)).drop
          ((cs.drop (t.length - 1)).takeWhile isCommaOrWS).length) := by
  obtain ⟨n, hn⟩ : ∃ n, t.length = n + 1 := by
    cases t with
    | nil => exact absurd rfl htne
    | cons a as => exact ⟨as.length, by simp⟩
  rw [hn]
  simp only [Nat.add_sub_cancel]
  rw [takeWhile_append_drop isCommaOrWS (cs.drop n)]
  have hd : cs.drop n = (c :: cs).drop (n + 1) := rfl
  rw [hd, List.take_append_drop]

theorem take_len_ne_nil {t : List Char} (htne : t ≠ []) (c : Char) (cs : List Char) :
    (c :: cs).take t.length ≠ [] := by
  obtain ⟨n, hn⟩ : ∃ n, t.length = n + 1 := by
    cases t with
    | nil => exact absurd rfl htne
    | cons a as => exact ⟨as.length, by simp⟩
  rw [hn]
  simp [List.take_succ_cons]

theorem afterTerm_eq_drop {t : List Char} (htne : t ≠ []) (c : Char) (cs : List Char) :
    cs.drop (t.length - 1) = (c :: cs).drop t.length := by
  obtain ⟨n, hn⟩ : ∃ n, t.length = n + 1 := by
    cases t with
    | nil => exact absurd rfl htne
    | cons a as => exact ⟨as.length, by simp⟩
  rw [hn]
  simp only [Nat.add_sub_cancel]
  rfl

theorem occ_removeTermScan_le {p : List Char} (hp : lowerAlpha p = true) (hpne : p ≠ [])
    {t : List Char} (ht : lowerAlpha t = true) (htne : t ≠ []) :
    ∀ (cs : List Char) (b : Bool), ∀ b' : Bool,
      occursWordFromCI p (removeTermScan t cs b) b' = true →
      occursWordFromCI p cs b' = true := by
  intro cs b
  induction cs, b using removeTermScan.induct t with
  | case1 b =>
      intro b' h
      rw [show removeTermScan t [] b = [] from by rw [removeTermScan]] at h
      exact h
  | case2 c cs atB hcond afterTerm trailing ih =>
      intro b' h
      have hstep : removeTermScan t (c :: cs) atB
          = removeTermScan t (afterTerm.drop trailing.length) (!trailing.isEmpty) := by
        rw [removeTermScan, if_pos hcond]
      rw [hstep] at h
      have hafdef : afterTerm = cs.drop (t.length - 1) := rfl
      have htrdef : trailing = afterTerm.takeWhile isCommaOrWS := rfl
      clear_value afterTerm trailing
      simp only [Bool.and_eq_true] at hcond
      have hmatch : matchWordAtCI t (c :: cs) = true := hcond.2
      have hrest : occursWordFromCI p (afterTerm.drop trailing.length) b' = true := ih b' h
      have hspan_w : ∀ d ∈ (c :: cs).take t.length, isWordChar d = true :=
        span_all_word ht hmatch
      have htr_nw : ∀ d ∈ trailing, isWordChar d = false := by
        intro d hd
        rw [htrdef] at hd
        exact commaWS_not_word (List.mem_takeWhile_imp hd)
      have hstate : stateAfter ((c :: cs).take t.length ++ trailing) b'
          = (if trailing.isEmpty then false else true) := by
        rw [stateAfter_append,
          stateAfter_all_word _ _ (take_len_ne_nil htne c cs) hspan_w]
        cases htre : trailing with
        | nil => rfl
        | cons d ds =>
            rw [if_neg (by simp)]
            refine stateAfter_all_nonword _ false (by simp) ?_
            intro e he
            refine htr_nw e ?_
            rw [htre]
            exact he
      have hrest_adj : occursWordFromCI p (afterTerm.drop trailing.length)
          (if trailing.isEmpty then false else true) = true := by
        by_cases htre : trailing.isEmpty = true
        · rw [if_pos htre]
          rw [List.isEmpty_iff] at htre
          rw [htre, List.length_nil, List.drop_zero] at hrest ⊢
          cases afterTerm with
          | nil => simp [occursWordFromCI] at hrest
          | cons a as =>
              have hnw : isWordChar a = false := by
                have hbp : boundPeek ((c :: cs).drop t.length) = true :=
                  matchCI_boundPeek hmatch
                rw [← afterTerm_eq_drop htne c cs, ← hafdef] at hbp
                simpa [boundPeek] using hbp
              rw [occ_cons_nonword _ hp hpne hnw] at hrest ⊢
              exact hrest
        · rw [if_neg htre]
          cases b'
          · exact occ_mono_state hrest
          · exact hrest
      have hlift := occ_append_right p ((c :: cs).take t.length ++ trailing)
        (afterTerm.drop trailing.length) b' (by rw [hstate]; exact hrest_adj)
      rw [List.append_assoc] at hlift
      have hdecomp : (c :: cs).take t.length
          ++ (trailing ++ afterTerm.drop trailing.length) = c :: cs := by
        rw [htrdef, hafdef]
        exact (removeTermScan_decomp htne c cs).symm
      rw [hdecomp] at hlift
      exact hlift
  | case3 c cs atB hcond ih =>
      intro b' h
      rw [show removeTermScan t (c :: cs) atB = c :: removeTermScan t cs (!isWordChar c)
        from by rw [removeTermScan, if_neg hcond]] at h
      simp only [occursWordFromCI, Bool.or_eq_true, Bool.and_eq_true] at h ⊢
      rcases h with ⟨hb', hm⟩ | h
      · left
        refine ⟨hb', ?_⟩
        obtain ⟨p0, ps, rfl⟩ : ∃ p0 ps, p = p0 :: ps := by
          cases p with
          | nil => exact absurd rfl hpne
          | cons a as => exact ⟨a, as, rfl⟩
        by_cases hc : isWordChar c = true
        · rw [hc] at hm
          show (p0 == jsToLower c && matchWordAtCI ps cs) = true
          rw [← matchCI_removeTermScan t ps (lowerAlpha_tail hp) cs]
          exact hm
        · rw [Bool.not_eq_true] at hc
          rw [match_head_nonword (lowerAlpha_mem_word hp _ (List.mem_cons_self _ _)) hc] at hm
          exact absurd hm (by simp)
      · right
        exact ih (!isWordChar c) h

theorem occ_self_removeTermScan {t : List Char} (ht : lowerAlpha t = true) (htne : t ≠ []) :
    ∀ (cs : List Char) (b : Bool),
      occursWordFromCI t (removeTermScan t cs b) b = false := by
  intro cs b
  induction cs, b using removeTermScan.induct t with
  | case1 b =>
      rw [show removeTermScan t [] b = [] from by rw [removeTermScan]]
      rfl
  | case2 c cs atB hcond afterTerm trailing ih =>
      have hstep : removeTermScan t (c :: cs) atB
          = removeTermScan t (afterTerm.drop trailing.length) (!trailing.isEmpty) := by
        rw [removeTermScan, if_pos hcond]
      rw [hstep]
      have hafdef : afterTerm = cs.drop (t.length - 1) := rfl
      have htrdef : trailing = afterTerm.takeWhile isCommaOrWS := rfl
      clear_value afterTerm trailing
      simp only [Bool.and_eq_true] at hcond
      obtain ⟨hb, hmatch⟩ := hcond
      subst hb
      by_cases htre : trailing.isEmpty = true
      · have hst : (!trailing.isEmpty) = false := by rw [htre]; rfl
        rw [hst]
        rw [hst] at ih
        rw [List.isEmpty_iff] at htre
        rw [htre, List.length_nil, List.drop_zero] at ih ⊢
        cases afterTerm with
        | nil =>
            rw [show removeTermScan t [] false = [] from by rw [removeTermScan]]
            rfl
        | cons a as =>
            have hnw : isWordChar a = false := by
              have hbp : boundPeek ((c :: cs).drop t.length) = true :=
                matchCI_boundPeek hmatch
              rw [← afterTerm_eq_drop htne c cs, ← hafdef] at hbp
              simpa [boundPeek] using hbp
            rw [removeTermScan_quiet] at ih ⊢
            rw [occ_cons_nonword _ ht htne hnw] at ih ⊢
            exact ih
      · have hst : (!trailing.isEmpty) = true := by
          rw [Bool.not_eq_true] at htre
          rw [htre]
          rfl
        rw [hst]
        rw [hst] at ih
        exact ih
  | case3 c cs atB hcond ih =>
      rw [show removeTermScan t (c :: cs) atB = c :: removeTermScan t cs (!isWordChar c)
        from by rw [removeTermScan, if_neg hcond]]
      simp only [occursWordFromCI, Bool.or_eq_false_iff, Bool.and_eq_false_iff]
      constructor
      · by_cases hatB : atB = true
        · right
          obtain ⟨t0, ts, rfl⟩ : ∃ t0 ts, t = t0 :: ts := by
            cases t with
            | nil => exact absurd rfl htne
            | cons a as => exact ⟨a, as, rfl⟩
          by_cases hc : isWordChar c = true
          · rw [hc]
            have hmm : matchWordAtCI (t0 :: ts) (c :: cs) = false := by
              rw [hatB] at hcond
              simpa using hcond
            show matchWordAtCI (t0 :: ts) (c :: removeTermScan (t0 :: ts) cs false) = false
            show (t0 == jsToLower c
              && matchWordAtCI ts (removeTermScan (t0 :: ts) cs false)) = false
            rw [matchCI_removeTermScan (t0 :: ts) ts (lowerAlpha_tail ht) cs]
            simpa [matchWordAtCI] using hmm
          · rw [Bool.not_eq_true] at hc
            exact match_head_nonword
              (lowerAlpha_mem_word ht _ (List.mem_cons_self _ _)) hc
        · left
          rw [Bool.not_eq_true] at hatB
          exact hatB
      · exact ih

theorem bang_removeTermScan {t : List Char} (ht : lowerAlpha t = true) (htne : t ≠ []) :
    ∀ (cs : List Char) (b : Bool),
      bangCount (removeTermScan t cs b) = bangCount cs := by
  intro cs b
  induction cs, b using removeTermScan.induct t with
  | case1 b => rw [show removeTermScan t [] b = [] from by rw [removeTermScan]]
  | case2 c cs atB hcond afterTerm trailing ih =>
      have hstep : removeTermScan t (c :: cs) atB
          = removeTermScan t (afterTerm.drop trailing.length) (!trailing.isEmpty) := by
        rw [removeTermScan, if_pos hcond]
      rw [hstep]
      have hafdef : afterTerm = cs.drop (t.length - 1) := rfl
      have htrdef : trailing = afterTerm.takeWhile isCommaOrWS := rfl
      clear_value afterTerm trailing
      simp only [Bool.and_eq_true] at hcond
      have hmatch : matchWordAtCI t (c :: cs) = true := hcond.2
      rw [ih]
      conv_rhs => rw [removeTermScan_decomp htne c cs]
      rw [bangCount_append, bangCount_append]
      rw [span_no_bang ht hmatch]
      have htr0 : bangCount ((cs.drop (t.length - 1)).takeWhile isCommaOrWS) = 0 := by
        simp only [bangCount, List.countP_eq_zero]
        intro d hd hb
        rw [commaWS_not_bang (List.mem_takeWhile_imp hd)] at hb
        exact absurd hb (by simp)
      rw [htr0, htrdef, hafdef]
      simp
  | case3 c cs atB hcond ih =>
      rw [show removeTermScan t (c :: cs) atB = c :: removeTermScan t cs (!isWordChar c)
        from by rw [removeTermScan, if_neg hcond]]
      simp only [bangCount, List.countP_cons] at ih ⊢
      rw [ih]

-- ===== C7: replaceWordCI (shorthand) lemmas =====

theorem stateAfter_eq_lastNonWord : ∀ (x : List Char) (b : Bool), x ≠ [] →
    stateAfter x b = lastNonWord x
  | [], _, hne => absurd rfl hne
  | c :: cs, b, _ => by
    cases cs with
    | nil => simp [stateAfter, lastNonWord]
    | cons c2 cs2 =>
        rw [show stateAfter (c :: c2 :: cs2) b = stateAfter (c2 :: cs2) (!isWordChar c)
          from rfl]
        rw [lastNonWord_cons₂]
        exact stateAfter_eq_lastNonWord (c2 :: cs2) _ (by simp)

/-- The matched span of `\bw\b` ends in a word character whenever `w`
does. -/
theorem matchCI_false_of_short : ∀ (p l : List Char), l.length < p.length →
    matchWordAtCI p l = false
  | [], l, h => by simp at h
  | p0 :: ps, [], _ => rfl
  | p0 :: ps, c :: cs, h => by
      show (p0 == jsToLower c && matchWordAtCI ps cs) = false
      rw [matchCI_false_of_short ps cs (by simpa using h)]
      simp

theorem span_lastNonWord : ∀ (w l : List Char), w ≠ [] → lastNonWord w = false →
    matchWordAtCI w l = true → lastNonWord (l.take w.length) = false
  | [], _, hne, _, _ => absurd rfl hne
  | a :: w', l, _, hlast, hm => by
    cases l with
    | nil => simp [matchWordAtCI] at hm
    | cons c cs =>
        simp only [matchWordAtCI, Bool.and_eq_true, beq_iff_eq] at hm
        cases w' with
        | nil =>
            simp only [List.length_cons, List.length_nil, List.take_succ_cons,
              List.take_zero]
            simp only [lastNonWord] at hlast ⊢
            rw [hm.1, isWordChar_jsToLower] at hlast
            exact hlast
        | cons a2 w2 =>
            have hlen : (a2 :: w2).length ≤ cs.length := by
              by_contra hgt
              rw [not_le] at hgt
              rw [matchCI_false_of_short (a2 :: w2) cs hgt] at hm
              exact absurd hm.2 (by simp)
            simp only [List.length_cons, List.take_succ_cons]
            have hne2 : cs.take (a2 :: w2).length ≠ [] := by
              cases cs with
              | nil => simp at hlen
              | cons d ds => simp [List.take_succ_cons]
            have := span_lastNonWord (a2 :: w2) cs (by simp)
              (by rw [← lastNonWord_cons₂ a]; exact hlast) hm.2
            cases hcse : cs.take (a2 :: w2).length with
            | nil => exact absurd hcse hne2
            | cons e es =>
                rw [hcse] at this
                simp only [List.length_cons] at hcse
                rw [hcse, lastNonWord_cons₂]
                exact this

theorem replaceWordCI_quiet (w repl : List Char) (c : Char) (cs : List Char) :
    replaceWordCI w repl (c :: cs) false
      = c :: replaceWordCI w repl cs (!isWordChar c) := by
  rw [replaceWordCI]
  rw [if_neg (by simp)]

theorem matchCI_replaceWordCI (w repl : List Char) :
    ∀ (q : List Char), lowerAlpha q = true →
    ∀ cs : List Char,
      matchWordAtCI q (replaceWordCI w repl cs false) = matchWordAtCI q cs := by
  intro q hq cs
  induction cs generalizing q with
  | nil => rw [show replaceWordCI w repl [] false = [] from by rw [replaceWordCI]]
  | cons c cs ih =>
      rw [replaceWordCI_quiet]
      cases q with
      | nil => rfl
      | cons q0 qs =>
          show (q0 == jsToLower c && matchWordAtCI qs (replaceWordCI w repl cs (!isWordChar c)))
            = (q0 == jsToLower c && matchWordAtCI qs cs)
          by_cases he : (q0 == jsToLower c) = true
          · have hc : isWordChar c = true := by
              have h0 : isWordChar q0 = true :=
                lowerAlpha_mem_word hq _ (List.mem_cons_self _ _)
              rw [beq_iff_eq] at he
              rw [he, isWordChar_jsToLower] at h0
              exact h0
            rw [hc]
            show (q0 == jsToLower c && matchWordAtCI qs (replaceWordCI w repl cs false)) = _
            rw [ih qs (lowerAlpha_tail hq)]
          · rw [Bool.not_eq_true] at he
            rw [he]
            simp

theorem occ_replaceWordCI_le {p : List Char} (hp : lowerAlpha p = true) (hpne : p ≠ [])
    {w repl : List Char} (hwne : w ≠ []) (hwlast : lastNonWord w = false)
    (hrepl : occursWordFromCI p repl true = false) :
    ∀ (cs : List Char) (b : Bool), ∀ b' : Bool,
      occursWordFromCI p (replaceWordCI w repl cs b) b' = true →
      occursWordFromCI p cs b' = true := by
  intro cs b
  induction cs, b using replaceWordCI.induct w repl with
  | case1 b =>
      intro b' h
      rw [show replaceWordCI w repl [] b = [] from by rw [replaceWordCI]] at h
      exact h
  | case2 c cs atB hcond ih =>
      intro b' h
      rw [show replaceWordCI w repl (c :: cs) atB
          = repl ++ replaceWordCI w repl (cs.drop (w.length - 1)) false
        from by rw [replaceWordCI, if_pos hcond]] at h
      simp only [Bool.and_eq_true] at hcond
      have hmatch : matchWordAtCI w (c :: cs) = true := hcond.2
      have hbp : boundPeek (cs.drop (w.length - 1)) = true := by
        rw [afterTerm_eq_drop hwne c cs]
        exact matchCI_boundPeek hmatch
      have hbp2 : boundPeek (replaceWordCI w repl (cs.drop (w.length - 1)) false) = true := by
        cases hre : cs.drop (w.length - 1) with
        | nil => rw [show replaceWordCI w repl [] false = [] from by rw [replaceWordCI]]; rfl
        | cons a as =>
            rw [replaceWordCI_quiet]
            rw [hre] at hbp
            simpa [boundPeek] using hbp
      rw [occ_append_split_bd hp hbp2 repl b'] at h
      rw [occ_false_of_true hrepl] at h
      simp only [Bool.false_or] at h
      have hafter : occursWordFromCI p (cs.drop (w.length - 1)) false = true := by
        cases hre : cs.drop (w.length - 1) with
        | nil =>
            rw [hre, show replaceWordCI w repl [] false = [] from by rw [replaceWordCI]] at h
            simp [occursWordFromCI] at h
        | cons a as =>
            have hnw : isWordChar a = false := by
              rw [hre] at hbp
              simpa [boundPeek] using hbp
            have h2 := ih (stateAfter repl b') h
            rw [hre] at h2
            rw [occ_cons_nonword _ hp hpne hnw] at h2 ⊢
            exact h2
      have hstate : stateAfter ((c :: cs).take w.length) b' = false := by
        rw [stateAfter_eq_lastNonWord _ _ (take_len_ne_nil hwne c cs)]
        exact span_lastNonWord w (c :: cs) hwne hwlast hmatch
      have hlift := occ_append_right p ((c :: cs).take w.length) (cs.drop (w.length - 1)) b'
        (by rw [hstate]; exact hafter)
      rw [afterTerm_eq_drop hwne c cs, List.take_append_drop] at hlift
      exact hlift
  | case3 c cs atB hcond ih =>
      intro b' h
      rw [show replaceWordCI w repl (c :: cs) atB
          = c :: replaceWordCI w repl cs (!isWordChar c)
        from by rw [replaceWordCI, if_neg hcond]] at h
      simp only [occursWordFromCI, Bool.or_eq_true, Bool.and_eq_true] at h ⊢
      rcases h with ⟨hb', hm⟩ | h
      · left
        refine ⟨hb', ?_⟩
        obtain ⟨p0, ps, rfl⟩ : ∃ p0 ps, p = p0 :: ps := by
          cases p with
          | nil => exact absurd rfl hpne
          | cons a as => exact ⟨a, as, rfl⟩
        by_cases hc : isWordChar c = true
        · rw [hc] at hm
          show (p0 == jsToLower c && matchWordAtCI ps cs) = true
          rw [← matchCI_replaceWordCI w repl ps (lowerAlpha_tail hp) cs]
          exact hm
        · rw [Bool.not_eq_true] at hc
          rw [match_head_nonword (lowerAlpha_mem_word hp _ (List.mem_cons_self _ _)) hc] at hm
          exact absurd hm (by simp)
      · right
        exact ih (!isWordChar c) h

theorem bang_replaceWordCI_ge {w repl : List Char} (hwne : w ≠ [])
    (hwb : ∀ ch ∈ w, isBang ch = false) :
    ∀ (cs : List Char) (b : Bool),
      bangCount cs ≤ bangCount (replaceWordCI w repl cs b) := by
  intro cs b
  induction cs, b using replaceWordCI.induct w repl with
  | case1 b =>
      rw [show replaceWordCI w repl [] b = [] from by rw [replaceWordCI]]
  | case2 c cs atB hcond ih =>
      rw [show replaceWordCI w repl (c :: cs) atB
          = repl ++ replaceWordCI w repl (cs.drop (w.length - 1)) false
        from by rw [replaceWordCI, if_pos hcond]]
      simp only [Bool.and_eq_true] at hcond
      have hmatch : matchWordAtCI w (c :: cs) = true := hcond.2
      have hspan0 : bangCount ((c :: cs).take w.length) = 0 := by
        simp only [bangCount, List.countP_eq_zero]
        intro d hd hb
        obtain ⟨a, hmem, ha⟩ := forall₂_mem_right (matchCI_span hmatch) d hd
        have hab : isBang a = false := hwb a hmem
        rw [ha, bang_jsToLower] at hab
        rw [hab] at hb
        exact absurd hb (by simp)
      calc bangCount (c :: cs)
          = bangCount ((c :: cs).take w.length) + bangCount ((c :: cs).drop w.length) := by
            rw [← bangCount_append, List.take_append_drop]
        _ = bangCount ((c :: cs).drop w.length) := by rw [hspan0]; simp
        _ = bangCount (cs.drop (w.length - 1)) := by rw [afterTerm_eq_drop hwne c cs]
        _ ≤ bangCount (replaceWordCI w repl (cs.drop (w.length - 1)) false) := ih
        _ ≤ bangCount repl + bangCount (replaceWordCI w repl (cs.drop (w.length - 1)) false) :=
            Nat.le_add_left _ _
        _ = bangCount (repl ++ replaceWordCI w repl (cs.drop (w.length - 1)) false) := by
            rw [bangCount_append]
  | case3 c cs atB hcond ih =>
      rw [show replaceWordCI w repl (c :: cs) atB
          = c :: replaceWordCI w repl cs (!isWordChar c)
        from by rw [replaceWordCI, if_neg hcond]]
      simp only [bangCount, List.countP_cons] at ih ⊢
      omega

-- ===== C7: slang/punctuation random-replacement lemmas =====

theorem lastNonWord_all_nonword {x : List Char} (hne : x ≠ [])
    (hx : ∀ c ∈ x, isWordChar c = false) : lastNonWord x = true := by
  rw [← stateAfter_eq_lastNonWord x false hne]
  exact stateAfter_all_nonword x false hne hx

theorem randReplaceWordCI_nil (w : List Char) (pool : List String) (r : RandState)
    (b : Bool) : randReplaceWordCI w pool r [] b = ([], r) := by
  rw [randReplaceWordCI]

theorem randReplaceWordCI_quiet (w : List Char) (pool : List String) (r : RandState)
    (c : Char) (cs : List Char) :
    randReplaceWordCI w pool r (c :: cs) false
      = (c :: (randReplaceWordCI w pool r cs (!isWordChar c)).1,
         (randReplaceWordCI w pool r cs (!isWordChar c)).2) := by
  rw [randReplaceWordCI]
  rw [if_neg (by simp)]

theorem matchCI_randReplaceWordCI (w : List Char) (pool : List String) :
    ∀ (q : List Char), lowerAlpha q = true →
    ∀ (r : RandState) (cs : List Char),
      matchWordAtCI q (randReplaceWordCI w pool r cs false).1 = matchWordAtCI q cs := by
  intro q hq r cs
  induction cs generalizing q r with
  | nil => rw [randReplaceWordCI_nil]
  | cons c cs ih =>
      rw [randReplaceWordCI_quiet]
      cases q with
      | nil => rfl
      | cons q0 qs =>
          show (q0 == jsToLower c
              && matchWordAtCI qs (randReplaceWordCI w pool r cs (!isWordChar c)).1)
            = (q0 == jsToLower c && matchWordAtCI qs cs)
          by_cases he : (q0 == jsToLower c) = true
          · have hc : isWordChar c = true := by
              have h0 : isWordChar q0 = true :=
                lowerAlpha_mem_word hq _ (List.mem_cons_self _ _)
              rw [beq_iff_eq] at he
              rw [he, isWordChar_jsToLower] at h0
              exact h0
            rw [hc]
            show (q0 == jsToLower c
              && matchWordAtCI qs (randReplaceWordCI w pool r cs false).1) = _
            rw [ih qs (lowerAlpha_tail hq) r]
          · rw [Bool.not_eq_true] at he
            rw [he]
            simp

theorem occ_randReplaceWordCI_le {p : List Char} (hp : lowerAlpha p = true) (hpne : p ≠ [])
    {w : List Char} {pool : List String} (hwne : w ≠ []) (hwlast : lastNonWord w = false)
    (hpool : ∀ s ∈ pool, occursWordFromCI p s.toList true = false) :
    ∀ (r : RandState) (cs : List Char) (b : Bool), ∀ b' : Bool,
      occursWordFromCI p (randReplaceWordCI w pool r cs b).1 b' = true →
      occursWordFromCI p cs b' = true := by
  intro r cs b
  induction r, cs, b using randReplaceWordCI.induct w pool with
  | case1 r b =>
      intro b' h
      rw [randReplaceWordCI_nil] at h
      exact h
  | case2 r c cs atB hcond pick ih =>
      intro b' h
      have hstep : randReplaceWordCI w pool r (c :: cs) atB
          = (pick.1.toList
              ++ (randReplaceWordCI w pool pick.2 (cs.drop (w.length - 1)) false).1,
             (randReplaceWordCI w pool pick.2 (cs.drop (w.length - 1)) false).2) := by
        rw [randReplaceWordCI, if_pos hcond]
      rw [hstep] at h
      have hpickdef : pick = getRandomElement pool r := rfl
      clear_value pick
      set rest := randReplaceWordCI w pool pick.2 (cs.drop (w.length - 1)) false
        with hrestdef
      simp only [Bool.and_eq_true] at hcond
      have hmatch : matchWordAtCI w (c :: cs) = true := hcond.2
      have hpick : occursWordFromCI p pick.1.toList true = false := by
        rcases getRandomElement_choice pool r with hm | hm
        · rw [hpickdef]
          exact hpool _ hm
        · rw [hpickdef, hm]
          rfl
      have hbp : boundPeek (cs.drop (w.length - 1)) = true := by
        rw [afterTerm_eq_drop hwne c cs]
        exact matchCI_boundPeek hmatch
      have hbp2 : boundPeek rest.1 = true := by
        rw [hrestdef]
        cases hre : cs.drop (w.length - 1) with
        | nil => rw [randReplaceWordCI_nil]; rfl
        | cons a as =>
            rw [randReplaceWordCI_quiet]
            rw [hre] at hbp
            simpa [boundPeek] using hbp
      rw [occ_append_split_bd hp hbp2 pick.1.toList b'] at h
      rw [occ_false_of_true hpick] at h
      simp only [Bool.false_or] at h
      have hafter : occursWordFromCI p (cs.drop (w.length - 1)) false = true := by
        rw [hrestdef] at h
        cases hre : cs.drop (w.length - 1) with
        | nil =>
            rw [hre, randReplaceWordCI_nil] at h
            simp [occursWordFromCI] at h
        | cons a as =>
            have hnw : isWordChar a = false := by
              rw [hre] at hbp
              simpa [boundPeek] using hbp
            have h2 := ih _ h
            rw [hre] at h2
            rw [occ_cons_nonword _ hp hpne hnw] at h2 ⊢
            exact h2
      have hstate : stateAfter ((c :: cs).take w.length) b' = false := by
        rw [stateAfter_eq_lastNonWord _ _ (take_len_ne_nil hwne c cs)]
        exact span_lastNonWord w (c :: cs) hwne hwlast hmatch
      have hlift := occ_append_right p ((c :: cs).take w.length) (cs.drop (w.length - 1)) b'
        (by rw [hstate]; exact hafter)
      rw [afterTerm_eq_drop hwne c cs, List.take_append_drop] at hlift
      exact hlift
  | case3 r c cs atB hcond ih =>
      intro b' h
      rw [show randReplaceWordCI w pool r (c :: cs) atB
          = (c :: (randReplaceWordCI w pool r cs (!isWordChar c)).1,
             (randReplaceWordCI w pool r cs (!isWordChar c)).2)
        from by rw [randReplaceWordCI, if_neg hcond]] at h
      simp only [occursWordFromCI, Bool.or_eq_true, Bool.and_eq_true] at h ⊢
      rcases h with ⟨hb', hm⟩ | h
      · left
        refine ⟨hb', ?_⟩
        obtain ⟨p0, ps, rfl⟩ : ∃ p0 ps, p = p0 :: ps := by
          cases p with
          | nil => exact absurd rfl hpne
          | cons a as => exact ⟨a, as, rfl⟩
        by_cases hc : isWordChar c = true
        · rw [hc] at hm
          show (p0 == jsToLower c && matchWordAtCI ps cs) = true
          rw [← matchCI_randReplaceWordCI w pool ps (lowerAlpha_tail hp) r cs]
          exact hm
        · rw [Bool.not_eq_true] at hc
          rw [match_head_nonword (lowerAlpha_mem_word hp _ (List.mem_cons_self _ _)) hc] at hm
          exact absurd hm (by simp)
      · right
        exact ih (!isWordChar c) h

theorem bang_randReplaceWordCI_ge {w : List Char} {pool : List String} (hwne : w ≠ [])
    (hwb : ∀ ch ∈ w, isBang ch = false) :
    ∀ (r : RandState) (cs : List Char) (b : Bool),
      bangCount cs ≤ bangCount (randReplaceWordCI w pool r cs b).1 := by
  intro r cs b
  induction r, cs, b using randReplaceWordCI.induct w pool with
  | case1 r b => rw [randReplaceWordCI_nil]
  | case2 r c cs atB hcond pick ih =>
      have hstep : randReplaceWordCI w pool r (c :: cs) atB
          = (pick.1.toList
              ++ (randReplaceWordCI w pool pick.2 (cs.drop (w.length - 1)) false).1,
             (randReplaceWordCI w pool pick.2 (cs.drop (w.length - 1)) false).2) := by
        rw [randReplaceWordCI, if_pos hcond]
      rw [hstep]
      simp only [Bool.and_eq_true] at hcond
      have hmatch : matchWordAtCI w (c :: cs) = true := hcond.2
      have hspan0 : bangCount ((c :: cs).take w.length) = 0 := by
        simp only [bangCount, List.countP_eq_zero]
        intro d hd hb
        obtain ⟨a, hmem, ha⟩ := forall₂_mem_right (matchCI_span hmatch) d hd
        have hab : isBang a = false := hwb a hmem
        rw [ha, bang_jsToLower] at hab
        rw [hab] at hb
        exact absurd hb (by simp)
      calc bangCount (c :: cs)
          = bangCount ((c :: cs).take w.length) + bangCount ((c :: cs).drop w.length) := by
            rw [← bangCount_append, List.take_append_drop]
        _ = bangCount ((c :: cs).drop w.length) := by rw [hspan0]; simp
        _ = bangCount (cs.drop (w.length - 1)) := by rw [afterTerm_eq_drop hwne c cs]
        _ ≤ bangCount (randReplaceWordCI w pool pick.2 (cs.drop (w.length - 1)) false).1 := ih
        _ ≤ bangCount pick.1.toList
            + bangCount (randReplaceWordCI w pool pick.2 (cs.drop (w.length - 1)) false).1 :=
            Nat.le_add_left _ _
        _ = bangCount (pick.1.toList
            ++ (randReplaceWordCI w pool pick.2 (cs.drop (w.length - 1)) false).1) := by
            rw [bangCount_append]
  | case3 r c cs atB hcond ih =>
      rw [show randReplaceWordCI w pool r (c :: cs) atB
          = (c :: (randReplaceWordCI w pool r cs (!isWordChar c)).1,
             (randReplaceWordCI w pool r cs (!isWordChar c)).2)
        from by rw [randReplaceWordCI, if_neg hcond]]
      simp only [bangCount, List.countP_cons]
      have h2 : bangCount cs ≤ bangCount (randReplaceWordCI w pool r cs (!isWordChar c)).1 := ih
      simp only [bangCount] at h2
      omega

-- ===== C7: punctuation and emoji stage lemmas =====

theorem term_not_word {c : Char} (h : (c == '.' || c == '!' || c == '?') = true) :
    isWordChar c = false := by
  simp only [Bool.or_eq_true, beq_iff_eq] at h
  rcases h with (rfl | rfl) | rfl <;> decide

theorem match_head_ne {q0 d : Char} {qs y : List Char}
    (h : (q0 == jsToLower d) = false) :
    matchWordAtCI (q0 :: qs) (d :: y) = false := by
  show (q0 == jsToLower d && matchWordAtCI qs y) = false
  rw [h]
  simp

theorem occ_head_match_false {q l : List Char} (hqne : q ≠ [])
    (h : occursWordFromCI q l true = false) : matchWordAtCI q l = false := by
  cases l with
  | nil =>
      cases q with
      | nil => exact absurd rfl hqne
      | cons q0 qs => rfl
  | cons c cs =>
      simp only [occursWordFromCI, Bool.or_eq_false_iff, Bool.and_eq_false_iff] at h
      rcases h.1 with h1 | h1
      · simp at h1
      · exact h1

theorem insert_all_nonword_clean {q e y : List Char} (hq : lowerAlpha q = true)
    (hqne : q ≠ []) (he : ∀ ch ∈ e, isWordChar ch = false)
    (hy : occursWordFromCI q y true = false) :
    occursWordFromCI q (e ++ y) true = false := by
  cases hee : e with
  | nil => simpa using hy
  | cons x xs =>
      rw [← hee]
      rw [occ_append_split_nw hq e y true
        (lastNonWord_all_nonword (by rw [hee]; simp) he)]
      rw [occ_all_nonword hq hqne e true he]
      rw [stateAfter_all_nonword e true (by rw [hee]; simp) he]
      simpa using hy

theorem insert_wordEnd_clean {q f y : List Char} {d : Char} (hq : lowerAlpha q = true)
    (hqne : q ≠ []) (hf : ∀ ch ∈ f, isWordChar ch = false) (hfne : f ≠ [])
    (hd : isWordChar d = true)
    (hm : matchWordAtCI q (d :: y) = false)
    (hy : occursWordFromCI q y false = false) :
    occursWordFromCI q (f ++ d :: y) true = false := by
  rw [occ_append_split_nw hq f (d :: y) true (lastNonWord_all_nonword hfne hf)]
  rw [occ_all_nonword hq hqne f true hf]
  rw [stateAfter_all_nonword f true hfne hf]
  simp only [Bool.false_or]
  show (true && matchWordAtCI q (d :: y) || occursWordFromCI q y (!isWordChar d)) = false
  rw [hm, hd]
  simpa using hy

theorem randReplaceDot_nil (pr : ℚ) (repl : List Char) (r : RandState) :
    randReplaceDot pr repl r [] = ([], r) := by
  rw [randReplaceDot]

theorem randReplaceDot_dot (pr : ℚ) (repl : List Char) (r : RandState) (c : Char)
    (cs : List Char) (h : (c == '.') = true) :
    randReplaceDot pr repl r (c :: cs)
      = ((if (r.next).1 < pr then repl else [c]) ++ (randReplaceDot pr repl (r.next).2 cs).1,
         (randReplaceDot pr repl (r.next).2 cs).2) := by
  rw [randReplaceDot, if_pos h]

theorem randReplaceDot_keep (pr : ℚ) (repl : List Char) (r : RandState) (c : Char)
    (cs : List Char) (h : ¬(c == '.') = true) :
    randReplaceDot pr repl r (c :: cs)
      = (c :: (randReplaceDot pr repl r cs).1, (randReplaceDot pr repl r cs).2) := by
  rw [randReplaceDot, if_neg h]

theorem matchCI_randReplaceDot (pr : ℚ) (repl : List Char) (hrne : repl ≠ [])
    (hrnw : ∀ ch ∈ repl, isWordChar ch = false) :
    ∀ (q : List Char), lowerAlpha q = true →
    ∀ (r : RandState) (cs : List Char),
      matchWordAtCI q (randReplaceDot pr repl r cs).1 = matchWordAtCI q cs := by
  intro q hq r cs
  induction r, cs using randReplaceDot.induct pr repl generalizing q with
  | case1 r => rw [randReplaceDot_nil]
  | case2 r c cs hdot d ih =>
      rw [beq_iff_eq] at hdot
      subst hdot
      rw [randReplaceDot_dot pr repl r '.' cs (by decide)]
      have hx : ∀ ch ∈ (if (r.next).1 < pr then repl else ['.']), isWordChar ch = false := by
        split
        · exact hrnw
        · intro ch hch
          simp only [List.mem_singleton] at hch
          subst hch
          decide
      have hxne : (if (r.next).1 < pr then repl else ['.']) ≠ [] := by
        split
        · exact hrne
        · simp
      cases q with
      | nil =>
          cases hxe : (if (r.next).1 < pr then repl else ['.']) with
          | nil => exact absurd hxe hxne
          | cons x xs =>
              have hxw : isWordChar x = false := hx x (by rw [hxe]; simp)
              show matchWordAtCI [] ((x :: xs) ++ _) = matchWordAtCI [] ('.' :: cs)
              show (!isWordChar x) = (!isWordChar '.')
              rw [hxw]
              rfl
      | cons q0 qs =>
          cases hxe : (if (r.next).1 < pr then repl else ['.']) with
          | nil => exact absurd hxe hxne
          | cons x xs =>
              have hxw : isWordChar x = false := hx x (by rw [hxe]; simp)
              show matchWordAtCI (q0 :: qs) ((x :: xs) ++ _) = matchWordAtCI (q0 :: qs) ('.' :: cs)
              rw [List.cons_append]
              rw [match_head_nonword (lowerAlpha_mem_word hq _ (List.mem_cons_self _ _)) hxw,
                match_head_nonword (lowerAlpha_mem_word hq _ (List.mem_cons_self _ _)) (by decide)]
  | case3 r c cs hnd ih =>
      rw [randReplaceDot_keep pr repl r c cs hnd]
      cases q with
      | nil => rfl
      | cons q0 qs =>
          show (q0 == jsToLower c && matchWordAtCI qs (randReplaceDot pr repl r cs).1)
            = (q0 == jsToLower c && matchWordAtCI qs cs)
          by_cases he : (q0 == jsToLower c) = true
          · rw [ih qs (lowerAlpha_tail hq)]
          · rw [Bool.not_eq_true] at he
            rw [he]
            simp

theorem occ_randReplaceDot_le {p2 : List Char} (hp : lowerAlpha p2 = true) (hpne : p2 ≠ [])
    {pr : ℚ} {repl : List Char} (hrne : repl ≠ [])
    (hrnw : ∀ ch ∈ repl, isWordChar ch = false) :
    ∀ (r : RandState) (cs : List Char), ∀ b' : Bool,
      occursWordFromCI p2 (randReplaceDot pr repl r cs).1 b' = true →
      occursWordFromCI p2 cs b' = true := by
  intro r cs
  induction r, cs using randReplaceDot.induct pr repl with
  | case1 r =>
      intro b' h
      rw [randReplaceDot_nil] at h
      exact h
  | case2 r c cs hdot d ih =>
      intro b' h
      rw [beq_iff_eq] at hdot
      subst hdot
      rw [randReplaceDot_dot pr repl r '.' cs (by decide)] at h
      have hx : ∀ ch ∈ (if (r.next).1 < pr then repl else ['.']), isWordChar ch = false := by
        split
        · exact hrnw
        · intro ch hch
          simp only [List.mem_singleton] at hch
          subst hch
          decide
      have hxne : (if (r.next).1 < pr then repl else ['.']) ≠ [] := by
        split
        · exact hrne
        · simp
      rw [occ_append_split_nw hp _ _ b' (lastNonWord_all_nonword hxne hx)] at h
      rw [occ_all_nonword hp hpne _ b' hx] at h
      rw [stateAfter_all_nonword _ b' hxne hx] at h
      simp only [Bool.false_or] at h
      have h2 := ih true h
      show (b' && matchWordAtCI p2 ('.' :: cs) || occursWordFromCI p2 cs (!isWordChar '.')) = true
      rw [show (!isWordChar ('.' : Char)) = true from by decide]
      rw [h2]
      simp
  | case3 r c cs hnd ih =>
      intro b' h
      rw [randReplaceDot_keep pr repl r c cs hnd] at h
      simp only [occursWordFromCI, Bool.or_eq_true, Bool.and_eq_true] at h ⊢
      rcases h with ⟨hb', hm⟩ | h
      · left
        refine ⟨hb', ?_⟩
        obtain ⟨p0, ps, rfl⟩ : ∃ p0 ps, p2 = p0 :: ps := by
          cases p2 with
          | nil => exact absurd rfl hpne
          | cons a as => exact ⟨a, as, rfl⟩
        have := matchCI_randReplaceDot pr repl hrne hrnw ps (lowerAlpha_tail hp) r cs
        show (p0 == jsToLower c && matchWordAtCI ps cs) = true
        rw [← this]
        exact hm
      · right
        exact ih (!isWordChar c) h

theorem bang_randReplaceDot_ge (pr : ℚ) (repl : List Char) :
    ∀ (r : RandState) (cs : List Char),
      bangCount cs ≤ bangCount (randReplaceDot pr repl r cs).1 := by
  intro r cs
  induction r, cs using randReplaceDot.induct pr repl with
  | case1 r => rw [randReplaceDot_nil]
  | case2 r c cs hdot d ih =>
      rw [beq_iff_eq] at hdot
      subst hdot
      rw [randReplaceDot_dot pr repl r '.' cs (by decide)]
      rw [bangCount_append]
      have hdot0 : bangCount ['.'] = 0 := by decide
      have : bangCount ('.' :: cs) = bangCount cs := by
        simp only [bangCount, List.countP_cons]
        rw [show isBang '.' = false from by decide]
        simp
      rw [this]
      have hd : d = r.next := rfl
      rw [hd] at ih
      omega
  | case3 r c cs hnd ih =>
      rw [randReplaceDot_keep pr repl r c cs hnd]
      simp only [bangCount, List.countP_cons] at ih ⊢
      omega

-- ===== C7: dot-after-lowercase stage lemmas =====

theorem randRDAL_nil (r : RandState) (prev : Option Char) :
    randReplaceDotAfterLower r prev [] = ([], r) := by
  rw [randReplaceDotAfterLower.eq_def]

theorem randRDAL_hit (r : RandState) (prev : Option Char) (c : Char) (cs : List Char)
    (h : (c == '.' && (match prev with
        | some p => 'a' ≤ p && p ≤ 'z'
        | none => false)) = true) :
    randReplaceDotAfterLower r prev (c :: cs)
      = ((if (r.next).1 < 0.2 then wl "!!" else [c])
          ++ (randReplaceDotAfterLower (r.next).2 (some c) cs).1,
         (randReplaceDotAfterLower (r.next).2 (some c) cs).2) := by
  rw [randReplaceDotAfterLower.eq_def]
  dsimp only
  rw [if_pos h]

theorem randRDAL_keep (r : RandState) (prev : Option Char) (c : Char) (cs : List Char)
    (h : ¬(c == '.' && (match prev with
        | some p => 'a' ≤ p && p ≤ 'z'
        | none => false)) = true) :
    randReplaceDotAfterLower r prev (c :: cs)
      = (c :: (randReplaceDotAfterLower r (some c) cs).1,
         (randReplaceDotAfterLower r (some c) cs).2) := by
  rw [randReplaceDotAfterLower.eq_def]
  dsimp only
  rw [if_neg h]

theorem matchCI_randRDAL :
    ∀ (q : List Char), lowerAlpha q = true →
    ∀ (r : RandState) (prev : Option Char) (cs : List Char),
      matchWordAtCI q (randReplaceDotAfterLower r prev cs).1 = matchWordAtCI q cs := by
  intro q hq r prev cs
  induction r, prev, cs using randReplaceDotAfterLower.induct generalizing q with
  | case1 r prev => rw [randRDAL_nil]
  | case2 r prev c cs hcond d ih =>
      have hc : c = '.' := by
        simp only [Bool.and_eq_true, beq_iff_eq] at hcond
        exact hcond.1
      subst hc
      rw [randRDAL_hit r prev '.' cs hcond]
      have hx : ∀ ch ∈ (if (r.next).1 < 0.2 then wl "!!" else ['.']), isWordChar ch = false := by
        split
        · decide
        · intro ch hch
          simp only [List.mem_singleton] at hch
          subst hch
          decide
      have hxne : (if (r.next).1 < 0.2 then wl "!!" else ['.']) ≠ [] := by
        split <;> simp [wl]
      cases q with
      | nil =>
          cases hxe : (if (r.next).1 < 0.2 then wl "!!" else ['.']) with
          | nil => exact absurd hxe hxne
          | cons x xs =>
              have hxw : isWordChar x = false := hx x (by rw [hxe]; simp)
              show (!isWordChar x) = (!isWordChar '.')
              rw [hxw]
              rfl
      | cons q0 qs =>
          cases hxe : (if (r.next).1 < 0.2 then wl "!!" else ['.']) with
          | nil => exact absurd hxe hxne
          | cons x xs =>
              have hxw : isWordChar x = false := hx x (by rw [hxe]; simp)
              show matchWordAtCI (q0 :: qs) ((x :: xs) ++ _) = matchWordAtCI (q0 :: qs) ('.' :: cs)
              rw [List.cons_append]
              rw [match_head_nonword (lowerAlpha_mem_word hq _ (List.mem_cons_self _ _)) hxw,
                match_head_nonword (lowerAlpha_mem_word hq _ (List.mem_cons_self _ _)) (by decide)]
  | case3 r prev c cs hcond ih =>
      rw [randRDAL_keep r prev c cs hcond]
      cases q with
      | nil => rfl
      | cons q0 qs =>
          show (q0 == jsToLower c && matchWordAtCI qs (randReplaceDotAfterLower r (some c) cs).1)
            = (q0 == jsToLower c && matchWordAtCI qs cs)
          rw [ih qs (lowerAlpha_tail hq)]

theorem occ_randRDAL_le {p2 : List Char} (hp : lowerAlpha p2 = true) (hpne : p2 ≠ []) :
    ∀ (r : RandState) (prev : Option Char) (cs : List Char), ∀ b' : Bool,
      occursWordFromCI p2 (randReplaceDotAfterLower r prev cs).1 b' = true →
      occursWordFromCI p2 cs b' = true := by
  intro r prev cs
  induction r, prev, cs using randReplaceDotAfterLower.induct with
  | case1 r prev =>
      intro b' h
      rw [randRDAL_nil] at h
      exact h
  | case2 r prev c cs hcond d ih =>
      intro b' h
      have hc : c = '.' := by
        simp only [Bool.and_eq_true, beq_iff_eq] at hcond
        exact hcond.1
      subst hc
      rw [randRDAL_hit r prev '.' cs hcond] at h
      have hx : ∀ ch ∈ (if (r.next).1 < 0.2 then wl "!!" else ['.']), isWordChar ch = false := by
        split
        · decide
        · intro ch hch
          simp only [List.mem_singleton] at hch
          subst hch
          decide
      have hxne : (if (r.next).1 < 0.2 then wl "!!" else ['.']) ≠ [] := by
        split <;> simp [wl]
      rw [occ_append_split_nw hp _ _ b' (lastNonWord_all_nonword hxne hx)] at h
      rw [occ_all_nonword hp hpne _ b' hx] at h
      rw [stateAfter_all_nonword _ b' hxne hx] at h
      simp only [Bool.false_or] at h
      have h2 := ih true h
      show (b' && matchWordAtCI p2 ('.' :: cs) || occursWordFromCI p2 cs (!isWordChar '.')) = true
      rw [show (!isWordChar ('.' : Char)) = true from by decide]
      rw [h2]
      simp
  | case3 r prev c cs hcond ih =>
      intro b' h
      rw [randRDAL_keep r prev c cs hcond] at h
      simp only [occursWordFromCI, Bool.or_eq_true, Bool.and_eq_true] at h ⊢
      rcases h with ⟨hb', hm⟩ | h
      · left
        refine ⟨hb', ?_⟩
        obtain ⟨p0, ps, rfl⟩ : ∃ p0 ps, p2 = p0 :: ps := by
          cases p2 with
          | nil => exact absurd rfl hpne
          | cons a as => exact ⟨a, as, rfl⟩
        have := matchCI_randRDAL ps (lowerAlpha_tail hp) r (some c) cs
        show (p0 == jsToLower c && matchWordAtCI ps cs) = true
        rw [← this]
        exact hm
      · right
        exact ih (!isWordChar c) h

theorem bang_randRDAL_ge :
    ∀ (r : RandState) (prev : Option Char) (cs : List Char),
      bangCount cs ≤ bangCount (randReplaceDotAfterLower r prev cs).1 := by
  intro r prev cs
  induction r, prev, cs using randReplaceDotAfterLower.induct with
  | case1 r prev => rw [randRDAL_nil]
  | case2 r prev c cs hcond d ih =>
      have hc : c = '.' := by
        simp only [Bool.and_eq_true, beq_iff_eq] at hcond
        exact hcond.1
      subst hc
      rw [randRDAL_hit r prev '.' cs hcond]
      rw [bangCount_append]
      have hcount : bangCount ('.' :: cs) = bangCount cs := by
        simp only [bangCount, List.countP_cons]
        rw [show isBang '.' = false from by decide]
        simp
      rw [hcount]
      have hd : d = r.next := rfl
      rw [hd] at ih
      omega
  | case3 r prev c cs hcond ih =>
      rw [randRDAL_keep r prev c cs hcond]
      simp only [bangCount, List.countP_cons] at ih ⊢
      omega

-- ===== C7: emoji stage lemmas =====

theorem watchWords_facts : ∀ q ∈ watchWords, lowerAlpha q = true ∧ q ≠ [] := by decide

theorem watchWords_eq : watchWords
    = [wl "honey", wl "darling", wl "sweetie", wl "dear", wl "love", wl "hun",
       wl "babe", wl "baby", wl "sweetheart", wl "ear", wl "arling"] := by decide

theorem occ_cons_tail_false {q : List Char} {c : Char} {cs : List Char} {b : Bool}
    (h : occursWordFromCI q (c :: cs) b = false) :
    occursWordFromCI q cs (!isWordChar c) = false := by
  simp only [occursWordFromCI, Bool.or_eq_false_iff] at h
  exact h.2

theorem randEmoji_nil (pref : List String) (r : RandState) :
    randEmoji pref r [] = ([], r) := by
  rw [randEmoji]

theorem randEmoji_hit (pref : List String) (r : RandState) (c : Char) (cs : List Char)
    (hterm : (c == '.' || c == '!' || c == '?') = true)
    (hlt : (r.next).1 < 0.25) :
    randEmoji pref r (c :: cs)
      = (c :: ' ' :: (getRandomElement pref (r.next).2).1.toList
          ++ (randEmoji pref (getRandomElement pref (r.next).2).2 cs).1,
         (randEmoji pref (getRandomElement pref (r.next).2).2 cs).2) := by
  rw [randEmoji, if_pos hterm, if_pos hlt]

theorem randEmoji_hit_fst (pref : List String) (r : RandState) (c : Char) (cs : List Char)
    (hterm : (c == '.' || c == '!' || c == '?') = true)
    (hlt : (r.next).1 < 0.25) :
    (randEmoji pref r (c :: cs)).1
      = c :: ' ' :: (getRandomElement pref (r.next).2).1.toList
          ++ (randEmoji pref (getRandomElement pref (r.next).2).2 cs).1 := by
  rw [randEmoji_hit pref r c cs hterm hlt]

theorem randEmoji_skip (pref : List String) (r : RandState) (c : Char) (cs : List Char)
    (hterm : (c == '.' || c == '!' || c == '?') = true)
    (hge : ¬(r.next).1 < 0.25) :
    randEmoji pref r (c :: cs)
      = (c :: (randEmoji pref (r.next).2 cs).1, (randEmoji pref (r.next).2 cs).2) := by
  rw [randEmoji, if_pos hterm, if_neg hge]

theorem randEmoji_skip_fst (pref : List String) (r : RandState) (c : Char) (cs : List Char)
    (hterm : (c == '.' || c == '!' || c == '?') = true)
    (hge : ¬(r.next).1 < 0.25) :
    (randEmoji pref r (c :: cs)).1 = c :: (randEmoji pref (r.next).2 cs).1 := by
  rw [randEmoji_skip pref r c cs hterm hge]

theorem randEmoji_keep (pref : List String) (r : RandState) (c : Char) (cs : List Char)
    (hterm : ¬(c == '.' || c == '!' || c == '?') = true) :
    randEmoji pref r (c :: cs)
      = (c :: (randEmoji pref r cs).1, (randEmoji pref r cs).2) := by
  rw [randEmoji, if_neg hterm]

theorem randEmoji_keep_fst (pref : List String) (r : RandState) (c : Char) (cs : List Char)
    (hterm : ¬(c == '.' || c == '!' || c == '?') = true) :
    (randEmoji pref r (c :: cs)).1 = c :: (randEmoji pref r cs).1 := by
  rw [randEmoji_keep pref r c cs hterm]

theorem matchCI_randEmoji (pref : List String) :
    ∀ (q : List Char), lowerAlpha q = true →
    ∀ (r : RandState) (cs : List Char),
      matchWordAtCI q (randEmoji pref r cs).1 = matchWordAtCI q cs := by
  intro q hq r cs
  induction r, cs using randEmoji.induct pref generalizing q with
  | case1 r => rw [randEmoji_nil]
  | case2 r c cs hterm d1 hlt pick ih =>
      rw [randEmoji_hit_fst pref r c cs hterm hlt]
      simp only [List.cons_append]
      have hcw : isWordChar c = false := term_not_word hterm
      cases q with
      | nil => rfl
      | cons q0 qs =>
          rw [match_head_nonword (lowerAlpha_mem_word hq _ (List.mem_cons_self _ _)) hcw,
            match_head_nonword (lowerAlpha_mem_word hq _ (List.mem_cons_self _ _)) hcw]
  | case3 r c cs hterm d1 hge ih =>
      rw [randEmoji_skip_fst pref r c cs hterm hge]
      have hcw : isWordChar c = false := term_not_word hterm
      cases q with
      | nil => rfl
      | cons q0 qs =>
          rw [match_head_nonword (lowerAlpha_mem_word hq _ (List.mem_cons_self _ _)) hcw,
            match_head_nonword (lowerAlpha_mem_word hq _ (List.mem_cons_self _ _)) hcw]
  | case4 r c cs hterm ih =>
      rw [randEmoji_keep_fst pref r c cs hterm]
      cases q with
      | nil => rfl
      | cons q0 qs =>
          show (q0 == jsToLower c && matchWordAtCI qs (randEmoji pref r cs).1)
            = (q0 == jsToLower c && matchWordAtCI qs cs)
          rw [ih qs (lowerAlpha_tail hq)]

theorem clean_randEmoji {pref : List String}
    (hpref : ∀ e ∈ pref, e.toList ∈ emojiCandidates) :
    ∀ (r : RandState) (cs : List Char), ∀ b : Bool,
      (∀ q ∈ watchWords, occursWordFromCI q cs b = false) →
      ∀ q ∈ watchWords, occursWordFromCI q (randEmoji pref r cs).1 b = false := by
  intro r cs
  induction r, cs using randEmoji.induct pref with
  | case1 r =>
      intro b hcl q hq
      rw [randEmoji_nil]
      rfl
  | case2 r c cs hterm d1 hlt pick ih =>
      intro b hcl q hq
      obtain ⟨hqlow, hqne⟩ := watchWords_facts q hq
      have hcw : isWordChar c = false := term_not_word hterm
      rw [randEmoji_hit_fst pref r c cs hterm hlt]
      simp only [List.cons_append]
      rw [show getRandomElement pref (r.next).2 = pick from rfl]
      rw [occ_cons_nonword b hqlow hqne hcw]
      rw [occ_cons_nonword true hqlow hqne (by decide : isWordChar ' ' = false)]
      have hclcs_true : ∀ q' ∈ watchWords, occursWordFromCI q' cs true = false := by
        intro q' hq'
        have h2 := occ_cons_tail_false (hcl q' hq')
        rw [hcw] at h2
        exact h2
      have hclcs_false : ∀ q' ∈ watchWords, occursWordFromCI q' cs false = false :=
        fun q' hq' => occ_false_of_true (hclcs_true q' hq')
      have hrest_true : ∀ q' ∈ watchWords,
          occursWordFromCI q' (randEmoji pref pick.2 cs).1 true = false :=
        ih true hclcs_true
      have hrest_false : ∀ q' ∈ watchWords,
          occursWordFromCI q' (randEmoji pref pick.2 cs).1 false = false :=
        ih false hclcs_false
      have hcand : pick.1.toList ∈ emojiCandidates := by
        rcases getRandomElement_choice pref d1.2 with hm | hm
        · exact hpref _ hm
        · have hp : pick.1 = "" := hm
          rw [hp]
          decide
      have hmD : matchWordAtCI q ('D' :: (randEmoji pref pick.2 cs).1) = false := by
        rw [watchWords_eq] at hq
        simp only [List.mem_cons, List.not_mem_nil, or_false] at hq
        rcases hq with rfl | rfl | rfl | rfl | rfl | rfl | rfl | rfl | rfl | rfl | rfl
        · exact match_head_ne (by decide)
        · show ('d' == jsToLower 'D'
            && matchWordAtCI (wl "arling") (randEmoji pref pick.2 cs).1) = false
          rw [show ('d' == jsToLower 'D') = true from by decide]
          rw [matchCI_randEmoji pref (wl "arling") (by decide) pick.2 cs]
          rw [occ_head_match_false (by decide) (hclcs_true (wl "arling") (by decide))]
          rfl
        · exact match_head_ne (by decide)
        · show ('d' == jsToLower 'D'
            && matchWordAtCI (wl "ear") (randEmoji pref pick.2 cs).1) = false
          rw [show ('d' == jsToLower 'D') = true from by decide]
          rw [matchCI_randEmoji pref (wl "ear") (by decide) pick.2 cs]
          rw [occ_head_match_false (by decide) (hclcs_true (wl "ear") (by decide))]
          rfl
        · exact match_head_ne (by decide)
        · exact match_head_ne (by decide)
        · exact match_head_ne (by decide)
        · exact match_head_ne (by decide)
        · exact match_head_ne (by decide)
        · exact match_head_ne (by decide)
        · exact match_head_ne (by decide)
      have hmP : matchWordAtCI q ('P' :: (randEmoji pref pick.2 cs).1) = false := by
        rw [watchWords_eq] at hq
        simp only [List.mem_cons, List.not_mem_nil, or_false] at hq
        rcases hq with rfl | rfl | rfl | rfl | rfl | rfl | rfl | rfl | rfl | rfl | rfl <;>
          exact match_head_ne (by decide)
      have hm3 : matchWordAtCI q ('3' :: (randEmoji pref pick.2 cs).1) = false := by
        rw [watchWords_eq] at hq
        simp only [List.mem_cons, List.not_mem_nil, or_false] at hq
        rcases hq with rfl | rfl | rfl | rfl | rfl | rfl | rfl | rfl | rfl | rfl | rfl <;>
          exact match_head_ne (by decide)
      simp only [emojiCandidates, List.mem_cons, List.not_mem_nil, or_false] at hcand
      rcases hcand with he | he | he | he | he | he | he | he | he | he
      · rw [he]
        exact insert_all_nonword_clean hqlow hqne (by decide) (hrest_true q hq)
      · rw [he]
        exact insert_all_nonword_clean hqlow hqne (by decide) (hrest_true q hq)
      · rw [he]
        show occursWordFromCI q ([':'] ++ 'D' :: (randEmoji pref pick.2 cs).1) true = false
        exact insert_wordEnd_clean hqlow hqne (by decide) (by simp) (by decide)
          hmD (hrest_false q hq)
      · rw [he]
        show occursWordFromCI q ([':'] ++ 'P' :: (randEmoji pref pick.2 cs).1) true = false
        exact insert_wordEnd_clean hqlow hqne (by decide) (by simp) (by decide)
          hmP (hrest_false q hq)
      · rw [he]
        show occursWordFromCI q ([';'] ++ 'P' :: (randEmoji pref pick.2 cs).1) true = false
        exact insert_wordEnd_clean hqlow hqne (by decide) (by simp) (by decide)
          hmP (hrest_false q hq)
      · rw [he]
        exact insert_all_nonword_clean hqlow hqne (by decide) (hrest_true q hq)
      · rw [he]
        exact insert_all_nonword_clean hqlow hqne (by decide) (hrest_true q hq)
      · rw [he]
        exact insert_all_nonword_clean hqlow hqne (by decide) (hrest_true q hq)
      · rw [he]
        show occursWordFromCI q (['<'] ++ '3' :: (randEmoji pref pick.2 cs).1) true = false
        exact insert_wordEnd_clean hqlow hqne (by decide) (by simp) (by decide)
          hm3 (hrest_false q hq)
      · rw [he]
        simpa using hrest_true q hq
  | case3 r c cs hterm d1 hge ih =>
      intro b hcl q hq
      obtain ⟨hqlow, hqne⟩ := watchWords_facts q hq
      have hcw : isWordChar c = false := term_not_word hterm
      rw [randEmoji_skip_fst pref r c cs hterm hge]
      rw [occ_cons_nonword b hqlow hqne hcw]
      have hclcs_true : ∀ q' ∈ watchWords, occursWordFromCI q' cs true = false := by
        intro q' hq'
        have h2 := occ_cons_tail_false (hcl q' hq')
        rw [hcw] at h2
        exact h2
      exact ih true hclcs_true q hq
  | case4 r c cs hterm ih =>
      intro b hcl q hq
      obtain ⟨hqlow, hqne⟩ := watchWords_facts q hq
      rw [randEmoji_keep_fst pref r c cs hterm]
      have hm : matchWordAtCI q (c :: (randEmoji pref r cs).1)
          = matchWordAtCI q (c :: cs) := by
        cases q with
        | nil => rfl
        | cons q0 qs =>
            show (q0 == jsToLower c && matchWordAtCI qs (randEmoji pref r cs).1)
              = (q0 == jsToLower c && matchWordAtCI qs cs)
            rw [matchCI_randEmoji pref qs (lowerAlpha_tail hqlow) r cs]
      have hcl' := hcl q hq
      simp only [occursWordFromCI, Bool.or_eq_false_iff] at hcl' ⊢
      constructor
      · rw [hm]
        exact hcl'.1
      · have hclcs : ∀ q' ∈ watchWords,
            occursWordFromCI q' cs (!isWordChar c) = false :=
          fun q' hq' => occ_cons_tail_false (hcl q' hq')
        exact ih (!isWordChar c) hclcs q hq

theorem bang_randEmoji_ge (pref : List String) :
    ∀ (r : RandState) (cs : List Char),
      bangCount cs ≤ bangCount (randEmoji pref r cs).1 := by
  intro r cs
  induction r, cs using randEmoji.induct pref with
  | case1 r => rw [randEmoji_nil]
  | case2 r c cs hterm d1 hlt pick ih =>
      rw [randEmoji_hit_fst pref r c cs hterm hlt]
      rw [show getRandomElement pref (r.next).2 = pick from rfl]
      simp only [bangCount, List.countP_cons, List.countP_append] at ih ⊢
      omega
  | case3 r c cs hterm d1 hge ih =>
      rw [randEmoji_skip_fst pref r c cs hterm hge]
      have ih2 : bangCount cs ≤ bangCount (randEmoji pref (r.next).2 cs).1 := ih
      simp only [bangCount, List.countP_cons] at ih2 ⊢
      omega
  | case4 r c cs hterm ih =>
      rw [randEmoji_keep_fst pref r c cs hterm]
      simp only [bangCount, List.countP_cons] at ih ⊢
      omega

-- ===== C7: bro stage lemmas =====

theorem match_extend_nonword {d : Char} (hd : isWordChar d = false) :
    ∀ (q x : List Char) (y : List Char), matchWordAtCI q x = true →
      matchWordAtCI q (x ++ d :: y) = true := by
  intro q
  induction q with
  | nil =>
      intro x y h
      cases x with
      | nil =>
          show boundPeek (d :: y) = true
          simp [boundPeek, hd]
      | cons e es => exact h
  | cons q0 qs ih =>
      intro x y h
      cases x with
      | nil => exact absurd h (by simp [matchWordAtCI])
      | cons e es =>
          rw [List.cons_append]
          show (q0 == jsToLower e && matchWordAtCI qs (es ++ d :: y)) = true
          have h2 : (q0 == jsToLower e && matchWordAtCI qs es) = true := h
          rw [Bool.and_eq_true] at h2 ⊢
          exact ⟨h2.1, ih es y h2.2⟩

theorem occ_extend_nonword {d : Char} (hd : isWordChar d = false) (q : List Char) :
    ∀ (x : List Char) (y : List Char) (b : Bool), occursWordFromCI q x b = true →
      occursWordFromCI q (x ++ d :: y) b = true := by
  intro x
  induction x with
  | nil => intro y b h; exact absurd h (by simp [occursWordFromCI])
  | cons c cs ih =>
      intro y b h
      rw [List.cons_append]
      show (b && matchWordAtCI q (c :: cs ++ d :: y)
        || occursWordFromCI q (cs ++ d :: y) (!isWordChar c)) = true
      have h2 : (b && matchWordAtCI q (c :: cs)
          || occursWordFromCI q cs (!isWordChar c)) = true := h
      rw [Bool.or_eq_true] at h2 ⊢
      rcases h2 with h2 | h2
      · left
        rw [Bool.and_eq_true] at h2 ⊢
        refine ⟨h2.1, ?_⟩
        exact match_extend_nonword hd q (c :: cs) y h2.2
      · right
        exact ih y (!isWordChar c) h2

theorem splitSA_nil (acc : List Char) : splitSentencesAux [] acc = [acc.reverse] := by
  rw [splitSentencesAux]

theorem splitSA_split (c : Char) (cs acc : List Char)
    (h : (c.isWhitespace && (match acc with
        | p :: _ => p == '.' || p == '!' || p == '?'
        | [] => false)) = true) :
    splitSentencesAux (c :: cs) acc
      = acc.reverse
        :: splitSentencesAux (cs.drop ((cs.takeWhile Char.isWhitespace).length)) [] := by
  rw [splitSentencesAux.eq_def]
  dsimp only
  rw [if_pos h]

theorem splitSA_keep (c : Char) (cs acc : List Char)
    (h : ¬(c.isWhitespace && (match acc with
        | p :: _ => p == '.' || p == '!' || p == '?'
        | [] => false)) = true) :
    splitSentencesAux (c :: cs) acc = splitSentencesAux cs (c :: acc) := by
  rw [splitSentencesAux.eq_def]
  dsimp only
  rw [if_neg h]

theorem occ_splitSentencesAux (q : List Char) :
    ∀ (l acc : List Char), ∀ part ∈ splitSentencesAux l acc,
      occursWordFromCI q part true = true →
      occursWordFromCI q (acc.reverse ++ l) true = true := by
  intro l acc
  induction l, acc using splitSentencesAux.induct with
  | case1 acc =>
      intro part hmem h
      rw [splitSA_nil] at hmem
      rw [List.mem_singleton] at hmem
      subst hmem
      rw [List.append_nil]
      exact h
  | case2 c cs acc hcond ih =>
      intro part hmem h
      rw [splitSA_split c cs acc hcond] at hmem
      have hw : c.isWhitespace = true := by
        rw [Bool.and_eq_true] at hcond
        exact hcond.1
      rcases List.mem_cons.mp hmem with rfl | hmem2
      · exact occ_extend_nonword (whitespace_not_word hw) q acc.reverse cs true h
      · have h2 := ih part hmem2 h
        rw [List.reverse_nil, List.nil_append] at h2
        have hsplit := takeWhile_append_drop Char.isWhitespace cs
        have hx : acc.reverse ++ c :: cs
            = (acc.reverse ++ c :: cs.takeWhile Char.isWhitespace)
              ++ cs.drop ((cs.takeWhile Char.isWhitespace).length) := by
          rw [List.append_assoc, List.cons_append, hsplit]
        rw [hx]
        apply occ_append_right
        have hst : stateAfter
            (acc.reverse ++ c :: cs.takeWhile Char.isWhitespace) true = true := by
          rw [stateAfter_append]
          apply stateAfter_all_nonword
          · simp
          · intro d hd
            rcases List.mem_cons.mp hd with rfl | hd2
            · exact whitespace_not_word hw
            · exact whitespace_not_word (List.mem_takeWhile_imp hd2)
        rw [hst]
        exact h2
  | case3 c cs acc hcond ih =>
      intro part hmem h
      rw [splitSA_keep c cs acc hcond] at hmem
      have h2 := ih part hmem h
      rw [List.reverse_cons, List.append_assoc, List.singleton_append] at h2
      exact h2

theorem bang_splitSentencesAux :
    ∀ (l acc : List Char),
      ((splitSentencesAux l acc).map bangCount).sum = bangCount acc + bangCount l := by
  intro l acc
  induction l, acc using splitSentencesAux.induct with
  | case1 acc =>
      rw [splitSA_nil]
      simp [bang_reverse, bangCount]
  | case2 c cs acc hcond ih =>
      rw [splitSA_split c cs acc hcond]
      have hw : c.isWhitespace = true := by
        rw [Bool.and_eq_true] at hcond
        exact hcond.1
      rw [List.map_cons, List.sum_cons, ih, bang_reverse]
      have hsplit := takeWhile_append_drop Char.isWhitespace cs
      have hcs : bangCount cs
          = bangCount (cs.takeWhile Char.isWhitespace)
            + bangCount (cs.drop ((cs.takeWhile Char.isWhitespace).length)) := by
        conv_lhs => rw [← hsplit]
        exact bangCount_append _ _
      have hws : bangCount (cs.takeWhile Char.isWhitespace) = 0 := by
        simp only [bangCount]
        rw [List.countP_eq_zero]
        intro d hd
        simp [whitespace_not_bang (List.mem_takeWhile_imp hd)]
      have hc : bangCount (c :: cs) = bangCount cs := by
        simp [bangCount, List.countP_cons, whitespace_not_bang hw]
      have h0 : bangCount ([] : List Char) = 0 := rfl
      omega
  | case3 c cs acc hcond ih =>
      rw [splitSA_keep c cs acc hcond, ih]
      simp only [bangCount, List.countP_cons]
      omega

theorem bro_prefix_clean : ∀ q ∈ watchWords,
    occursWordFromCI q (wl "Bro, ") true = false := by decide

theorem bro_prefix_lastNonWord : lastNonWord (wl "Bro, ") = true := by decide

theorem broTailSeg_clean : ∀ q ∈ watchWords, ∀ st : Bool,
    occursWordFromCI q (wl ", bro" ++ ['.']) st = false
    ∧ occursWordFromCI q (wl ", bro" ++ ['!']) st = false
    ∧ occursWordFromCI q (wl ", bro" ++ ['?']) st = false := by decide

theorem broTail_eq_hit (s : List Char) (c : Char) (rest : List Char)
    (hrev : s.reverse = c :: rest)
    (hc : (c == '.' || c == '!' || c == '?') = true) :
    broTail s = rest.reverse ++ (wl ", bro" ++ [c]) := by
  unfold broTail
  rw [hrev]
  dsimp only
  rw [if_pos hc, List.append_assoc]

theorem broTail_eq_keep (s : List Char) (c : Char) (rest : List Char)
    (hrev : s.reverse = c :: rest)
    (hc : ¬(c == '.' || c == '!' || c == '?') = true) :
    broTail s = s := by
  unfold broTail
  rw [hrev]
  dsimp only
  rw [if_neg hc]

theorem clean_broTail : ∀ q ∈ watchWords, ∀ (s : List Char) (b : Bool),
    occursWordFromCI q s b = false → occursWordFromCI q (broTail s) b = false := by
  intro q hq s b h
  obtain ⟨hqlow, hqne⟩ := watchWords_facts q hq
  cases hrev : s.reverse with
  | nil => simpa [broTail, hrev] using h
  | cons c rest =>
      by_cases hc : (c == '.' || c == '!' || c == '?') = true
      · have hs : s = rest.reverse ++ [c] := by
          rw [← List.reverse_reverse s, hrev, List.reverse_cons]
        have hbc : boundPeek [c] = true := by
          simp [boundPeek, term_not_word hc]
        rw [hs] at h
        rw [occ_append_split_bd hqlow hbc, Bool.or_eq_false_iff] at h
        rw [broTail_eq_hit s c rest hrev hc]
        rw [occ_append_split_bd hqlow (by rfl : boundPeek (wl ", bro" ++ [c]) = true)]
        rw [Bool.or_eq_false_iff]
        refine ⟨h.1, ?_⟩
        simp only [Bool.or_eq_true, beq_iff_eq] at hc
        rcases hc with (rfl | rfl) | rfl
        · exact (broTailSeg_clean q hq _).1
        · exact (broTailSeg_clean q hq _).2.1
        · exact (broTailSeg_clean q hq _).2.2
      · rw [broTail_eq_keep s c rest hrev hc]
        exact h

theorem bang_broTail (s : List Char) : bangCount s ≤ bangCount (broTail s) := by
  cases hrev : s.reverse with
  | nil => simp [broTail, hrev]
  | cons c rest =>
      by_cases hc : (c == '.' || c == '!' || c == '?') = true
      · have hs : s = rest.reverse ++ [c] := by
          rw [← List.reverse_reverse s, hrev, List.reverse_cons]
        rw [broTail_eq_hit s c rest hrev hc]
        conv_lhs => rw [hs]
        rw [bangCount_append, bangCount_append, bangCount_append]
        have h0 : bangCount (wl ", bro") = 0 := by decide
        omega
      · rw [broTail_eq_keep s c rest hrev hc]

theorem clean_broMapAux :
    ∀ (ss : List (List Char)) (r : RandState) (i : ℕ),
      (∀ s ∈ ss, ∀ q ∈ watchWords, occursWordFromCI q s true = false) →
      ∀ part ∈ (broMapAux r ss i).1, ∀ q ∈ watchWords,
        occursWordFromCI q part true = false := by
  intro ss
  induction ss with
  | nil =>
      intro r i hcl part hmem
      rw [broMapAux] at hmem
      simp at hmem
  | cons s ss ih =>
      intro r i hcl part hmem q hq
      obtain ⟨hqlow, hqne⟩ := watchWords_facts q hq
      have hhead : ∀ q' ∈ watchWords, occursWordFromCI q' s true = false :=
        hcl s (List.mem_cons_self _ _)
      have htail : ∀ s' ∈ ss, ∀ q' ∈ watchWords, occursWordFromCI q' s' true = false :=
        fun s' hs' => hcl s' (List.mem_cons_of_mem _ hs')
      have hbroPrefix : occursWordFromCI q (wl "Bro, " ++ s) true = false := by
        rw [occ_append_split_nw hqlow _ _ _ bro_prefix_lastNonWord,
          stateAfter_lastNonWord bro_prefix_lastNonWord, Bool.or_eq_false_iff]
        exact ⟨bro_prefix_clean q hq, hhead q hq⟩
      have hs2 : ∀ x : ℚ, occursWordFromCI q
          (if x < 0.3 then broTail s else s) true = false := by
        intro x
        by_cases hd : x < 0.3
        · rw [if_pos hd]
          exact clean_broTail q hq s true (hhead q hq)
        · rw [if_neg hd]
          exact hhead q hq
      rw [broMapAux] at hmem
      by_cases hi : 0 < i
      · rw [if_pos hi] at hmem
        dsimp only at hmem
        by_cases hd : (r.next).1 < 0.3
        · rw [if_pos hd] at hmem
          rcases List.mem_cons.mp hmem with rfl | hmem2
          · exact hbroPrefix
          · exact ih (r.next).2 (i + 1) htail part hmem2 q hq
        · rw [if_neg hd] at hmem
          rcases List.mem_cons.mp hmem with rfl | hmem2
          · exact hs2 _
          · exact ih ((r.next).2.next).2 (i + 1) htail part hmem2 q hq
      · rw [if_neg hi] at hmem
        dsimp only at hmem
        rcases List.mem_cons.mp hmem with rfl | hmem2
        · exact hs2 _
        · exact ih ((r.next).2) (i + 1) htail part hmem2 q hq

theorem bang_broMapAux :
    ∀ (ss : List (List Char)) (r : RandState) (i : ℕ),
      (ss.map bangCount).sum ≤ (((broMapAux r ss i).1).map bangCount).sum := by
  intro ss
  induction ss with
  | nil =>
      intro r i
      rw [broMapAux]
  | cons s ss ih =>
      intro r i
      have hs2 : ∀ x : ℚ, bangCount s
          ≤ bangCount (if x < 0.3 then broTail s else s) := by
        intro x
        by_cases hd : x < 0.3
        · rw [if_pos hd]; exact bang_broTail s
        · rw [if_neg hd]
      rw [broMapAux]
      by_cases hi : 0 < i
      · rw [if_pos hi]
        dsimp only
        by_cases hd : (r.next).1 < 0.3
        · rw [if_pos hd]
          simp only [List.map_cons, List.sum_cons, bangCount_append]
          have h0 : bangCount (wl "Bro, ") = 0 := by decide
          have := ih (r.next).2 (i + 1)
          omega
        · rw [if_neg hd]
          simp only [List.map_cons, List.sum_cons]
          have := ih ((r.next).2.next).2 (i + 1)
          have := hs2 ((r.next).2.next).1
          omega
      · rw [if_neg hi]
        dsimp only
        simp only [List.map_cons, List.sum_cons]
        have := ih (r.next).2 (i + 1)
        have := hs2 (r.next).1
        omega

theorem intercalate_cons₂ (sep x y : List Char) (l : List (List Char)) :
    List.intercalate sep (x :: y :: l) = x ++ (sep ++ List.intercalate sep (y :: l)) := by
  simp [List.intercalate, List.intersperse]

theorem clean_intercalate :
    ∀ (parts : List (List Char)), ∀ q ∈ watchWords,
      (∀ part ∈ parts, occursWordFromCI q part true = false) →
      occursWordFromCI q (List.intercalate (wl " ") parts) true = false := by
  intro parts
  induction parts with
  | nil =>
      intro q hq hcl
      rfl
  | cons x l ih =>
      intro q hq hcl
      obtain ⟨hqlow, hqne⟩ := watchWords_facts q hq
      cases l with
      | nil =>
          have h1 : List.intercalate (wl " ") [x] = x := by
            simp [List.intercalate, List.intersperse]
          rw [h1]
          exact hcl x (List.mem_cons_self _ _)
      | cons y l2 =>
          rw [intercalate_cons₂]
          rw [occ_append_split_bd hqlow (by rfl : boundPeek (wl " "
            ++ List.intercalate (wl " ") (y :: l2)) = true)]
          rw [Bool.or_eq_false_iff]
          refine ⟨hcl x (List.mem_cons_self _ _), ?_⟩
          show occursWordFromCI q (' ' :: List.intercalate (wl " ") (y :: l2)) _ = false
          rw [occ_cons_nonword _ hqlow hqne (by decide : isWordChar ' ' = false)]
          exact ih q hq (fun part hp => hcl part (List.mem_cons_of_mem _ hp))

theorem bang_intercalate :
    ∀ (parts : List (List Char)),
      bangCount (List.intercalate (wl " ") parts) = (parts.map bangCount).sum := by
  intro parts
  induction parts with
  | nil => rfl
  | cons x l ih =>
      cases l with
      | nil =>
          have h1 : List.intercalate (wl " ") [x] = x := by
            simp [List.intercalate, List.intersperse]
          rw [h1]
          simp [bangCount]
      | cons y l2 =>
          rw [intercalate_cons₂, bangCount_append, bangCount_append, ih]
          simp only [List.map_cons, List.sum_cons]
          have h0 : bangCount (wl " ") = 0 := by decide
          simp only [List.map_cons, List.sum_cons] at *
          omega

theorem clean_broStage (r : RandState) (l : List Char)
    (hcl : ∀ q ∈ watchWords, occursWordFromCI q l true = false) :
    ∀ q ∈ watchWords, occursWordFromCI q
      (List.intercalate (wl " ") (broMapAux r (splitSentences l) 0).1) true = false := by
  intro q hq
  have hparts : ∀ part ∈ splitSentences l, ∀ q' ∈ watchWords,
      occursWordFromCI q' part true = false := by
    intro part hp q' hq'
    by_contra hx
    rw [Bool.not_eq_false] at hx
    have h2 := occ_splitSentencesAux q' l [] part hp hx
    rw [List.reverse_nil, List.nil_append] at h2
    rw [hcl q' hq'] at h2
    exact Bool.false_ne_true h2
  exact clean_intercalate _ q hq
    (fun part hp => clean_broMapAux (splitSentences l) r 0 hparts part hp q hq)

theorem bang_broStage (r : RandState) (l : List Char) :
    bangCount l ≤ bangCount
      (List.intercalate (wl " ") (broMapAux r (splitSentences l) 0).1) := by
  rw [bang_intercalate]
  have h1 := bang_broMapAux (splitSentences l) r 0
  have h2 := bang_splitSentencesAux l []
  rw [show bangCount [] = 0 from rfl] at h2
  rw [show splitSentencesAux l [] = splitSentences l from rfl] at h2
  omega

-- ===== C7: long-sentence splitter lemmas =====

theorem watchWords_short : ∀ q ∈ watchWords, q.length < 20 := by decide

theorem sep_not_word {c : Char} (h : isSepCh c = true) : isWordChar c = false := by
  simp only [isSepCh, Bool.or_eq_true, beq_iff_eq] at h
  rcases h with rfl | rfl <;> decide

theorem sep_not_bang {c : Char} (h : isSepCh c = true) : isBang c = false := by
  simp only [isSepCh, Bool.or_eq_true, beq_iff_eq] at h
  rcases h with rfl | rfl <;> decide

theorem whitespace_not_term {c : Char} (h : c.isWhitespace = true) :
    (!isTermCh c) = true := by
  simp only [Char.isWhitespace, Bool.or_eq_true, decide_eq_true_eq] at h
  rcases h with ((rfl | rfl) | rfl) | rfl <;> decide

theorem takeWhile_length_mono {P Q : Char → Bool}
    (h : ∀ c, P c = true → Q c = true) :
    ∀ l : List Char, (l.takeWhile P).length ≤ (l.takeWhile Q).length := by
  intro l
  induction l with
  | nil => simp
  | cons c cs ih =>
      by_cases hp : P c = true
      · rw [List.takeWhile_cons_of_pos hp, List.takeWhile_cons_of_pos (h c hp)]
        simpa using ih
      · rw [List.takeWhile_cons_of_neg hp]
        exact Nat.zero_le _

theorem dropRun_head (P : Char → Bool) : ∀ (l : List Char) (d : Char),
    (l.drop ((l.takeWhile P).length)).head? = some d → P d = false := by
  intro l
  induction l with
  | nil => intro d h; simp at h
  | cons c cs ih =>
      intro d h
      by_cases hp : P c = true
      · rw [List.takeWhile_cons_of_pos hp] at h
        rw [List.length_cons, List.drop_succ_cons] at h
        exact ih d h
      · rw [List.takeWhile_cons_of_neg hp] at h
        rw [List.length_nil, List.drop_zero, List.head?_cons] at h
        have hd : d = c := (Option.some.inj h).symm
        subst hd
        cases hPc : P d
        · rfl
        · exact absurd hPc hp

theorem trySepAt_spec {l : List Char} {k a j ntLen : ℕ}
    (h : trySepAt l k = some (a, j, ntLen)) :
    a = k
    ∧ (∃ sep rest2, l.drop k = sep :: rest2 ∧ isSepCh sep = true)
    ∧ ntLen = ((l.drop (k + 1)).takeWhile (fun c => !isTermCh c)).length
    ∧ 2 ≤ ntLen
    ∧ 1 ≤ j ∧ j < ntLen
    ∧ j ≤ ((l.drop (k + 1)).takeWhile Char.isWhitespace).length := by
  unfold trySepAt at h
  cases hdk : l.drop k with
  | nil =>
      rw [hdk] at h
      simp at h
  | cons sep rest2 =>
      rw [hdk] at h
      rw [List.head?_cons] at h
      dsimp only at h
      by_cases hsep : isSepCh sep = true
      · rw [if_pos hsep] at h
        have hwm : ((l.drop (k + 1)).takeWhile Char.isWhitespace).length
            ≤ ((l.drop (k + 1)).takeWhile (fun c => !isTermCh c)).length :=
          takeWhile_length_mono (fun c hc => whitespace_not_term hc) _
        by_cases hcond : (decide (1 ≤ ((l.drop (k + 1)).takeWhile Char.isWhitespace).length)
            && decide (2 ≤ ((l.drop (k + 1)).takeWhile (fun c => !isTermCh c)).length)) = true
        · rw [if_pos hcond] at h
          simp only [Option.some.injEq, Prod.mk.injEq] at h
          obtain ⟨hk, hj, hnt⟩ := h
          simp only [Bool.and_eq_true, decide_eq_true_eq] at hcond
          refine ⟨hk.symm, ⟨sep, rest2, rfl, hsep⟩, hnt.symm, ?_, ?_, ?_, ?_⟩
          · omega
          · rw [← hj]
            split <;> omega
          · rw [← hj, ← hnt]
            split <;> omega
          · rw [← hj]
            split <;> omega
        · rw [if_neg hcond] at h
          simp at h
      · rw [if_neg hsep] at h
        simp at h

theorem findSplitDown_spec {l : List Char} :
    ∀ {n a j ntLen : ℕ}, findSplitDown l n = some (a, j, ntLen) →
      20 ≤ a ∧ trySepAt l a = some (a, j, ntLen) := by
  intro n
  induction n with
  | zero =>
      intro a j nt h
      exact absurd h (by rw [findSplitDown]; simp)
  | succ k ih =>
      intro a j nt h
      rw [findSplitDown] at h
      by_cases hlt : k + 1 < 20
      · rw [if_pos hlt] at h
        exact absurd h (by simp)
      · rw [if_neg hlt] at h
        cases htry : trySepAt l (k + 1) with
        | some res =>
            rw [htry] at h
            dsimp only at h
            have hres : res = (a, j, nt) := Option.some.inj h
            subst hres
            have hspec := trySepAt_spec htry
            have ha : a = k + 1 := hspec.1
            subst ha
            exact ⟨by omega, htry⟩
        | none =>
            rw [htry] at h
            dsimp only at h
            exact ih h

theorem splitLong_nil : splitLongSentences [] = [] := by
  rw [splitLongSentences]

theorem splitLong_some (c : Char) (cs : List Char) (k j ntLen : ℕ)
    (h : findSplitDown (c :: cs)
        (((c :: cs).takeWhile (fun ch => !isTermCh ch)).length) = some (k, j, ntLen)) :
    splitLongSentences (c :: cs)
      = (c :: cs).take k ++ (wl ". "
          ++ (((((c :: cs).drop (k + 1)).take ntLen).drop j)
            ++ splitLongSentences ((c :: cs).drop (k + 1 + ntLen)))) := by
  rw [splitLongSentences.eq_def]
  dsimp only
  rw [h]
  dsimp only
  simp only [List.append_assoc]

theorem splitLong_none (c : Char) (cs : List Char)
    (h : findSplitDown (c :: cs)
        (((c :: cs).takeWhile (fun ch => !isTermCh ch)).length) = none) :
    splitLongSentences (c :: cs) = c :: splitLongSentences cs := by
  rw [splitLongSentences.eq_def]
  dsimp only
  rw [h]

theorem splitLong_klt {l : List Char} {k j ntLen : ℕ}
    (htry : trySepAt l k = some (k, j, ntLen)) : k < l.length := by
  obtain ⟨-, ⟨sep, rest2, hdk, -⟩, -⟩ := trySepAt_spec htry
  by_contra hx
  push_neg at hx
  rw [List.drop_eq_nil_of_le hx] at hdk
  exact List.noConfusion hdk

theorem take_splitLong : ∀ xs : List Char, ∀ m : ℕ, m ≤ 20 →
    (splitLongSentences xs).take m = xs.take m := by
  intro xs
  induction xs using splitLongSentences.induct with
  | case1 => intro m hm; rw [splitLong_nil]
  | case2 c cs l run k j ntLen hfind ih =>
      intro m hm
      rw [splitLong_some c cs k j ntLen hfind]
      obtain ⟨hk20, htry⟩ := findSplitDown_spec hfind
      have hklt : k < (c :: cs).length := splitLong_klt htry
      rw [List.take_append_of_le_length (by rw [List.length_take]; omega)]
      rw [List.take_take, Nat.min_eq_left (by omega)]
  | case3 c cs l run hfind ih =>
      intro m hm
      rw [splitLong_none c cs hfind]
      cases m with
      | zero => rfl
      | succ m2 =>
          rw [List.take_succ_cons, List.take_succ_cons, ih m2 (by omega)]

theorem head?_eq_of_take1 {x y : List Char} (h : x.take 1 = y.take 1) :
    x.head? = y.head? := by
  cases x with
  | nil =>
      cases y with
      | nil => rfl
      | cons b bs => simp at h
  | cons a as =>
      cases y with
      | nil => simp at h
      | cons b bs =>
          simp only [List.take_succ_cons, List.take_zero] at h
          injection h with h1 h2
          rw [List.head?_cons, List.head?_cons, h1]

theorem boundPeek_eq_of_head {x y : List Char} (h : x.head? = y.head?) :
    boundPeek x = boundPeek y := by
  cases x with
  | nil =>
      cases y with
      | nil => rfl
      | cons b bs => simp at h
  | cons a as =>
      cases y with
      | nil => simp at h
      | cons b bs =>
          rw [List.head?_cons, List.head?_cons] at h
          have hab : a = b := Option.some.inj h
          rw [show boundPeek (a :: as) = !isWordChar a from rfl,
            show boundPeek (b :: bs) = !isWordChar b from rfl, hab]

theorem match_take_agree {q : List Char} (hlen : q.length < 20) {x y : List Char}
    (h : x.take 20 = y.take 20) : matchWordAtCI q x = matchWordAtCI q y := by
  apply matchCI_agree
  · rw [show x.take q.length = (x.take 20).take q.length from by
      rw [List.take_take, Nat.min_eq_left (le_of_lt hlen)]]
    rw [h, List.take_take, Nat.min_eq_left (le_of_lt hlen)]
  · rw [boundPeek_drop, boundPeek_drop]
    rw [List.get?_eq_getElem?, List.get?_eq_getElem?]
    rw [show x[q.length]? = (x.take 20)[q.length]? from by
      rw [List.getElem?_take, if_pos hlen]]
    rw [h, List.getElem?_take, if_pos hlen]

theorem splitLong_decomp {l : List Char} {k j ntLen : ℕ}
    (htry : trySepAt l k = some (k, j, ntLen)) :
    l = l.take (k + 1 + j)
      ++ ((((l.drop (k + 1)).take ntLen).drop j) ++ l.drop (k + 1 + ntLen)) := by
  obtain ⟨-, -, -, hnt2, hj1, hjlt, hjws⟩ := trySepAt_spec htry
  have e1 : ((l.drop (k + 1)).take ntLen).drop j
      = (l.drop (k + 1 + j)).take (ntLen - j) := by
    rw [List.drop_take, List.drop_drop]
  have e2 : l.take (k + 1 + j) ++ ((l.drop (k + 1)).take ntLen).drop j
      = l.take (k + 1 + ntLen) := by
    rw [e1, ← List.take_add]
    congr 1
    omega
  rw [← List.append_assoc, e2, List.take_append_drop]

theorem splitLong_mid_ws {l : List Char} {k j ntLen : ℕ}
    (htry : trySepAt l k = some (k, j, ntLen)) :
    ∀ x ∈ (l.drop (k + 1)).take j, x.isWhitespace = true := by
  obtain ⟨-, -, -, -, -, -, hjws⟩ := trySepAt_spec htry
  intro x hx
  have hsplit := takeWhile_append_drop Char.isWhitespace (l.drop (k + 1))
  rw [← hsplit, List.take_append_of_le_length (by omega)] at hx
  exact List.mem_takeWhile_imp (List.mem_of_mem_take hx)

theorem splitLong_pre_state {l : List Char} {k j ntLen : ℕ}
    (htry : trySepAt l k = some (k, j, ntLen)) :
    ∀ b : Bool, stateAfter (l.take (k + 1 + j)) b = true := by
  obtain ⟨-, -, hntdef, hnt2, hj1, hjlt, hjws⟩ := trySepAt_spec htry
  intro b
  have hlen : ntLen ≤ (l.drop (k + 1)).length := by
    rw [hntdef]
    exact (List.takeWhile_sublist _).length_le
  rw [List.take_add, stateAfter_append]
  apply stateAfter_all_nonword
  · have : 0 < ((l.drop (k + 1)).take j).length := by
      rw [List.length_take]
      omega
    exact List.length_pos.mp this
  · intro x hx
    exact whitespace_not_word (splitLong_mid_ws htry x hx)

theorem splitLong_suf_head {l : List Char} {k j ntLen : ℕ}
    (htry : trySepAt l k = some (k, j, ntLen)) :
    ∀ d ds, l.drop (k + 1 + ntLen) = d :: ds → isWordChar d = false := by
  obtain ⟨-, -, hntdef, -⟩ := trySepAt_spec htry
  intro d ds hd
  have h1 : (l.drop (k + 1)).drop
      (((l.drop (k + 1)).takeWhile (fun c => !isTermCh c)).length) = d :: ds := by
    rw [← hntdef, List.drop_drop]
    exact hd
  have h2 : (fun c => !isTermCh c) d = false :=
    dropRun_head _ _ d (by rw [h1, List.head?_cons])
  have h3 : isTermCh d = true := by
    simpa using h2
  exact term_not_word h3

theorem occ_splitLong_le (q : List Char) (hq : q ∈ watchWords) :
    ∀ (xs : List Char) (b : Bool),
      occursWordFromCI q (splitLongSentences xs) b = true →
      occursWordFromCI q xs b = true := by
  intro xs
  induction xs using splitLongSentences.induct with
  | case1 =>
      intro b h
      rw [splitLong_nil] at h
      exact h
  | case2 c cs l run k j ntLen hfind ih =>
      intro b h
      obtain ⟨hqlow, hqne⟩ := watchWords_facts q hq
      obtain ⟨hk20, htry⟩ := findSplitDown_spec hfind
      have htry2 : trySepAt (c :: cs) k = some (k, j, ntLen) := htry
      obtain ⟨-, ⟨sep, rest2, hdk, hsepc⟩, hntdef, hnt2, hj1, hjlt, hjws⟩ :=
        trySepAt_spec htry2
      rw [splitLong_some c cs k j ntLen hfind] at h
      have hlift : occursWordFromCI q
          (((((c :: cs).drop (k + 1)).take ntLen).drop j)
            ++ (c :: cs).drop (k + 1 + ntLen)) true = true →
          occursWordFromCI q (c :: cs) b = true := by
        intro hg
        have hdec := splitLong_decomp htry2
        conv_lhs => rw [hdec]
        apply occ_append_right
        rw [splitLong_pre_state htry2 b]
        exact hg
      rw [occ_append_split_bd hqlow (by rfl : boundPeek (wl ". "
        ++ (((((c :: cs).drop (k + 1)).take ntLen).drop j)
          ++ splitLongSentences ((c :: cs).drop (k + 1 + ntLen)))) = true)] at h
      simp only [Bool.or_eq_true] at h
      rcases h with hL | hR
      · have h2 := occ_extend_nonword (sep_not_word hsepc) q ((c :: cs).take k) rest2 b hL
        rw [← hdk, List.take_append_drop] at h2
        exact h2
      · have hR2 : occursWordFromCI q ('.' :: ' '
            :: (((((c :: cs).drop (k + 1)).take ntLen).drop j)
              ++ splitLongSentences ((c :: cs).drop (k + 1 + ntLen))))
            (stateAfter ((c :: cs).take k) b) = true := hR
        rw [occ_cons_nonword _ hqlow hqne (by decide : isWordChar '.' = false)] at hR2
        rw [occ_cons_nonword _ hqlow hqne (by decide : isWordChar ' ' = false)] at hR2
        have hbprec : boundPeek
            (splitLongSentences ((c :: cs).drop (k + 1 + ntLen)))
            = boundPeek ((c :: cs).drop (k + 1 + ntLen)) :=
          boundPeek_eq_of_head (head?_eq_of_take1
            (take_splitLong ((c :: cs).drop (k + 1 + ntLen)) 1 (by omega)))
        have hbpsuf : boundPeek ((c :: cs).drop (k + 1 + ntLen)) = true := by
          cases hsuf : (c :: cs).drop (k + 1 + ntLen) with
          | nil => rfl
          | cons d ds =>
              rw [show boundPeek (d :: ds) = !isWordChar d from rfl,
                splitLong_suf_head htry2 d ds hsuf]
              rfl
        rw [occ_append_split_bd hqlow (hbprec.trans hbpsuf)] at hR2
        simp only [Bool.or_eq_true] at hR2
        rcases hR2 with hG | hRec
        · apply hlift
          cases hsuf : (c :: cs).drop (k + 1 + ntLen) with
          | nil =>
              rw [List.append_nil]
              exact hG
          | cons d ds =>
              exact occ_extend_nonword (splitLong_suf_head htry2 d ds hsuf) q _ ds true hG
        · have hsuf2 := ih (stateAfter ((((c :: cs).drop (k + 1)).take ntLen).drop j) true) hRec
          exact hlift (occ_append_right q _ _ true hsuf2)
  | case3 c cs l run hfind ih =>
      intro b h
      obtain ⟨hqlow, hqne⟩ := watchWords_facts q hq
      rw [splitLong_none c cs hfind] at h
      have hm : matchWordAtCI q (c :: splitLongSentences cs)
          = matchWordAtCI q (c :: cs) := by
        apply match_take_agree (watchWords_short q hq)
        rw [show (20 : ℕ) = 19 + 1 from rfl, List.take_succ_cons, List.take_succ_cons,
          take_splitLong cs 19 (by omega)]
      simp only [occursWordFromCI] at h ⊢
      rw [hm] at h
      simp only [Bool.or_eq_true] at h ⊢
      rcases h with h2 | h2
      · exact Or.inl h2
      · exact Or.inr (ih (!isWordChar c) h2)

theorem splitLong_pre_bang {l : List Char} {k j ntLen : ℕ}
    (htry : trySepAt l k = some (k, j, ntLen)) :
    bangCount (l.take (k + 1 + j)) = bangCount (l.take k) := by
  obtain ⟨-, ⟨sep, rest2, hdk, hsepc⟩, -, -, hj1, -, -⟩ := trySepAt_spec htry
  have e3 : l.take (k + 1 + j) = l.take k ++ (l.drop k).take (1 + j) := by
    rw [← List.take_add]
    congr 1
    omega
  have e4 : (l.drop k).take (1 + j) = sep :: rest2.take j := by
    rw [hdk]
    rw [show 1 + j = j + 1 from by omega, List.take_succ_cons]
  have e5 : rest2.take j = (l.drop (k + 1)).take j := by
    have h1 := congrArg (List.drop 1) hdk
    rw [List.drop_drop] at h1
    have h2 : l.drop (k + 1) = rest2 := by
      rw [h1]
      simp
    rw [h2]
  rw [e3, bangCount_append, e4, e5]
  have hz : bangCount (sep :: (l.drop (k + 1)).take j) = 0 := by
    simp only [bangCount, List.countP_eq_zero]
    intro x hx
    rcases List.mem_cons.mp hx with rfl | hx2
    · simp [sep_not_bang hsepc]
    · simp [whitespace_not_bang (splitLong_mid_ws htry x hx2)]
  rw [hz]
  omega

theorem bang_splitLong_ge : ∀ xs : List Char,
    bangCount xs ≤ bangCount (splitLongSentences xs) := by
  intro xs
  induction xs using splitLongSentences.induct with
  | case1 => rw [splitLong_nil]
  | case2 c cs l run k j ntLen hfind ih =>
      rw [splitLong_some c cs k j ntLen hfind]
      obtain ⟨hk20, htry⟩ := findSplitDown_spec hfind
      have htry2 : trySepAt (c :: cs) k = some (k, j, ntLen) := htry
      have hdec := splitLong_decomp htry2
      have hpre := splitLong_pre_bang htry2
      have ih2 : bangCount ((c :: cs).drop (k + 1 + ntLen))
          ≤ bangCount (splitLongSentences ((c :: cs).drop (k + 1 + ntLen))) := ih
      conv_lhs => rw [hdec]
      rw [bangCount_append, bangCount_append, bangCount_append, bangCount_append,
        bangCount_append, hpre]
      have hdot : bangCount (wl ". ") = 0 := by decide
      omega
  | case3 c cs l run hfind ih =>
      rw [splitLong_none c cs hfind]
      simp only [bangCount, List.countP_cons] at ih ⊢
      omega

-- ===== C7: shorthand stage and preferred-emoji lemmas =====

theorem occ_iterate_le (q : List Char) {f : List Char → List Char}
    (hf : ∀ (s : List Char) (b' : Bool),
      occursWordFromCI q (f s) b' = true → occursWordFromCI q s b' = true) :
    ∀ (n : ℕ) (s : List Char) (b' : Bool),
      occursWordFromCI q (f^[n] s) b' = true → occursWordFromCI q s b' = true := by
  intro n
  induction n with
  | zero => intro s b' h; exact h
  | succ m ih =>
      intro s b' h
      rw [Function.iterate_succ_apply] at h
      exact hf s b' (ih (f s) b' h)

theorem bang_iterate_ge {f : List Char → List Char}
    (hf : ∀ s : List Char, bangCount s ≤ bangCount (f s)) :
    ∀ (n : ℕ) (s : List Char), bangCount s ≤ bangCount (f^[n] s) := by
  intro n
  induction n with
  | zero => intro s; exact le_refl _
  | succ m ih =>
      intro s
      rw [Function.iterate_succ_apply]
      exact le_trans (hf s) (ih (f s))

theorem shorthand_facts : ∀ kv ∈ shorthandMap,
    kv.1.toList.map jsToLower ≠ []
    ∧ lastNonWord (kv.1.toList.map jsToLower) = false
    ∧ (∀ ch ∈ kv.1.toList.map jsToLower, isBang ch = false)
    ∧ ∀ q ∈ watchWords, occursWordFromCI q kv.2.toList true = false := by decide

theorem occ_shorthand_fold_le (q : List Char) (hq : q ∈ watchWords) :
    ∀ (ts : List (String × String)),
      (∀ kv ∈ ts, kv.1.toList.map jsToLower ≠ []
        ∧ lastNonWord (kv.1.toList.map jsToLower) = false
        ∧ occursWordFromCI q kv.2.toList true = false) →
      ∀ (l : List Char) (b' : Bool),
        occursWordFromCI q (ts.foldl (fun acc kv =>
          let w := kv.1.toList.map jsToLower
          let instances := countWordCI w acc true
          if 0 < instances then
            Nat.iterate (fun s => replaceWordCI w kv.2.toList s true)
              ((instances + 1) / 2) acc
          else acc) l) b' = true →
        occursWordFromCI q l b' = true := by
  intro ts
  induction ts with
  | nil =>
      intro hts l b' h
      rw [List.foldl_nil] at h
      exact h
  | cons kv ts ih =>
      intro hts l b' h
      rw [List.foldl_cons] at h
      dsimp only at h
      obtain ⟨hwne, hwlast, hrepl⟩ := hts kv (List.mem_cons_self _ _)
      obtain ⟨hqlow, hqne⟩ := watchWords_facts q hq
      have h2 := ih (fun kv2 hk => hts kv2 (List.mem_cons_of_mem _ hk)) _ b' h
      by_cases hcnt : 0 < countWordCI (kv.1.toList.map jsToLower) l true
      · rw [if_pos hcnt] at h2
        exact occ_iterate_le q
          (fun s b2 hh => occ_replaceWordCI_le hqlow hqne hwne hwlast hrepl s true b2 hh)
          _ l b' h2
      · rw [if_neg hcnt] at h2
        exact h2

theorem bang_shorthand_fold_ge :
    ∀ (ts : List (String × String)),
      (∀ kv ∈ ts, kv.1.toList.map jsToLower ≠ []
        ∧ (∀ ch ∈ kv.1.toList.map jsToLower, isBang ch = false)) →
      ∀ (l : List Char),
        bangCount l ≤ bangCount (ts.foldl (fun acc kv =>
          let w := kv.1.toList.map jsToLower
          let instances := countWordCI w acc true
          if 0 < instances then
            Nat.iterate (fun s => replaceWordCI w kv.2.toList s true)
              ((instances + 1) / 2) acc
          else acc) l) := by
  intro ts
  induction ts with
  | nil =>
      intro hts l
      rw [List.foldl_nil]
  | cons kv ts ih =>
      intro hts l
      rw [List.foldl_cons]
      dsimp only
      obtain ⟨hwne, hwb⟩ := hts kv (List.mem_cons_self _ _)
      refine le_trans ?_ (ih (fun kv2 hk => hts kv2 (List.mem_cons_of_mem _ hk)) _)
      by_cases hcnt : 0 < countWordCI (kv.1.toList.map jsToLower) l true
      · rw [if_pos hcnt]
        exact bang_iterate_ge
          (fun s => bang_replaceWordCI_ge hwne hwb s true) _ l
      · rw [if_neg hcnt]

theorem occ_applyShorthand_le (q : List Char) (hq : q ∈ watchWords)
    (l : List Char) (b' : Bool)
    (h : occursWordFromCI q (applyShorthand l) b' = true) :
    occursWordFromCI q l b' = true := by
  exact occ_shorthand_fold_le q hq shorthandMap
    (fun kv hk => ⟨(shorthand_facts kv hk).1, (shorthand_facts kv hk).2.1,
      (shorthand_facts kv hk).2.2.2 q hq⟩) l b' h

theorem bang_applyShorthand_ge (l : List Char) :
    bangCount l ≤ bangCount (applyShorthand l) := by
  exact bang_shorthand_fold_ge shorthandMap
    (fun kv hk => ⟨(shorthand_facts kv hk).1, (shorthand_facts kv hk).2.2.1⟩) l

theorem scanMatches_nil (alts : List (List Char)) : scanMatches alts [] = [] := by
  rw [scanMatches]

theorem scanMatches_some (alts : List (List Char)) (c : Char) (cs : List Char)
    (a : List Char) (hfind : alts.find? (fun a => isSubAt a (c :: cs)) = some a) :
    scanMatches alts (c :: cs) = a :: scanMatches alts (cs.drop (a.length - 1)) := by
  rw [scanMatches.eq_def]
  dsimp only
  rw [hfind]

theorem scanMatches_none (alts : List (List Char)) (c : Char) (cs : List Char)
    (hfind : alts.find? (fun a => isSubAt a (c :: cs)) = none) :
    scanMatches alts (c :: cs) = scanMatches alts cs := by
  rw [scanMatches.eq_def]
  dsimp only
  rw [hfind]

theorem scanMatches_subset (alts : List (List Char)) :
    ∀ l : List Char, ∀ m ∈ scanMatches alts l, m ∈ alts := by
  intro l
  induction l using scanMatches.induct alts with
  | case1 => intro m hm; rw [scanMatches_nil] at hm; simp at hm
  | case2 c cs a hfind ih =>
      intro m hm
      rw [scanMatches_some alts c cs a hfind] at hm
      rcases List.mem_cons.mp hm with rfl | hm2
      · exact List.mem_of_find?_eq_some hfind
      · exact ih m hm2
  | case3 c cs hfind ih =>
      intro m hm
      rw [scanMatches_none alts c cs hfind] at hm
      exact ih m hm

theorem firstDedupCL_subset : ∀ (xs seen : List (List Char)),
    ∀ x ∈ firstDedupCL seen xs, x ∈ xs := by
  intro xs
  induction xs with
  | nil =>
      intro seen x hx
      rw [firstDedupCL] at hx
      simp at hx
  | cons y ys ih =>
      intro seen x hx
      rw [firstDedupCL] at hx
      by_cases hc : seen.contains y = true
      · rw [if_pos hc] at hx
        exact List.mem_cons_of_mem _ (ih seen x hx)
      · rw [if_neg hc] at hx
        rcases List.mem_cons.mp hx with rfl | hx2
        · exact List.mem_cons_self _ _
        · exact List.mem_cons_of_mem _ (ih (y :: seen) x hx2)

theorem emoticonAlts_sub : ∀ x ∈ basicEmoticonAlts, x ∈ emojiCandidates := by decide

theorem defaultEmojis_sub :
    ∀ e ∈ ([":)", ":D", "<3", ";)", ":P"] : List String), e.toList ∈ emojiCandidates := by
  decide

theorem preferredEmojis_mem (text : String) (hist : List String) :
    ∀ e ∈ (analyzeTextStyle text hist).preferredEmojis, e.toList ∈ emojiCandidates := by
  intro e he
  simp only [analyzeTextStyle] at he
  split at he
  · obtain ⟨p, hp5, hpe⟩ := List.mem_map.mp he
    rw [← hpe]
    show (String.mk p.1).toList ∈ emojiCandidates
    rw [show (String.mk p.1).toList = p.1 from rfl]
    have hpm := List.mem_mergeSort.mp (List.mem_of_mem_take hp5)
    obtain ⟨k, hk, hkp⟩ := List.mem_map.mp hpm
    rw [← hkp]
    show k ∈ emojiCandidates
    have hk2 := firstDedupCL_subset _ [] k hk
    rcases List.mem_append.mp hk2 with hk3 | hk3
    · exact emoticonAlts_sub k (scanMatches_subset _ _ k hk3)
    · have hk4 := scanMatches_subset _ _ k hk3
      rw [List.mem_singleton] at hk4
      rw [hk4]
      decide
  · exact defaultEmojis_sub e he

-- ===== C7: applyUserStyle stage lemmas =====

theorem forall₂_ci_trans : ∀ {x y z : List Char},
    List.Forall₂ (fun a b => jsToLower a = jsToLower b) x y →
    List.Forall₂ (fun a b => jsToLower a = jsToLower b) y z →
    List.Forall₂ (fun a b => jsToLower a = jsToLower b) x z := by
  intro x y z h1
  induction h1 generalizing z with
  | nil =>
      intro h2
      cases h2
      exact List.Forall₂.nil
  | cons hab hrest ih =>
      intro h2
      cases h2 with
      | cons hbc hrest2 =>
          exact List.Forall₂.cons (hab.trans hbc) (ih hrest2)

theorem occ_le_contra {q : List Char} {x y : List Char}
    (himp : ∀ b' : Bool, occursWordFromCI q y b' = true → occursWordFromCI q x b' = true)
    (hx : ∀ b' : Bool, occursWordFromCI q x b' = false) :
    ∀ b' : Bool, occursWordFromCI q y b' = false := by
  intro b'
  by_contra hcon
  rw [Bool.not_eq_false] at hcon
  have h2 := himp b' hcon
  rw [hx b'] at h2
  exact Bool.false_ne_true h2

theorem emojiCand_clean : ∀ e ∈ emojiCandidates, ∀ q ∈ watchWords, ∀ b : Bool,
    occursWordFromCI q e b = false := by decide

theorem casualSlang_clean : ∀ s ∈ casualSlang, ∀ q ∈ watchWords, ∀ b : Bool,
    occursWordFromCI q s.toList b = false := by decide

theorem positiveSlang_clean : ∀ s ∈ positiveSlang, ∀ q ∈ watchWords,
    occursWordFromCI q s.toList true = false := by decide

theorem adj4_facts : ∀ a ∈ (["good", "great", "excellent", "nice"] : List String),
    a.toList ≠ [] ∧ lastNonWord a.toList = false
    ∧ ∀ ch ∈ a.toList, isBang ch = false := by decide

theorem occ_slangAdj_fold_le (q : List Char) (hq : q ∈ watchWords) :
    ∀ (adjs : List String),
      (∀ a ∈ adjs, a.toList ≠ [] ∧ lastNonWord a.toList = false) →
      ∀ (x : List Char × RandState) (b' : Bool),
        occursWordFromCI q (adjs.foldl (fun acc adj =>
          randReplaceWordCI adj.toList positiveSlang acc.2 acc.1 true) x).1 b' = true →
        occursWordFromCI q x.1 b' = true := by
  intro adjs
  induction adjs with
  | nil =>
      intro hts x b' h
      rw [List.foldl_nil] at h
      exact h
  | cons a adjs ih =>
      intro hts x b' h
      rw [List.foldl_cons] at h
      obtain ⟨hane, halast⟩ := hts a (List.mem_cons_self _ _)
      obtain ⟨hqlow, hqne⟩ := watchWords_facts q hq
      have h2 := ih (fun a2 ha2 => hts a2 (List.mem_cons_of_mem _ ha2)) _ b' h
      exact occ_randReplaceWordCI_le hqlow hqne hane halast
        (fun s hs => positiveSlang_clean s hs q hq) x.2 x.1 true b' h2

theorem bang_slangAdj_fold_ge :
    ∀ (adjs : List String),
      (∀ a ∈ adjs, a.toList ≠ [] ∧ ∀ ch ∈ a.toList, isBang ch = false) →
      ∀ (x : List Char × RandState),
        bangCount x.1 ≤ bangCount (adjs.foldl (fun acc adj =>
          randReplaceWordCI adj.toList positiveSlang acc.2 acc.1 true) x).1 := by
  intro adjs
  induction adjs with
  | nil =>
      intro hts x
      rw [List.foldl_nil]
  | cons a adjs ih =>
      intro hts x
      rw [List.foldl_cons]
      obtain ⟨hane, hab⟩ := hts a (List.mem_cons_self _ _)
      refine le_trans ?_ (ih (fun a2 ha2 => hts a2 (List.mem_cons_of_mem _ ha2)) _)
      exact bang_randReplaceWordCI_ge hane hab x.2 x.1 true

theorem clean_stage_lower (flag : Bool) (x : List Char)
    (h : ∀ q ∈ watchWords, ∀ b : Bool, occursWordFromCI q x b = false) :
    ∀ q ∈ watchWords, ∀ b : Bool,
      occursWordFromCI q
        (if flag then replaceLoneI (x.map jsToLower) true else x) b = false := by
  intro q hq b
  by_cases hf : flag = true
  · rw [if_pos hf]
    rw [← occCI_congr (forall₂_ci_trans (forall₂_lower_map x)
      (forall₂_replaceLoneI (x.map jsToLower) true)) q b]
    exact h q hq b
  · rw [if_neg hf]
    exact h q hq b

theorem bang_stage_lower (flag : Bool) (x : List Char) :
    bangCount x
      ≤ bangCount (if flag then replaceLoneI (x.map jsToLower) true else x) := by
  by_cases hf : flag = true
  · rw [if_pos hf]
    rw [← bang_congr_CI (forall₂_ci_trans (forall₂_lower_map x)
      (forall₂_replaceLoneI (x.map jsToLower) true))]
  · rw [if_neg hf]

theorem clean_stage_bro (flag : Bool) (r : RandState) (x : List Char)
    (h : ∀ q ∈ watchWords, ∀ b : Bool, occursWordFromCI q x b = false) :
    ∀ q ∈ watchWords, ∀ b : Bool,
      occursWordFromCI q
        ((if flag then
            (List.intercalate (wl " ") (broMapAux r (splitSentences x) 0).1,
             (broMapAux r (splitSentences x) 0).2)
          else (x, r)).1) b = false := by
  intro q hq b
  by_cases hf : flag = true
  · rw [if_pos hf]
    show occursWordFromCI q
      (List.intercalate (wl " ") (broMapAux r (splitSentences x) 0).1) b = false
    exact occ_false_of_true
      (clean_broStage r x (fun q2 hq2 => h q2 hq2 true) q hq)
  · rw [if_neg hf]
    exact h q hq b

theorem bang_stage_bro (flag : Bool) (r : RandState) (x : List Char) :
    bangCount x
      ≤ bangCount ((if flag then
          (List.intercalate (wl " ") (broMapAux r (splitSentences x) 0).1,
           (broMapAux r (splitSentences x) 0).2)
        else (x, r)).1) := by
  by_cases hf : flag = true
  · rw [if_pos hf]
    exact bang_broStage r x
  · rw [if_neg hf]

theorem clean_stage_shorthand (flag : Bool) (y : List Char)
    (h : ∀ q ∈ watchWords, ∀ b : Bool, occursWordFromCI q y b = false) :
    ∀ q ∈ watchWords, ∀ b : Bool,
      occursWordFromCI q (if flag then applyShorthand y else y) b = false := by
  intro q hq b
  by_cases hf : flag = true
  · rw [if_pos hf]
    exact occ_le_contra (fun b' hh => occ_applyShorthand_le q hq y b' hh) (h q hq) b
  · rw [if_neg hf]
    exact h q hq b

theorem bang_stage_shorthand (flag : Bool) (y : List Char) :
    bangCount y ≤ bangCount (if flag then applyShorthand y else y) := by
  by_cases hf : flag = true
  · rw [if_pos hf]
    exact bang_applyShorthand_ge y
  · rw [if_neg hf]

theorem clean_stage_ex (flag : Bool) (r2 : RandState) (y : List Char)
    (h : ∀ q ∈ watchWords, ∀ b : Bool, occursWordFromCI q y b = false) :
    ∀ q ∈ watchWords, ∀ b : Bool,
      occursWordFromCI q
        ((if flag then
            randReplaceDotAfterLower (randReplaceDot 0.3 (wl "!") r2 y).2 none
              (randReplaceDot 0.3 (wl "!") r2 y).1
          else (y, r2)).1) b = false := by
  intro q hq b
  obtain ⟨hqlow, hqne⟩ := watchWords_facts q hq
  by_cases hf : flag = true
  · rw [if_pos hf]
    refine occ_le_contra (fun b' hh => ?_) (h q hq) b
    exact occ_randReplaceDot_le hqlow hqne (by decide)
      (by decide) r2 y b'
      (occ_randRDAL_le hqlow hqne _ none _ b' hh)
  · rw [if_neg hf]
    exact h q hq b

theorem bang_stage_ex (flag : Bool) (r2 : RandState) (y : List Char) :
    bangCount y
      ≤ bangCount ((if flag then
          randReplaceDotAfterLower (randReplaceDot 0.3 (wl "!") r2 y).2 none
            (randReplaceDot 0.3 (wl "!") r2 y).1
        else (y, r2)).1) := by
  by_cases hf : flag = true
  · rw [if_pos hf]
    exact le_trans (bang_randReplaceDot_ge 0.3 (wl "!") r2 y)
      (bang_randRDAL_ge _ none _)
  · rw [if_neg hf]

theorem clean_stage_el (flag : Bool) (x : List Char × RandState)
    (h : ∀ q ∈ watchWords, ∀ b : Bool, occursWordFromCI q x.1 b = false) :
    ∀ q ∈ watchWords, ∀ b : Bool,
      occursWordFromCI q
        ((if flag then randReplaceDot 0.15 (wl "...") x.2 x.1 else x).1) b = false := by
  intro q hq b
  obtain ⟨hqlow, hqne⟩ := watchWords_facts q hq
  by_cases hf : flag = true
  · rw [if_pos hf]
    refine occ_le_contra (fun b' hh => ?_) (h q hq) b
    exact occ_randReplaceDot_le hqlow hqne (by decide) (by decide) x.2 x.1 b' hh
  · rw [if_neg hf]
    exact h q hq b

theorem bang_stage_el (flag : Bool) (x : List Char × RandState) :
    bangCount x.1
      ≤ bangCount ((if flag then randReplaceDot 0.15 (wl "...") x.2 x.1 else x).1) := by
  by_cases hf : flag = true
  · rw [if_pos hf]
    exact bang_randReplaceDot_ge 0.15 (wl "...") x.2 x.1
  · rw [if_neg hf]

theorem clean_stage_em (flag : Bool) (pref : List String)
    (hpref : ∀ e ∈ pref, e.toList ∈ emojiCandidates) (x : List Char × RandState)
    (h : ∀ q ∈ watchWords, ∀ b : Bool, occursWordFromCI q x.1 b = false) :
    ∀ q ∈ watchWords, ∀ b : Bool,
      occursWordFromCI q
        ((if flag then
            (if ((randEmoji pref x.2 x.1).2.next).1 < 0.5 then
              ((randEmoji pref x.2 x.1).1
                ++ (' ' :: (getRandomElement pref
                    ((randEmoji pref x.2 x.1).2.next).2).1.toList),
               (getRandomElement pref ((randEmoji pref x.2 x.1).2.next).2).2)
            else ((randEmoji pref x.2 x.1).1, ((randEmoji pref x.2 x.1).2.next).2))
          else x).1) b = false := by
  intro q hq b
  obtain ⟨hqlow, hqne⟩ := watchWords_facts q hq
  have he1 : ∀ b2 : Bool,
      occursWordFromCI q (randEmoji pref x.2 x.1).1 b2 = false :=
    fun b2 => clean_randEmoji hpref x.2 x.1 b2 (fun q2 hq2 => h q2 hq2 b2) q hq
  have hpick : ∀ b2 : Bool, occursWordFromCI q
      (getRandomElement pref ((randEmoji pref x.2 x.1).2.next).2).1.toList b2 = false := by
    intro b2
    rcases getRandomElement_choice pref ((randEmoji pref x.2 x.1).2.next).2 with hm | hm
    · exact emojiCand_clean _ (hpref _ hm) q hq b2
    · rw [hm]
      rfl
  by_cases hf : flag = true
  · rw [if_pos hf]
    by_cases hd : ((randEmoji pref x.2 x.1).2.next).1 < 0.5
    · rw [if_pos hd]
      show occursWordFromCI q ((randEmoji pref x.2 x.1).1
        ++ (' ' :: (getRandomElement pref
          ((randEmoji pref x.2 x.1).2.next).2).1.toList)) b = false
      rw [occ_append_split_bd hqlow (by rfl), Bool.or_eq_false_iff]
      refine ⟨he1 b, ?_⟩
      rw [occ_cons_nonword _ hqlow hqne (by decide : isWordChar ' ' = false)]
      exact hpick true
    · rw [if_neg hd]
      exact he1 b
  · rw [if_neg hf]
    exact h q hq b

theorem bang_stage_em (flag : Bool) (pref : List String) (x : List Char × RandState) :
    bangCount x.1
      ≤ bangCount ((if flag then
          (if ((randEmoji pref x.2 x.1).2.next).1 < 0.5 then
            ((randEmoji pref x.2 x.1).1
              ++ (' ' :: (getRandomElement pref
                  ((randEmoji pref x.2 x.1).2.next).2).1.toList),
             (getRandomElement pref ((randEmoji pref x.2 x.1).2.next).2).2)
          else ((randEmoji pref x.2 x.1).1, ((randEmoji pref x.2 x.1).2.next).2))
        else x).1) := by
  by_cases hf : flag = true
  · rw [if_pos hf]
    by_cases hd : ((randEmoji pref x.2 x.1).2.next).1 < 0.5
    · rw [if_pos hd]
      show bangCount x.1 ≤ bangCount ((randEmoji pref x.2 x.1).1
        ++ (' ' :: (getRandomElement pref
          ((randEmoji pref x.2 x.1).2.next).2).1.toList))
      rw [bangCount_append]
      have := bang_randEmoji_ge pref x.2 x.1
      omega
    · rw [if_neg hd]
      exact bang_randEmoji_ge pref x.2 x.1
  · rw [if_neg hf]

theorem clean_stage_sl (flag : Bool) (x : List Char × RandState)
    (h : ∀ q ∈ watchWords, ∀ b : Bool, occursWordFromCI q x.1 b = false) :
    ∀ q ∈ watchWords, ∀ b : Bool,
      occursWordFromCI q
        ((if flag then
            (if (((["good", "great", "excellent", "nice"] : List String).foldl
                (fun acc adj => randReplaceWordCI adj.toList positiveSlang acc.2 acc.1 true)
                x).2.next).1 < 0.3 then
              ((getRandomElement casualSlang
                  (((["good", "great", "excellent", "nice"] : List String).foldl
                    (fun acc adj =>
                      randReplaceWordCI adj.toList positiveSlang acc.2 acc.1 true)
                    x).2.next).2).1.toList ++ wl ", "
                ++ lowerFirst ((["good", "great", "excellent", "nice"] : List String).foldl
                  (fun acc adj => randReplaceWordCI adj.toList positiveSlang acc.2 acc.1 true)
                  x).1,
               (getRandomElement casualSlang
                  (((["good", "great", "excellent", "nice"] : List String).foldl
                    (fun acc adj =>
                      randReplaceWordCI adj.toList positiveSlang acc.2 acc.1 true)
                    x).2.next).2).2)
            else
              (((["good", "great", "excellent", "nice"] : List String).foldl
                  (fun acc adj =>
                    randReplaceWordCI adj.toList positiveSlang acc.2 acc.1 true) x).1,
               (((["good", "great", "excellent", "nice"] : List String).foldl
                  (fun acc adj =>
                    randReplaceWordCI adj.toList positiveSlang acc.2 acc.1 true)
                  x).2.next).2))
          else x).1) b = false := by
  intro q hq b
  obtain ⟨hqlow, hqne⟩ := watchWords_facts q hq
  have hF : ∀ b2 : Bool, occursWordFromCI q
      ((["good", "great", "excellent", "nice"] : List String).foldl
        (fun acc adj => randReplaceWordCI adj.toList positiveSlang acc.2 acc.1 true)
        x).1 b2 = false :=
    occ_le_contra
      (fun b' hh => occ_slangAdj_fold_le q hq _
        (fun a ha => ⟨(adj4_facts a ha).1, (adj4_facts a ha).2.1⟩) x b' hh)
      (h q hq)
  have hpick : ∀ b2 : Bool, occursWordFromCI q
      (getRandomElement casualSlang
        (((["good", "great", "excellent", "nice"] : List String).foldl
          (fun acc adj => randReplaceWordCI adj.toList positiveSlang acc.2 acc.1 true)
          x).2.next).2).1.toList b2 = false := by
    intro b2
    rcases getRandomElement_choice casualSlang _ with hm | hm
    · exact casualSlang_clean _ hm q hq b2
    · rw [hm]
      rfl
  by_cases hf : flag = true
  · rw [if_pos hf]
    by_cases hd : (((["good", "great", "excellent", "nice"] : List String).foldl
        (fun acc adj => randReplaceWordCI adj.toList positiveSlang acc.2 acc.1 true)
        x).2.next).1 < 0.3
    · rw [if_pos hd]
      show occursWordFromCI q
        ((getRandomElement casualSlang _).1.toList ++ wl ", "
          ++ lowerFirst ((["good", "great", "excellent", "nice"] : List String).foldl
            (fun acc adj => randReplaceWordCI adj.toList positiveSlang acc.2 acc.1 true)
            x).1) b = false
      rw [List.append_assoc]
      rw [occ_append_split_bd hqlow (by rfl), Bool.or_eq_false_iff]
      refine ⟨hpick b, ?_⟩
      show occursWordFromCI q (',' :: ' ' :: lowerFirst _) _ = false
      rw [occ_cons_nonword _ hqlow hqne (by decide : isWordChar ',' = false)]
      rw [occ_cons_nonword _ hqlow hqne (by decide : isWordChar ' ' = false)]
      rw [← occCI_congr (forall₂_lowerFirst _) q true]
      exact hF true
    · rw [if_neg hd]
      exact hF b
  · rw [if_neg hf]
    exact h q hq b

theorem bang_stage_sl (flag : Bool) (x : List Char × RandState) :
    bangCount x.1
      ≤ bangCount ((if flag then
          (if (((["good", "great", "excellent", "nice"] : List String).foldl
              (fun acc adj => randReplaceWordCI adj.toList positiveSlang acc.2 acc.1 true)
              x).2.next).1 < 0.3 then
            ((getRandomElement casualSlang
                (((["good", "great", "excellent", "nice"] : List String).foldl
                  (fun acc adj =>
                    randReplaceWordCI adj.toList positiveSlang acc.2 acc.1 true)
                  x).2.next).2).1.toList ++ wl ", "
              ++ lowerFirst ((["good", "great", "excellent", "nice"] : List String).foldl
                (fun acc adj => randReplaceWordCI adj.toList positiveSlang acc.2 acc.1 true)
                x).1,
             (getRandomElement casualSlang
                (((["good", "great", "excellent", "nice"] : List String).foldl
                  (fun acc adj =>
                    randReplaceWordCI adj.toList positiveSlang acc.2 acc.1 true)
                  x).2.next).2).2)
          else
            (((["good", "great", "excellent", "nice"] : List String).foldl
                (fun acc adj =>
                  randReplaceWordCI adj.toList positiveSlang acc.2 acc.1 true) x).1,
             (((["good", "great", "excellent", "nice"] : List String).foldl
                (fun acc adj =>
                  randReplaceWordCI adj.toList positiveSlang acc.2 acc.1 true)
                x).2.next).2))
        else x).1) := by
  have hF : bangCount x.1
      ≤ bangCount ((["good", "great", "excellent", "nice"] : List String).foldl
        (fun acc adj => randReplaceWordCI adj.toList positiveSlang acc.2 acc.1 true)
        x).1 :=
    bang_slangAdj_fold_ge _
      (fun a ha => ⟨(adj4_facts a ha).1, (adj4_facts a ha).2.2⟩) x
  by_cases hf : flag = true
  · rw [if_pos hf]
    by_cases hd : (((["good", "great", "excellent", "nice"] : List String).foldl
        (fun acc adj => randReplaceWordCI adj.toList positiveSlang acc.2 acc.1 true)
        x).2.next).1 < 0.3
    · rw [if_pos hd]
      show bangCount x.1 ≤ bangCount
        ((getRandomElement casualSlang _).1.toList ++ wl ", "
          ++ lowerFirst ((["good", "great", "excellent", "nice"] : List String).foldl
            (fun acc adj => randReplaceWordCI adj.toList positiveSlang acc.2 acc.1 true)
            x).1)
      rw [bangCount_append, bangCount_append]
      rw [← bang_congr_CI (forall₂_lowerFirst _)]
      omega
    · rw [if_neg hd]
      exact hF
  · rw [if_neg hf]

theorem clean_stage_s8 (c : Prop) [Decidable c] (y : List Char)
    (h : ∀ q ∈ watchWords, ∀ b : Bool, occursWordFromCI q y b = false) :
    ∀ q ∈ watchWords, ∀ b : Bool,
      occursWordFromCI q (if c then splitLongSentences y else y) b = false := by
  intro q hq b
  by_cases hc : c
  · rw [if_pos hc]
    exact occ_le_contra (fun b' hh => occ_splitLong_le q hq y b' hh) (h q hq) b
  · rw [if_neg hc]
    exact h q hq b

theorem bang_stage_s8 (c : Prop) [Decidable c] (y : List Char) :
    bangCount y ≤ bangCount (if c then splitLongSentences y else y) := by
  by_cases hc : c
  · rw [if_pos hc]
    exact bang_splitLong_ge y
  · rw [if_neg hc]

-- ===== C7: applyUserStyle assembly =====

theorem clean_applyUserStyle (r : RandState) (resp : String) (st : TextStyleFeatures)
    (hpref : ∀ e ∈ st.preferredEmojis, e.toList ∈ emojiCandidates)
    (h : ∀ q ∈ watchWords, ∀ b : Bool, occursWordFromCI q resp.toList b = false) :
    ∀ q ∈ watchWords, ∀ b : Bool,
      occursWordFromCI q (applyUserStyle r resp st).1.toList b = false := by
  simp only [applyUserStyle]
  apply clean_stage_s8
  apply clean_stage_sl
  apply clean_stage_em _ st.preferredEmojis hpref
  apply clean_stage_el
  apply clean_stage_ex
  apply clean_stage_shorthand
  apply clean_stage_bro
  apply clean_stage_lower
  exact h

theorem bang_applyUserStyle (r : RandState) (resp : String) (st : TextStyleFeatures) :
    bangCount resp.toList ≤ bangCount (applyUserStyle r resp st).1.toList := by
  simp only [applyUserStyle]
  refine le_trans ?_ (bang_stage_s8 _ _)
  refine le_trans ?_ (bang_stage_sl _ _)
  refine le_trans ?_ (bang_stage_em _ st.preferredEmojis _)
  refine le_trans ?_ (bang_stage_el _ _)
  refine le_trans ?_ (bang_stage_ex _ _ _)
  refine le_trans ?_ (bang_stage_shorthand _ _)
  refine le_trans ?_ (bang_stage_bro _ _ _)
  exact bang_stage_lower _ _

-- ===== C7: generateResponse support lemmas =====

theorem toListApp (a b : String) : (a ++ b).toList = a.toList ++ b.toList := by
  show (a ++ b).data = a.data ++ b.data
  rw [String.data_append]

theorem rnd_next (s : RandState) : ((s.next).2).rnd = s.rnd := rfl

theorem rnd_getRandomElement (arr : List String) (s : RandState) :
    ((getRandomElement arr s).2).rnd = s.rnd := rfl

theorem determineEmotionLoop_mem (v a d : ℚ) :
    ∀ (lst : List (String × EmotionRange)) (best : String × ℚ),
      (determineEmotionLoop v a d lst best).1 = best.1
      ∨ (determineEmotionLoop v a d lst best).1 ∈ lst.map (fun e => e.1) := by
  intro lst
  induction lst with
  | nil => intro best; exact Or.inl rfl
  | cons e rest ih =>
      intro best
      obtain ⟨name, r⟩ := e
      rw [determineEmotionLoop]
      by_cases h1 : 2 ≤ dimsInRange v a d r
      · rw [if_pos h1]
        dsimp only
        by_cases h2 : best.2 < adjustedScore v a d name r
        · rw [if_pos h2]
          rcases ih (name, adjustedScore v a d name r) with h3 | h3
          · right
            rw [List.map_cons]
            exact h3 ▸ List.mem_cons_self _ _
          · right
            rw [List.map_cons]
            exact List.mem_cons_of_mem _ h3
        · rw [if_neg h2]
          rcases ih best with h3 | h3
          · exact Or.inl h3
          · right
            rw [List.map_cons]
            exact List.mem_cons_of_mem _ h3
      · rw [if_neg h1]
        rcases ih best with h3 | h3
        · exact Or.inl h3
        · right
          rw [List.map_cons]
          exact List.mem_cons_of_mem _ h3

theorem determineEmotion_mem (v a d : ℚ) : determineEmotion v a d ∈ emotionCatalog := by
  rw [determineEmotion]
  by_cases h1 : |v| < 0.2 ∧ |a| < 0.2 ∧ |d| < 0.2
  · rw [if_pos h1]; decide
  · rw [if_neg h1]
    by_cases h2 : 0.6 < v ∧ 0.6 < a
    · rw [if_pos h2]; decide
    · rw [if_neg h2]
      by_cases h3 : v < -0.6 ∧ 0.6 < a ∧ 0.4 < d
      · rw [if_pos h3]; decide
      · rw [if_neg h3]
        by_cases h4 : v < -0.6 ∧ 0.4 < a ∧ d < -0.3
        · rw [if_pos h4]; decide
        · rw [if_neg h4]
          by_cases h5 : v < -0.5 ∧ a < -0.3
          · rw [if_pos h5]; decide
          · rw [if_neg h5]
            by_cases h6 : 0.5 < v ∧ a < -0.3
            · rw [if_pos h6]; decide
            · rw [if_neg h6]
              by_cases h7 : |v| < 0.3 ∧ 0.3 < a ∧ d < 0
              · rw [if_pos h7]; decide
              · rw [if_neg h7]
                by_cases h8 : 0.3 < v ∧ |a| < 0.3 ∧ 0.2 < d
                · rw [if_pos h8]; decide
                · rw [if_neg h8]
                  by_cases h9 : 0.2 < v ∧ 0.2 < a ∧ 0 < d
                  · rw [if_pos h9]; decide
                  · rw [if_neg h9]
                    dsimp only
                    by_cases hb : (determineEmotionLoop v a d emotionMap
                        ("neutral", 0)).2 < 0.3
                    · rw [if_pos hb]
                      by_cases hv1 : 0.2 < v
                      · rw [if_pos hv1]; decide
                      · rw [if_neg hv1]
                        by_cases hv2 : v < -0.2
                        · rw [if_pos hv2]; decide
                        · rw [if_neg hv2]; decide
                    · rw [if_neg hb]
                      rcases determineEmotionLoop_mem v a d emotionMap ("neutral", 0)
                        with h | h
                      · rw [h]
                        decide
                      · rw [emotionCatalog]
                        exact List.mem_append_right _ h

theorem primaryEmotion_mem (text : String) :
    (analyzeTextWithVAD text).primaryEmotion ∈ emotionCatalog := by
  rw [analyzeTextWithVAD]
  split
  · decide
  · exact determineEmotion_mem (analyzeCore text).valence (analyzeCore text).arousal
      (analyzeCore text).dominance

theorem petNames_facts : ∀ t ∈ petNames,
    lowerAlpha t.toList = true ∧ t.toList ≠ [] := by decide

theorem fold_remove_clean :
    ∀ (ts : List String), (∀ s ∈ ts, lowerAlpha s.toList = true ∧ s.toList ≠ []) →
    ∀ (l : List Char) (q : List Char), lowerAlpha q = true → q ≠ [] →
      (q ∈ ts.map (fun s => s.toList) ∨ ∀ b, occursWordFromCI q l b = false) →
      ∀ b, occursWordFromCI q
        (ts.foldl (fun acc t => removeTermScan t.toList acc true) l) b = false := by
  intro ts
  induction ts with
  | nil =>
      intro hts l q hql hqne hcase b
      rw [List.foldl_nil]
      rcases hcase with hmem | hcl
      · simp at hmem
      · exact hcl b
  | cons t ts ih =>
      intro hts l q hql hqne hcase b
      rw [List.foldl_cons]
      obtain ⟨htl, htne⟩ := hts t (List.mem_cons_self _ _)
      have hts2 : ∀ s ∈ ts, lowerAlpha s.toList = true ∧ s.toList ≠ [] :=
        fun s hs => hts s (List.mem_cons_of_mem _ hs)
      rcases hcase with hmem | hcl
      · rw [List.map_cons, List.mem_cons] at hmem
        rcases hmem with rfl | hmem2
        · refine ih hts2 _ t.toList hql hqne (Or.inr ?_) b
          intro b2
          exact occ_false_of_true (occ_self_removeTermScan htl htne l true)
        · exact ih hts2 _ q hql hqne (Or.inl hmem2) b
      · refine ih hts2 _ q hql hqne (Or.inr ?_) b
        intro b2
        exact occ_le_contra
          (fun b' hh => occ_removeTermScan_le hql hqne htl htne l true b' hh) hcl b2

theorem bang_removeAllPetTerms_fold :
    ∀ (ts : List String), (∀ s ∈ ts, lowerAlpha s.toList = true ∧ s.toList ≠ []) →
    ∀ (l : List Char),
      bangCount (ts.foldl (fun acc t => removeTermScan t.toList acc true) l)
        = bangCount l := by
  intro ts
  induction ts with
  | nil => intro hts l; rw [List.foldl_nil]
  | cons t ts ih =>
      intro hts l
      rw [List.foldl_cons]
      obtain ⟨htl, htne⟩ := hts t (List.mem_cons_self _ _)
      rw [ih (fun s hs => hts s (List.mem_cons_of_mem _ hs)) _]
      exact bang_removeTermScan htl htne l true

-- ===== C7: template pool cleanliness facts (ear/arling) =====

theorem greetPool_facts : ∀ g ∈ GREETING_PHRASES,
    ∀ q ∈ ([wl "ear", wl "arling"] : List (List Char)), ∀ b : Bool,
      occursWordFromCI q g.toList b = false := by decide

theorem greetTail_facts : ∀ emo ∈ emotionCatalog,
    ∀ q ∈ ([wl "ear", wl "arling"] : List (List Char)), ∀ b : Bool,
      occursWordFromCI q ((" I notice a " : String).toList
        ++ (emo.toList
          ++ (" tone in your message. How can I assist you today?" : String).toList))
        b = false := by decide

theorem greetTail_bang :
    1 ≤ bangCount
      (" tone in your message. How can I assist you today?" : String).toList := by
  decide

theorem helpPre_facts :
    (∀ q ∈ ([wl "ear", wl "arling"] : List (List Char)), ∀ b : Bool,
      occursWordFromCI q ("I\x27d be happy to help! " : String).toList b = false)
    ∧ lastNonWord ("I\x27d be happy to help! " : String).toList = true
    ∧ 1 ≤ bangCount ("I\x27d be happy to help! " : String).toList := by decide

theorem helpPool_facts : ∀ g ∈ HELP_PHRASES,
    ∀ q ∈ ([wl "ear", wl "arling"] : List (List Char)), ∀ b : Bool,
      occursWordFromCI q g.toList b = false := by decide

theorem howAreYou_facts :
    (∀ q ∈ ([wl "ear", wl "arling"] : List (List Char)), ∀ b : Bool,
      occursWordFromCI q
        ("I\x27m functioning well, thank you for asking! More importantly, how are you feeling today?" : String).toList
        b = false)
    ∧ 1 ≤ bangCount
        ("I\x27m functioning well, thank you for asking! More importantly, how are you feeling today?" : String).toList := by
  decide

theorem ackPools_facts : ∀ p ∈ (POSITIVE_ACKNOWLEDGMENTS ++ NEGATIVE_ACKNOWLEDGMENTS
    ++ NEUTRAL_ACKNOWLEDGMENTS ++ CONFUSION_RESPONSES ++ INTEREST_RESPONSES),
    (∀ q ∈ ([wl "ear", wl "arling"] : List (List Char)), ∀ b : Bool,
      occursWordFromCI q (p.toList ++ (" " : String).toList) b = false)
    ∧ lastNonWord (p.toList ++ (" " : String).toList) = true := by decide

theorem spaceFact : ∀ q ∈ ([wl "ear", wl "arling"] : List (List Char)),
    (∀ b : Bool, occursWordFromCI q (("" : String).toList
      ++ (" " : String).toList) b = false)
    ∧ lastNonWord (("" : String).toList ++ (" " : String).toList) = true := by decide

theorem topicPoolsA_facts : ∀ p ∈ (emotionsResponses ++ techResponses ++ healthResponses
    ++ workResponses ++ relationshipResponses ++ educationResponses),
    (∀ q ∈ ([wl "ear", wl "arling"] : List (List Char)), ∀ b : Bool,
      occursWordFromCI q p.toList b = false)
    ∧ lastNonWord p.toList = true := by decide

theorem topicPoolsB_facts : ∀ p ∈ (mathResponses ++ physicsResponses ++ chemistryResponses
    ++ biologyResponses ++ historyResponses ++ philosophyResponses),
    (∀ q ∈ ([wl "ear", wl "arling"] : List (List Char)), ∀ b : Bool,
      occursWordFromCI q p.toList b = false)
    ∧ lastNonWord p.toList = true := by decide

theorem topicPoolsC_facts : ∀ p ∈ (programmingResponses ++ economicsResponses
    ++ psychologyResponses ++ artsResponses ++ sportsResponses ++ generalResponses),
    (∀ q ∈ ([wl "ear", wl "arling"] : List (List Char)), ∀ b : Bool,
      occursWordFromCI q p.toList b = false)
    ∧ lastNonWord p.toList = true := by decide

theorem transitions_facts : ∀ t ∈ TOPIC_TRANSITIONS,
    (∀ q ∈ ([wl "ear", wl "arling"] : List (List Char)), ∀ b : Bool,
      occursWordFromCI q t.toList b = false)
    ∧ 1 ≤ bangCount t.toList := by decide

-- ===== C7: generateResponse branch equations =====

theorem generateResponse_cases (r : RandState) (text : String) (vad : VADScore) :
    generateResponse r text vad
      = (if greetingGuard (text.toList.map jsToLower) && decide (text.length < 20) then
      ((getRandomElement GREETING_PHRASES r).1 ++ " I notice a " ++ vad.primaryEmotion
        ++ " tone in your message. How can I assist you today?",
       (getRandomElement GREETING_PHRASES r).2)
      else if helpGuard (text.toList.map jsToLower) && decide (text.length < 30) then
      ("I\x27d be happy to help! " ++ (getRandomElement HELP_PHRASES r).1,
       (getRandomElement HELP_PHRASES r).2)
      else if howAreYouGuard (text.toList.map jsToLower) && decide (text.length < 30) then
      ("I\x27m functioning well, thank you for asking! More importantly, how are you feeling today?",
       r)
      else
      ((if (r.next).1 > 0.3 then
        if vad.valence > 0.3 then
          ((getRandomElement POSITIVE_ACKNOWLEDGMENTS (r.next).2).1 ++ " ",
           (getRandomElement POSITIVE_ACKNOWLEDGMENTS (r.next).2).2)
        else if vad.valence < -0.3 then
          ((getRandomElement NEGATIVE_ACKNOWLEDGMENTS (r.next).2).1 ++ " ",
           (getRandomElement NEGATIVE_ACKNOWLEDGMENTS (r.next).2).2)
        else
          ((getRandomElement NEUTRAL_ACKNOWLEDGMENTS (r.next).2).1 ++ " ",
           (getRandomElement NEUTRAL_ACKNOWLEDGMENTS (r.next).2).2)
      else ("", (r.next).2)).1 ++ (if (((if (r.next).1 > 0.3 then
        if vad.valence > 0.3 then
          ((getRandomElement POSITIVE_ACKNOWLEDGMENTS (r.next).2).1 ++ " ",
           (getRandomElement POSITIVE_ACKNOWLEDGMENTS (r.next).2).2)
        else if vad.valence < -0.3 then
          ((getRandomElement NEGATIVE_ACKNOWLEDGMENTS (r.next).2).1 ++ " ",
           (getRandomElement NEGATIVE_ACKNOWLEDGMENTS (r.next).2).2)
        else
          ((getRandomElement NEUTRAL_ACKNOWLEDGMENTS (r.next).2).1 ++ " ",
           (getRandomElement NEUTRAL_ACKNOWLEDGMENTS (r.next).2).2)
      else ("", (r.next).2)).2).next).1 > 0.5 then
        if vad.primaryEmotion == "confusion" then
          ((getRandomElement CONFUSION_RESPONSES (((if (r.next).1 > 0.3 then
        if vad.valence > 0.3 then
          ((getRandomElement POSITIVE_ACKNOWLEDGMENTS (r.next).2).1 ++ " ",
           (getRandomElement POSITIVE_ACKNOWLEDGMENTS (r.next).2).2)
        else if vad.valence < -0.3 then
          ((getRandomElement NEGATIVE_ACKNOWLEDGMENTS (r.next).2).1 ++ " ",
           (getRandomElement NEGATIVE_ACKNOWLEDGMENTS (r.next).2).2)
        else
          ((getRandomElement NEUTRAL_ACKNOWLEDGMENTS (r.next).2).1 ++ " ",
           (getRandomElement NEUTRAL_ACKNOWLEDGMENTS (r.next).2).2)
      else ("", (r.next).2)).2).next).2).1 ++ " ",
           (getRandomElement CONFUSION_RESPONSES (((if (r.next).1 > 0.3 then
        if vad.valence > 0.3 then
          ((getRandomElement POSITIVE_ACKNOWLEDGMENTS (r.next).2).1 ++ " ",
           (getRandomElement POSITIVE_ACKNOWLEDGMENTS (r.next).2).2)
        else if vad.valence < -0.3 then
          ((getRandomElement NEGATIVE_ACKNOWLEDGMENTS (r.next).2).1 ++ " ",
           (getRandomElement NEGATIVE_ACKNOWLEDGMENTS (r.next).2).2)
        else
          ((getRandomElement NEUTRAL_ACKNOWLEDGMENTS (r.next).2).1 ++ " ",
           (getRandomElement NEUTRAL_ACKNOWLEDGMENTS (r.next).2).2)
      else ("", (r.next).2)).2).next).2).2)
        else if vad.primaryEmotion == "interest" || vad.primaryEmotion == "curiosity" then
          ((getRandomElement INTEREST_RESPONSES (((if (r.next).1 > 0.3 then
        if vad.valence > 0.3 then
          ((getRandomElement POSITIVE_ACKNOWLEDGMENTS (r.next).2).1 ++ " ",
           (getRandomElement POSITIVE_ACKNOWLEDGMENTS (r.next).2).2)
        else if vad.valence < -0.3 then
          ((getRandomElement NEGATIVE_ACKNOWLEDGMENTS (r.next).2).1 ++ " ",
           (getRandomElement NEGATIVE_ACKNOWLEDGMENTS (r.next).2).2)
        else
          ((getRandomElement NEUTRAL_ACKNOWLEDGMENTS (r.next).2).1 ++ " ",
           (getRandomElement NEUTRAL_ACKNOWLEDGMENTS (r.next).2).2)
      else ("", (r.next).2)).2).next).2).1 ++ " ",
           (getRandomElement INTEREST_RESPONSES (((if (r.next).1 > 0.3 then
        if vad.valence > 0.3 then
          ((getRandomElement POSITIVE_ACKNOWLEDGMENTS (r.next).2).1 ++ " ",
           (getRandomElement POSITIVE_ACKNOWLEDGMENTS (r.next).2).2)
        else if vad.valence < -0.3 then
          ((getRandomElement NEGATIVE_ACKNOWLEDGMENTS (r.next).2).1 ++ " ",
           (getRandomElement NEGATIVE_ACKNOWLEDGMENTS (r.next).2).2)
        else
          ((getRandomElement NEUTRAL_ACKNOWLEDGMENTS (r.next).2).1 ++ " ",
           (getRandomElement NEUTRAL_ACKNOWLEDGMENTS (r.next).2).2)
      else ("", (r.next).2)).2).next).2).2)
        else ("", (((if (r.next).1 > 0.3 then
        if vad.valence > 0.3 then
          ((getRandomElement POSITIVE_ACKNOWLEDGMENTS (r.next).2).1 ++ " ",
           (getRandomElement POSITIVE_ACKNOWLEDGMENTS (r.next).2).2)
        else if vad.valence < -0.3 then
          ((getRandomElement NEGATIVE_ACKNOWLEDGMENTS (r.next).2).1 ++ " ",
           (getRandomElement NEGATIVE_ACKNOWLEDGMENTS (r.next).2).2)
        else
          ((getRandomElement NEUTRAL_ACKNOWLEDGMENTS (r.next).2).1 ++ " ",
           (getRandomElement NEUTRAL_ACKNOWLEDGMENTS (r.next).2).2)
      else ("", (r.next).2)).2).next).2)
      else ("", (((if (r.next).1 > 0.3 then
        if vad.valence > 0.3 then
          ((getRandomElement POSITIVE_ACKNOWLEDGMENTS (r.next).2).1 ++ " ",
           (getRandomElement POSITIVE_ACKNOWLEDGMENTS (r.next).2).2)
        else if vad.valence < -0.3 then
          ((getRandomElement NEGATIVE_ACKNOWLEDGMENTS (r.next).2).1 ++ " ",
           (getRandomElement NEGATIVE_ACKNOWLEDGMENTS (r.next).2).2)
        else
          ((getRandomElement NEUTRAL_ACKNOWLEDGMENTS (r.next).2).1 ++ " ",
           (getRandomElement NEUTRAL_ACKNOWLEDGMENTS (r.next).2).2)
      else ("", (r.next).2)).2).next).2)).1 ++ (getRandomElement (if ((detectTopics text).headD ("", 0)).1 == "emotions" then emotionsResponses
      else if ((detectTopics text).headD ("", 0)).1 == "technology" then techResponses
      else if ((detectTopics text).headD ("", 0)).1 == "health" then healthResponses
      else if ((detectTopics text).headD ("", 0)).1 == "work" then workResponses
      else if ((detectTopics text).headD ("", 0)).1 == "relationships" then relationshipResponses
      else if ((detectTopics text).headD ("", 0)).1 == "education" then educationResponses
      else if ((detectTopics text).headD ("", 0)).1 == "mathematics" then mathResponses
      else if ((detectTopics text).headD ("", 0)).1 == "physics" then physicsResponses
      else if ((detectTopics text).headD ("", 0)).1 == "chemistry" then chemistryResponses
      else if ((detectTopics text).headD ("", 0)).1 == "biology" then biologyResponses
      else if ((detectTopics text).headD ("", 0)).1 == "history" then historyResponses
      else if ((detectTopics text).headD ("", 0)).1 == "philosophy" then philosophyResponses
      else if ((detectTopics text).headD ("", 0)).1 == "programming" || ((detectTopics text).headD ("", 0)).1 == "data_science" then programmingResponses
      else if ((detectTopics text).headD ("", 0)).1 == "economics" then economicsResponses
      else if ((detectTopics text).headD ("", 0)).1 == "psychology" then psychologyResponses
      else if ((detectTopics text).headD ("", 0)).1 == "visual_arts" || ((detectTopics text).headD ("", 0)).1 == "music" || ((detectTopics text).headD ("", 0)).1 == "film_media" then artsResponses
      else if ((detectTopics text).headD ("", 0)).1 == "sports" then sportsResponses
      else generalResponses) (if (((if (r.next).1 > 0.3 then
        if vad.valence > 0.3 then
          ((getRandomElement POSITIVE_ACKNOWLEDGMENTS (r.next).2).1 ++ " ",
           (getRandomElement POSITIVE_ACKNOWLEDGMENTS (r.next).2).2)
        else if vad.valence < -0.3 then
          ((getRandomElement NEGATIVE_ACKNOWLEDGMENTS (r.next).2).1 ++ " ",
           (getRandomElement NEGATIVE_ACKNOWLEDGMENTS (r.next).2).2)
        else
          ((getRandomElement NEUTRAL_ACKNOWLEDGMENTS (r.next).2).1 ++ " ",
           (getRandomElement NEUTRAL_ACKNOWLEDGMENTS (r.next).2).2)
      else ("", (r.next).2)).2).next).1 > 0.5 then
        if vad.primaryEmotion == "confusion" then
          ((getRandomElement CONFUSION_RESPONSES (((if (r.next).1 > 0.3 then
        if vad.valence > 0.3 then
          ((getRandomElement POSITIVE_ACKNOWLEDGMENTS (r.next).2).1 ++ " ",
           (getRandomElement POSITIVE_ACKNOWLEDGMENTS (r.next).2).2)
        else if vad.valence < -0.3 then
          ((getRandomElement NEGATIVE_ACKNOWLEDGMENTS (r.next).2).1 ++ " ",
           (getRandomElement NEGATIVE_ACKNOWLEDGMENTS (r.next).2).2)
        else
          ((getRandomElement NEUTRAL_ACKNOWLEDGMENTS (r.next).2).1 ++ " ",
           (getRandomElement NEUTRAL_ACKNOWLEDGMENTS (r.next).2).2)
      else ("", (r.next).2)).2).next).2).1 ++ " ",
           (getRandomElement CONFUSION_RESPONSES (((if (r.next).1 > 0.3 then
        if vad.valence > 0.3 then
          ((getRandomElement POSITIVE_ACKNOWLEDGMENTS (r.next).2).1 ++ " ",
           (getRandomElement POSITIVE_ACKNOWLEDGMENTS (r.next).2).2)
        else if vad.valence < -0.3 then
          ((getRandomElement NEGATIVE_ACKNOWLEDGMENTS (r.next).2).1 ++ " ",
           (getRandomElement NEGATIVE_ACKNOWLEDGMENTS (r.next).2).2)
        else
          ((getRandomElement NEUTRAL_ACKNOWLEDGMENTS (r.next).2).1 ++ " ",
           (getRandomElement NEUTRAL_ACKNOWLEDGMENTS (r.next).2).2)
      else ("", (r.next).2)).2).next).2).2)
        else if vad.primaryEmotion == "interest" || vad.primaryEmotion == "curiosity" then
          ((getRandomElement INTEREST_RESPONSES (((if (r.next).1 > 0.3 then
        if vad.valence > 0.3 then
          ((getRandomElement POSITIVE_ACKNOWLEDGMENTS (r.next).2).1 ++ " ",
           (getRandomElement POSITIVE_ACKNOWLEDGMENTS (r.next).2).2)
        else if vad.valence < -0.3 then
          ((getRandomElement NEGATIVE_ACKNOWLEDGMENTS (r.next).2).1 ++ " ",
           (getRandomElement NEGATIVE_ACKNOWLEDGMENTS (r.next).2).2)
        else
          ((getRandomElement NEUTRAL_ACKNOWLEDGMENTS (r.next).2).1 ++ " ",
           (getRandomElement NEUTRAL_ACKNOWLEDGMENTS (r.next).2).2)
      else ("", (r.next).2)).2).next).2).1 ++ " ",
           (getRandomElement INTEREST_RESPONSES (((if (r.next).1 > 0.3 then
        if vad.valence > 0.3 then
          ((getRandomElement POSITIVE_ACKNOWLEDGMENTS (r.next).2).1 ++ " ",
           (getRandomElement POSITIVE_ACKNOWLEDGMENTS (r.next).2).2)
        else if vad.valence < -0.3 then
          ((getRandomElement NEGATIVE_ACKNOWLEDGMENTS (r.next).2).1 ++ " ",
           (getRandomElement NEGATIVE_ACKNOWLEDGMENTS (r.next).2).2)
        else
          ((getRandomElement NEUTRAL_ACKNOWLEDGMENTS (r.next).2).1 ++ " ",
           (getRandomElement NEUTRAL_ACKNOWLEDGMENTS (r.next).2).2)
      else ("", (r.next).2)).2).next).2).2)
        else ("", (((if (r.next).1 > 0.3 then
        if vad.valence > 0.3 then
          ((getRandomElement POSITIVE_ACKNOWLEDGMENTS (r.next).2).1 ++ " ",
           (getRandomElement POSITIVE_ACKNOWLEDGMENTS (r.next).2).2)
        else if vad.valence < -0.3 then
          ((getRandomElement NEGATIVE_ACKNOWLEDGMENTS (r.next).2).1 ++ " ",
           (getRandomElement NEGATIVE_ACKNOWLEDGMENTS (r.next).2).2)
        else
          ((getRandomElement NEUTRAL_ACKNOWLEDGMENTS (r.next).2).1 ++ " ",
           (getRandomElement NEUTRAL_ACKNOWLEDGMENTS (r.next).2).2)
      else ("", (r.next).2)).2).next).2)
      else ("", (((if (r.next).1 > 0.3 then
        if vad.valence > 0.3 then
          ((getRandomElement POSITIVE_ACKNOWLEDGMENTS (r.next).2).1 ++ " ",
           (getRandomElement POSITIVE_ACKNOWLEDGMENTS (r.next).2).2)
        else if vad.valence < -0.3 then
          ((getRandomElement NEGATIVE_ACKNOWLEDGMENTS (r.next).2).1 ++ " ",
           (getRandomElement NEGATIVE_ACKNOWLEDGMENTS (r.next).2).2)
        else
          ((getRandomElement NEUTRAL_ACKNOWLEDGMENTS (r.next).2).1 ++ " ",
           (getRandomElement NEUTRAL_ACKNOWLEDGMENTS (r.next).2).2)
      else ("", (r.next).2)).2).next).2)).2).1 ++ (getRandomElement TOPIC_TRANSITIONS (getRandomElement (if ((detectTopics text).headD ("", 0)).1 == "emotions" then emotionsResponses
      else if ((detectTopics text).headD ("", 0)).1 == "technology" then techResponses
      else if ((detectTopics text).headD ("", 0)).1 == "health" then healthResponses
      else if ((detectTopics text).headD ("", 0)).1 == "work" then workResponses
      else if ((detectTopics text).headD ("", 0)).1 == "relationships" then relationshipResponses
      else if ((detectTopics text).headD ("", 0)).1 == "education" then educationResponses
      else if ((detectTopics text).headD ("", 0)).1 == "mathematics" then mathResponses
      else if ((detectTopics text).headD ("", 0)).1 == "physics" then physicsResponses
      else if ((detectTopics text).headD ("", 0)).1 == "chemistry" then chemistryResponses
      else if ((detectTopics text).headD ("", 0)).1 == "biology" then biologyResponses
      else if ((detectTopics text).headD ("", 0)).1 == "history" then historyResponses
      else if ((detectTopics text).headD ("", 0)).1 == "philosophy" then philosophyResponses
      else if ((detectTopics text).headD ("", 0)).1 == "programming" || ((detectTopics text).headD ("", 0)).1 == "data_science" then programmingResponses
      else if ((detectTopics text).headD ("", 0)).1 == "economics" then economicsResponses
      else if ((detectTopics text).headD ("", 0)).1 == "psychology" then psychologyResponses
      else if ((detectTopics text).headD ("", 0)).1 == "visual_arts" || ((detectTopics text).headD ("", 0)).1 == "music" || ((detectTopics text).headD ("", 0)).1 == "film_media" then artsResponses
      else if ((detectTopics text).headD ("", 0)).1 == "sports" then sportsResponses
      else generalResponses) (if (((if (r.next).1 > 0.3 then
        if vad.valence > 0.3 then
          ((getRandomElement POSITIVE_ACKNOWLEDGMENTS (r.next).2).1 ++ " ",
           (getRandomElement POSITIVE_ACKNOWLEDGMENTS (r.next).2).2)
        else if vad.valence < -0.3 then
          ((getRandomElement NEGATIVE_ACKNOWLEDGMENTS (r.next).2).1 ++ " ",
           (getRandomElement NEGATIVE_ACKNOWLEDGMENTS (r.next).2).2)
        else
          ((getRandomElement NEUTRAL_ACKNOWLEDGMENTS (r.next).2).1 ++ " ",
           (getRandomElement NEUTRAL_ACKNOWLEDGMENTS (r.next).2).2)
      else ("", (r.next).2)).2).next).1 > 0.5 then
        if vad.primaryEmotion == "confusion" then
          ((getRandomElement CONFUSION_RESPONSES (((if (r.next).1 > 0.3 then
        if vad.valence > 0.3 then
          ((getRandomElement POSITIVE_ACKNOWLEDGMENTS (r.next).2).1 ++ " ",
           (getRandomElement POSITIVE_ACKNOWLEDGMENTS (r.next).2).2)
        else if vad.valence < -0.3 then
          ((getRandomElement NEGATIVE_ACKNOWLEDGMENTS (r.next).2).1 ++ " ",
           (getRandomElement NEGATIVE_ACKNOWLEDGMENTS (r.next).2).2)
        else
          ((getRandomElement NEUTRAL_ACKNOWLEDGMENTS (r.next).2).1 ++ " ",
           (getRandomElement NEUTRAL_ACKNOWLEDGMENTS (r.next).2).2)
      else ("", (r.next).2)).2).next).2).1 ++ " ",
           (getRandomElement CONFUSION_RESPONSES (((if (r.next).1 > 0.3 then
        if vad.valence > 0.3 then
          ((getRandomElement POSITIVE_ACKNOWLEDGMENTS (r.next).2).1 ++ " ",
           (getRandomElement POSITIVE_ACKNOWLEDGMENTS (r.next).2).2)
        else if vad.valence < -0.3 then
          ((getRandomElement NEGATIVE_ACKNOWLEDGMENTS (r.next).2).1 ++ " ",
           (getRandomElement NEGATIVE_ACKNOWLEDGMENTS (r.next).2).2)
        else
          ((getRandomElement NEUTRAL_ACKNOWLEDGMENTS (r.next).2).1 ++ " ",
           (getRandomElement NEUTRAL_ACKNOWLEDGMENTS (r.next).2).2)
      else ("", (r.next).2)).2).next).2).2)
        else if vad.primaryEmotion == "interest" || vad.primaryEmotion == "curiosity" then
          ((getRandomElement INTEREST_RESPONSES (((if (r.next).1 > 0.3 then
        if vad.valence > 0.3 then
          ((getRandomElement POSITIVE_ACKNOWLEDGMENTS (r.next).2).1 ++ " ",
           (getRandomElement POSITIVE_ACKNOWLEDGMENTS (r.next).2).2)
        else if vad.valence < -0.3 then
          ((getRandomElement NEGATIVE_ACKNOWLEDGMENTS (r.next).2).1 ++ " ",
           (getRandomElement NEGATIVE_ACKNOWLEDGMENTS (r.next).2).2)
        else
          ((getRandomElement NEUTRAL_ACKNOWLEDGMENTS (r.next).2).1 ++ " ",
           (getRandomElement NEUTRAL_ACKNOWLEDGMENTS (r.next).2).2)
      else ("", (r.next).2)).2).next).2).1 ++ " ",
           (getRandomElement INTEREST_RESPONSES (((if (r.next).1 > 0.3 then
        if vad.valence > 0.3 then
          ((getRandomElement POSITIVE_ACKNOWLEDGMENTS (r.next).2).1 ++ " ",
           (getRandomElement POSITIVE_ACKNOWLEDGMENTS (r.next).2).2)
        else if vad.valence < -0.3 then
          ((getRandomElement NEGATIVE_ACKNOWLEDGMENTS (r.next).2).1 ++ " ",
           (getRandomElement NEGATIVE_ACKNOWLEDGMENTS (r.next).2).2)
        else
          ((getRandomElement NEUTRAL_ACKNOWLEDGMENTS (r.next).2).1 ++ " ",
           (getRandomElement NEUTRAL_ACKNOWLEDGMENTS (r.next).2).2)
      else ("", (r.next).2)).2).next).2).2)
        else ("", (((if (r.next).1 > 0.3 then
        if vad.valence > 0.3 then
          ((getRandomElement POSITIVE_ACKNOWLEDGMENTS (r.next).2).1 ++ " ",
           (getRandomElement POSITIVE_ACKNOWLEDGMENTS (r.next).2).2)
        else if vad.valence < -0.3 then
          ((getRandomElement NEGATIVE_ACKNOWLEDGMENTS (r.next).2).1 ++ " ",
           (getRandomElement NEGATIVE_ACKNOWLEDGMENTS (r.next).2).2)
        else
          ((getRandomElement NEUTRAL_ACKNOWLEDGMENTS (r.next).2).1 ++ " ",
           (getRandomElement NEUTRAL_ACKNOWLEDGMENTS (r.next).2).2)
      else ("", (r.next).2)).2).next).2)
      else ("", (((if (r.next).1 > 0.3 then
        if vad.valence > 0.3 then
          ((getRandomElement POSITIVE_ACKNOWLEDGMENTS (r.next).2).1 ++ " ",
           (getRandomElement POSITIVE_ACKNOWLEDGMENTS (r.next).2).2)
        else if vad.valence < -0.3 then
          ((getRandomElement NEGATIVE_ACKNOWLEDGMENTS (r.next).2).1 ++ " ",
           (getRandomElement NEGATIVE_ACKNOWLEDGMENTS (r.next).2).2)
        else
          ((getRandomElement NEUTRAL_ACKNOWLEDGMENTS (r.next).2).1 ++ " ",
           (getRandomElement NEUTRAL_ACKNOWLEDGMENTS (r.next).2).2)
      else ("", (r.next).2)).2).next).2)).2).2).1,
       (getRandomElement TOPIC_TRANSITIONS (getRandomElement (if ((detectTopics text).headD ("", 0)).1 == "emotions" then emotionsResponses
      else if ((detectTopics text).headD ("", 0)).1 == "technology" then techResponses
      else if ((detectTopics text).headD ("", 0)).1 == "health" then healthResponses
      else if ((detectTopics text).headD ("", 0)).1 == "work" then workResponses
      else if ((detectTopics text).headD ("", 0)).1 == "relationships" then relationshipResponses
      else if ((detectTopics text).headD ("", 0)).1 == "education" then educationResponses
      else if ((detectTopics text).headD ("", 0)).1 == "mathematics" then mathResponses
      else if ((detectTopics text).headD ("", 0)).1 == "physics" then physicsResponses
      else if ((detectTopics text).headD ("", 0)).1 == "chemistry" then chemistryResponses
      else if ((detectTopics text).headD ("", 0)).1 == "biology" then biologyResponses
      else if ((detectTopics text).headD ("", 0)).1 == "history" then historyResponses
      else if ((detectTopics text).headD ("", 0)).1 == "philosophy" then philosophyResponses
      else if ((detectTopics text).headD ("", 0)).1 == "programming" || ((detectTopics text).headD ("", 0)).1 == "data_science" then programmingResponses
      else if ((detectTopics text).headD ("", 0)).1 == "economics" then economicsResponses
      else if ((detectTopics text).headD ("", 0)).1 == "psychology" then psychologyResponses
      else if ((detectTopics text).headD ("", 0)).1 == "visual_arts" || ((detectTopics text).headD ("", 0)).1 == "music" || ((detectTopics text).headD ("", 0)).1 == "film_media" then artsResponses
      else if ((detectTopics text).headD ("", 0)).1 == "sports" then sportsResponses
      else generalResponses) (if (((if (r.next).1 > 0.3 then
        if vad.valence > 0.3 then
          ((getRandomElement POSITIVE_ACKNOWLEDGMENTS (r.next).2).1 ++ " ",
           (getRandomElement POSITIVE_ACKNOWLEDGMENTS (r.next).2).2)
        else if vad.valence < -0.3 then
          ((getRandomElement NEGATIVE_ACKNOWLEDGMENTS (r.next).2).1 ++ " ",
           (getRandomElement NEGATIVE_ACKNOWLEDGMENTS (r.next).2).2)
        else
          ((getRandomElement NEUTRAL_ACKNOWLEDGMENTS (r.next).2).1 ++ " ",
           (getRandomElement NEUTRAL_ACKNOWLEDGMENTS (r.next).2).2)
      else ("", (r.next).2)).2).next).1 > 0.5 then
        if vad.primaryEmotion == "confusion" then
          ((getRandomElement CONFUSION_RESPONSES (((if (r.next).1 > 0.3 then
        if vad.valence > 0.3 then
          ((getRandomElement POSITIVE_ACKNOWLEDGMENTS (r.next).2).1 ++ " ",
           (getRandomElement POSITIVE_ACKNOWLEDGMENTS (r.next).2).2)
        else if vad.valence < -0.3 then
          ((getRandomElement NEGATIVE_ACKNOWLEDGMENTS (r.next).2).1 ++ " ",
           (getRandomElement NEGATIVE_ACKNOWLEDGMENTS (r.next).2).2)
        else
          ((getRandomElement NEUTRAL_ACKNOWLEDGMENTS (r.next).2).1 ++ " ",
           (getRandomElement NEUTRAL_ACKNOWLEDGMENTS (r.next).2).2)
      else ("", (r.next).2)).2).next).2).1 ++ " ",
           (getRandomElement CONFUSION_RESPONSES (((if (r.next).1 > 0.3 then
        if vad.valence > 0.3 then
          ((getRandomElement POSITIVE_ACKNOWLEDGMENTS (r.next).2).1 ++ " ",
           (getRandomElement POSITIVE_ACKNOWLEDGMENTS (r.next).2).2)
        else if vad.valence < -0.3 then
          ((getRandomElement NEGATIVE_ACKNOWLEDGMENTS (r.next).2).1 ++ " ",
           (getRandomElement NEGATIVE_ACKNOWLEDGMENTS (r.next).2).2)
        else
          ((getRandomElement NEUTRAL_ACKNOWLEDGMENTS (r.next).2).1 ++ " ",
           (getRandomElement NEUTRAL_ACKNOWLEDGMENTS (r.next).2).2)
      else ("", (r.next).2)).2).next).2).2)
        else if vad.primaryEmotion == "interest" || vad.primaryEmotion == "curiosity" then
          ((getRandomElement INTEREST_RESPONSES (((if (r.next).1 > 0.3 then
        if vad.valence > 0.3 then
          ((getRandomElement POSITIVE_ACKNOWLEDGMENTS (r.next).2).1 ++ " ",
           (getRandomElement POSITIVE_ACKNOWLEDGMENTS (r.next).2).2)
        else if vad.valence < -0.3 then
          ((getRandomElement NEGATIVE_ACKNOWLEDGMENTS (r.next).2).1 ++ " ",
           (getRandomElement NEGATIVE_ACKNOWLEDGMENTS (r.next).2).2)
        else
          ((getRandomElement NEUTRAL_ACKNOWLEDGMENTS (r.next).2).1 ++ " ",
           (getRandomElement NEUTRAL_ACKNOWLEDGMENTS (r.next).2).2)
      else ("", (r.next).2)).2).next).2).1 ++ " ",
           (getRandomElement INTEREST_RESPONSES (((if (r.next).1 > 0.3 then
        if vad.valence > 0.3 then
          ((getRandomElement POSITIVE_ACKNOWLEDGMENTS (r.next).2).1 ++ " ",
           (getRandomElement POSITIVE_ACKNOWLEDGMENTS (r.next).2).2)
        else if vad.valence < -0.3 then
          ((getRandomElement NEGATIVE_ACKNOWLEDGMENTS (r.next).2).1 ++ " ",
           (getRandomElement NEGATIVE_ACKNOWLEDGMENTS (r.next).2).2)
        else
          ((getRandomElement NEUTRAL_ACKNOWLEDGMENTS (r.next).2).1 ++ " ",
           (getRandomElement NEUTRAL_ACKNOWLEDGMENTS (r.next).2).2)
      else ("", (r.next).2)).2).next).2).2)
        else ("", (((if (r.next).1 > 0.3 then
        if vad.valence > 0.3 then
          ((getRandomElement POSITIVE_ACKNOWLEDGMENTS (r.next).2).1 ++ " ",
           (getRandomElement POSITIVE_ACKNOWLEDGMENTS (r.next).2).2)
        else if vad.valence < -0.3 then
          ((getRandomElement NEGATIVE_ACKNOWLEDGMENTS (r.next).2).1 ++ " ",
           (getRandomElement NEGATIVE_ACKNOWLEDGMENTS (r.next).2).2)
        else
          ((getRandomElement NEUTRAL_ACKNOWLEDGMENTS (r.next).2).1 ++ " ",
           (getRandomElement NEUTRAL_ACKNOWLEDGMENTS (r.next).2).2)
      else ("", (r.next).2)).2).next).2)
      else ("", (((if (r.next).1 > 0.3 then
        if vad.valence > 0.3 then
          ((getRandomElement POSITIVE_ACKNOWLEDGMENTS (r.next).2).1 ++ " ",
           (getRandomElement POSITIVE_ACKNOWLEDGMENTS (r.next).2).2)
        else if vad.valence < -0.3 then
          ((getRandomElement NEGATIVE_ACKNOWLEDGMENTS (r.next).2).1 ++ " ",
           (getRandomElement NEGATIVE_ACKNOWLEDGMENTS (r.next).2).2)
        else
          ((getRandomElement NEUTRAL_ACKNOWLEDGMENTS (r.next).2).1 ++ " ",
           (getRandomElement NEUTRAL_ACKNOWLEDGMENTS (r.next).2).2)
      else ("", (r.next).2)).2).next).2)).2).2).2)) := rfl

theorem gR_greeting (r : RandState) (text : String) (vad : VADScore)
    (h1 : (greetingGuard (text.toList.map jsToLower) && decide (text.length < 20)) = true) :
    generateResponse r text vad
      = ((getRandomElement GREETING_PHRASES r).1 ++ " I notice a " ++ vad.primaryEmotion
        ++ " tone in your message. How can I assist you today?",
       (getRandomElement GREETING_PHRASES r).2) := by
  rw [generateResponse_cases, if_pos h1]

theorem gR_help (r : RandState) (text : String) (vad : VADScore)
    (h1 : ¬(greetingGuard (text.toList.map jsToLower) && decide (text.length < 20)) = true)
    (h2 : (helpGuard (text.toList.map jsToLower) && decide (text.length < 30)) = true) :
    generateResponse r text vad
      = ("I\x27d be happy to help! " ++ (getRandomElement HELP_PHRASES r).1,
       (getRandomElement HELP_PHRASES r).2) := by
  rw [generateResponse_cases, if_neg h1, if_pos h2]

theorem gR_how (r : RandState) (text : String) (vad : VADScore)
    (h1 : ¬(greetingGuard (text.toList.map jsToLower) && decide (text.length < 20)) = true)
    (h2 : ¬(helpGuard (text.toList.map jsToLower) && decide (text.length < 30)) = true)
    (h3 : (howAreYouGuard (text.toList.map jsToLower) && decide (text.length < 30)) = true) :
    generateResponse r text vad
      = ("I\x27m functioning well, thank you for asking! More importantly, how are you feeling today?",
       r) := by
  rw [generateResponse_cases, if_neg h1, if_neg h2, if_pos h3]

theorem gR_general (r : RandState) (text : String) (vad : VADScore)
    (h1 : ¬(greetingGuard (text.toList.map jsToLower) && decide (text.length < 20)) = true)
    (h2 : ¬(helpGuard (text.toList.map jsToLower) && decide (text.length < 30)) = true)
    (h3 : ¬(howAreYouGuard (text.toList.map jsToLower) && decide (text.length < 30)) = true) :
    generateResponse r text vad
      = ((if (r.next).1 > 0.3 then
        if vad.valence > 0.3 then
          ((getRandomElement POSITIVE_ACKNOWLEDGMENTS (r.next).2).1 ++ " ",
           (getRandomElement POSITIVE_ACKNOWLEDGMENTS (r.next).2).2)
        else if vad.valence < -0.3 then
          ((getRandomElement NEGATIVE_ACKNOWLEDGMENTS (r.next).2).1 ++ " ",
           (getRandomElement NEGATIVE_ACKNOWLEDGMENTS (r.next).2).2)
        else
          ((getRandomElement NEUTRAL_ACKNOWLEDGMENTS (r.next).2).1 ++ " ",
           (getRandomElement NEUTRAL_ACKNOWLEDGMENTS (r.next).2).2)
      else ("", (r.next).2)).1 ++ (if (((if (r.next).1 > 0.3 then
        if vad.valence > 0.3 then
          ((getRandomElement POSITIVE_ACKNOWLEDGMENTS (r.next).2).1 ++ " ",
           (getRandomElement POSITIVE_ACKNOWLEDGMENTS (r.next).2).2)
        else if vad.valence < -0.3 then
          ((getRandomElement NEGATIVE_ACKNOWLEDGMENTS (r.next).2).1 ++ " ",
           (getRandomElement NEGATIVE_ACKNOWLEDGMENTS (r.next).2).2)
        else
          ((getRandomElement NEUTRAL_ACKNOWLEDGMENTS (r.next).2).1 ++ " ",
           (getRandomElement NEUTRAL_ACKNOWLEDGMENTS (r.next).2).2)
      else ("", (r.next).2)).2).next).1 > 0.5 then
        if vad.primaryEmotion == "confusion" then
          ((getRandomElement CONFUSION_RESPONSES (((if (r.next).1 > 0.3 then
        if vad.valence > 0.3 then
          ((getRandomElement POSITIVE_ACKNOWLEDGMENTS (r.next).2).1 ++ " ",
           (getRandomElement POSITIVE_ACKNOWLEDGMENTS (r.next).2).2)
        else if vad.valence < -0.3 then
          ((getRandomElement NEGATIVE_ACKNOWLEDGMENTS (r.next).2).1 ++ " ",
           (getRandomElement NEGATIVE_ACKNOWLEDGMENTS (r.next).2).2)
        else
          ((getRandomElement NEUTRAL_ACKNOWLEDGMENTS (r.next).2).1 ++ " ",
           (getRandomElement NEUTRAL_ACKNOWLEDGMENTS (r.next).2).2)
      else ("", (r.next).2)).2).next).2).1 ++ " ",
           (getRandomElement CONFUSION_RESPONSES (((if (r.next).1 > 0.3 then
        if vad.valence > 0.3 then
          ((getRandomElement POSITIVE_ACKNOWLEDGMENTS (r.next).2).1 ++ " ",
           (getRandomElement POSITIVE_ACKNOWLEDGMENTS (r.next).2).2)
        else if vad.valence < -0.3 then
          ((getRandomElement NEGATIVE_ACKNOWLEDGMENTS (r.next).2).1 ++ " ",
           (getRandomElement NEGATIVE_ACKNOWLEDGMENTS (r.next).2).2)
        else
          ((getRandomElement NEUTRAL_ACKNOWLEDGMENTS (r.next).2).1 ++ " ",
           (getRandomElement NEUTRAL_ACKNOWLEDGMENTS (r.next).2).2)
      else ("", (r.next).2)).2).next).2).2)
        else if vad.primaryEmotion == "interest" || vad.primaryEmotion == "curiosity" then
          ((getRandomElement INTEREST_RESPONSES (((if (r.next).1 > 0.3 then
        if vad.valence > 0.3 then
          ((getRandomElement POSITIVE_ACKNOWLEDGMENTS (r.next).2).1 ++ " ",
           (getRandomElement POSITIVE_ACKNOWLEDGMENTS (r.next).2).2)
        else if vad.valence < -0.3 then
          ((getRandomElement NEGATIVE_ACKNOWLEDGMENTS (r.next).2).1 ++ " ",
           (getRandomElement NEGATIVE_ACKNOWLEDGMENTS (r.next).2).2)
        else
          ((getRandomElement NEUTRAL_ACKNOWLEDGMENTS (r.next).2).1 ++ " ",
           (getRandomElement NEUTRAL_ACKNOWLEDGMENTS (r.next).2).2)
      else ("", (r.next).2)).2).next).2).1 ++ " ",
           (getRandomElement INTEREST_RESPONSES (((if (r.next).1 > 0.3 then
        if vad.valence > 0.3 then
          ((getRandomElement POSITIVE_ACKNOWLEDGMENTS (r.next).2).1 ++ " ",
           (getRandomElement POSITIVE_ACKNOWLEDGMENTS (r.next).2).2)
        else if vad.valence < -0.3 then
          ((getRandomElement NEGATIVE_ACKNOWLEDGMENTS (r.next).2).1 ++ " ",
           (getRandomElement NEGATIVE_ACKNOWLEDGMENTS (r.next).2).2)
        else
          ((getRandomElement NEUTRAL_ACKNOWLEDGMENTS (r.next).2).1 ++ " ",
           (getRandomElement NEUTRAL_ACKNOWLEDGMENTS (r.next).2).2)
      else ("", (r.next).2)).2).next).2).2)
        else ("", (((if (r.next).1 > 0.3 then
        if vad.valence > 0.3 then
          ((getRandomElement POSITIVE_ACKNOWLEDGMENTS (r.next).2).1 ++ " ",
           (getRandomElement POSITIVE_ACKNOWLEDGMENTS (r.next).2).2)
        else if vad.valence < -0.3 then
          ((getRandomElement NEGATIVE_ACKNOWLEDGMENTS (r.next).2).1 ++ " ",
           (getRandomElement NEGATIVE_ACKNOWLEDGMENTS (r.next).2).2)
        else
          ((getRandomElement NEUTRAL_ACKNOWLEDGMENTS (r.next).2).1 ++ " ",
           (getRandomElement NEUTRAL_ACKNOWLEDGMENTS (r.next).2).2)
      else ("", (r.next).2)).2).next).2)
      else ("", (((if (r.next).1 > 0.3 then
        if vad.valence > 0.3 then
          ((getRandomElement POSITIVE_ACKNOWLEDGMENTS (r.next).2).1 ++ " ",
           (getRandomElement POSITIVE_ACKNOWLEDGMENTS (r.next).2).2)
        else if vad.valence < -0.3 then
          ((getRandomElement NEGATIVE_ACKNOWLEDGMENTS (r.next).2).1 ++ " ",
           (getRandomElement NEGATIVE_ACKNOWLEDGMENTS (r.next).2).2)
        else
          ((getRandomElement NEUTRAL_ACKNOWLEDGMENTS (r.next).2).1 ++ " ",
           (getRandomElement NEUTRAL_ACKNOWLEDGMENTS (r.next).2).2)
      else ("", (r.next).2)).2).next).2)).1 ++ (getRandomElement (if ((detectTopics text).headD ("", 0)).1 == "emotions" then emotionsResponses
      else if ((detectTopics text).headD ("", 0)).1 == "technology" then techResponses
      else if ((detectTopics text).headD ("", 0)).1 == "health" then healthResponses
      else if ((detectTopics text).headD ("", 0)).1 == "work" then workResponses
      else if ((detectTopics text).headD ("", 0)).1 == "relationships" then relationshipResponses
      else if ((detectTopics text).headD ("", 0)).1 == "education" then educationResponses
      else if ((detectTopics text).headD ("", 0)).1 == "mathematics" then mathResponses
      else if ((detectTopics text).headD ("", 0)).1 == "physics" then physicsResponses
      else if ((detectTopics text).headD ("", 0)).1 == "chemistry" then chemistryResponses
      else if ((detectTopics text).headD ("", 0)).1 == "biology" then biologyResponses
      else if ((detectTopics text).headD ("", 0)).1 == "history" then historyResponses
      else if ((detectTopics text).headD ("", 0)).1 == "philosophy" then philosophyResponses
      else if ((detectTopics text).headD ("", 0)).1 == "programming" || ((detectTopics text).headD ("", 0)).1 == "data_science" then programmingResponses
      else if ((detectTopics text).headD ("", 0)).1 == "economics" then economicsResponses
      else if ((detectTopics text).headD ("", 0)).1 == "psychology" then psychologyResponses
      else if ((detectTopics text).headD ("", 0)).1 == "visual_arts" || ((detectTopics text).headD ("", 0)).1 == "music" || ((detectTopics text).headD ("", 0)).1 == "film_media" then artsResponses
      else if ((detectTopics text).headD ("", 0)).1 == "sports" then sportsResponses
      else generalResponses) (if (((if (r.next).1 > 0.3 then
        if vad.valence > 0.3 then
          ((getRandomElement POSITIVE_ACKNOWLEDGMENTS (r.next).2).1 ++ " ",
           (getRandomElement POSITIVE_ACKNOWLEDGMENTS (r.next).2).2)
        else if vad.valence < -0.3 then
          ((getRandomElement NEGATIVE_ACKNOWLEDGMENTS (r.next).2).1 ++ " ",
           (getRandomElement NEGATIVE_ACKNOWLEDGMENTS (r.next).2).2)
        else
          ((getRandomElement NEUTRAL_ACKNOWLEDGMENTS (r.next).2).1 ++ " ",
           (getRandomElement NEUTRAL_ACKNOWLEDGMENTS (r.next).2).2)
      else ("", (r.next).2)).2).next).1 > 0.5 then
        if vad.primaryEmotion == "confusion" then
          ((getRandomElement CONFUSION_RESPONSES (((if (r.next).1 > 0.3 then
        if vad.valence > 0.3 then
          ((getRandomElement POSITIVE_ACKNOWLEDGMENTS (r.next).2).1 ++ " ",
           (getRandomElement POSITIVE_ACKNOWLEDGMENTS (r.next).2).2)
        else if vad.valence < -0.3 then
          ((getRandomElement NEGATIVE_ACKNOWLEDGMENTS (r.next).2).1 ++ " ",
           (getRandomElement NEGATIVE_ACKNOWLEDGMENTS (r.next).2).2)
        else
          ((getRandomElement NEUTRAL_ACKNOWLEDGMENTS (r.next).2).1 ++ " ",
           (getRandomElement NEUTRAL_ACKNOWLEDGMENTS (r.next).2).2)
      else ("", (r.next).2)).2).next).2).1 ++ " ",
           (getRandomElement CONFUSION_RESPONSES (((if (r.next).1 > 0.3 then
        if vad.valence > 0.3 then
          ((getRandomElement POSITIVE_ACKNOWLEDGMENTS (r.next).2).1 ++ " ",
           (getRandomElement POSITIVE_ACKNOWLEDGMENTS (r.next).2).2)
        else if vad.valence < -0.3 then
          ((getRandomElement NEGATIVE_ACKNOWLEDGMENTS (r.next).2).1 ++ " ",
           (getRandomElement NEGATIVE_ACKNOWLEDGMENTS (r.next).2).2)
        else
          ((getRandomElement NEUTRAL_ACKNOWLEDGMENTS (r.next).2).1 ++ " ",
           (getRandomElement NEUTRAL_ACKNOWLEDGMENTS (r.next).2).2)
      else ("", (r.next).2)).2).next).2).2)
        else if vad.primaryEmotion == "interest" || vad.primaryEmotion == "curiosity" then
          ((getRandomElement INTEREST_RESPONSES (((if (r.next).1 > 0.3 then
        if vad.valence > 0.3 then
          ((getRandomElement POSITIVE_ACKNOWLEDGMENTS (r.next).2).1 ++ " ",
           (getRandomElement POSITIVE_ACKNOWLEDGMENTS (r.next).2).2)
        else if vad.valence < -0.3 then
          ((getRandomElement NEGATIVE_ACKNOWLEDGMENTS (r.next).2).1 ++ " ",
           (getRandomElement NEGATIVE_ACKNOWLEDGMENTS (r.next).2).2)
        else
          ((getRandomElement NEUTRAL_ACKNOWLEDGMENTS (r.next).2).1 ++ " ",
           (getRandomElement NEUTRAL_ACKNOWLEDGMENTS (r.next).2).2)
      else ("", (r.next).2)).2).next).2).1 ++ " ",
           (getRandomElement INTEREST_RESPONSES (((if (r.next).1 > 0.3 then
        if vad.valence > 0.3 then
          ((getRandomElement POSITIVE_ACKNOWLEDGMENTS (r.next).2).1 ++ " ",
           (getRandomElement POSITIVE_ACKNOWLEDGMENTS (r.next).2).2)
        else if vad.valence < -0.3 then
          ((getRandomElement NEGATIVE_ACKNOWLEDGMENTS (r.next).2).1 ++ " ",
           (getRandomElement NEGATIVE_ACKNOWLEDGMENTS (r.next).2).2)
        else
          ((getRandomElement NEUTRAL_ACKNOWLEDGMENTS (r.next).2).1 ++ " ",
           (getRandomElement NEUTRAL_ACKNOWLEDGMENTS (r.next).2).2)
      else ("", (r.next).2)).2).next).2).2)
        else ("", (((if (r.next).1 > 0.3 then
        if vad.valence > 0.3 then
          ((getRandomElement POSITIVE_ACKNOWLEDGMENTS (r.next).2).1 ++ " ",
           (getRandomElement POSITIVE_ACKNOWLEDGMENTS (r.next).2).2)
        else if vad.valence < -0.3 then
          ((getRandomElement NEGATIVE_ACKNOWLEDGMENTS (r.next).2).1 ++ " ",
           (getRandomElement NEGATIVE_ACKNOWLEDGMENTS (r.next).2).2)
        else
          ((getRandomElement NEUTRAL_ACKNOWLEDGMENTS (r.next).2).1 ++ " ",
           (getRandomElement NEUTRAL_ACKNOWLEDGMENTS (r.next).2).2)
      else ("", (r.next).2)).2).next).2)
      else ("", (((if (r.next).1 > 0.3 then
        if vad.valence > 0.3 then
          ((getRandomElement POSITIVE_ACKNOWLEDGMENTS (r.next).2).1 ++ " ",
           (getRandomElement POSITIVE_ACKNOWLEDGMENTS (r.next).2).2)
        else if vad.valence < -0.3 then
          ((getRandomElement NEGATIVE_ACKNOWLEDGMENTS (r.next).2).1 ++ " ",
           (getRandomElement NEGATIVE_ACKNOWLEDGMENTS (r.next).2).2)
        else
          ((getRandomElement NEUTRAL_ACKNOWLEDGMENTS (r.next).2).1 ++ " ",
           (getRandomElement NEUTRAL_ACKNOWLEDGMENTS (r.next).2).2)
      else ("", (r.next).2)).2).next).2)).2).1 ++ (getRandomElement TOPIC_TRANSITIONS (getRandomElement (if ((detectTopics text).headD ("", 0)).1 == "emotions" then emotionsResponses
      else if ((detectTopics text).headD ("", 0)).1 == "technology" then techResponses
      else if ((detectTopics text).headD ("", 0)).1 == "health" then healthResponses
      else if ((detectTopics text).headD ("", 0)).1 == "work" then workResponses
      else if ((detectTopics text).headD ("", 0)).1 == "relationships" then relationshipResponses
      else if ((detectTopics text).headD ("", 0)).1 == "education" then educationResponses
      else if ((detectTopics text).headD ("", 0)).1 == "mathematics" then mathResponses
      else if ((detectTopics text).headD ("", 0)).1 == "physics" then physicsResponses
      else if ((detectTopics text).headD ("", 0)).1 == "chemistry" then chemistryResponses
      else if ((detectTopics text).headD ("", 0)).1 == "biology" then biologyResponses
      else if ((detectTopics text).headD ("", 0)).1 == "history" then historyResponses
      else if ((detectTopics text).headD ("", 0)).1 == "philosophy" then philosophyResponses
      else if ((detectTopics text).headD ("", 0)).1 == "programming" || ((detectTopics text).headD ("", 0)).1 == "data_science" then programmingResponses
      else if ((detectTopics text).headD ("", 0)).1 == "economics" then economicsResponses
      else if ((detectTopics text).headD ("", 0)).1 == "psychology" then psychologyResponses
      else if ((detectTopics text).headD ("", 0)).1 == "visual_arts" || ((detectTopics text).headD ("", 0)).1 == "music" || ((detectTopics text).headD ("", 0)).1 == "film_media" then artsResponses
      else if ((detectTopics text).headD ("", 0)).1 == "sports" then sportsResponses
      else generalResponses) (if (((if (r.next).1 > 0.3 then
        if vad.valence > 0.3 then
          ((getRandomElement POSITIVE_ACKNOWLEDGMENTS (r.next).2).1 ++ " ",
           (getRandomElement POSITIVE_ACKNOWLEDGMENTS (r.next).2).2)
        else if vad.valence < -0.3 then
          ((getRandomElement NEGATIVE_ACKNOWLEDGMENTS (r.next).2).1 ++ " ",
           (getRandomElement NEGATIVE_ACKNOWLEDGMENTS (r.next).2).2)
        else
          ((getRandomElement NEUTRAL_ACKNOWLEDGMENTS (r.next).2).1 ++ " ",
           (getRandomElement NEUTRAL_ACKNOWLEDGMENTS (r.next).2).2)
      else ("", (r.next).2)).2).next).1 > 0.5 then
        if vad.primaryEmotion == "confusion" then
          ((getRandomElement CONFUSION_RESPONSES (((if (r.next).1 > 0.3 then
        if vad.valence > 0.3 then
          ((getRandomElement POSITIVE_ACKNOWLEDGMENTS (r.next).2).1 ++ " ",
           (getRandomElement POSITIVE_ACKNOWLEDGMENTS (r.next).2).2)
        else if vad.valence < -0.3 then
          ((getRandomElement NEGATIVE_ACKNOWLEDGMENTS (r.next).2).1 ++ " ",
           (getRandomElement NEGATIVE_ACKNOWLEDGMENTS (r.next).2).2)
        else
          ((getRandomElement NEUTRAL_ACKNOWLEDGMENTS (r.next).2).1 ++ " ",
           (getRandomElement NEUTRAL_ACKNOWLEDGMENTS (r.next).2).2)
      else ("", (r.next).2)).2).next).2).1 ++ " ",
           (getRandomElement CONFUSION_RESPONSES (((if (r.next).1 > 0.3 then
        if vad.valence > 0.3 then
          ((getRandomElement POSITIVE_ACKNOWLEDGMENTS (r.next).2).1 ++ " ",
           (getRandomElement POSITIVE_ACKNOWLEDGMENTS (r.next).2).2)
        else if vad.valence < -0.3 then
          ((getRandomElement NEGATIVE_ACKNOWLEDGMENTS (r.next).2).1 ++ " ",
           (getRandomElement NEGATIVE_ACKNOWLEDGMENTS (r.next).2).2)
        else
          ((getRandomElement NEUTRAL_ACKNOWLEDGMENTS (r.next).2).1 ++ " ",
           (getRandomElement NEUTRAL_ACKNOWLEDGMENTS (r.next).2).2)
      else ("", (r.next).2)).2).next).2).2)
        else if vad.primaryEmotion == "interest" || vad.primaryEmotion == "curiosity" then
          ((getRandomElement INTEREST_RESPONSES (((if (r.next).1 > 0.3 then
        if vad.valence > 0.3 then
          ((getRandomElement POSITIVE_ACKNOWLEDGMENTS (r.next).2).1 ++ " ",
           (getRandomElement POSITIVE_ACKNOWLEDGMENTS (r.next).2).2)
        else if vad.valence < -0.3 then
          ((getRandomElement NEGATIVE_ACKNOWLEDGMENTS (r.next).2).1 ++ " ",
           (getRandomElement NEGATIVE_ACKNOWLEDGMENTS (r.next).2).2)
        else
          ((getRandomElement NEUTRAL_ACKNOWLEDGMENTS (r.next).2).1 ++ " ",
           (getRandomElement NEUTRAL_ACKNOWLEDGMENTS (r.next).2).2)
      else ("", (r.next).2)).2).next).2).1 ++ " ",
           (getRandomElement INTEREST_RESPONSES (((if (r.next).1 > 0.3 then
        if vad.valence > 0.3 then
          ((getRandomElement POSITIVE_ACKNOWLEDGMENTS (r.next).2).1 ++ " ",
           (getRandomElement POSITIVE_ACKNOWLEDGMENTS (r.next).2).2)
        else if vad.valence < -0.3 then
          ((getRandomElement NEGATIVE_ACKNOWLEDGMENTS (r.next).2).1 ++ " ",
           (getRandomElement NEGATIVE_ACKNOWLEDGMENTS (r.next).2).2)
        else
          ((getRandomElement NEUTRAL_ACKNOWLEDGMENTS (r.next).2).1 ++ " ",
           (getRandomElement NEUTRAL_ACKNOWLEDGMENTS (r.next).2).2)
      else ("", (r.next).2)).2).next).2).2)
        else ("", (((if (r.next).1 > 0.3 then
        if vad.valence > 0.3 then
          ((getRandomElement POSITIVE_ACKNOWLEDGMENTS (r.next).2).1 ++ " ",
           (getRandomElement POSITIVE_ACKNOWLEDGMENTS (r.next).2).2)
        else if vad.valence < -0.3 then
          ((getRandomElement NEGATIVE_ACKNOWLEDGMENTS (r.next).2).1 ++ " ",
           (getRandomElement NEGATIVE_ACKNOWLEDGMENTS (r.next).2).2)
        else
          ((getRandomElement NEUTRAL_ACKNOWLEDGMENTS (r.next).2).1 ++ " ",
           (getRandomElement NEUTRAL_ACKNOWLEDGMENTS (r.next).2).2)
      else ("", (r.next).2)).2).next).2)
      else ("", (((if (r.next).1 > 0.3 then
        if vad.valence > 0.3 then
          ((getRandomElement POSITIVE_ACKNOWLEDGMENTS (r.next).2).1 ++ " ",
           (getRandomElement POSITIVE_ACKNOWLEDGMENTS (r.next).2).2)
        else if vad.valence < -0.3 then
          ((getRandomElement NEGATIVE_ACKNOWLEDGMENTS (r.next).2).1 ++ " ",
           (getRandomElement NEGATIVE_ACKNOWLEDGMENTS (r.next).2).2)
        else
          ((getRandomElement NEUTRAL_ACKNOWLEDGMENTS (r.next).2).1 ++ " ",
           (getRandomElement NEUTRAL_ACKNOWLEDGMENTS (r.next).2).2)
      else ("", (r.next).2)).2).next).2)).2).2).1,
       (getRandomElement TOPIC_TRANSITIONS (getRandomElement (if ((detectTopics text).headD ("", 0)).1 == "emotions" then emotionsResponses
      else if ((detectTopics text).headD ("", 0)).1 == "technology" then techResponses
      else if ((detectTopics text).headD ("", 0)).1 == "health" then healthResponses
      else if ((detectTopics text).headD ("", 0)).1 == "work" then workResponses
      else if ((detectTopics text).headD ("", 0)).1 == "relationships" then relationshipResponses
      else if ((detectTopics text).headD ("", 0)).1 == "education" then educationResponses
      else if ((detectTopics text).headD ("", 0)).1 == "mathematics" then mathResponses
      else if ((detectTopics text).headD ("", 0)).1 == "physics" then physicsResponses
      else if ((detectTopics text).headD ("", 0)).1 == "chemistry" then chemistryResponses
      else if ((detectTopics text).headD ("", 0)).1 == "biology" then biologyResponses
      else if ((detectTopics text).headD ("", 0)).1 == "history" then historyResponses
      else if ((detectTopics text).headD ("", 0)).1 == "philosophy" then philosophyResponses
      else if ((detectTopics text).headD ("", 0)).1 == "programming" || ((detectTopics text).headD ("", 0)).1 == "data_science" then programmingResponses
      else if ((detectTopics text).headD ("", 0)).1 == "economics" then economicsResponses
      else if ((detectTopics text).headD ("", 0)).1 == "psychology" then psychologyResponses
      else if ((detectTopics text).headD ("", 0)).1 == "visual_arts" || ((detectTopics text).headD ("", 0)).1 == "music" || ((detectTopics text).headD ("", 0)).1 == "film_media" then artsResponses
      else if ((detectTopics text).headD ("", 0)).1 == "sports" then sportsResponses
      else generalResponses) (if (((if (r.next).1 > 0.3 then
        if vad.valence > 0.3 then
          ((getRandomElement POSITIVE_ACKNOWLEDGMENTS (r.next).2).1 ++ " ",
           (getRandomElement POSITIVE_ACKNOWLEDGMENTS (r.next).2).2)
        else if vad.valence < -0.3 then
          ((getRandomElement NEGATIVE_ACKNOWLEDGMENTS (r.next).2).1 ++ " ",
           (getRandomElement NEGATIVE_ACKNOWLEDGMENTS (r.next).2).2)
        else
          ((getRandomElement NEUTRAL_ACKNOWLEDGMENTS (r.next).2).1 ++ " ",
           (getRandomElement NEUTRAL_ACKNOWLEDGMENTS (r.next).2).2)
      else ("", (r.next).2)).2).next).1 > 0.5 then
        if vad.primaryEmotion == "confusion" then
          ((getRandomElement CONFUSION_RESPONSES (((if (r.next).1 > 0.3 then
        if vad.valence > 0.3 then
          ((getRandomElement POSITIVE_ACKNOWLEDGMENTS (r.next).2).1 ++ " ",
           (getRandomElement POSITIVE_ACKNOWLEDGMENTS (r.next).2).2)
        else if vad.valence < -0.3 then
          ((getRandomElement NEGATIVE_ACKNOWLEDGMENTS (r.next).2).1 ++ " ",
           (getRandomElement NEGATIVE_ACKNOWLEDGMENTS (r.next).2).2)
        else
          ((getRandomElement NEUTRAL_ACKNOWLEDGMENTS (r.next).2).1 ++ " ",
           (getRandomElement NEUTRAL_ACKNOWLEDGMENTS (r.next).2).2)
      else ("", (r.next).2)).2).next).2).1 ++ " ",
           (getRandomElement CONFUSION_RESPONSES (((if (r.next).1 > 0.3 then
        if vad.valence > 0.3 then
          ((getRandomElement POSITIVE_ACKNOWLEDGMENTS (r.next).2).1 ++ " ",
           (getRandomElement POSITIVE_ACKNOWLEDGMENTS (r.next).2).2)
        else if vad.valence < -0.3 then
          ((getRandomElement NEGATIVE_ACKNOWLEDGMENTS (r.next).2).1 ++ " ",
           (getRandomElement NEGATIVE_ACKNOWLEDGMENTS (r.next).2).2)
        else
          ((getRandomElement NEUTRAL_ACKNOWLEDGMENTS (r.next).2).1 ++ " ",
           (getRandomElement NEUTRAL_ACKNOWLEDGMENTS (r.next).2).2)
      else ("", (r.next).2)).2).next).2).2)
        else if vad.primaryEmotion == "interest" || vad.primaryEmotion == "curiosity" then
          ((getRandomElement INTEREST_RESPONSES (((if (r.next).1 > 0.3 then
        if vad.valence > 0.3 then
          ((getRandomElement POSITIVE_ACKNOWLEDGMENTS (r.next).2).1 ++ " ",
           (getRandomElement POSITIVE_ACKNOWLEDGMENTS (r.next).2).2)
        else if vad.valence < -0.3 then
          ((getRandomElement NEGATIVE_ACKNOWLEDGMENTS (r.next).2).1 ++ " ",
           (getRandomElement NEGATIVE_ACKNOWLEDGMENTS (r.next).2).2)
        else
          ((getRandomElement NEUTRAL_ACKNOWLEDGMENTS (r.next).2).1 ++ " ",
           (getRandomElement NEUTRAL_ACKNOWLEDGMENTS (r.next).2).2)
      else ("", (r.next).2)).2).next).2).1 ++ " ",
           (getRandomElement INTEREST_RESPONSES (((if (r.next).1 > 0.3 then
        if vad.valence > 0.3 then
          ((getRandomElement POSITIVE_ACKNOWLEDGMENTS (r.next).2).1 ++ " ",
           (getRandomElement POSITIVE_ACKNOWLEDGMENTS (r.next).2).2)
        else if vad.valence < -0.3 then
          ((getRandomElement NEGATIVE_ACKNOWLEDGMENTS (r.next).2).1 ++ " ",
           (getRandomElement NEGATIVE_ACKNOWLEDGMENTS (r.next).2).2)
        else
          ((getRandomElement NEUTRAL_ACKNOWLEDGMENTS (r.next).2).1 ++ " ",
           (getRandomElement NEUTRAL_ACKNOWLEDGMENTS (r.next).2).2)
      else ("", (r.next).2)).2).next).2).2)
        else ("", (((if (r.next).1 > 0.3 then
        if vad.valence > 0.3 then
          ((getRandomElement POSITIVE_ACKNOWLEDGMENTS (r.next).2).1 ++ " ",
           (getRandomElement POSITIVE_ACKNOWLEDGMENTS (r.next).2).2)
        else if vad.valence < -0.3 then
          ((getRandomElement NEGATIVE_ACKNOWLEDGMENTS (r.next).2).1 ++ " ",
           (getRandomElement NEGATIVE_ACKNOWLEDGMENTS (r.next).2).2)
        else
          ((getRandomElement NEUTRAL_ACKNOWLEDGMENTS (r.next).2).1 ++ " ",
           (getRandomElement NEUTRAL_ACKNOWLEDGMENTS (r.next).2).2)
      else ("", (r.next).2)).2).next).2)
      else ("", (((if (r.next).1 > 0.3 then
        if vad.valence > 0.3 then
          ((getRandomElement POSITIVE_ACKNOWLEDGMENTS (r.next).2).1 ++ " ",
           (getRandomElement POSITIVE_ACKNOWLEDGMENTS (r.next).2).2)
        else if vad.valence < -0.3 then
          ((getRandomElement NEGATIVE_ACKNOWLEDGMENTS (r.next).2).1 ++ " ",
           (getRandomElement NEGATIVE_ACKNOWLEDGMENTS (r.next).2).2)
        else
          ((getRandomElement NEUTRAL_ACKNOWLEDGMENTS (r.next).2).1 ++ " ",
           (getRandomElement NEUTRAL_ACKNOWLEDGMENTS (r.next).2).2)
      else ("", (r.next).2)).2).next).2)).2).2).2) := by
  rw [generateResponse_cases, if_neg h1, if_neg h2, if_neg h3]

-- ===== C7: generateResponse cleanliness and bang =====

theorem lastNonWord_append : ∀ (x y : List Char), y ≠ [] →
    lastNonWord (x ++ y) = lastNonWord y := by
  intro x
  induction x with
  | nil => intro y hy; rw [List.nil_append]
  | cons c cs ih =>
      intro y hy
      rw [List.cons_append]
      cases hcy : cs ++ y with
      | nil =>
          rcases List.append_eq_nil.mp hcy with ⟨-, rfl⟩
          exact absurd rfl hy
      | cons d ds =>
          rw [show lastNonWord (c :: d :: ds) = lastNonWord (d :: ds) from rfl]
          rw [← hcy]
          exact ih y hy

theorem append_clean_nw {q : List Char} (hqlow : lowerAlpha q = true)
    {x y : List Char}
    (hx : x = [] ∨ ((∀ b, occursWordFromCI q x b = false) ∧ lastNonWord x = true))
    (hy : ∀ b, occursWordFromCI q y b = false) :
    ∀ b, occursWordFromCI q (x ++ y) b = false := by
  intro b
  rcases hx with rfl | ⟨hxc, hxl⟩
  · rw [List.nil_append]
    exact hy b
  · rw [occ_append_split_nw hqlow x y b hxl, stateAfter_lastNonWord hxl,
      Bool.or_eq_false_iff]
    exact ⟨hxc b, hy true⟩

theorem append_opt_opt {q : List Char} (hqlow : lowerAlpha q = true)
    {x y : List Char}
    (hx : x = [] ∨ ((∀ b, occursWordFromCI q x b = false) ∧ lastNonWord x = true))
    (hy : y = [] ∨ ((∀ b, occursWordFromCI q y b = false) ∧ lastNonWord y = true)) :
    x ++ y = [] ∨ ((∀ b, occursWordFromCI q (x ++ y) b = false)
      ∧ lastNonWord (x ++ y) = true) := by
  rcases hy with rfl | ⟨hyc, hyl⟩
  · rw [List.append_nil]
    exact hx
  · have hyne : y ≠ [] := by
      intro h
      rw [h] at hyl
      exact absurd hyl (by decide)
    right
    refine ⟨append_clean_nw hqlow hx hyc, ?_⟩
    rw [lastNonWord_append x y hyne]
    exact hyl

theorem ackPool_piece (P : List String) (s : RandState)
    (hsub : ∀ p ∈ P, p ∈ (POSITIVE_ACKNOWLEDGMENTS ++ NEGATIVE_ACKNOWLEDGMENTS
      ++ NEUTRAL_ACKNOWLEDGMENTS ++ CONFUSION_RESPONSES ++ INTEREST_RESPONSES)) :
    ∀ q ∈ ([wl "ear", wl "arling"] : List (List Char)),
      (∀ b, occursWordFromCI q ((getRandomElement P s).1 ++ " ").toList b = false)
      ∧ lastNonWord ((getRandomElement P s).1 ++ " ").toList = true := by
  intro q hq
  rw [toListApp]
  rcases getRandomElement_choice P s with hm | hm
  · exact ⟨fun b => (ackPools_facts _ (hsub _ hm)).1 q hq b,
      (ackPools_facts _ (hsub _ hm)).2⟩
  · rw [hm]
    exact ⟨(spaceFact q hq).1, (spaceFact q hq).2⟩

theorem trans_piece (s : RandState) :
    ∀ q ∈ ([wl "ear", wl "arling"] : List (List Char)), ∀ b : Bool,
      occursWordFromCI q (getRandomElement TOPIC_TRANSITIONS s).1.toList b = false := by
  intro q hq b
  rcases getRandomElement_choice TOPIC_TRANSITIONS s with hm | hm
  · exact (transitions_facts _ hm).1 q hq b
  · rw [hm]
    rfl

theorem gen_ear_clean (r : RandState) (text : String) (vad : VADScore)
    (hemo : vad.primaryEmotion ∈ emotionCatalog) :
    ∀ q ∈ ([wl "ear", wl "arling"] : List (List Char)), ∀ b : Bool,
      occursWordFromCI q (generateResponse r text vad).1.toList b = false := by
  intro q hq b
  have hqlow : lowerAlpha q = true := by
    rcases List.mem_cons.mp hq with rfl | hq2
    · decide
    · rcases List.mem_cons.mp hq2 with rfl | hq3
      · decide
      · simp at hq3
  by_cases hg1 : (greetingGuard (text.toList.map jsToLower) && decide (text.length < 20)) = true
  · rw [gR_greeting r text vad hg1]
    dsimp only
    rw [toListApp, toListApp, toListApp, List.append_assoc, List.append_assoc]
    rcases getRandomElement_choice GREETING_PHRASES r with hm | hm
    · rw [occ_append_split_bd hqlow (by rfl), Bool.or_eq_false_iff]
      exact ⟨greetPool_facts _ hm q hq b, greetTail_facts vad.primaryEmotion hemo q hq _⟩
    · rw [hm, show ("" : String).toList = [] from rfl, List.nil_append]
      exact greetTail_facts vad.primaryEmotion hemo q hq b
  · by_cases hg2 : (helpGuard (text.toList.map jsToLower) && decide (text.length < 30)) = true
    · rw [gR_help r text vad hg1 hg2]
      dsimp only
      rw [toListApp]
      rw [occ_append_split_nw hqlow _ _ _ helpPre_facts.2.1,
        stateAfter_lastNonWord helpPre_facts.2.1, Bool.or_eq_false_iff]
      refine ⟨helpPre_facts.1 q hq b, ?_⟩
      rcases getRandomElement_choice HELP_PHRASES r with hm | hm
      · exact helpPool_facts _ hm q hq true
      · rw [hm]
        rfl
    · by_cases hg3 : (howAreYouGuard (text.toList.map jsToLower) && decide (text.length < 30)) = true
      · rw [gR_how r text vad hg1 hg2 hg3]
        dsimp only
        exact howAreYou_facts.1 q hq b
      · rw [gR_general r text vad hg1 hg2 hg3]
        dsimp only
        set a1 : String × RandState := (if (r.next).1 > 0.3 then
        if vad.valence > 0.3 then
          ((getRandomElement POSITIVE_ACKNOWLEDGMENTS (r.next).2).1 ++ " ",
           (getRandomElement POSITIVE_ACKNOWLEDGMENTS (r.next).2).2)
        else if vad.valence < -0.3 then
          ((getRandomElement NEGATIVE_ACKNOWLEDGMENTS (r.next).2).1 ++ " ",
           (getRandomElement NEGATIVE_ACKNOWLEDGMENTS (r.next).2).2)
        else
          ((getRandomElement NEUTRAL_ACKNOWLEDGMENTS (r.next).2).1 ++ " ",
           (getRandomElement NEUTRAL_ACKNOWLEDGMENTS (r.next).2).2)
      else ("", (r.next).2)) with ha1
        set s1 : String × RandState := (if ((a1.2).next).1 > 0.5 then
        if vad.primaryEmotion == "confusion" then
          ((getRandomElement CONFUSION_RESPONSES ((a1.2).next).2).1 ++ " ",
           (getRandomElement CONFUSION_RESPONSES ((a1.2).next).2).2)
        else if vad.primaryEmotion == "interest" || vad.primaryEmotion == "curiosity" then
          ((getRandomElement INTEREST_RESPONSES ((a1.2).next).2).1 ++ " ",
           (getRandomElement INTEREST_RESPONSES ((a1.2).next).2).2)
        else ("", ((a1.2).next).2)
      else ("", ((a1.2).next).2)) with hs1
        set mt : String := ((detectTopics text).headD ("", 0)).1 with hmt
        set p1 : List String := (if mt == "emotions" then emotionsResponses
      else if mt == "technology" then techResponses
      else if mt == "health" then healthResponses
      else if mt == "work" then workResponses
      else if mt == "relationships" then relationshipResponses
      else if mt == "education" then educationResponses
      else if mt == "mathematics" then mathResponses
      else if mt == "physics" then physicsResponses
      else if mt == "chemistry" then chemistryResponses
      else if mt == "biology" then biologyResponses
      else if mt == "history" then historyResponses
      else if mt == "philosophy" then philosophyResponses
      else if mt == "programming" || mt == "data_science" then programmingResponses
      else if mt == "economics" then economicsResponses
      else if mt == "psychology" then psychologyResponses
      else if mt == "visual_arts" || mt == "music" || mt == "film_media" then artsResponses
      else if mt == "sports" then sportsResponses
      else generalResponses) with hp1def
        clear_value a1 s1 mt p1
        have hA : a1.1.toList = []
            ∨ ((∀ bb, occursWordFromCI q a1.1.toList bb = false)
              ∧ lastNonWord a1.1.toList = true) := by
          rw [ha1]
          split
          · split
            · exact Or.inr (ackPool_piece POSITIVE_ACKNOWLEDGMENTS _
                (fun p hp => List.mem_append_left _ (List.mem_append_left _
                  (List.mem_append_left _ (List.mem_append_left _ hp)))) q hq)
            · split
              · exact Or.inr (ackPool_piece NEGATIVE_ACKNOWLEDGMENTS _
                  (fun p hp => List.mem_append_left _ (List.mem_append_left _
                    (List.mem_append_left _ (List.mem_append_right _ hp)))) q hq)
              · exact Or.inr (ackPool_piece NEUTRAL_ACKNOWLEDGMENTS _
                  (fun p hp => List.mem_append_left _ (List.mem_append_left _
                    (List.mem_append_right _ hp))) q hq)
          · exact Or.inl rfl
        have hS : s1.1.toList = []
            ∨ ((∀ bb, occursWordFromCI q s1.1.toList bb = false)
              ∧ lastNonWord s1.1.toList = true) := by
          rw [hs1]
          split
          · split
            · exact Or.inr (ackPool_piece CONFUSION_RESPONSES _
                (fun p hp => List.mem_append_left _ (List.mem_append_right _ hp)) q hq)
            · split
              · exact Or.inr (ackPool_piece INTEREST_RESPONSES _
                  (fun p hp => List.mem_append_right _ hp) q hq)
              · exact Or.inl rfl
          · exact Or.inl rfl
        have hp1 : ∀ e ∈ p1, (∀ q2 ∈ ([wl "ear", wl "arling"] : List (List Char)),
            ∀ b2 : Bool, occursWordFromCI q2 e.toList b2 = false)
            ∧ lastNonWord e.toList = true := by
          intro e
          rw [hp1def]
          by_cases m1 : (mt == "emotions") = true
          · rw [if_pos m1]
            intro he
            exact topicPoolsA_facts e (List.mem_append_left _ (List.mem_append_left _ (List.mem_append_left _ (List.mem_append_left _ (List.mem_append_left _ he)))))
          · rw [if_neg m1]
            by_cases m2 : (mt == "technology") = true
            · rw [if_pos m2]
              intro he
              exact topicPoolsA_facts e (List.mem_append_left _ (List.mem_append_left _ (List.mem_append_left _ (List.mem_append_left _ (List.mem_append_right _ he)))))
            · rw [if_neg m2]
              by_cases m3 : (mt == "health") = true
              · rw [if_pos m3]
                intro he
                exact topicPoolsA_facts e (List.mem_append_left _ (List.mem_append_left _ (List.mem_append_left _ (List.mem_append_right _ he))))
              · rw [if_neg m3]
                by_cases m4 : (mt == "work") = true
                · rw [if_pos m4]
                  intro he
                  exact topicPoolsA_facts e (List.mem_append_left _ (List.mem_append_left _ (List.mem_append_right _ he)))
                · rw [if_neg m4]
                  by_cases m5 : (mt == "relationships") = true
                  · rw [if_pos m5]
                    intro he
                    exact topicPoolsA_facts e (List.mem_append_left _ (List.mem_append_right _ he))
                  · rw [if_neg m5]
                    by_cases m6 : (mt == "education") = true
                    · rw [if_pos m6]
                      intro he
                      exact topicPoolsA_facts e (List.mem_append_right _ he)
                    · rw [if_neg m6]
                      by_cases m7 : (mt == "mathematics") = true
                      · rw [if_pos m7]
                        intro he
                        exact topicPoolsB_facts e (List.mem_append_left _ (List.mem_append_left _ (List.mem_append_left _ (List.mem_append_left _ (List.mem_append_left _ he)))))
                      · rw [if_neg m7]
                        by_cases m8 : (mt == "physics") = true
                        · rw [if_pos m8]
                          intro he
                          exact topicPoolsB_facts e (List.mem_append_left _ (List.mem_append_left _ (List.mem_append_left _ (List.mem_append_left _ (List.mem_append_right _ he)))))
                        · rw [if_neg m8]
                          by_cases m9 : (mt == "chemistry") = true
                          · rw [if_pos m9]
                            intro he
                            exact topicPoolsB_facts e (List.mem_append_left _ (List.mem_append_left _ (List.mem_append_left _ (List.mem_append_right _ he))))
                          · rw [if_neg m9]
                            by_cases m10 : (mt == "biology") = true
                            · rw [if_pos m10]
                              intro he
                              exact topicPoolsB_facts e (List.mem_append_left _ (List.mem_append_left _ (List.mem_append_right _ he)))
                            · rw [if_neg m10]
                              by_cases m11 : (mt == "history") = true
                              · rw [if_pos m11]
                                intro he
                                exact topicPoolsB_facts e (List.mem_append_left _ (List.mem_append_right _ he))
                              · rw [if_neg m11]
                                by_cases m12 : (mt == "philosophy") = true
                                · rw [if_pos m12]
                                  intro he
                                  exact topicPoolsB_facts e (List.mem_append_right _ he)
                                · rw [if_neg m12]
                                  by_cases m13 : (mt == "programming" || mt == "data_science") = true
                                  · rw [if_pos m13]
                                    intro he
                                    exact topicPoolsC_facts e (List.mem_append_left _ (List.mem_append_left _ (List.mem_append_left _ (List.mem_append_left _ (List.mem_append_left _ he)))))
                                  · rw [if_neg m13]
                                    by_cases m14 : (mt == "economics") = true
                                    · rw [if_pos m14]
                                      intro he
                                      exact topicPoolsC_facts e (List.mem_append_left _ (List.mem_append_left _ (List.mem_append_left _ (List.mem_append_left _ (List.mem_append_right _ he)))))
                                    · rw [if_neg m14]
                                      by_cases m15 : (mt == "psychology") = true
                                      · rw [if_pos m15]
                                        intro he
                                        exact topicPoolsC_facts e (List.mem_append_left _ (List.mem_append_left _ (List.mem_append_left _ (List.mem_append_right _ he))))
                                      · rw [if_neg m15]
                                        by_cases m16 : (mt == "visual_arts" || mt == "music" || mt == "film_media") = true
                                        · rw [if_pos m16]
                                          intro he
                                          exact topicPoolsC_facts e (List.mem_append_left _ (List.mem_append_left _ (List.mem_append_right _ he)))
                                        · rw [if_neg m16]
                                          by_cases m17 : (mt == "sports") = true
                                          · rw [if_pos m17]
                                            intro he
                                            exact topicPoolsC_facts e (List.mem_append_left _ (List.mem_append_right _ he))
                                          · rw [if_neg m17]
                                            intro he
                                            exact topicPoolsC_facts e (List.mem_append_right _ he)
        have hT : (getRandomElement p1 s1.2).1.toList = []
            ∨ ((∀ bb, occursWordFromCI q (getRandomElement p1 s1.2).1.toList bb = false)
              ∧ lastNonWord (getRandomElement p1 s1.2).1.toList = true) := by
          rcases getRandomElement_choice p1 s1.2 with hm | hm
          · exact Or.inr ⟨fun bb => (hp1 _ hm).1 q hq bb, (hp1 _ hm).2⟩
          · rw [hm]
            exact Or.inl rfl
        have hR : ∀ bb, occursWordFromCI q
            (getRandomElement TOPIC_TRANSITIONS (getRandomElement p1 s1.2).2).1.toList
            bb = false := fun bb => trans_piece _ q hq bb
        rw [toListApp, toListApp, toListApp]
        exact append_clean_nw hqlow
          (append_opt_opt hqlow (append_opt_opt hqlow hA hS) hT) hR b

theorem gen_bang (r : RandState) (text : String) (vad : VADScore)
    (hr : ∀ i, 0 ≤ r.rnd i ∧ r.rnd i < 1) :
    1 ≤ bangCount (generateResponse r text vad).1.toList := by
  by_cases hg1 : (greetingGuard (text.toList.map jsToLower) && decide (text.length < 20)) = true
  · rw [gR_greeting r text vad hg1]
    dsimp only
    rw [toListApp, toListApp, toListApp, bangCount_append]
    have := greetTail_bang
    omega
  · by_cases hg2 : (helpGuard (text.toList.map jsToLower) && decide (text.length < 30)) = true
    · rw [gR_help r text vad hg1 hg2]
      dsimp only
      rw [toListApp, bangCount_append]
      have := helpPre_facts.2.2
      omega
    · by_cases hg3 : (howAreYouGuard (text.toList.map jsToLower) && decide (text.length < 30)) = true
      · rw [gR_how r text vad hg1 hg2 hg3]
        dsimp only
        exact howAreYou_facts.2
      · rw [gR_general r text vad hg1 hg2 hg3]
        dsimp only
        set a1 : String × RandState := (if (r.next).1 > 0.3 then
        if vad.valence > 0.3 then
          ((getRandomElement POSITIVE_ACKNOWLEDGMENTS (r.next).2).1 ++ " ",
           (getRandomElement POSITIVE_ACKNOWLEDGMENTS (r.next).2).2)
        else if vad.valence < -0.3 then
          ((getRandomElement NEGATIVE_ACKNOWLEDGMENTS (r.next).2).1 ++ " ",
           (getRandomElement NEGATIVE_ACKNOWLEDGMENTS (r.next).2).2)
        else
          ((getRandomElement NEUTRAL_ACKNOWLEDGMENTS (r.next).2).1 ++ " ",
           (getRandomElement NEUTRAL_ACKNOWLEDGMENTS (r.next).2).2)
      else ("", (r.next).2)) with ha1
        set s1 : String × RandState := (if ((a1.2).next).1 > 0.5 then
        if vad.primaryEmotion == "confusion" then
          ((getRandomElement CONFUSION_RESPONSES ((a1.2).next).2).1 ++ " ",
           (getRandomElement CONFUSION_RESPONSES ((a1.2).next).2).2)
        else if vad.primaryEmotion == "interest" || vad.primaryEmotion == "curiosity" then
          ((getRandomElement INTEREST_RESPONSES ((a1.2).next).2).1 ++ " ",
           (getRandomElement INTEREST_RESPONSES ((a1.2).next).2).2)
        else ("", ((a1.2).next).2)
      else ("", ((a1.2).next).2)) with hs1
        set mt : String := ((detectTopics text).headD ("", 0)).1 with hmt
        set p1 : List String := (if mt == "emotions" then emotionsResponses
      else if mt == "technology" then techResponses
      else if mt == "health" then healthResponses
      else if mt == "work" then workResponses
      else if mt == "relationships" then relationshipResponses
      else if mt == "education" then educationResponses
      else if mt == "mathematics" then mathResponses
      else if mt == "physics" then physicsResponses
      else if mt == "chemistry" then chemistryResponses
      else if mt == "biology" then biologyResponses
      else if mt == "history" then historyResponses
      else if mt == "philosophy" then philosophyResponses
      else if mt == "programming" || mt == "data_science" then programmingResponses
      else if mt == "economics" then economicsResponses
      else if mt == "psychology" then psychologyResponses
      else if mt == "visual_arts" || mt == "music" || mt == "film_media" then artsResponses
      else if mt == "sports" then sportsResponses
      else generalResponses) with hp1def
        clear_value a1 s1 mt p1
        have ha2 : (a1.2).rnd = r.rnd := by
          rw [ha1]
          split
          · split
            · rfl
            · split
              · rfl
              · rfl
          · rfl
        have hs2 : (s1.2).rnd = r.rnd := by
          rw [hs1]
          split
          · split
            · exact ha2
            · split
              · exact ha2
              · exact ha2
          · exact ha2
        have h3 : ((getRandomElement p1 s1.2).2).rnd = r.rnd := by
          rw [rnd_getRandomElement]
          exact hs2
        have htr : (getRandomElement TOPIC_TRANSITIONS (getRandomElement p1 s1.2).2).1
            ∈ TOPIC_TRANSITIONS := by
          apply getRandomElement_mem
          · rw [h3]
            exact (hr _).1
          · rw [h3]
            exact (hr _).2
          · decide
        rw [toListApp, toListApp, toListApp, bangCount_append]
        have := (transitions_facts _ htr).2
        omega

-- ===== C7: pet-name filter and the imitation-response claim =====

theorem clean_removePetNames (resp text : String)
    (hear : ∀ q ∈ ([wl "ear", wl "arling"] : List (List Char)), ∀ b : Bool,
      occursWordFromCI q resp.toList b = false)
    (hno : petNames.any
      (fun term => containsSub term.toList (text.toList.map jsToLower)) = false) :
    ∀ q ∈ watchWords, ∀ b : Bool,
      occursWordFromCI q (removePetNames resp text).toList b = false := by
  intro q hq b
  have hqf := watchWords_facts q hq
  simp only [removePetNames]
  rw [if_neg (by rw [hno]; exact Bool.false_ne_true)]
  show occursWordFromCI q (removeAllPetTerms resp.toList) b = false
  rw [removeAllPetTerms]
  have hq2 : q ∈ petNames.map (fun s => s.toList) ++ [wl "ear", wl "arling"] := hq
  rcases List.mem_append.mp hq2 with h | h
  · exact fold_remove_clean petNames petNames_facts resp.toList q hqf.1 hqf.2 (Or.inl h) b
  · exact fold_remove_clean petNames petNames_facts resp.toList q hqf.1 hqf.2
      (Or.inr (fun b2 => hear q h b2)) b

theorem bang_removePetNames (resp text : String) :
    bangCount (removePetNames resp text).toList = bangCount resp.toList := by
  simp only [removePetNames]
  by_cases h : petNames.any
      (fun term => containsSub term.toList (text.toList.map jsToLower)) = true
  · rw [if_pos h]
  · rw [if_neg h]
    show bangCount (removeAllPetTerms resp.toList) = bangCount resp.toList
    rw [removeAllPetTerms]
    exact bang_removeAllPetTerms_fold petNames petNames_facts resp.toList

/-- **C7.** For every input text, every message history and every stream of
random draws (each in `[0, 1)`, as `Math.random()` provides),
`EnhancedVADResponder.generateImitationResponse` — with the VAD score the
route computes via `analyzeTextWithVAD` — returns a non-empty string, and
the returned string contains a denylisted pet-name token (word-bounded,
case-insensitively — the reading of "contains" used by the filter's own
regexes) only if the user's own input text contains one of those tokens as
a substring of its lowercasing (the reading used by the filter's
`userTextLower.includes` guard). -/
theorem imitation_nonempty_and_pet_safe (r : RandState) (text : String)
    (messageHistory : List String)
    (hr : ∀ i, 0 ≤ r.rnd i ∧ r.rnd i < 1) :
    (generateImitationResponse r text (analyzeTextWithVAD text) messageHistory).1 ≠ ""
    ∧ (petNames.any (fun t => occursAsWordCI t.toList
        (generateImitationResponse r text (analyzeTextWithVAD text)
          messageHistory).1.toList) = true →
      petNames.any (fun t =>
        containsSub t.toList (text.toList.map jsToLower)) = true) := by
  simp only [generateImitationResponse]
  constructor
  · -- non-emptiness via the exclamation count
    have hb1 := gen_bang r text (analyzeTextWithVAD text) hr
    have hb2 := bang_removePetNames (generateResponse r text (analyzeTextWithVAD text)).1 text
    have hb3 := bang_applyUserStyle (generateResponse r text (analyzeTextWithVAD text)).2
      (removePetNames (generateResponse r text (analyzeTextWithVAD text)).1 text)
      (analyzeTextStyle text messageHistory)
    intro he
    have hl : (applyUserStyle (generateResponse r text (analyzeTextWithVAD text)).2
        (removePetNames (generateResponse r text (analyzeTextWithVAD text)).1 text)
        (analyzeTextStyle text messageHistory)).1.toList = [] :=
      (congrArg String.toList he).trans rfl
    rw [hl] at hb3
    have hnil : bangCount ([] : List Char) = 0 := rfl
    omega
  · -- pet safety
    intro hout
    by_contra hin
    have hin2 : petNames.any
        (fun t => containsSub t.toList (text.toList.map jsToLower)) = false := by
      cases hx : petNames.any (fun t => containsSub t.toList (text.toList.map jsToLower))
      · rfl
      · exact absurd hx hin
    have hear := gen_ear_clean r text (analyzeTextWithVAD text) (primaryEmotion_mem text)
    have hfiltered := clean_removePetNames
      (generateResponse r text (analyzeTextWithVAD text)).1 text hear hin2
    have hfinal := clean_applyUserStyle (generateResponse r text (analyzeTextWithVAD text)).2
      (removePetNames (generateResponse r text (analyzeTextWithVAD text)).1 text)
      (analyzeTextStyle text messageHistory)
      (preferredEmojis_mem text messageHistory) hfiltered
    have hfalse : petNames.any (fun t => occursAsWordCI t.toList
        (applyUserStyle (generateResponse r text (analyzeTextWithVAD text)).2
          (removePetNames (generateResponse r text (analyzeTextWithVAD text)).1 text)
          (analyzeTextStyle text messageHistory)).1.toList) = false := by
      rw [List.any_eq_false]
      intro t ht
      show ¬ occursAsWordCI t.toList _ = true
      rw [show occursAsWordCI t.toList
          (applyUserStyle (generateResponse r text (analyzeTextWithVAD text)).2
            (removePetNames (generateResponse r text (analyzeTextWithVAD text)).1 text)
            (analyzeTextStyle text messageHistory)).1.toList
        = occursWordFromCI t.toList
          (applyUserStyle (generateResponse r text (analyzeTextWithVAD text)).2
            (removePetNames (generateResponse r text (analyzeTextWithVAD text)).1 text)
            (analyzeTextStyle text messageHistory)).1.toList true from rfl]
      rw [hfinal t.toList
        (List.mem_append_left _ (List.mem_map_of_mem (fun s => s.toList) ht)) true]
      exact Bool.false_ne_true
    rw [hout] at hfalse
    exact Bool.false_ne_true hfalse.symm

theorem imitation_nonempty_and_pet_safe_witness :
    (generateImitationResponse ⟨fun _ => 1/2, 0⟩ "hello"
      (analyzeTextWithVAD "hello") []).1 ≠ ""
    ∧ (petNames.any (fun t => occursAsWordCI t.toList
        (generateImitationResponse ⟨fun _ => 1/2, 0⟩ "hello"
          (analyzeTextWithVAD "hello") []).1.toList) = true →
      petNames.any (fun t =>
        containsSub t.toList (("hello" : String).toList.map jsToLower)) = true) :=
  imitation_nonempty_and_pet_safe ⟨fun _ => 1/2, 0⟩ "hello" []
    (fun i => ⟨by norm_num, by norm_num⟩)
